import Mathlib

/-!
# Verification of go-snmplib (snmp.go) against its specification

This file gives a shallow embedding in Lean 4 of the parts of `snmp.go`
(package snmplib) that the specification's claims are about:

* the SNMPv3 password-to-key derivation (`passwordToKey`, lines 69-97),
  together with full executable implementations of MD5 (RFC 1321) and
  SHA-1 (RFC 3174), the two hash algorithms the source selects between;
* HMAC-style authentication (`auth`, lines 365-383) and the splice of the
  authentication parameter into the serialized message (`doGetV3`,
  lines 499-500, which uses Go's `strings.Replace` with count 1);
* DES-CBC and AES-128-CFB privacy (`encrypt` lines 385-423, `decrypt`
  lines 425-455), with full executable DES (FIPS 46-3, as implemented by
  Go's `crypto/des`) and AES-128 (FIPS 197, as implemented by Go's
  `crypto/aes`), and `strXor` (lines 353-363) with its panic;
* the session bookkeeping of `Discover` (lines 265-311), `doGetV3`
  (lines 469-555) and `ParseTrap` (lines 667-760);
* the `GetTable` walk (lines 629-654) and the retry loop `poll`
  (lines 162-191).

Go strings and byte slices are modelled as `List Nat` (each element a byte
value), machine integers as `Nat` with explicit reduction `% 2 ^ 32` or
`% 2 ^ 64` where Go arithmetic wraps.  Go panics are modelled with the
`PanicOr` type below, Go `error` returns with `GoRes`.  Functions whose Go
receiver is a *value* receiver (`func (w SNMP) ...`) receive the session
by value in the model as well: any mutation of `w` inside them is local to
the call, which the model expresses by simply not returning an updated
session.
-/

set_option maxRecDepth 20000

/-- Result of a Go computation that can panic: either a value or a runtime
panic (which terminates the process). -/
inductive PanicOr (α : Type) where
  | ok (a : α)
  | panicked (msg : String)
deriving DecidableEq, Repr

/-- Result of a Go computation returning `(value, error)`. -/
inductive GoRes (α : Type) where
  | ok (a : α)
  | err (msg : String)
deriving DecidableEq, Repr

/-- Go slice/substring `s[:n]` on a byte string: panics when `n` exceeds the
length (Go: "slice bounds out of range"). -/
def goSliceTo (s : List Nat) (n : Nat) : PanicOr (List Nat) :=
  if n ≤ s.length then .ok (s.take n) else .panicked "slice bounds out of range"

/-- Go slice/substring `s[a:b]`: panics unless `a ≤ b ≤ len s`. -/
def goSliceRange (s : List Nat) (a b : Nat) : PanicOr (List Nat) :=
  if a ≤ b ∧ b ≤ s.length then .ok ((s.take b).drop a)
  else .panicked "slice bounds out of range"

/-- Big-endian bytes of a 32-bit word (what `binary.Write ... BigEndian`
emits for `int32`/`uint32` values, two's complement for negatives being
irrelevant here because values are kept reduced `% 2 ^ 32`). -/
def be32 (x : Nat) : List Nat :=
  [x / 16777216 % 256, x / 65536 % 256, x / 256 % 256, x % 256]

/-- Big-endian bytes of a 64-bit word (`binary.Write ... BigEndian` for
`int64`, kept reduced `% 2 ^ 64`). -/
def be64 (x : Nat) : List Nat := be32 (x / 4294967296 % 4294967296) ++ be32 (x % 4294967296)

/-- Bytewise XOR of two byte strings of the same length (`zipWith`
truncates to the shorter, callers establish equal length). -/
def xorBytes (a b : List Nat) : List Nat := List.zipWith Nat.xor a b

/-- `listStarts pat l` holds when `pat` is an initial segment of `l`. -/
def listStarts : List Nat → List Nat → Bool
  | [], _ => true
  | _ :: _, [] => false
  | p :: ps, a :: as => p == a && listStarts ps as

/-- Index of the first occurrence of `pat` as a contiguous sublist of `s`
(the semantics of Go's `strings.Index`). -/
def findSub : List Nat → List Nat → Option Nat
  | s, pat =>
    match s with
    | [] => if pat.isEmpty then some 0 else none
    | _ :: rest =>
      if listStarts pat s then some 0
      else (findSub rest pat).map (· + 1)

/-- Go's `strings.Replace(s, pat, rep, 1)`: replace the first occurrence of
`pat` in `s` by `rep`; `s` unchanged when `pat` does not occur. -/
def replaceFirst (s pat rep : List Nat) : List Nat :=
  match findSub s pat with
  | none => s
  | some i => s.take i ++ rep ++ s.drop (i + pat.length)
/-- Running state of an MD5 computation: the four 32-bit chaining words
`A B C D` of RFC 1321, each kept reduced `% 2 ^ 32`. -/
structure MD5State where
  a : Nat
  b : Nat
  c : Nat
  d : Nat
deriving DecidableEq

/-!
The MD5 compression function is written as a chain of one definition per
round step (`md5S0 ... md5S64`, with `md5T{i}` holding the rotated sum of
step `i`), rather than a single 64-let body.  `md5S{i}` carries: the block's
message-word function `m`, the four chaining words `oa ob oc od` that are
added back at the end (`md5S64`), and the four working registers `a b c d`.
Each step `i` computes, per RFC 1321,
`b + ((a + F(b,c,d) + K[i] + m[g(i)]) <<< s[i])` with everything reduced
`% 2 ^ 32`, and rotates the register roles.  This step-per-definition shape
keeps kernel evaluation of the 1 MiB key-derivation input tractable.
-/

def md5S64 (m : Nat → Nat) (oa ob oc od a b c d : Nat) : MD5State :=
  ⟨Nat.mod (Nat.add oa a) 4294967296, Nat.mod (Nat.add ob b) 4294967296, Nat.mod (Nat.add oc c) 4294967296, Nat.mod (Nat.add od d) 4294967296⟩
def md5T63 (m : Nat → Nat) (oa ob oc od b c d t : Nat) : MD5State :=
  md5S64 m oa ob oc od d (Nat.mod (Nat.add b (Nat.lor (Nat.mod (Nat.shiftLeft t 21) 4294967296) (Nat.shiftRight t 11))) 4294967296) b c
def md5S63 (m : Nat → Nat) (oa ob oc od a b c d : Nat) : MD5State :=
  md5T63 m oa ob oc od b c d (Nat.mod (Nat.add (Nat.add (Nat.add a (Nat.xor c (Nat.lor b (Nat.sub 4294967295 d)))) 3951481745) (m 9)) 4294967296)
def md5T62 (m : Nat → Nat) (oa ob oc od b c d t : Nat) : MD5State :=
  md5S63 m oa ob oc od d (Nat.mod (Nat.add b (Nat.lor (Nat.mod (Nat.shiftLeft t 15) 4294967296) (Nat.shiftRight t 17))) 4294967296) b c
def md5S62 (m : Nat → Nat) (oa ob oc od a b c d : Nat) : MD5State :=
  md5T62 m oa ob oc od b c d (Nat.mod (Nat.add (Nat.add (Nat.add a (Nat.xor c (Nat.lor b (Nat.sub 4294967295 d)))) 718787259) (m 2)) 4294967296)
def md5T61 (m : Nat → Nat) (oa ob oc od b c d t : Nat) : MD5State :=
  md5S62 m oa ob oc od d (Nat.mod (Nat.add b (Nat.lor (Nat.mod (Nat.shiftLeft t 10) 4294967296) (Nat.shiftRight t 22))) 4294967296) b c
def md5S61 (m : Nat → Nat) (oa ob oc od a b c d : Nat) : MD5State :=
  md5T61 m oa ob oc od b c d (Nat.mod (Nat.add (Nat.add (Nat.add a (Nat.xor c (Nat.lor b (Nat.sub 4294967295 d)))) 3174756917) (m 11)) 4294967296)
def md5T60 (m : Nat → Nat) (oa ob oc od b c d t : Nat) : MD5State :=
  md5S61 m oa ob oc od d (Nat.mod (Nat.add b (Nat.lor (Nat.mod (Nat.shiftLeft t 6) 4294967296) (Nat.shiftRight t 26))) 4294967296) b c
def md5S60 (m : Nat → Nat) (oa ob oc od a b c d : Nat) : MD5State :=
  md5T60 m oa ob oc od b c d (Nat.mod (Nat.add (Nat.add (Nat.add a (Nat.xor c (Nat.lor b (Nat.sub 4294967295 d)))) 4149444226) (m 4)) 4294967296)
def md5T59 (m : Nat → Nat) (oa ob oc od b c d t : Nat) : MD5State :=
  md5S60 m oa ob oc od d (Nat.mod (Nat.add b (Nat.lor (Nat.mod (Nat.shiftLeft t 21) 4294967296) (Nat.shiftRight t 11))) 4294967296) b c
def md5S59 (m : Nat → Nat) (oa ob oc od a b c d : Nat) : MD5State :=
  md5T59 m oa ob oc od b c d (Nat.mod (Nat.add (Nat.add (Nat.add a (Nat.xor c (Nat.lor b (Nat.sub 4294967295 d)))) 1309151649) (m 13)) 4294967296)
def md5T58 (m : Nat → Nat) (oa ob oc od b c d t : Nat) : MD5State :=
  md5S59 m oa ob oc od d (Nat.mod (Nat.add b (Nat.lor (Nat.mod (Nat.shiftLeft t 15) 4294967296) (Nat.shiftRight t 17))) 4294967296) b c
def md5S58 (m : Nat → Nat) (oa ob oc od a b c d : Nat) : MD5State :=
  md5T58 m oa ob oc od b c d (Nat.mod (Nat.add (Nat.add (Nat.add a (Nat.xor c (Nat.lor b (Nat.sub 4294967295 d)))) 2734768916) (m 6)) 4294967296)
def md5T57 (m : Nat → Nat) (oa ob oc od b c d t : Nat) : MD5State :=
  md5S58 m oa ob oc od d (Nat.mod (Nat.add b (Nat.lor (Nat.mod (Nat.shiftLeft t 10) 4294967296) (Nat.shiftRight t 22))) 4294967296) b c
def md5S57 (m : Nat → Nat) (oa ob oc od a b c d : Nat) : MD5State :=
  md5T57 m oa ob oc od b c d (Nat.mod (Nat.add (Nat.add (Nat.add a (Nat.xor c (Nat.lor b (Nat.sub 4294967295 d)))) 4264355552) (m 15)) 4294967296)
def md5T56 (m : Nat → Nat) (oa ob oc od b c d t : Nat) : MD5State :=
  md5S57 m oa ob oc od d (Nat.mod (Nat.add b (Nat.lor (Nat.mod (Nat.shiftLeft t 6) 4294967296) (Nat.shiftRight t 26))) 4294967296) b c
def md5S56 (m : Nat → Nat) (oa ob oc od a b c d : Nat) : MD5State :=
  md5T56 m oa ob oc od b c d (Nat.mod (Nat.add (Nat.add (Nat.add a (Nat.xor c (Nat.lor b (Nat.sub 4294967295 d)))) 1873313359) (m 8)) 4294967296)
def md5T55 (m : Nat → Nat) (oa ob oc od b c d t : Nat) : MD5State :=
  md5S56 m oa ob oc od d (Nat.mod (Nat.add b (Nat.lor (Nat.mod (Nat.shiftLeft t 21) 4294967296) (Nat.shiftRight t 11))) 4294967296) b c
def md5S55 (m : Nat → Nat) (oa ob oc od a b c d : Nat) : MD5State :=
  md5T55 m oa ob oc od b c d (Nat.mod (Nat.add (Nat.add (Nat.add a (Nat.xor c (Nat.lor b (Nat.sub 4294967295 d)))) 2240044497) (m 1)) 4294967296)
def md5T54 (m : Nat → Nat) (oa ob oc od b c d t : Nat) : MD5State :=
  md5S55 m oa ob oc od d (Nat.mod (Nat.add b (Nat.lor (Nat.mod (Nat.shiftLeft t 15) 4294967296) (Nat.shiftRight t 17))) 4294967296) b c
def md5S54 (m : Nat → Nat) (oa ob oc od a b c d : Nat) : MD5State :=
  md5T54 m oa ob oc od b c d (Nat.mod (Nat.add (Nat.add (Nat.add a (Nat.xor c (Nat.lor b (Nat.sub 4294967295 d)))) 4293915773) (m 10)) 4294967296)
def md5T53 (m : Nat → Nat) (oa ob oc od b c d t : Nat) : MD5State :=
  md5S54 m oa ob oc od d (Nat.mod (Nat.add b (Nat.lor (Nat.mod (Nat.shiftLeft t 10) 4294967296) (Nat.shiftRight t 22))) 4294967296) b c
def md5S53 (m : Nat → Nat) (oa ob oc od a b c d : Nat) : MD5State :=
  md5T53 m oa ob oc od b c d (Nat.mod (Nat.add (Nat.add (Nat.add a (Nat.xor c (Nat.lor b (Nat.sub 4294967295 d)))) 2399980690) (m 3)) 4294967296)
def md5T52 (m : Nat → Nat) (oa ob oc od b c d t : Nat) : MD5State :=
  md5S53 m oa ob oc od d (Nat.mod (Nat.add b (Nat.lor (Nat.mod (Nat.shiftLeft t 6) 4294967296) (Nat.shiftRight t 26))) 4294967296) b c
def md5S52 (m : Nat → Nat) (oa ob oc od a b c d : Nat) : MD5State :=
  md5T52 m oa ob oc od b c d (Nat.mod (Nat.add (Nat.add (Nat.add a (Nat.xor c (Nat.lor b (Nat.sub 4294967295 d)))) 1700485571) (m 12)) 4294967296)
def md5T51 (m : Nat → Nat) (oa ob oc od b c d t : Nat) : MD5State :=
  md5S52 m oa ob oc od d (Nat.mod (Nat.add b (Nat.lor (Nat.mod (Nat.shiftLeft t 21) 4294967296) (Nat.shiftRight t 11))) 4294967296) b c
def md5S51 (m : Nat → Nat) (oa ob oc od a b c d : Nat) : MD5State :=
  md5T51 m oa ob oc od b c d (Nat.mod (Nat.add (Nat.add (Nat.add a (Nat.xor c (Nat.lor b (Nat.sub 4294967295 d)))) 4237533241) (m 5)) 4294967296)
def md5T50 (m : Nat → Nat) (oa ob oc od b c d t : Nat) : MD5State :=
  md5S51 m oa ob oc od d (Nat.mod (Nat.add b (Nat.lor (Nat.mod (Nat.shiftLeft t 15) 4294967296) (Nat.shiftRight t 17))) 4294967296) b c
def md5S50 (m : Nat → Nat) (oa ob oc od a b c d : Nat) : MD5State :=
  md5T50 m oa ob oc od b c d (Nat.mod (Nat.add (Nat.add (Nat.add a (Nat.xor c (Nat.lor b (Nat.sub 4294967295 d)))) 2878612391) (m 14)) 4294967296)
def md5T49 (m : Nat → Nat) (oa ob oc od b c d t : Nat) : MD5State :=
  md5S50 m oa ob oc od d (Nat.mod (Nat.add b (Nat.lor (Nat.mod (Nat.shiftLeft t 10) 4294967296) (Nat.shiftRight t 22))) 4294967296) b c
def md5S49 (m : Nat → Nat) (oa ob oc od a b c d : Nat) : MD5State :=
  md5T49 m oa ob oc od b c d (Nat.mod (Nat.add (Nat.add (Nat.add a (Nat.xor c (Nat.lor b (Nat.sub 4294967295 d)))) 1126891415) (m 7)) 4294967296)
def md5T48 (m : Nat → Nat) (oa ob oc od b c d t : Nat) : MD5State :=
  md5S49 m oa ob oc od d (Nat.mod (Nat.add b (Nat.lor (Nat.mod (Nat.shiftLeft t 6) 4294967296) (Nat.shiftRight t 26))) 4294967296) b c
def md5S48 (m : Nat → Nat) (oa ob oc od a b c d : Nat) : MD5State :=
  md5T48 m oa ob oc od b c d (Nat.mod (Nat.add (Nat.add (Nat.add a (Nat.xor c (Nat.lor b (Nat.sub 4294967295 d)))) 4096336452) (m 0)) 4294967296)
def md5T47 (m : Nat → Nat) (oa ob oc od b c d t : Nat) : MD5State :=
  md5S48 m oa ob oc od d (Nat.mod (Nat.add b (Nat.lor (Nat.mod (Nat.shiftLeft t 23) 4294967296) (Nat.shiftRight t 9))) 4294967296) b c
def md5S47 (m : Nat → Nat) (oa ob oc od a b c d : Nat) : MD5State :=
  md5T47 m oa ob oc od b c d (Nat.mod (Nat.add (Nat.add (Nat.add a (Nat.xor (Nat.xor b c) d)) 3299628645) (m 2)) 4294967296)
def md5T46 (m : Nat → Nat) (oa ob oc od b c d t : Nat) : MD5State :=
  md5S47 m oa ob oc od d (Nat.mod (Nat.add b (Nat.lor (Nat.mod (Nat.shiftLeft t 16) 4294967296) (Nat.shiftRight t 16))) 4294967296) b c
def md5S46 (m : Nat → Nat) (oa ob oc od a b c d : Nat) : MD5State :=
  md5T46 m oa ob oc od b c d (Nat.mod (Nat.add (Nat.add (Nat.add a (Nat.xor (Nat.xor b c) d)) 530742520) (m 15)) 4294967296)
def md5T45 (m : Nat → Nat) (oa ob oc od b c d t : Nat) : MD5State :=
  md5S46 m oa ob oc od d (Nat.mod (Nat.add b (Nat.lor (Nat.mod (Nat.shiftLeft t 11) 4294967296) (Nat.shiftRight t 21))) 4294967296) b c
def md5S45 (m : Nat → Nat) (oa ob oc od a b c d : Nat) : MD5State :=
  md5T45 m oa ob oc od b c d (Nat.mod (Nat.add (Nat.add (Nat.add a (Nat.xor (Nat.xor b c) d)) 3873151461) (m 12)) 4294967296)
def md5T44 (m : Nat → Nat) (oa ob oc od b c d t : Nat) : MD5State :=
  md5S45 m oa ob oc od d (Nat.mod (Nat.add b (Nat.lor (Nat.mod (Nat.shiftLeft t 4) 4294967296) (Nat.shiftRight t 28))) 4294967296) b c
def md5S44 (m : Nat → Nat) (oa ob oc od a b c d : Nat) : MD5State :=
  md5T44 m oa ob oc od b c d (Nat.mod (Nat.add (Nat.add (Nat.add a (Nat.xor (Nat.xor b c) d)) 3654602809) (m 9)) 4294967296)
def md5T43 (m : Nat → Nat) (oa ob oc od b c d t : Nat) : MD5State :=
  md5S44 m oa ob oc od d (Nat.mod (Nat.add b (Nat.lor (Nat.mod (Nat.shiftLeft t 23) 4294967296) (Nat.shiftRight t 9))) 4294967296) b c
def md5S43 (m : Nat → Nat) (oa ob oc od a b c d : Nat) : MD5State :=
  md5T43 m oa ob oc od b c d (Nat.mod (Nat.add (Nat.add (Nat.add a (Nat.xor (Nat.xor b c) d)) 76029189) (m 6)) 4294967296)
def md5T42 (m : Nat → Nat) (oa ob oc od b c d t : Nat) : MD5State :=
  md5S43 m oa ob oc od d (Nat.mod (Nat.add b (Nat.lor (Nat.mod (Nat.shiftLeft t 16) 4294967296) (Nat.shiftRight t 16))) 4294967296) b c
def md5S42 (m : Nat → Nat) (oa ob oc od a b c d : Nat) : MD5State :=
  md5T42 m oa ob oc od b c d (Nat.mod (Nat.add (Nat.add (Nat.add a (Nat.xor (Nat.xor b c) d)) 3572445317) (m 3)) 4294967296)
def md5T41 (m : Nat → Nat) (oa ob oc od b c d t : Nat) : MD5State :=
  md5S42 m oa ob oc od d (Nat.mod (Nat.add b (Nat.lor (Nat.mod (Nat.shiftLeft t 11) 4294967296) (Nat.shiftRight t 21))) 4294967296) b c
def md5S41 (m : Nat → Nat) (oa ob oc od a b c d : Nat) : MD5State :=
  md5T41 m oa ob oc od b c d (Nat.mod (Nat.add (Nat.add (Nat.add a (Nat.xor (Nat.xor b c) d)) 3936430074) (m 0)) 4294967296)
def md5T40 (m : Nat → Nat) (oa ob oc od b c d t : Nat) : MD5State :=
  md5S41 m oa ob oc od d (Nat.mod (Nat.add b (Nat.lor (Nat.mod (Nat.shiftLeft t 4) 4294967296) (Nat.shiftRight t 28))) 4294967296) b c
def md5S40 (m : Nat → Nat) (oa ob oc od a b c d : Nat) : MD5State :=
  md5T40 m oa ob oc od b c d (Nat.mod (Nat.add (Nat.add (Nat.add a (Nat.xor (Nat.xor b c) d)) 681279174) (m 13)) 4294967296)
def md5T39 (m : Nat → Nat) (oa ob oc od b c d t : Nat) : MD5State :=
  md5S40 m oa ob oc od d (Nat.mod (Nat.add b (Nat.lor (Nat.mod (Nat.shiftLeft t 23) 4294967296) (Nat.shiftRight t 9))) 4294967296) b c
def md5S39 (m : Nat → Nat) (oa ob oc od a b c d : Nat) : MD5State :=
  md5T39 m oa ob oc od b c d (Nat.mod (Nat.add (Nat.add (Nat.add a (Nat.xor (Nat.xor b c) d)) 3200236656) (m 10)) 4294967296)
def md5T38 (m : Nat → Nat) (oa ob oc od b c d t : Nat) : MD5State :=
  md5S39 m oa ob oc od d (Nat.mod (Nat.add b (Nat.lor (Nat.mod (Nat.shiftLeft t 16) 4294967296) (Nat.shiftRight t 16))) 4294967296) b c
def md5S38 (m : Nat → Nat) (oa ob oc od a b c d : Nat) : MD5State :=
  md5T38 m oa ob oc od b c d (Nat.mod (Nat.add (Nat.add (Nat.add a (Nat.xor (Nat.xor b c) d)) 4139469664) (m 7)) 4294967296)
def md5T37 (m : Nat → Nat) (oa ob oc od b c d t : Nat) : MD5State :=
  md5S38 m oa ob oc od d (Nat.mod (Nat.add b (Nat.lor (Nat.mod (Nat.shiftLeft t 11) 4294967296) (Nat.shiftRight t 21))) 4294967296) b c
def md5S37 (m : Nat → Nat) (oa ob oc od a b c d : Nat) : MD5State :=
  md5T37 m oa ob oc od b c d (Nat.mod (Nat.add (Nat.add (Nat.add a (Nat.xor (Nat.xor b c) d)) 1272893353) (m 4)) 4294967296)
def md5T36 (m : Nat → Nat) (oa ob oc od b c d t : Nat) : MD5State :=
  md5S37 m oa ob oc od d (Nat.mod (Nat.add b (Nat.lor (Nat.mod (Nat.shiftLeft t 4) 4294967296) (Nat.shiftRight t 28))) 4294967296) b c
def md5S36 (m : Nat → Nat) (oa ob oc od a b c d : Nat) : MD5State :=
  md5T36 m oa ob oc od b c d (Nat.mod (Nat.add (Nat.add (Nat.add a (Nat.xor (Nat.xor b c) d)) 2763975236) (m 1)) 4294967296)
def md5T35 (m : Nat → Nat) (oa ob oc od b c d t : Nat) : MD5State :=
  md5S36 m oa ob oc od d (Nat.mod (Nat.add b (Nat.lor (Nat.mod (Nat.shiftLeft t 23) 4294967296) (Nat.shiftRight t 9))) 4294967296) b c
def md5S35 (m : Nat → Nat) (oa ob oc od a b c d : Nat) : MD5State :=
  md5T35 m oa ob oc od b c d (Nat.mod (Nat.add (Nat.add (Nat.add a (Nat.xor (Nat.xor b c) d)) 4259657740) (m 14)) 4294967296)
def md5T34 (m : Nat → Nat) (oa ob oc od b c d t : Nat) : MD5State :=
  md5S35 m oa ob oc od d (Nat.mod (Nat.add b (Nat.lor (Nat.mod (Nat.shiftLeft t 16) 4294967296) (Nat.shiftRight t 16))) 4294967296) b c
def md5S34 (m : Nat → Nat) (oa ob oc od a b c d : Nat) : MD5State :=
  md5T34 m oa ob oc od b c d (Nat.mod (Nat.add (Nat.add (Nat.add a (Nat.xor (Nat.xor b c) d)) 1839030562) (m 11)) 4294967296)
def md5T33 (m : Nat → Nat) (oa ob oc od b c d t : Nat) : MD5State :=
  md5S34 m oa ob oc od d (Nat.mod (Nat.add b (Nat.lor (Nat.mod (Nat.shiftLeft t 11) 4294967296) (Nat.shiftRight t 21))) 4294967296) b c
def md5S33 (m : Nat → Nat) (oa ob oc od a b c d : Nat) : MD5State :=
  md5T33 m oa ob oc od b c d (Nat.mod (Nat.add (Nat.add (Nat.add a (Nat.xor (Nat.xor b c) d)) 2272392833) (m 8)) 4294967296)
def md5T32 (m : Nat → Nat) (oa ob oc od b c d t : Nat) : MD5State :=
  md5S33 m oa ob oc od d (Nat.mod (Nat.add b (Nat.lor (Nat.mod (Nat.shiftLeft t 4) 4294967296) (Nat.shiftRight t 28))) 4294967296) b c
def md5S32 (m : Nat → Nat) (oa ob oc od a b c d : Nat) : MD5State :=
  md5T32 m oa ob oc od b c d (Nat.mod (Nat.add (Nat.add (Nat.add a (Nat.xor (Nat.xor b c) d)) 4294588738) (m 5)) 4294967296)
def md5T31 (m : Nat → Nat) (oa ob oc od b c d t : Nat) : MD5State :=
  md5S32 m oa ob oc od d (Nat.mod (Nat.add b (Nat.lor (Nat.mod (Nat.shiftLeft t 20) 4294967296) (Nat.shiftRight t 12))) 4294967296) b c
def md5S31 (m : Nat → Nat) (oa ob oc od a b c d : Nat) : MD5State :=
  md5T31 m oa ob oc od b c d (Nat.mod (Nat.add (Nat.add (Nat.add a (Nat.lor (Nat.land d b) (Nat.land (Nat.sub 4294967295 d) c))) 2368359562) (m 12)) 4294967296)
def md5T30 (m : Nat → Nat) (oa ob oc od b c d t : Nat) : MD5State :=
  md5S31 m oa ob oc od d (Nat.mod (Nat.add b (Nat.lor (Nat.mod (Nat.shiftLeft t 14) 4294967296) (Nat.shiftRight t 18))) 4294967296) b c
def md5S30 (m : Nat → Nat) (oa ob oc od a b c d : Nat) : MD5State :=
  md5T30 m oa ob oc od b c d (Nat.mod (Nat.add (Nat.add (Nat.add a (Nat.lor (Nat.land d b) (Nat.land (Nat.sub 4294967295 d) c))) 1735328473) (m 7)) 4294967296)
def md5T29 (m : Nat → Nat) (oa ob oc od b c d t : Nat) : MD5State :=
  md5S30 m oa ob oc od d (Nat.mod (Nat.add b (Nat.lor (Nat.mod (Nat.shiftLeft t 9) 4294967296) (Nat.shiftRight t 23))) 4294967296) b c
def md5S29 (m : Nat → Nat) (oa ob oc od a b c d : Nat) : MD5State :=
  md5T29 m oa ob oc od b c d (Nat.mod (Nat.add (Nat.add (Nat.add a (Nat.lor (Nat.land d b) (Nat.land (Nat.sub 4294967295 d) c))) 4243563512) (m 2)) 4294967296)
def md5T28 (m : Nat → Nat) (oa ob oc od b c d t : Nat) : MD5State :=
  md5S29 m oa ob oc od d (Nat.mod (Nat.add b (Nat.lor (Nat.mod (Nat.shiftLeft t 5) 4294967296) (Nat.shiftRight t 27))) 4294967296) b c
def md5S28 (m : Nat → Nat) (oa ob oc od a b c d : Nat) : MD5State :=
  md5T28 m oa ob oc od b c d (Nat.mod (Nat.add (Nat.add (Nat.add a (Nat.lor (Nat.land d b) (Nat.land (Nat.sub 4294967295 d) c))) 2850285829) (m 13)) 4294967296)
def md5T27 (m : Nat → Nat) (oa ob oc od b c d t : Nat) : MD5State :=
  md5S28 m oa ob oc od d (Nat.mod (Nat.add b (Nat.lor (Nat.mod (Nat.shiftLeft t 20) 4294967296) (Nat.shiftRight t 12))) 4294967296) b c
def md5S27 (m : Nat → Nat) (oa ob oc od a b c d : Nat) : MD5State :=
  md5T27 m oa ob oc od b c d (Nat.mod (Nat.add (Nat.add (Nat.add a (Nat.lor (Nat.land d b) (Nat.land (Nat.sub 4294967295 d) c))) 1163531501) (m 8)) 4294967296)
def md5T26 (m : Nat → Nat) (oa ob oc od b c d t : Nat) : MD5State :=
  md5S27 m oa ob oc od d (Nat.mod (Nat.add b (Nat.lor (Nat.mod (Nat.shiftLeft t 14) 4294967296) (Nat.shiftRight t 18))) 4294967296) b c
def md5S26 (m : Nat → Nat) (oa ob oc od a b c d : Nat) : MD5State :=
  md5T26 m oa ob oc od b c d (Nat.mod (Nat.add (Nat.add (Nat.add a (Nat.lor (Nat.land d b) (Nat.land (Nat.sub 4294967295 d) c))) 4107603335) (m 3)) 4294967296)
def md5T25 (m : Nat → Nat) (oa ob oc od b c d t : Nat) : MD5State :=
  md5S26 m oa ob oc od d (Nat.mod (Nat.add b (Nat.lor (Nat.mod (Nat.shiftLeft t 9) 4294967296) (Nat.shiftRight t 23))) 4294967296) b c
def md5S25 (m : Nat → Nat) (oa ob oc od a b c d : Nat) : MD5State :=
  md5T25 m oa ob oc od b c d (Nat.mod (Nat.add (Nat.add (Nat.add a (Nat.lor (Nat.land d b) (Nat.land (Nat.sub 4294967295 d) c))) 3275163606) (m 14)) 4294967296)
def md5T24 (m : Nat → Nat) (oa ob oc od b c d t : Nat) : MD5State :=
  md5S25 m oa ob oc od d (Nat.mod (Nat.add b (Nat.lor (Nat.mod (Nat.shiftLeft t 5) 4294967296) (Nat.shiftRight t 27))) 4294967296) b c
def md5S24 (m : Nat → Nat) (oa ob oc od a b c d : Nat) : MD5State :=
  md5T24 m oa ob oc od b c d (Nat.mod (Nat.add (Nat.add (Nat.add a (Nat.lor (Nat.land d b) (Nat.land (Nat.sub 4294967295 d) c))) 568446438) (m 9)) 4294967296)
def md5T23 (m : Nat → Nat) (oa ob oc od b c d t : Nat) : MD5State :=
  md5S24 m oa ob oc od d (Nat.mod (Nat.add b (Nat.lor (Nat.mod (Nat.shiftLeft t 20) 4294967296) (Nat.shiftRight t 12))) 4294967296) b c
def md5S23 (m : Nat → Nat) (oa ob oc od a b c d : Nat) : MD5State :=
  md5T23 m oa ob oc od b c d (Nat.mod (Nat.add (Nat.add (Nat.add a (Nat.lor (Nat.land d b) (Nat.land (Nat.sub 4294967295 d) c))) 3889429448) (m 4)) 4294967296)
def md5T22 (m : Nat → Nat) (oa ob oc od b c d t : Nat) : MD5State :=
  md5S23 m oa ob oc od d (Nat.mod (Nat.add b (Nat.lor (Nat.mod (Nat.shiftLeft t 14) 4294967296) (Nat.shiftRight t 18))) 4294967296) b c
def md5S22 (m : Nat → Nat) (oa ob oc od a b c d : Nat) : MD5State :=
  md5T22 m oa ob oc od b c d (Nat.mod (Nat.add (Nat.add (Nat.add a (Nat.lor (Nat.land d b) (Nat.land (Nat.sub 4294967295 d) c))) 3634488961) (m 15)) 4294967296)
def md5T21 (m : Nat → Nat) (oa ob oc od b c d t : Nat) : MD5State :=
  md5S22 m oa ob oc od d (Nat.mod (Nat.add b (Nat.lor (Nat.mod (Nat.shiftLeft t 9) 4294967296) (Nat.shiftRight t 23))) 4294967296) b c
def md5S21 (m : Nat → Nat) (oa ob oc od a b c d : Nat) : MD5State :=
  md5T21 m oa ob oc od b c d (Nat.mod (Nat.add (Nat.add (Nat.add a (Nat.lor (Nat.land d b) (Nat.land (Nat.sub 4294967295 d) c))) 38016083) (m 10)) 4294967296)
def md5T20 (m : Nat → Nat) (oa ob oc od b c d t : Nat) : MD5State :=
  md5S21 m oa ob oc od d (Nat.mod (Nat.add b (Nat.lor (Nat.mod (Nat.shiftLeft t 5) 4294967296) (Nat.shiftRight t 27))) 4294967296) b c
def md5S20 (m : Nat → Nat) (oa ob oc od a b c d : Nat) : MD5State :=
  md5T20 m oa ob oc od b c d (Nat.mod (Nat.add (Nat.add (Nat.add a (Nat.lor (Nat.land d b) (Nat.land (Nat.sub 4294967295 d) c))) 3593408605) (m 5)) 4294967296)
def md5T19 (m : Nat → Nat) (oa ob oc od b c d t : Nat) : MD5State :=
  md5S20 m oa ob oc od d (Nat.mod (Nat.add b (Nat.lor (Nat.mod (Nat.shiftLeft t 20) 4294967296) (Nat.shiftRight t 12))) 4294967296) b c
def md5S19 (m : Nat → Nat) (oa ob oc od a b c d : Nat) : MD5State :=
  md5T19 m oa ob oc od b c d (Nat.mod (Nat.add (Nat.add (Nat.add a (Nat.lor (Nat.land d b) (Nat.land (Nat.sub 4294967295 d) c))) 3921069994) (m 0)) 4294967296)
def md5T18 (m : Nat → Nat) (oa ob oc od b c d t : Nat) : MD5State :=
  md5S19 m oa ob oc od d (Nat.mod (Nat.add b (Nat.lor (Nat.mod (Nat.shiftLeft t 14) 4294967296) (Nat.shiftRight t 18))) 4294967296) b c
def md5S18 (m : Nat → Nat) (oa ob oc od a b c d : Nat) : MD5State :=
  md5T18 m oa ob oc od b c d (Nat.mod (Nat.add (Nat.add (Nat.add a (Nat.lor (Nat.land d b) (Nat.land (Nat.sub 4294967295 d) c))) 643717713) (m 11)) 4294967296)
def md5T17 (m : Nat → Nat) (oa ob oc od b c d t : Nat) : MD5State :=
  md5S18 m oa ob oc od d (Nat.mod (Nat.add b (Nat.lor (Nat.mod (Nat.shiftLeft t 9) 4294967296) (Nat.shiftRight t 23))) 4294967296) b c
def md5S17 (m : Nat → Nat) (oa ob oc od a b c d : Nat) : MD5State :=
  md5T17 m oa ob oc od b c d (Nat.mod (Nat.add (Nat.add (Nat.add a (Nat.lor (Nat.land d b) (Nat.land (Nat.sub 4294967295 d) c))) 3225465664) (m 6)) 4294967296)
def md5T16 (m : Nat → Nat) (oa ob oc od b c d t : Nat) : MD5State :=
  md5S17 m oa ob oc od d (Nat.mod (Nat.add b (Nat.lor (Nat.mod (Nat.shiftLeft t 5) 4294967296) (Nat.shiftRight t 27))) 4294967296) b c
def md5S16 (m : Nat → Nat) (oa ob oc od a b c d : Nat) : MD5State :=
  md5T16 m oa ob oc od b c d (Nat.mod (Nat.add (Nat.add (Nat.add a (Nat.lor (Nat.land d b) (Nat.land (Nat.sub 4294967295 d) c))) 4129170786) (m 1)) 4294967296)
def md5T15 (m : Nat → Nat) (oa ob oc od b c d t : Nat) : MD5State :=
  md5S16 m oa ob oc od d (Nat.mod (Nat.add b (Nat.lor (Nat.mod (Nat.shiftLeft t 22) 4294967296) (Nat.shiftRight t 10))) 4294967296) b c
def md5S15 (m : Nat → Nat) (oa ob oc od a b c d : Nat) : MD5State :=
  md5T15 m oa ob oc od b c d (Nat.mod (Nat.add (Nat.add (Nat.add a (Nat.lor (Nat.land b c) (Nat.land (Nat.sub 4294967295 b) d))) 1236535329) (m 15)) 4294967296)
def md5T14 (m : Nat → Nat) (oa ob oc od b c d t : Nat) : MD5State :=
  md5S15 m oa ob oc od d (Nat.mod (Nat.add b (Nat.lor (Nat.mod (Nat.shiftLeft t 17) 4294967296) (Nat.shiftRight t 15))) 4294967296) b c
def md5S14 (m : Nat → Nat) (oa ob oc od a b c d : Nat) : MD5State :=
  md5T14 m oa ob oc od b c d (Nat.mod (Nat.add (Nat.add (Nat.add a (Nat.lor (Nat.land b c) (Nat.land (Nat.sub 4294967295 b) d))) 2792965006) (m 14)) 4294967296)
def md5T13 (m : Nat → Nat) (oa ob oc od b c d t : Nat) : MD5State :=
  md5S14 m oa ob oc od d (Nat.mod (Nat.add b (Nat.lor (Nat.mod (Nat.shiftLeft t 12) 4294967296) (Nat.shiftRight t 20))) 4294967296) b c
def md5S13 (m : Nat → Nat) (oa ob oc od a b c d : Nat) : MD5State :=
  md5T13 m oa ob oc od b c d (Nat.mod (Nat.add (Nat.add (Nat.add a (Nat.lor (Nat.land b c) (Nat.land (Nat.sub 4294967295 b) d))) 4254626195) (m 13)) 4294967296)
def md5T12 (m : Nat → Nat) (oa ob oc od b c d t : Nat) : MD5State :=
  md5S13 m oa ob oc od d (Nat.mod (Nat.add b (Nat.lor (Nat.mod (Nat.shiftLeft t 7) 4294967296) (Nat.shiftRight t 25))) 4294967296) b c
def md5S12 (m : Nat → Nat) (oa ob oc od a b c d : Nat) : MD5State :=
  md5T12 m oa ob oc od b c d (Nat.mod (Nat.add (Nat.add (Nat.add a (Nat.lor (Nat.land b c) (Nat.land (Nat.sub 4294967295 b) d))) 1804603682) (m 12)) 4294967296)
def md5T11 (m : Nat → Nat) (oa ob oc od b c d t : Nat) : MD5State :=
  md5S12 m oa ob oc od d (Nat.mod (Nat.add b (Nat.lor (Nat.mod (Nat.shiftLeft t 22) 4294967296) (Nat.shiftRight t 10))) 4294967296) b c
def md5S11 (m : Nat → Nat) (oa ob oc od a b c d : Nat) : MD5State :=
  md5T11 m oa ob oc od b c d (Nat.mod (Nat.add (Nat.add (Nat.add a (Nat.lor (Nat.land b c) (Nat.land (Nat.sub 4294967295 b) d))) 2304563134) (m 11)) 4294967296)
def md5T10 (m : Nat → Nat) (oa ob oc od b c d t : Nat) : MD5State :=
  md5S11 m oa ob oc od d (Nat.mod (Nat.add b (Nat.lor (Nat.mod (Nat.shiftLeft t 17) 4294967296) (Nat.shiftRight t 15))) 4294967296) b c
def md5S10 (m : Nat → Nat) (oa ob oc od a b c d : Nat) : MD5State :=
  md5T10 m oa ob oc od b c d (Nat.mod (Nat.add (Nat.add (Nat.add a (Nat.lor (Nat.land b c) (Nat.land (Nat.sub 4294967295 b) d))) 4294925233) (m 10)) 4294967296)
def md5T9 (m : Nat → Nat) (oa ob oc od b c d t : Nat) : MD5State :=
  md5S10 m oa ob oc od d (Nat.mod (Nat.add b (Nat.lor (Nat.mod (Nat.shiftLeft t 12) 4294967296) (Nat.shiftRight t 20))) 4294967296) b c
def md5S9 (m : Nat → Nat) (oa ob oc od a b c d : Nat) : MD5State :=
  md5T9 m oa ob oc od b c d (Nat.mod (Nat.add (Nat.add (Nat.add a (Nat.lor (Nat.land b c) (Nat.land (Nat.sub 4294967295 b) d))) 2336552879) (m 9)) 4294967296)
def md5T8 (m : Nat → Nat) (oa ob oc od b c d t : Nat) : MD5State :=
  md5S9 m oa ob oc od d (Nat.mod (Nat.add b (Nat.lor (Nat.mod (Nat.shiftLeft t 7) 4294967296) (Nat.shiftRight t 25))) 4294967296) b c
def md5S8 (m : Nat → Nat) (oa ob oc od a b c d : Nat) : MD5State :=
  md5T8 m oa ob oc od b c d (Nat.mod (Nat.add (Nat.add (Nat.add a (Nat.lor (Nat.land b c) (Nat.land (Nat.sub 4294967295 b) d))) 1770035416) (m 8)) 4294967296)
def md5T7 (m : Nat → Nat) (oa ob oc od b c d t : Nat) : MD5State :=
  md5S8 m oa ob oc od d (Nat.mod (Nat.add b (Nat.lor (Nat.mod (Nat.shiftLeft t 22) 4294967296) (Nat.shiftRight t 10))) 4294967296) b c
def md5S7 (m : Nat → Nat) (oa ob oc od a b c d : Nat) : MD5State :=
  md5T7 m oa ob oc od b c d (Nat.mod (Nat.add (Nat.add (Nat.add a (Nat.lor (Nat.land b c) (Nat.land (Nat.sub 4294967295 b) d))) 4249261313) (m 7)) 4294967296)
def md5T6 (m : Nat → Nat) (oa ob oc od b c d t : Nat) : MD5State :=
  md5S7 m oa ob oc od d (Nat.mod (Nat.add b (Nat.lor (Nat.mod (Nat.shiftLeft t 17) 4294967296) (Nat.shiftRight t 15))) 4294967296) b c
def md5S6 (m : Nat → Nat) (oa ob oc od a b c d : Nat) : MD5State :=
  md5T6 m oa ob oc od b c d (Nat.mod (Nat.add (Nat.add (Nat.add a (Nat.lor (Nat.land b c) (Nat.land (Nat.sub 4294967295 b) d))) 2821735955) (m 6)) 4294967296)
def md5T5 (m : Nat → Nat) (oa ob oc od b c d t : Nat) : MD5State :=
  md5S6 m oa ob oc od d (Nat.mod (Nat.add b (Nat.lor (Nat.mod (Nat.shiftLeft t 12) 4294967296) (Nat.shiftRight t 20))) 4294967296) b c
def md5S5 (m : Nat → Nat) (oa ob oc od a b c d : Nat) : MD5State :=
  md5T5 m oa ob oc od b c d (Nat.mod (Nat.add (Nat.add (Nat.add a (Nat.lor (Nat.land b c) (Nat.land (Nat.sub 4294967295 b) d))) 1200080426) (m 5)) 4294967296)
def md5T4 (m : Nat → Nat) (oa ob oc od b c d t : Nat) : MD5State :=
  md5S5 m oa ob oc od d (Nat.mod (Nat.add b (Nat.lor (Nat.mod (Nat.shiftLeft t 7) 4294967296) (Nat.shiftRight t 25))) 4294967296) b c
def md5S4 (m : Nat → Nat) (oa ob oc od a b c d : Nat) : MD5State :=
  md5T4 m oa ob oc od b c d (Nat.mod (Nat.add (Nat.add (Nat.add a (Nat.lor (Nat.land b c) (Nat.land (Nat.sub 4294967295 b) d))) 4118548399) (m 4)) 4294967296)
def md5T3 (m : Nat → Nat) (oa ob oc od b c d t : Nat) : MD5State :=
  md5S4 m oa ob oc od d (Nat.mod (Nat.add b (Nat.lor (Nat.mod (Nat.shiftLeft t 22) 4294967296) (Nat.shiftRight t 10))) 4294967296) b c
def md5S3 (m : Nat → Nat) (oa ob oc od a b c d : Nat) : MD5State :=
  md5T3 m oa ob oc od b c d (Nat.mod (Nat.add (Nat.add (Nat.add a (Nat.lor (Nat.land b c) (Nat.land (Nat.sub 4294967295 b) d))) 3250441966) (m 3)) 4294967296)
def md5T2 (m : Nat → Nat) (oa ob oc od b c d t : Nat) : MD5State :=
  md5S3 m oa ob oc od d (Nat.mod (Nat.add b (Nat.lor (Nat.mod (Nat.shiftLeft t 17) 4294967296) (Nat.shiftRight t 15))) 4294967296) b c
def md5S2 (m : Nat → Nat) (oa ob oc od a b c d : Nat) : MD5State :=
  md5T2 m oa ob oc od b c d (Nat.mod (Nat.add (Nat.add (Nat.add a (Nat.lor (Nat.land b c) (Nat.land (Nat.sub 4294967295 b) d))) 606105819) (m 2)) 4294967296)
def md5T1 (m : Nat → Nat) (oa ob oc od b c d t : Nat) : MD5State :=
  md5S2 m oa ob oc od d (Nat.mod (Nat.add b (Nat.lor (Nat.mod (Nat.shiftLeft t 12) 4294967296) (Nat.shiftRight t 20))) 4294967296) b c
def md5S1 (m : Nat → Nat) (oa ob oc od a b c d : Nat) : MD5State :=
  md5T1 m oa ob oc od b c d (Nat.mod (Nat.add (Nat.add (Nat.add a (Nat.lor (Nat.land b c) (Nat.land (Nat.sub 4294967295 b) d))) 3905402710) (m 1)) 4294967296)
def md5T0 (m : Nat → Nat) (oa ob oc od b c d t : Nat) : MD5State :=
  md5S1 m oa ob oc od d (Nat.mod (Nat.add b (Nat.lor (Nat.mod (Nat.shiftLeft t 7) 4294967296) (Nat.shiftRight t 25))) 4294967296) b c
def md5S0 (m : Nat → Nat) (oa ob oc od a b c d : Nat) : MD5State :=
  md5T0 m oa ob oc od b c d (Nat.mod (Nat.add (Nat.add (Nat.add a (Nat.lor (Nat.land b c) (Nat.land (Nat.sub 4294967295 b) d))) 3614090360) (m 0)) 4294967296)

/-- One MD5 compression of the 16-word message block `m` into state `st`
(RFC 1321, section 3.4). -/
def md5Compress (m : Nat → Nat) (st : MD5State) : MD5State :=
  md5S0 m st.a st.b st.c st.d st.a st.b st.c st.d

/-!
Specialisations of the compression chain to the five message schedules that
occur while hashing the 1 048 576-byte stream obtained by repeating the
password `"maplesyrup"` (RFC 3414 test vector): that stream is periodic with
period `lcm 10 64 = 320` bytes, i.e. 5 blocks, so block `i < 16384` has the
message schedule `mplSched (i % 5)`.  `mplP{r}S{j}`/`mplP{r}T{j}` are
literally `md5S{j}`/`md5T{j}` with the message words inlined as literals,
which the bridge theorems `mplBridge0 ... mplBridge4` below prove.
-/

def mplP0S64 (oa ob oc od a b c d : Nat) : MD5State :=
  ⟨Nat.mod (Nat.add oa a) 4294967296, Nat.mod (Nat.add ob b) 4294967296, Nat.mod (Nat.add oc c) 4294967296, Nat.mod (Nat.add od d) 4294967296⟩
def mplP0T63 (oa ob oc od b c d t : Nat) : MD5State :=
  mplP0S64 oa ob oc od d (Nat.mod (Nat.add b (Nat.lor (Nat.mod (Nat.shiftLeft t 21) 4294967296) (Nat.shiftRight t 11))) 4294967296) b c
def mplP0S63 (oa ob oc od a b c d : Nat) : MD5State :=
  mplP0T63 oa ob oc od b c d (Nat.mod (Nat.add (Nat.add (Nat.add a (Nat.xor c (Nat.lor b (Nat.sub 4294967295 d)))) 3951481745) 1886745209) 4294967296)
def mplP0T62 (oa ob oc od b c d t : Nat) : MD5State :=
  mplP0S63 oa ob oc od d (Nat.mod (Nat.add b (Nat.lor (Nat.mod (Nat.shiftLeft t 15) 4294967296) (Nat.shiftRight t 17))) 4294967296) b c
def mplP0S62 (oa ob oc od a b c d : Nat) : MD5State :=
  mplP0T62 oa ob oc od b c d (Nat.mod (Nat.add (Nat.add (Nat.add a (Nat.xor c (Nat.lor b (Nat.sub 4294967295 d)))) 718787259) 1634562165) 4294967296)
def mplP0T61 (oa ob oc od b c d t : Nat) : MD5State :=
  mplP0S62 oa ob oc od d (Nat.mod (Nat.add b (Nat.lor (Nat.mod (Nat.shiftLeft t 10) 4294967296) (Nat.shiftRight t 22))) 4294967296) b c
def mplP0S61 (oa ob oc od a b c d : Nat) : MD5State :=
  mplP0T61 oa ob oc od b c d (Nat.mod (Nat.add (Nat.add (Nat.add a (Nat.xor c (Nat.lor b (Nat.sub 4294967295 d)))) 3174756917) 1920562021) 4294967296)
def mplP0T60 (oa ob oc od b c d t : Nat) : MD5State :=
  mplP0S61 oa ob oc od d (Nat.mod (Nat.add b (Nat.lor (Nat.mod (Nat.shiftLeft t 6) 4294967296) (Nat.shiftRight t 26))) 4294967296) b c
def mplP0S60 (oa ob oc od a b c d : Nat) : MD5State :=
  mplP0T60 oa ob oc od b c d (Nat.mod (Nat.add (Nat.add (Nat.add a (Nat.xor c (Nat.lor b (Nat.sub 4294967295 d)))) 4149444226) 1886745209) 4294967296)
def mplP0T59 (oa ob oc od b c d t : Nat) : MD5State :=
  mplP0S60 oa ob oc od d (Nat.mod (Nat.add b (Nat.lor (Nat.mod (Nat.shiftLeft t 21) 4294967296) (Nat.shiftRight t 11))) 4294967296) b c
def mplP0S59 (oa ob oc od a b c d : Nat) : MD5State :=
  mplP0T59 oa ob oc od b c d (Nat.mod (Nat.add (Nat.add (Nat.add a (Nat.xor c (Nat.lor b (Nat.sub 4294967295 d)))) 1309151649) 1936026736) 4294967296)
def mplP0T58 (oa ob oc od b c d t : Nat) : MD5State :=
  mplP0S59 oa ob oc od d (Nat.mod (Nat.add b (Nat.lor (Nat.mod (Nat.shiftLeft t 15) 4294967296) (Nat.shiftRight t 17))) 4294967296) b c
def mplP0S58 (oa ob oc od a b c d : Nat) : MD5State :=
  mplP0T58 oa ob oc od b c d (Nat.mod (Nat.add (Nat.add (Nat.add a (Nat.xor c (Nat.lor b (Nat.sub 4294967295 d)))) 2734768916) 1920562021) 4294967296)
def mplP0T57 (oa ob oc od b c d t : Nat) : MD5State :=
  mplP0S58 oa ob oc od d (Nat.mod (Nat.add b (Nat.lor (Nat.mod (Nat.shiftLeft t 10) 4294967296) (Nat.shiftRight t 22))) 4294967296) b c
def mplP0S57 (oa ob oc od a b c d : Nat) : MD5State :=
  mplP0T57 oa ob oc od b c d (Nat.mod (Nat.add (Nat.add (Nat.add a (Nat.xor c (Nat.lor b (Nat.sub 4294967295 d)))) 4264355552) 1819304301) 4294967296)
def mplP0T56 (oa ob oc od b c d t : Nat) : MD5State :=
  mplP0S57 oa ob oc od d (Nat.mod (Nat.add b (Nat.lor (Nat.mod (Nat.shiftLeft t 6) 4294967296) (Nat.shiftRight t 26))) 4294967296) b c
def mplP0S56 (oa ob oc od a b c d : Nat) : MD5State :=
  mplP0T56 oa ob oc od b c d (Nat.mod (Nat.add (Nat.add (Nat.add a (Nat.xor c (Nat.lor b (Nat.sub 4294967295 d)))) 1873313359) 1936026736) 4294967296)
def mplP0T55 (oa ob oc od b c d t : Nat) : MD5State :=
  mplP0S56 oa ob oc od d (Nat.mod (Nat.add b (Nat.lor (Nat.mod (Nat.shiftLeft t 21) 4294967296) (Nat.shiftRight t 11))) 4294967296) b c
def mplP0S55 (oa ob oc od a b c d : Nat) : MD5State :=
  mplP0T55 oa ob oc od b c d (Nat.mod (Nat.add (Nat.add (Nat.add a (Nat.xor c (Nat.lor b (Nat.sub 4294967295 d)))) 2240044497) 1920562021) 4294967296)
def mplP0T54 (oa ob oc od b c d t : Nat) : MD5State :=
  mplP0S55 oa ob oc od d (Nat.mod (Nat.add b (Nat.lor (Nat.mod (Nat.shiftLeft t 15) 4294967296) (Nat.shiftRight t 17))) 4294967296) b c
def mplP0S54 (oa ob oc od a b c d : Nat) : MD5State :=
  mplP0T54 oa ob oc od b c d (Nat.mod (Nat.add (Nat.add (Nat.add a (Nat.xor c (Nat.lor b (Nat.sub 4294967295 d)))) 4293915773) 1819304301) 4294967296)
def mplP0T53 (oa ob oc od b c d t : Nat) : MD5State :=
  mplP0S54 oa ob oc od d (Nat.mod (Nat.add b (Nat.lor (Nat.mod (Nat.shiftLeft t 10) 4294967296) (Nat.shiftRight t 22))) 4294967296) b c
def mplP0S53 (oa ob oc od a b c d : Nat) : MD5State :=
  mplP0T53 oa ob oc od b c d (Nat.mod (Nat.add (Nat.add (Nat.add a (Nat.xor c (Nat.lor b (Nat.sub 4294967295 d)))) 2399980690) 1936026736) 4294967296)
def mplP0T52 (oa ob oc od b c d t : Nat) : MD5State :=
  mplP0S53 oa ob oc od d (Nat.mod (Nat.add b (Nat.lor (Nat.mod (Nat.shiftLeft t 6) 4294967296) (Nat.shiftRight t 26))) 4294967296) b c
def mplP0S52 (oa ob oc od a b c d : Nat) : MD5State :=
  mplP0T52 oa ob oc od b c d (Nat.mod (Nat.add (Nat.add (Nat.add a (Nat.xor c (Nat.lor b (Nat.sub 4294967295 d)))) 1700485571) 1634562165) 4294967296)
def mplP0T51 (oa ob oc od b c d t : Nat) : MD5State :=
  mplP0S52 oa ob oc od d (Nat.mod (Nat.add b (Nat.lor (Nat.mod (Nat.shiftLeft t 21) 4294967296) (Nat.shiftRight t 11))) 4294967296) b c
def mplP0S51 (oa ob oc od a b c d : Nat) : MD5State :=
  mplP0T51 oa ob oc od b c d (Nat.mod (Nat.add (Nat.add (Nat.add a (Nat.xor c (Nat.lor b (Nat.sub 4294967295 d)))) 4237533241) 1819304301) 4294967296)
def mplP0T50 (oa ob oc od b c d t : Nat) : MD5State :=
  mplP0S51 oa ob oc od d (Nat.mod (Nat.add b (Nat.lor (Nat.mod (Nat.shiftLeft t 15) 4294967296) (Nat.shiftRight t 17))) 4294967296) b c
def mplP0S50 (oa ob oc od a b c d : Nat) : MD5State :=
  mplP0T50 oa ob oc od b c d (Nat.mod (Nat.add (Nat.add (Nat.add a (Nat.xor c (Nat.lor b (Nat.sub 4294967295 d)))) 2878612391) 1886745209) 4294967296)
def mplP0T49 (oa ob oc od b c d t : Nat) : MD5State :=
  mplP0S50 oa ob oc od d (Nat.mod (Nat.add b (Nat.lor (Nat.mod (Nat.shiftLeft t 10) 4294967296) (Nat.shiftRight t 22))) 4294967296) b c
def mplP0S49 (oa ob oc od a b c d : Nat) : MD5State :=
  mplP0T49 oa ob oc od b c d (Nat.mod (Nat.add (Nat.add (Nat.add a (Nat.xor c (Nat.lor b (Nat.sub 4294967295 d)))) 1126891415) 1634562165) 4294967296)
def mplP0T48 (oa ob oc od b c d t : Nat) : MD5State :=
  mplP0S49 oa ob oc od d (Nat.mod (Nat.add b (Nat.lor (Nat.mod (Nat.shiftLeft t 6) 4294967296) (Nat.shiftRight t 26))) 4294967296) b c
def mplP0S48 (oa ob oc od a b c d : Nat) : MD5State :=
  mplP0T48 oa ob oc od b c d (Nat.mod (Nat.add (Nat.add (Nat.add a (Nat.xor c (Nat.lor b (Nat.sub 4294967295 d)))) 4096336452) 1819304301) 4294967296)
def mplP0T47 (oa ob oc od b c d t : Nat) : MD5State :=
  mplP0S48 oa ob oc od d (Nat.mod (Nat.add b (Nat.lor (Nat.mod (Nat.shiftLeft t 23) 4294967296) (Nat.shiftRight t 9))) 4294967296) b c
def mplP0S47 (oa ob oc od a b c d : Nat) : MD5State :=
  mplP0T47 oa ob oc od b c d (Nat.mod (Nat.add (Nat.add (Nat.add a (Nat.xor (Nat.xor b c) d)) 3299628645) 1634562165) 4294967296)
def mplP0T46 (oa ob oc od b c d t : Nat) : MD5State :=
  mplP0S47 oa ob oc od d (Nat.mod (Nat.add b (Nat.lor (Nat.mod (Nat.shiftLeft t 16) 4294967296) (Nat.shiftRight t 16))) 4294967296) b c
def mplP0S46 (oa ob oc od a b c d : Nat) : MD5State :=
  mplP0T46 oa ob oc od b c d (Nat.mod (Nat.add (Nat.add (Nat.add a (Nat.xor (Nat.xor b c) d)) 530742520) 1819304301) 4294967296)
def mplP0T45 (oa ob oc od b c d t : Nat) : MD5State :=
  mplP0S46 oa ob oc od d (Nat.mod (Nat.add b (Nat.lor (Nat.mod (Nat.shiftLeft t 11) 4294967296) (Nat.shiftRight t 21))) 4294967296) b c
def mplP0S45 (oa ob oc od a b c d : Nat) : MD5State :=
  mplP0T45 oa ob oc od b c d (Nat.mod (Nat.add (Nat.add (Nat.add a (Nat.xor (Nat.xor b c) d)) 3873151461) 1634562165) 4294967296)
def mplP0T44 (oa ob oc od b c d t : Nat) : MD5State :=
  mplP0S45 oa ob oc od d (Nat.mod (Nat.add b (Nat.lor (Nat.mod (Nat.shiftLeft t 4) 4294967296) (Nat.shiftRight t 28))) 4294967296) b c
def mplP0S44 (oa ob oc od a b c d : Nat) : MD5State :=
  mplP0T44 oa ob oc od b c d (Nat.mod (Nat.add (Nat.add (Nat.add a (Nat.xor (Nat.xor b c) d)) 3654602809) 1886745209) 4294967296)
def mplP0T43 (oa ob oc od b c d t : Nat) : MD5State :=
  mplP0S44 oa ob oc od d (Nat.mod (Nat.add b (Nat.lor (Nat.mod (Nat.shiftLeft t 23) 4294967296) (Nat.shiftRight t 9))) 4294967296) b c
def mplP0S43 (oa ob oc od a b c d : Nat) : MD5State :=
  mplP0T43 oa ob oc od b c d (Nat.mod (Nat.add (Nat.add (Nat.add a (Nat.xor (Nat.xor b c) d)) 76029189) 1920562021) 4294967296)
def mplP0T42 (oa ob oc od b c d t : Nat) : MD5State :=
  mplP0S43 oa ob oc od d (Nat.mod (Nat.add b (Nat.lor (Nat.mod (Nat.shiftLeft t 16) 4294967296) (Nat.shiftRight t 16))) 4294967296) b c
def mplP0S42 (oa ob oc od a b c d : Nat) : MD5State :=
  mplP0T42 oa ob oc od b c d (Nat.mod (Nat.add (Nat.add (Nat.add a (Nat.xor (Nat.xor b c) d)) 3572445317) 1936026736) 4294967296)
def mplP0T41 (oa ob oc od b c d t : Nat) : MD5State :=
  mplP0S42 oa ob oc od d (Nat.mod (Nat.add b (Nat.lor (Nat.mod (Nat.shiftLeft t 11) 4294967296) (Nat.shiftRight t 21))) 4294967296) b c
def mplP0S41 (oa ob oc od a b c d : Nat) : MD5State :=
  mplP0T41 oa ob oc od b c d (Nat.mod (Nat.add (Nat.add (Nat.add a (Nat.xor (Nat.xor b c) d)) 3936430074) 1819304301) 4294967296)
def mplP0T40 (oa ob oc od b c d t : Nat) : MD5State :=
  mplP0S41 oa ob oc od d (Nat.mod (Nat.add b (Nat.lor (Nat.mod (Nat.shiftLeft t 4) 4294967296) (Nat.shiftRight t 28))) 4294967296) b c
def mplP0S40 (oa ob oc od a b c d : Nat) : MD5State :=
  mplP0T40 oa ob oc od b c d (Nat.mod (Nat.add (Nat.add (Nat.add a (Nat.xor (Nat.xor b c) d)) 681279174) 1936026736) 4294967296)
def mplP0T39 (oa ob oc od b c d t : Nat) : MD5State :=
  mplP0S40 oa ob oc od d (Nat.mod (Nat.add b (Nat.lor (Nat.mod (Nat.shiftLeft t 23) 4294967296) (Nat.shiftRight t 9))) 4294967296) b c
def mplP0S39 (oa ob oc od a b c d : Nat) : MD5State :=
  mplP0T39 oa ob oc od b c d (Nat.mod (Nat.add (Nat.add (Nat.add a (Nat.xor (Nat.xor b c) d)) 3200236656) 1819304301) 4294967296)
def mplP0T38 (oa ob oc od b c d t : Nat) : MD5State :=
  mplP0S39 oa ob oc od d (Nat.mod (Nat.add b (Nat.lor (Nat.mod (Nat.shiftLeft t 16) 4294967296) (Nat.shiftRight t 16))) 4294967296) b c
def mplP0S38 (oa ob oc od a b c d : Nat) : MD5State :=
  mplP0T38 oa ob oc od b c d (Nat.mod (Nat.add (Nat.add (Nat.add a (Nat.xor (Nat.xor b c) d)) 4139469664) 1634562165) 4294967296)
def mplP0T37 (oa ob oc od b c d t : Nat) : MD5State :=
  mplP0S38 oa ob oc od d (Nat.mod (Nat.add b (Nat.lor (Nat.mod (Nat.shiftLeft t 11) 4294967296) (Nat.shiftRight t 21))) 4294967296) b c
def mplP0S37 (oa ob oc od a b c d : Nat) : MD5State :=
  mplP0T37 oa ob oc od b c d (Nat.mod (Nat.add (Nat.add (Nat.add a (Nat.xor (Nat.xor b c) d)) 1272893353) 1886745209) 4294967296)
def mplP0T36 (oa ob oc od b c d t : Nat) : MD5State :=
  mplP0S37 oa ob oc od d (Nat.mod (Nat.add b (Nat.lor (Nat.mod (Nat.shiftLeft t 4) 4294967296) (Nat.shiftRight t 28))) 4294967296) b c
def mplP0S36 (oa ob oc od a b c d : Nat) : MD5State :=
  mplP0T36 oa ob oc od b c d (Nat.mod (Nat.add (Nat.add (Nat.add a (Nat.xor (Nat.xor b c) d)) 2763975236) 1920562021) 4294967296)
def mplP0T35 (oa ob oc od b c d t : Nat) : MD5State :=
  mplP0S36 oa ob oc od d (Nat.mod (Nat.add b (Nat.lor (Nat.mod (Nat.shiftLeft t 23) 4294967296) (Nat.shiftRight t 9))) 4294967296) b c
def mplP0S35 (oa ob oc od a b c d : Nat) : MD5State :=
  mplP0T35 oa ob oc od b c d (Nat.mod (Nat.add (Nat.add (Nat.add a (Nat.xor (Nat.xor b c) d)) 4259657740) 1886745209) 4294967296)
def mplP0T34 (oa ob oc od b c d t : Nat) : MD5State :=
  mplP0S35 oa ob oc od d (Nat.mod (Nat.add b (Nat.lor (Nat.mod (Nat.shiftLeft t 16) 4294967296) (Nat.shiftRight t 16))) 4294967296) b c
def mplP0S34 (oa ob oc od a b c d : Nat) : MD5State :=
  mplP0T34 oa ob oc od b c d (Nat.mod (Nat.add (Nat.add (Nat.add a (Nat.xor (Nat.xor b c) d)) 1839030562) 1920562021) 4294967296)
def mplP0T33 (oa ob oc od b c d t : Nat) : MD5State :=
  mplP0S34 oa ob oc od d (Nat.mod (Nat.add b (Nat.lor (Nat.mod (Nat.shiftLeft t 11) 4294967296) (Nat.shiftRight t 21))) 4294967296) b c
def mplP0S33 (oa ob oc od a b c d : Nat) : MD5State :=
  mplP0T33 oa ob oc od b c d (Nat.mod (Nat.add (Nat.add (Nat.add a (Nat.xor (Nat.xor b c) d)) 2272392833) 1936026736) 4294967296)
def mplP0T32 (oa ob oc od b c d t : Nat) : MD5State :=
  mplP0S33 oa ob oc od d (Nat.mod (Nat.add b (Nat.lor (Nat.mod (Nat.shiftLeft t 4) 4294967296) (Nat.shiftRight t 28))) 4294967296) b c
def mplP0S32 (oa ob oc od a b c d : Nat) : MD5State :=
  mplP0T32 oa ob oc od b c d (Nat.mod (Nat.add (Nat.add (Nat.add a (Nat.xor (Nat.xor b c) d)) 4294588738) 1819304301) 4294967296)
def mplP0T31 (oa ob oc od b c d t : Nat) : MD5State :=
  mplP0S32 oa ob oc od d (Nat.mod (Nat.add b (Nat.lor (Nat.mod (Nat.shiftLeft t 20) 4294967296) (Nat.shiftRight t 12))) 4294967296) b c
def mplP0S31 (oa ob oc od a b c d : Nat) : MD5State :=
  mplP0T31 oa ob oc od b c d (Nat.mod (Nat.add (Nat.add (Nat.add a (Nat.lor (Nat.land d b) (Nat.land (Nat.sub 4294967295 d) c))) 2368359562) 1634562165) 4294967296)
def mplP0T30 (oa ob oc od b c d t : Nat) : MD5State :=
  mplP0S31 oa ob oc od d (Nat.mod (Nat.add b (Nat.lor (Nat.mod (Nat.shiftLeft t 14) 4294967296) (Nat.shiftRight t 18))) 4294967296) b c
def mplP0S30 (oa ob oc od a b c d : Nat) : MD5State :=
  mplP0T30 oa ob oc od b c d (Nat.mod (Nat.add (Nat.add (Nat.add a (Nat.lor (Nat.land d b) (Nat.land (Nat.sub 4294967295 d) c))) 1735328473) 1634562165) 4294967296)
def mplP0T29 (oa ob oc od b c d t : Nat) : MD5State :=
  mplP0S30 oa ob oc od d (Nat.mod (Nat.add b (Nat.lor (Nat.mod (Nat.shiftLeft t 9) 4294967296) (Nat.shiftRight t 23))) 4294967296) b c
def mplP0S29 (oa ob oc od a b c d : Nat) : MD5State :=
  mplP0T29 oa ob oc od b c d (Nat.mod (Nat.add (Nat.add (Nat.add a (Nat.lor (Nat.land d b) (Nat.land (Nat.sub 4294967295 d) c))) 4243563512) 1634562165) 4294967296)
def mplP0T28 (oa ob oc od b c d t : Nat) : MD5State :=
  mplP0S29 oa ob oc od d (Nat.mod (Nat.add b (Nat.lor (Nat.mod (Nat.shiftLeft t 5) 4294967296) (Nat.shiftRight t 27))) 4294967296) b c
def mplP0S28 (oa ob oc od a b c d : Nat) : MD5State :=
  mplP0T28 oa ob oc od b c d (Nat.mod (Nat.add (Nat.add (Nat.add a (Nat.lor (Nat.land d b) (Nat.land (Nat.sub 4294967295 d) c))) 2850285829) 1936026736) 4294967296)
def mplP0T27 (oa ob oc od b c d t : Nat) : MD5State :=
  mplP0S28 oa ob oc od d (Nat.mod (Nat.add b (Nat.lor (Nat.mod (Nat.shiftLeft t 20) 4294967296) (Nat.shiftRight t 12))) 4294967296) b c
def mplP0S27 (oa ob oc od a b c d : Nat) : MD5State :=
  mplP0T27 oa ob oc od b c d (Nat.mod (Nat.add (Nat.add (Nat.add a (Nat.lor (Nat.land d b) (Nat.land (Nat.sub 4294967295 d) c))) 1163531501) 1936026736) 4294967296)
def mplP0T26 (oa ob oc od b c d t : Nat) : MD5State :=
  mplP0S27 oa ob oc od d (Nat.mod (Nat.add b (Nat.lor (Nat.mod (Nat.shiftLeft t 14) 4294967296) (Nat.shiftRight t 18))) 4294967296) b c
def mplP0S26 (oa ob oc od a b c d : Nat) : MD5State :=
  mplP0T26 oa ob oc od b c d (Nat.mod (Nat.add (Nat.add (Nat.add a (Nat.lor (Nat.land d b) (Nat.land (Nat.sub 4294967295 d) c))) 4107603335) 1936026736) 4294967296)
def mplP0T25 (oa ob oc od b c d t : Nat) : MD5State :=
  mplP0S26 oa ob oc od d (Nat.mod (Nat.add b (Nat.lor (Nat.mod (Nat.shiftLeft t 9) 4294967296) (Nat.shiftRight t 23))) 4294967296) b c
def mplP0S25 (oa ob oc od a b c d : Nat) : MD5State :=
  mplP0T25 oa ob oc od b c d (Nat.mod (Nat.add (Nat.add (Nat.add a (Nat.lor (Nat.land d b) (Nat.land (Nat.sub 4294967295 d) c))) 3275163606) 1886745209) 4294967296)
def mplP0T24 (oa ob oc od b c d t : Nat) : MD5State :=
  mplP0S25 oa ob oc od d (Nat.mod (Nat.add b (Nat.lor (Nat.mod (Nat.shiftLeft t 5) 4294967296) (Nat.shiftRight t 27))) 4294967296) b c
def mplP0S24 (oa ob oc od a b c d : Nat) : MD5State :=
  mplP0T24 oa ob oc od b c d (Nat.mod (Nat.add (Nat.add (Nat.add a (Nat.lor (Nat.land d b) (Nat.land (Nat.sub 4294967295 d) c))) 568446438) 1886745209) 4294967296)
def mplP0T23 (oa ob oc od b c d t : Nat) : MD5State :=
  mplP0S24 oa ob oc od d (Nat.mod (Nat.add b (Nat.lor (Nat.mod (Nat.shiftLeft t 20) 4294967296) (Nat.shiftRight t 12))) 4294967296) b c
def mplP0S23 (oa ob oc od a b c d : Nat) : MD5State :=
  mplP0T23 oa ob oc od b c d (Nat.mod (Nat.add (Nat.add (Nat.add a (Nat.lor (Nat.land d b) (Nat.land (Nat.sub 4294967295 d) c))) 3889429448) 1886745209) 4294967296)
def mplP0T22 (oa ob oc od b c d t : Nat) : MD5State :=
  mplP0S23 oa ob oc od d (Nat.mod (Nat.add b (Nat.lor (Nat.mod (Nat.shiftLeft t 14) 4294967296) (Nat.shiftRight t 18))) 4294967296) b c
def mplP0S22 (oa ob oc od a b c d : Nat) : MD5State :=
  mplP0T22 oa ob oc od b c d (Nat.mod (Nat.add (Nat.add (Nat.add a (Nat.lor (Nat.land d b) (Nat.land (Nat.sub 4294967295 d) c))) 3634488961) 1819304301) 4294967296)
def mplP0T21 (oa ob oc od b c d t : Nat) : MD5State :=
  mplP0S22 oa ob oc od d (Nat.mod (Nat.add b (Nat.lor (Nat.mod (Nat.shiftLeft t 9) 4294967296) (Nat.shiftRight t 23))) 4294967296) b c
def mplP0S21 (oa ob oc od a b c d : Nat) : MD5State :=
  mplP0T21 oa ob oc od b c d (Nat.mod (Nat.add (Nat.add (Nat.add a (Nat.lor (Nat.land d b) (Nat.land (Nat.sub 4294967295 d) c))) 38016083) 1819304301) 4294967296)
def mplP0T20 (oa ob oc od b c d t : Nat) : MD5State :=
  mplP0S21 oa ob oc od d (Nat.mod (Nat.add b (Nat.lor (Nat.mod (Nat.shiftLeft t 5) 4294967296) (Nat.shiftRight t 27))) 4294967296) b c
def mplP0S20 (oa ob oc od a b c d : Nat) : MD5State :=
  mplP0T20 oa ob oc od b c d (Nat.mod (Nat.add (Nat.add (Nat.add a (Nat.lor (Nat.land d b) (Nat.land (Nat.sub 4294967295 d) c))) 3593408605) 1819304301) 4294967296)
def mplP0T19 (oa ob oc od b c d t : Nat) : MD5State :=
  mplP0S20 oa ob oc od d (Nat.mod (Nat.add b (Nat.lor (Nat.mod (Nat.shiftLeft t 20) 4294967296) (Nat.shiftRight t 12))) 4294967296) b c
def mplP0S19 (oa ob oc od a b c d : Nat) : MD5State :=
  mplP0T19 oa ob oc od b c d (Nat.mod (Nat.add (Nat.add (Nat.add a (Nat.lor (Nat.land d b) (Nat.land (Nat.sub 4294967295 d) c))) 3921069994) 1819304301) 4294967296)
def mplP0T18 (oa ob oc od b c d t : Nat) : MD5State :=
  mplP0S19 oa ob oc od d (Nat.mod (Nat.add b (Nat.lor (Nat.mod (Nat.shiftLeft t 14) 4294967296) (Nat.shiftRight t 18))) 4294967296) b c
def mplP0S18 (oa ob oc od a b c d : Nat) : MD5State :=
  mplP0T18 oa ob oc od b c d (Nat.mod (Nat.add (Nat.add (Nat.add a (Nat.lor (Nat.land d b) (Nat.land (Nat.sub 4294967295 d) c))) 643717713) 1920562021) 4294967296)
def mplP0T17 (oa ob oc od b c d t : Nat) : MD5State :=
  mplP0S18 oa ob oc od d (Nat.mod (Nat.add b (Nat.lor (Nat.mod (Nat.shiftLeft t 9) 4294967296) (Nat.shiftRight t 23))) 4294967296) b c
def mplP0S17 (oa ob oc od a b c d : Nat) : MD5State :=
  mplP0T17 oa ob oc od b c d (Nat.mod (Nat.add (Nat.add (Nat.add a (Nat.lor (Nat.land d b) (Nat.land (Nat.sub 4294967295 d) c))) 3225465664) 1920562021) 4294967296)
def mplP0T16 (oa ob oc od b c d t : Nat) : MD5State :=
  mplP0S17 oa ob oc od d (Nat.mod (Nat.add b (Nat.lor (Nat.mod (Nat.shiftLeft t 5) 4294967296) (Nat.shiftRight t 27))) 4294967296) b c
def mplP0S16 (oa ob oc od a b c d : Nat) : MD5State :=
  mplP0T16 oa ob oc od b c d (Nat.mod (Nat.add (Nat.add (Nat.add a (Nat.lor (Nat.land d b) (Nat.land (Nat.sub 4294967295 d) c))) 4129170786) 1920562021) 4294967296)
def mplP0T15 (oa ob oc od b c d t : Nat) : MD5State :=
  mplP0S16 oa ob oc od d (Nat.mod (Nat.add b (Nat.lor (Nat.mod (Nat.shiftLeft t 22) 4294967296) (Nat.shiftRight t 10))) 4294967296) b c
def mplP0S15 (oa ob oc od a b c d : Nat) : MD5State :=
  mplP0T15 oa ob oc od b c d (Nat.mod (Nat.add (Nat.add (Nat.add a (Nat.lor (Nat.land b c) (Nat.land (Nat.sub 4294967295 b) d))) 1236535329) 1819304301) 4294967296)
def mplP0T14 (oa ob oc od b c d t : Nat) : MD5State :=
  mplP0S15 oa ob oc od d (Nat.mod (Nat.add b (Nat.lor (Nat.mod (Nat.shiftLeft t 17) 4294967296) (Nat.shiftRight t 15))) 4294967296) b c
def mplP0S14 (oa ob oc od a b c d : Nat) : MD5State :=
  mplP0T14 oa ob oc od b c d (Nat.mod (Nat.add (Nat.add (Nat.add a (Nat.lor (Nat.land b c) (Nat.land (Nat.sub 4294967295 b) d))) 2792965006) 1886745209) 4294967296)
def mplP0T13 (oa ob oc od b c d t : Nat) : MD5State :=
  mplP0S14 oa ob oc od d (Nat.mod (Nat.add b (Nat.lor (Nat.mod (Nat.shiftLeft t 12) 4294967296) (Nat.shiftRight t 20))) 4294967296) b c
def mplP0S13 (oa ob oc od a b c d : Nat) : MD5State :=
  mplP0T13 oa ob oc od b c d (Nat.mod (Nat.add (Nat.add (Nat.add a (Nat.lor (Nat.land b c) (Nat.land (Nat.sub 4294967295 b) d))) 4254626195) 1936026736) 4294967296)
def mplP0T12 (oa ob oc od b c d t : Nat) : MD5State :=
  mplP0S13 oa ob oc od d (Nat.mod (Nat.add b (Nat.lor (Nat.mod (Nat.shiftLeft t 7) 4294967296) (Nat.shiftRight t 25))) 4294967296) b c
def mplP0S12 (oa ob oc od a b c d : Nat) : MD5State :=
  mplP0T12 oa ob oc od b c d (Nat.mod (Nat.add (Nat.add (Nat.add a (Nat.lor (Nat.land b c) (Nat.land (Nat.sub 4294967295 b) d))) 1804603682) 1634562165) 4294967296)
def mplP0T11 (oa ob oc od b c d t : Nat) : MD5State :=
  mplP0S12 oa ob oc od d (Nat.mod (Nat.add b (Nat.lor (Nat.mod (Nat.shiftLeft t 22) 4294967296) (Nat.shiftRight t 10))) 4294967296) b c
def mplP0S11 (oa ob oc od a b c d : Nat) : MD5State :=
  mplP0T11 oa ob oc od b c d (Nat.mod (Nat.add (Nat.add (Nat.add a (Nat.lor (Nat.land b c) (Nat.land (Nat.sub 4294967295 b) d))) 2304563134) 1920562021) 4294967296)
def mplP0T10 (oa ob oc od b c d t : Nat) : MD5State :=
  mplP0S11 oa ob oc od d (Nat.mod (Nat.add b (Nat.lor (Nat.mod (Nat.shiftLeft t 17) 4294967296) (Nat.shiftRight t 15))) 4294967296) b c
def mplP0S10 (oa ob oc od a b c d : Nat) : MD5State :=
  mplP0T10 oa ob oc od b c d (Nat.mod (Nat.add (Nat.add (Nat.add a (Nat.lor (Nat.land b c) (Nat.land (Nat.sub 4294967295 b) d))) 4294925233) 1819304301) 4294967296)
def mplP0T9 (oa ob oc od b c d t : Nat) : MD5State :=
  mplP0S10 oa ob oc od d (Nat.mod (Nat.add b (Nat.lor (Nat.mod (Nat.shiftLeft t 12) 4294967296) (Nat.shiftRight t 20))) 4294967296) b c
def mplP0S9 (oa ob oc od a b c d : Nat) : MD5State :=
  mplP0T9 oa ob oc od b c d (Nat.mod (Nat.add (Nat.add (Nat.add a (Nat.lor (Nat.land b c) (Nat.land (Nat.sub 4294967295 b) d))) 2336552879) 1886745209) 4294967296)
def mplP0T8 (oa ob oc od b c d t : Nat) : MD5State :=
  mplP0S9 oa ob oc od d (Nat.mod (Nat.add b (Nat.lor (Nat.mod (Nat.shiftLeft t 7) 4294967296) (Nat.shiftRight t 25))) 4294967296) b c
def mplP0S8 (oa ob oc od a b c d : Nat) : MD5State :=
  mplP0T8 oa ob oc od b c d (Nat.mod (Nat.add (Nat.add (Nat.add a (Nat.lor (Nat.land b c) (Nat.land (Nat.sub 4294967295 b) d))) 1770035416) 1936026736) 4294967296)
def mplP0T7 (oa ob oc od b c d t : Nat) : MD5State :=
  mplP0S8 oa ob oc od d (Nat.mod (Nat.add b (Nat.lor (Nat.mod (Nat.shiftLeft t 22) 4294967296) (Nat.shiftRight t 10))) 4294967296) b c
def mplP0S7 (oa ob oc od a b c d : Nat) : MD5State :=
  mplP0T7 oa ob oc od b c d (Nat.mod (Nat.add (Nat.add (Nat.add a (Nat.lor (Nat.land b c) (Nat.land (Nat.sub 4294967295 b) d))) 4249261313) 1634562165) 4294967296)
def mplP0T6 (oa ob oc od b c d t : Nat) : MD5State :=
  mplP0S7 oa ob oc od d (Nat.mod (Nat.add b (Nat.lor (Nat.mod (Nat.shiftLeft t 17) 4294967296) (Nat.shiftRight t 15))) 4294967296) b c
def mplP0S6 (oa ob oc od a b c d : Nat) : MD5State :=
  mplP0T6 oa ob oc od b c d (Nat.mod (Nat.add (Nat.add (Nat.add a (Nat.lor (Nat.land b c) (Nat.land (Nat.sub 4294967295 b) d))) 2821735955) 1920562021) 4294967296)
def mplP0T5 (oa ob oc od b c d t : Nat) : MD5State :=
  mplP0S6 oa ob oc od d (Nat.mod (Nat.add b (Nat.lor (Nat.mod (Nat.shiftLeft t 12) 4294967296) (Nat.shiftRight t 20))) 4294967296) b c
def mplP0S5 (oa ob oc od a b c d : Nat) : MD5State :=
  mplP0T5 oa ob oc od b c d (Nat.mod (Nat.add (Nat.add (Nat.add a (Nat.lor (Nat.land b c) (Nat.land (Nat.sub 4294967295 b) d))) 1200080426) 1819304301) 4294967296)
def mplP0T4 (oa ob oc od b c d t : Nat) : MD5State :=
  mplP0S5 oa ob oc od d (Nat.mod (Nat.add b (Nat.lor (Nat.mod (Nat.shiftLeft t 7) 4294967296) (Nat.shiftRight t 25))) 4294967296) b c
def mplP0S4 (oa ob oc od a b c d : Nat) : MD5State :=
  mplP0T4 oa ob oc od b c d (Nat.mod (Nat.add (Nat.add (Nat.add a (Nat.lor (Nat.land b c) (Nat.land (Nat.sub 4294967295 b) d))) 4118548399) 1886745209) 4294967296)
def mplP0T3 (oa ob oc od b c d t : Nat) : MD5State :=
  mplP0S4 oa ob oc od d (Nat.mod (Nat.add b (Nat.lor (Nat.mod (Nat.shiftLeft t 22) 4294967296) (Nat.shiftRight t 10))) 4294967296) b c
def mplP0S3 (oa ob oc od a b c d : Nat) : MD5State :=
  mplP0T3 oa ob oc od b c d (Nat.mod (Nat.add (Nat.add (Nat.add a (Nat.lor (Nat.land b c) (Nat.land (Nat.sub 4294967295 b) d))) 3250441966) 1936026736) 4294967296)
def mplP0T2 (oa ob oc od b c d t : Nat) : MD5State :=
  mplP0S3 oa ob oc od d (Nat.mod (Nat.add b (Nat.lor (Nat.mod (Nat.shiftLeft t 17) 4294967296) (Nat.shiftRight t 15))) 4294967296) b c
def mplP0S2 (oa ob oc od a b c d : Nat) : MD5State :=
  mplP0T2 oa ob oc od b c d (Nat.mod (Nat.add (Nat.add (Nat.add a (Nat.lor (Nat.land b c) (Nat.land (Nat.sub 4294967295 b) d))) 606105819) 1634562165) 4294967296)
def mplP0T1 (oa ob oc od b c d t : Nat) : MD5State :=
  mplP0S2 oa ob oc od d (Nat.mod (Nat.add b (Nat.lor (Nat.mod (Nat.shiftLeft t 12) 4294967296) (Nat.shiftRight t 20))) 4294967296) b c
def mplP0S1 (oa ob oc od a b c d : Nat) : MD5State :=
  mplP0T1 oa ob oc od b c d (Nat.mod (Nat.add (Nat.add (Nat.add a (Nat.lor (Nat.land b c) (Nat.land (Nat.sub 4294967295 b) d))) 3905402710) 1920562021) 4294967296)
def mplP0T0 (oa ob oc od b c d t : Nat) : MD5State :=
  mplP0S1 oa ob oc od d (Nat.mod (Nat.add b (Nat.lor (Nat.mod (Nat.shiftLeft t 7) 4294967296) (Nat.shiftRight t 25))) 4294967296) b c
def mplP0S0 (oa ob oc od a b c d : Nat) : MD5State :=
  mplP0T0 oa ob oc od b c d (Nat.mod (Nat.add (Nat.add (Nat.add a (Nat.lor (Nat.land b c) (Nat.land (Nat.sub 4294967295 b) d))) 3614090360) 1819304301) 4294967296)
def mplP0C (st : MD5State) : MD5State :=
  mplP0S0 st.a st.b st.c st.d st.a st.b st.c st.d

def mplP1S64 (oa ob oc od a b c d : Nat) : MD5State :=
  ⟨Nat.mod (Nat.add oa a) 4294967296, Nat.mod (Nat.add ob b) 4294967296, Nat.mod (Nat.add oc c) 4294967296, Nat.mod (Nat.add od d) 4294967296⟩
def mplP1T63 (oa ob oc od b c d t : Nat) : MD5State :=
  mplP1S64 oa ob oc od d (Nat.mod (Nat.add b (Nat.lor (Nat.mod (Nat.shiftLeft t 21) 4294967296) (Nat.shiftRight t 11))) 4294967296) b c
def mplP1S63 (oa ob oc od a b c d : Nat) : MD5State :=
  mplP1T63 oa ob oc od b c d (Nat.mod (Nat.add (Nat.add (Nat.add a (Nat.xor c (Nat.lor b (Nat.sub 4294967295 d)))) 3951481745) 1819304301) 4294967296)
def mplP1T62 (oa ob oc od b c d t : Nat) : MD5State :=
  mplP1S63 oa ob oc od d (Nat.mod (Nat.add b (Nat.lor (Nat.mod (Nat.shiftLeft t 15) 4294967296) (Nat.shiftRight t 17))) 4294967296) b c
def mplP1S62 (oa ob oc od a b c d : Nat) : MD5State :=
  mplP1T62 oa ob oc od b c d (Nat.mod (Nat.add (Nat.add (Nat.add a (Nat.xor c (Nat.lor b (Nat.sub 4294967295 d)))) 718787259) 1936026736) 4294967296)
def mplP1T61 (oa ob oc od b c d t : Nat) : MD5State :=
  mplP1S62 oa ob oc od d (Nat.mod (Nat.add b (Nat.lor (Nat.mod (Nat.shiftLeft t 10) 4294967296) (Nat.shiftRight t 22))) 4294967296) b c
def mplP1S61 (oa ob oc od a b c d : Nat) : MD5State :=
  mplP1T61 oa ob oc od b c d (Nat.mod (Nat.add (Nat.add (Nat.add a (Nat.xor c (Nat.lor b (Nat.sub 4294967295 d)))) 3174756917) 1634562165) 4294967296)
def mplP1T60 (oa ob oc od b c d t : Nat) : MD5State :=
  mplP1S61 oa ob oc od d (Nat.mod (Nat.add b (Nat.lor (Nat.mod (Nat.shiftLeft t 6) 4294967296) (Nat.shiftRight t 26))) 4294967296) b c
def mplP1S60 (oa ob oc od a b c d : Nat) : MD5State :=
  mplP1T60 oa ob oc od b c d (Nat.mod (Nat.add (Nat.add (Nat.add a (Nat.xor c (Nat.lor b (Nat.sub 4294967295 d)))) 4149444226) 1819304301) 4294967296)
def mplP1T59 (oa ob oc od b c d t : Nat) : MD5State :=
  mplP1S60 oa ob oc od d (Nat.mod (Nat.add b (Nat.lor (Nat.mod (Nat.shiftLeft t 21) 4294967296) (Nat.shiftRight t 11))) 4294967296) b c
def mplP1S59 (oa ob oc od a b c d : Nat) : MD5State :=
  mplP1T59 oa ob oc od b c d (Nat.mod (Nat.add (Nat.add (Nat.add a (Nat.xor c (Nat.lor b (Nat.sub 4294967295 d)))) 1309151649) 1886745209) 4294967296)
def mplP1T58 (oa ob oc od b c d t : Nat) : MD5State :=
  mplP1S59 oa ob oc od d (Nat.mod (Nat.add b (Nat.lor (Nat.mod (Nat.shiftLeft t 15) 4294967296) (Nat.shiftRight t 17))) 4294967296) b c
def mplP1S58 (oa ob oc od a b c d : Nat) : MD5State :=
  mplP1T58 oa ob oc od b c d (Nat.mod (Nat.add (Nat.add (Nat.add a (Nat.xor c (Nat.lor b (Nat.sub 4294967295 d)))) 2734768916) 1634562165) 4294967296)
def mplP1T57 (oa ob oc od b c d t : Nat) : MD5State :=
  mplP1S58 oa ob oc od d (Nat.mod (Nat.add b (Nat.lor (Nat.mod (Nat.shiftLeft t 10) 4294967296) (Nat.shiftRight t 22))) 4294967296) b c
def mplP1S57 (oa ob oc od a b c d : Nat) : MD5State :=
  mplP1T57 oa ob oc od b c d (Nat.mod (Nat.add (Nat.add (Nat.add a (Nat.xor c (Nat.lor b (Nat.sub 4294967295 d)))) 4264355552) 1920562021) 4294967296)
def mplP1T56 (oa ob oc od b c d t : Nat) : MD5State :=
  mplP1S57 oa ob oc od d (Nat.mod (Nat.add b (Nat.lor (Nat.mod (Nat.shiftLeft t 6) 4294967296) (Nat.shiftRight t 26))) 4294967296) b c
def mplP1S56 (oa ob oc od a b c d : Nat) : MD5State :=
  mplP1T56 oa ob oc od b c d (Nat.mod (Nat.add (Nat.add (Nat.add a (Nat.xor c (Nat.lor b (Nat.sub 4294967295 d)))) 1873313359) 1886745209) 4294967296)
def mplP1T55 (oa ob oc od b c d t : Nat) : MD5State :=
  mplP1S56 oa ob oc od d (Nat.mod (Nat.add b (Nat.lor (Nat.mod (Nat.shiftLeft t 21) 4294967296) (Nat.shiftRight t 11))) 4294967296) b c
def mplP1S55 (oa ob oc od a b c d : Nat) : MD5State :=
  mplP1T55 oa ob oc od b c d (Nat.mod (Nat.add (Nat.add (Nat.add a (Nat.xor c (Nat.lor b (Nat.sub 4294967295 d)))) 2240044497) 1634562165) 4294967296)
def mplP1T54 (oa ob oc od b c d t : Nat) : MD5State :=
  mplP1S55 oa ob oc od d (Nat.mod (Nat.add b (Nat.lor (Nat.mod (Nat.shiftLeft t 15) 4294967296) (Nat.shiftRight t 17))) 4294967296) b c
def mplP1S54 (oa ob oc od a b c d : Nat) : MD5State :=
  mplP1T54 oa ob oc od b c d (Nat.mod (Nat.add (Nat.add (Nat.add a (Nat.xor c (Nat.lor b (Nat.sub 4294967295 d)))) 4293915773) 1920562021) 4294967296)
def mplP1T53 (oa ob oc od b c d t : Nat) : MD5State :=
  mplP1S54 oa ob oc od d (Nat.mod (Nat.add b (Nat.lor (Nat.mod (Nat.shiftLeft t 10) 4294967296) (Nat.shiftRight t 22))) 4294967296) b c
def mplP1S53 (oa ob oc od a b c d : Nat) : MD5State :=
  mplP1T53 oa ob oc od b c d (Nat.mod (Nat.add (Nat.add (Nat.add a (Nat.xor c (Nat.lor b (Nat.sub 4294967295 d)))) 2399980690) 1886745209) 4294967296)
def mplP1T52 (oa ob oc od b c d t : Nat) : MD5State :=
  mplP1S53 oa ob oc od d (Nat.mod (Nat.add b (Nat.lor (Nat.mod (Nat.shiftLeft t 6) 4294967296) (Nat.shiftRight t 26))) 4294967296) b c
def mplP1S52 (oa ob oc od a b c d : Nat) : MD5State :=
  mplP1T52 oa ob oc od b c d (Nat.mod (Nat.add (Nat.add (Nat.add a (Nat.xor c (Nat.lor b (Nat.sub 4294967295 d)))) 1700485571) 1936026736) 4294967296)
def mplP1T51 (oa ob oc od b c d t : Nat) : MD5State :=
  mplP1S52 oa ob oc od d (Nat.mod (Nat.add b (Nat.lor (Nat.mod (Nat.shiftLeft t 21) 4294967296) (Nat.shiftRight t 11))) 4294967296) b c
def mplP1S51 (oa ob oc od a b c d : Nat) : MD5State :=
  mplP1T51 oa ob oc od b c d (Nat.mod (Nat.add (Nat.add (Nat.add a (Nat.xor c (Nat.lor b (Nat.sub 4294967295 d)))) 4237533241) 1920562021) 4294967296)
def mplP1T50 (oa ob oc od b c d t : Nat) : MD5State :=
  mplP1S51 oa ob oc od d (Nat.mod (Nat.add b (Nat.lor (Nat.mod (Nat.shiftLeft t 15) 4294967296) (Nat.shiftRight t 17))) 4294967296) b c
def mplP1S50 (oa ob oc od a b c d : Nat) : MD5State :=
  mplP1T50 oa ob oc od b c d (Nat.mod (Nat.add (Nat.add (Nat.add a (Nat.xor c (Nat.lor b (Nat.sub 4294967295 d)))) 2878612391) 1819304301) 4294967296)
def mplP1T49 (oa ob oc od b c d t : Nat) : MD5State :=
  mplP1S50 oa ob oc od d (Nat.mod (Nat.add b (Nat.lor (Nat.mod (Nat.shiftLeft t 10) 4294967296) (Nat.shiftRight t 22))) 4294967296) b c
def mplP1S49 (oa ob oc od a b c d : Nat) : MD5State :=
  mplP1T49 oa ob oc od b c d (Nat.mod (Nat.add (Nat.add (Nat.add a (Nat.xor c (Nat.lor b (Nat.sub 4294967295 d)))) 1126891415) 1936026736) 4294967296)
def mplP1T48 (oa ob oc od b c d t : Nat) : MD5State :=
  mplP1S49 oa ob oc od d (Nat.mod (Nat.add b (Nat.lor (Nat.mod (Nat.shiftLeft t 6) 4294967296) (Nat.shiftRight t 26))) 4294967296) b c
def mplP1S48 (oa ob oc od a b c d : Nat) : MD5State :=
  mplP1T48 oa ob oc od b c d (Nat.mod (Nat.add (Nat.add (Nat.add a (Nat.xor c (Nat.lor b (Nat.sub 4294967295 d)))) 4096336452) 1920562021) 4294967296)
def mplP1T47 (oa ob oc od b c d t : Nat) : MD5State :=
  mplP1S48 oa ob oc od d (Nat.mod (Nat.add b (Nat.lor (Nat.mod (Nat.shiftLeft t 23) 4294967296) (Nat.shiftRight t 9))) 4294967296) b c
def mplP1S47 (oa ob oc od a b c d : Nat) : MD5State :=
  mplP1T47 oa ob oc od b c d (Nat.mod (Nat.add (Nat.add (Nat.add a (Nat.xor (Nat.xor b c) d)) 3299628645) 1936026736) 4294967296)
def mplP1T46 (oa ob oc od b c d t : Nat) : MD5State :=
  mplP1S47 oa ob oc od d (Nat.mod (Nat.add b (Nat.lor (Nat.mod (Nat.shiftLeft t 16) 4294967296) (Nat.shiftRight t 16))) 4294967296) b c
def mplP1S46 (oa ob oc od a b c d : Nat) : MD5State :=
  mplP1T46 oa ob oc od b c d (Nat.mod (Nat.add (Nat.add (Nat.add a (Nat.xor (Nat.xor b c) d)) 530742520) 1920562021) 4294967296)
def mplP1T45 (oa ob oc od b c d t : Nat) : MD5State :=
  mplP1S46 oa ob oc od d (Nat.mod (Nat.add b (Nat.lor (Nat.mod (Nat.shiftLeft t 11) 4294967296) (Nat.shiftRight t 21))) 4294967296) b c
def mplP1S45 (oa ob oc od a b c d : Nat) : MD5State :=
  mplP1T45 oa ob oc od b c d (Nat.mod (Nat.add (Nat.add (Nat.add a (Nat.xor (Nat.xor b c) d)) 3873151461) 1936026736) 4294967296)
def mplP1T44 (oa ob oc od b c d t : Nat) : MD5State :=
  mplP1S45 oa ob oc od d (Nat.mod (Nat.add b (Nat.lor (Nat.mod (Nat.shiftLeft t 4) 4294967296) (Nat.shiftRight t 28))) 4294967296) b c
def mplP1S44 (oa ob oc od a b c d : Nat) : MD5State :=
  mplP1T44 oa ob oc od b c d (Nat.mod (Nat.add (Nat.add (Nat.add a (Nat.xor (Nat.xor b c) d)) 3654602809) 1819304301) 4294967296)
def mplP1T43 (oa ob oc od b c d t : Nat) : MD5State :=
  mplP1S44 oa ob oc od d (Nat.mod (Nat.add b (Nat.lor (Nat.mod (Nat.shiftLeft t 23) 4294967296) (Nat.shiftRight t 9))) 4294967296) b c
def mplP1S43 (oa ob oc od a b c d : Nat) : MD5State :=
  mplP1T43 oa ob oc od b c d (Nat.mod (Nat.add (Nat.add (Nat.add a (Nat.xor (Nat.xor b c) d)) 76029189) 1634562165) 4294967296)
def mplP1T42 (oa ob oc od b c d t : Nat) : MD5State :=
  mplP1S43 oa ob oc od d (Nat.mod (Nat.add b (Nat.lor (Nat.mod (Nat.shiftLeft t 16) 4294967296) (Nat.shiftRight t 16))) 4294967296) b c
def mplP1S42 (oa ob oc od a b c d : Nat) : MD5State :=
  mplP1T42 oa ob oc od b c d (Nat.mod (Nat.add (Nat.add (Nat.add a (Nat.xor (Nat.xor b c) d)) 3572445317) 1886745209) 4294967296)
def mplP1T41 (oa ob oc od b c d t : Nat) : MD5State :=
  mplP1S42 oa ob oc od d (Nat.mod (Nat.add b (Nat.lor (Nat.mod (Nat.shiftLeft t 11) 4294967296) (Nat.shiftRight t 21))) 4294967296) b c
def mplP1S41 (oa ob oc od a b c d : Nat) : MD5State :=
  mplP1T41 oa ob oc od b c d (Nat.mod (Nat.add (Nat.add (Nat.add a (Nat.xor (Nat.xor b c) d)) 3936430074) 1920562021) 4294967296)
def mplP1T40 (oa ob oc od b c d t : Nat) : MD5State :=
  mplP1S41 oa ob oc od d (Nat.mod (Nat.add b (Nat.lor (Nat.mod (Nat.shiftLeft t 4) 4294967296) (Nat.shiftRight t 28))) 4294967296) b c
def mplP1S40 (oa ob oc od a b c d : Nat) : MD5State :=
  mplP1T40 oa ob oc od b c d (Nat.mod (Nat.add (Nat.add (Nat.add a (Nat.xor (Nat.xor b c) d)) 681279174) 1886745209) 4294967296)
def mplP1T39 (oa ob oc od b c d t : Nat) : MD5State :=
  mplP1S40 oa ob oc od d (Nat.mod (Nat.add b (Nat.lor (Nat.mod (Nat.shiftLeft t 23) 4294967296) (Nat.shiftRight t 9))) 4294967296) b c
def mplP1S39 (oa ob oc od a b c d : Nat) : MD5State :=
  mplP1T39 oa ob oc od b c d (Nat.mod (Nat.add (Nat.add (Nat.add a (Nat.xor (Nat.xor b c) d)) 3200236656) 1920562021) 4294967296)
def mplP1T38 (oa ob oc od b c d t : Nat) : MD5State :=
  mplP1S39 oa ob oc od d (Nat.mod (Nat.add b (Nat.lor (Nat.mod (Nat.shiftLeft t 16) 4294967296) (Nat.shiftRight t 16))) 4294967296) b c
def mplP1S38 (oa ob oc od a b c d : Nat) : MD5State :=
  mplP1T38 oa ob oc od b c d (Nat.mod (Nat.add (Nat.add (Nat.add a (Nat.xor (Nat.xor b c) d)) 4139469664) 1936026736) 4294967296)
def mplP1T37 (oa ob oc od b c d t : Nat) : MD5State :=
  mplP1S38 oa ob oc od d (Nat.mod (Nat.add b (Nat.lor (Nat.mod (Nat.shiftLeft t 11) 4294967296) (Nat.shiftRight t 21))) 4294967296) b c
def mplP1S37 (oa ob oc od a b c d : Nat) : MD5State :=
  mplP1T37 oa ob oc od b c d (Nat.mod (Nat.add (Nat.add (Nat.add a (Nat.xor (Nat.xor b c) d)) 1272893353) 1819304301) 4294967296)
def mplP1T36 (oa ob oc od b c d t : Nat) : MD5State :=
  mplP1S37 oa ob oc od d (Nat.mod (Nat.add b (Nat.lor (Nat.mod (Nat.shiftLeft t 4) 4294967296) (Nat.shiftRight t 28))) 4294967296) b c
def mplP1S36 (oa ob oc od a b c d : Nat) : MD5State :=
  mplP1T36 oa ob oc od b c d (Nat.mod (Nat.add (Nat.add (Nat.add a (Nat.xor (Nat.xor b c) d)) 2763975236) 1634562165) 4294967296)
def mplP1T35 (oa ob oc od b c d t : Nat) : MD5State :=
  mplP1S36 oa ob oc od d (Nat.mod (Nat.add b (Nat.lor (Nat.mod (Nat.shiftLeft t 23) 4294967296) (Nat.shiftRight t 9))) 4294967296) b c
def mplP1S35 (oa ob oc od a b c d : Nat) : MD5State :=
  mplP1T35 oa ob oc od b c d (Nat.mod (Nat.add (Nat.add (Nat.add a (Nat.xor (Nat.xor b c) d)) 4259657740) 1819304301) 4294967296)
def mplP1T34 (oa ob oc od b c d t : Nat) : MD5State :=
  mplP1S35 oa ob oc od d (Nat.mod (Nat.add b (Nat.lor (Nat.mod (Nat.shiftLeft t 16) 4294967296) (Nat.shiftRight t 16))) 4294967296) b c
def mplP1S34 (oa ob oc od a b c d : Nat) : MD5State :=
  mplP1T34 oa ob oc od b c d (Nat.mod (Nat.add (Nat.add (Nat.add a (Nat.xor (Nat.xor b c) d)) 1839030562) 1634562165) 4294967296)
def mplP1T33 (oa ob oc od b c d t : Nat) : MD5State :=
  mplP1S34 oa ob oc od d (Nat.mod (Nat.add b (Nat.lor (Nat.mod (Nat.shiftLeft t 11) 4294967296) (Nat.shiftRight t 21))) 4294967296) b c
def mplP1S33 (oa ob oc od a b c d : Nat) : MD5State :=
  mplP1T33 oa ob oc od b c d (Nat.mod (Nat.add (Nat.add (Nat.add a (Nat.xor (Nat.xor b c) d)) 2272392833) 1886745209) 4294967296)
def mplP1T32 (oa ob oc od b c d t : Nat) : MD5State :=
  mplP1S33 oa ob oc od d (Nat.mod (Nat.add b (Nat.lor (Nat.mod (Nat.shiftLeft t 4) 4294967296) (Nat.shiftRight t 28))) 4294967296) b c
def mplP1S32 (oa ob oc od a b c d : Nat) : MD5State :=
  mplP1T32 oa ob oc od b c d (Nat.mod (Nat.add (Nat.add (Nat.add a (Nat.xor (Nat.xor b c) d)) 4294588738) 1920562021) 4294967296)
def mplP1T31 (oa ob oc od b c d t : Nat) : MD5State :=
  mplP1S32 oa ob oc od d (Nat.mod (Nat.add b (Nat.lor (Nat.mod (Nat.shiftLeft t 20) 4294967296) (Nat.shiftRight t 12))) 4294967296) b c
def mplP1S31 (oa ob oc od a b c d : Nat) : MD5State :=
  mplP1T31 oa ob oc od b c d (Nat.mod (Nat.add (Nat.add (Nat.add a (Nat.lor (Nat.land d b) (Nat.land (Nat.sub 4294967295 d) c))) 2368359562) 1936026736) 4294967296)
def mplP1T30 (oa ob oc od b c d t : Nat) : MD5State :=
  mplP1S31 oa ob oc od d (Nat.mod (Nat.add b (Nat.lor (Nat.mod (Nat.shiftLeft t 14) 4294967296) (Nat.shiftRight t 18))) 4294967296) b c
def mplP1S30 (oa ob oc od a b c d : Nat) : MD5State :=
  mplP1T30 oa ob oc od b c d (Nat.mod (Nat.add (Nat.add (Nat.add a (Nat.lor (Nat.land d b) (Nat.land (Nat.sub 4294967295 d) c))) 1735328473) 1936026736) 4294967296)
def mplP1T29 (oa ob oc od b c d t : Nat) : MD5State :=
  mplP1S30 oa ob oc od d (Nat.mod (Nat.add b (Nat.lor (Nat.mod (Nat.shiftLeft t 9) 4294967296) (Nat.shiftRight t 23))) 4294967296) b c
def mplP1S29 (oa ob oc od a b c d : Nat) : MD5State :=
  mplP1T29 oa ob oc od b c d (Nat.mod (Nat.add (Nat.add (Nat.add a (Nat.lor (Nat.land d b) (Nat.land (Nat.sub 4294967295 d) c))) 4243563512) 1936026736) 4294967296)
def mplP1T28 (oa ob oc od b c d t : Nat) : MD5State :=
  mplP1S29 oa ob oc od d (Nat.mod (Nat.add b (Nat.lor (Nat.mod (Nat.shiftLeft t 5) 4294967296) (Nat.shiftRight t 27))) 4294967296) b c
def mplP1S28 (oa ob oc od a b c d : Nat) : MD5State :=
  mplP1T28 oa ob oc od b c d (Nat.mod (Nat.add (Nat.add (Nat.add a (Nat.lor (Nat.land d b) (Nat.land (Nat.sub 4294967295 d) c))) 2850285829) 1886745209) 4294967296)
def mplP1T27 (oa ob oc od b c d t : Nat) : MD5State :=
  mplP1S28 oa ob oc od d (Nat.mod (Nat.add b (Nat.lor (Nat.mod (Nat.shiftLeft t 20) 4294967296) (Nat.shiftRight t 12))) 4294967296) b c
def mplP1S27 (oa ob oc od a b c d : Nat) : MD5State :=
  mplP1T27 oa ob oc od b c d (Nat.mod (Nat.add (Nat.add (Nat.add a (Nat.lor (Nat.land d b) (Nat.land (Nat.sub 4294967295 d) c))) 1163531501) 1886745209) 4294967296)
def mplP1T26 (oa ob oc od b c d t : Nat) : MD5State :=
  mplP1S27 oa ob oc od d (Nat.mod (Nat.add b (Nat.lor (Nat.mod (Nat.shiftLeft t 14) 4294967296) (Nat.shiftRight t 18))) 4294967296) b c
def mplP1S26 (oa ob oc od a b c d : Nat) : MD5State :=
  mplP1T26 oa ob oc od b c d (Nat.mod (Nat.add (Nat.add (Nat.add a (Nat.lor (Nat.land d b) (Nat.land (Nat.sub 4294967295 d) c))) 4107603335) 1886745209) 4294967296)
def mplP1T25 (oa ob oc od b c d t : Nat) : MD5State :=
  mplP1S26 oa ob oc od d (Nat.mod (Nat.add b (Nat.lor (Nat.mod (Nat.shiftLeft t 9) 4294967296) (Nat.shiftRight t 23))) 4294967296) b c
def mplP1S25 (oa ob oc od a b c d : Nat) : MD5State :=
  mplP1T25 oa ob oc od b c d (Nat.mod (Nat.add (Nat.add (Nat.add a (Nat.lor (Nat.land d b) (Nat.land (Nat.sub 4294967295 d) c))) 3275163606) 1819304301) 4294967296)
def mplP1T24 (oa ob oc od b c d t : Nat) : MD5State :=
  mplP1S25 oa ob oc od d (Nat.mod (Nat.add b (Nat.lor (Nat.mod (Nat.shiftLeft t 5) 4294967296) (Nat.shiftRight t 27))) 4294967296) b c
def mplP1S24 (oa ob oc od a b c d : Nat) : MD5State :=
  mplP1T24 oa ob oc od b c d (Nat.mod (Nat.add (Nat.add (Nat.add a (Nat.lor (Nat.land d b) (Nat.land (Nat.sub 4294967295 d) c))) 568446438) 1819304301) 4294967296)
def mplP1T23 (oa ob oc od b c d t : Nat) : MD5State :=
  mplP1S24 oa ob oc od d (Nat.mod (Nat.add b (Nat.lor (Nat.mod (Nat.shiftLeft t 20) 4294967296) (Nat.shiftRight t 12))) 4294967296) b c
def mplP1S23 (oa ob oc od a b c d : Nat) : MD5State :=
  mplP1T23 oa ob oc od b c d (Nat.mod (Nat.add (Nat.add (Nat.add a (Nat.lor (Nat.land d b) (Nat.land (Nat.sub 4294967295 d) c))) 3889429448) 1819304301) 4294967296)
def mplP1T22 (oa ob oc od b c d t : Nat) : MD5State :=
  mplP1S23 oa ob oc od d (Nat.mod (Nat.add b (Nat.lor (Nat.mod (Nat.shiftLeft t 14) 4294967296) (Nat.shiftRight t 18))) 4294967296) b c
def mplP1S22 (oa ob oc od a b c d : Nat) : MD5State :=
  mplP1T22 oa ob oc od b c d (Nat.mod (Nat.add (Nat.add (Nat.add a (Nat.lor (Nat.land d b) (Nat.land (Nat.sub 4294967295 d) c))) 3634488961) 1920562021) 4294967296)
def mplP1T21 (oa ob oc od b c d t : Nat) : MD5State :=
  mplP1S22 oa ob oc od d (Nat.mod (Nat.add b (Nat.lor (Nat.mod (Nat.shiftLeft t 9) 4294967296) (Nat.shiftRight t 23))) 4294967296) b c
def mplP1S21 (oa ob oc od a b c d : Nat) : MD5State :=
  mplP1T21 oa ob oc od b c d (Nat.mod (Nat.add (Nat.add (Nat.add a (Nat.lor (Nat.land d b) (Nat.land (Nat.sub 4294967295 d) c))) 38016083) 1920562021) 4294967296)
def mplP1T20 (oa ob oc od b c d t : Nat) : MD5State :=
  mplP1S21 oa ob oc od d (Nat.mod (Nat.add b (Nat.lor (Nat.mod (Nat.shiftLeft t 5) 4294967296) (Nat.shiftRight t 27))) 4294967296) b c
def mplP1S20 (oa ob oc od a b c d : Nat) : MD5State :=
  mplP1T20 oa ob oc od b c d (Nat.mod (Nat.add (Nat.add (Nat.add a (Nat.lor (Nat.land d b) (Nat.land (Nat.sub 4294967295 d) c))) 3593408605) 1920562021) 4294967296)
def mplP1T19 (oa ob oc od b c d t : Nat) : MD5State :=
  mplP1S20 oa ob oc od d (Nat.mod (Nat.add b (Nat.lor (Nat.mod (Nat.shiftLeft t 20) 4294967296) (Nat.shiftRight t 12))) 4294967296) b c
def mplP1S19 (oa ob oc od a b c d : Nat) : MD5State :=
  mplP1T19 oa ob oc od b c d (Nat.mod (Nat.add (Nat.add (Nat.add a (Nat.lor (Nat.land d b) (Nat.land (Nat.sub 4294967295 d) c))) 3921069994) 1920562021) 4294967296)
def mplP1T18 (oa ob oc od b c d t : Nat) : MD5State :=
  mplP1S19 oa ob oc od d (Nat.mod (Nat.add b (Nat.lor (Nat.mod (Nat.shiftLeft t 14) 4294967296) (Nat.shiftRight t 18))) 4294967296) b c
def mplP1S18 (oa ob oc od a b c d : Nat) : MD5State :=
  mplP1T18 oa ob oc od b c d (Nat.mod (Nat.add (Nat.add (Nat.add a (Nat.lor (Nat.land d b) (Nat.land (Nat.sub 4294967295 d) c))) 643717713) 1634562165) 4294967296)
def mplP1T17 (oa ob oc od b c d t : Nat) : MD5State :=
  mplP1S18 oa ob oc od d (Nat.mod (Nat.add b (Nat.lor (Nat.mod (Nat.shiftLeft t 9) 4294967296) (Nat.shiftRight t 23))) 4294967296) b c
def mplP1S17 (oa ob oc od a b c d : Nat) : MD5State :=
  mplP1T17 oa ob oc od b c d (Nat.mod (Nat.add (Nat.add (Nat.add a (Nat.lor (Nat.land d b) (Nat.land (Nat.sub 4294967295 d) c))) 3225465664) 1634562165) 4294967296)
def mplP1T16 (oa ob oc od b c d t : Nat) : MD5State :=
  mplP1S17 oa ob oc od d (Nat.mod (Nat.add b (Nat.lor (Nat.mod (Nat.shiftLeft t 5) 4294967296) (Nat.shiftRight t 27))) 4294967296) b c
def mplP1S16 (oa ob oc od a b c d : Nat) : MD5State :=
  mplP1T16 oa ob oc od b c d (Nat.mod (Nat.add (Nat.add (Nat.add a (Nat.lor (Nat.land d b) (Nat.land (Nat.sub 4294967295 d) c))) 4129170786) 1634562165) 4294967296)
def mplP1T15 (oa ob oc od b c d t : Nat) : MD5State :=
  mplP1S16 oa ob oc od d (Nat.mod (Nat.add b (Nat.lor (Nat.mod (Nat.shiftLeft t 22) 4294967296) (Nat.shiftRight t 10))) 4294967296) b c
def mplP1S15 (oa ob oc od a b c d : Nat) : MD5State :=
  mplP1T15 oa ob oc od b c d (Nat.mod (Nat.add (Nat.add (Nat.add a (Nat.lor (Nat.land b c) (Nat.land (Nat.sub 4294967295 b) d))) 1236535329) 1920562021) 4294967296)
def mplP1T14 (oa ob oc od b c d t : Nat) : MD5State :=
  mplP1S15 oa ob oc od d (Nat.mod (Nat.add b (Nat.lor (Nat.mod (Nat.shiftLeft t 17) 4294967296) (Nat.shiftRight t 15))) 4294967296) b c
def mplP1S14 (oa ob oc od a b c d : Nat) : MD5State :=
  mplP1T14 oa ob oc od b c d (Nat.mod (Nat.add (Nat.add (Nat.add a (Nat.lor (Nat.land b c) (Nat.land (Nat.sub 4294967295 b) d))) 2792965006) 1819304301) 4294967296)
def mplP1T13 (oa ob oc od b c d t : Nat) : MD5State :=
  mplP1S14 oa ob oc od d (Nat.mod (Nat.add b (Nat.lor (Nat.mod (Nat.shiftLeft t 12) 4294967296) (Nat.shiftRight t 20))) 4294967296) b c
def mplP1S13 (oa ob oc od a b c d : Nat) : MD5State :=
  mplP1T13 oa ob oc od b c d (Nat.mod (Nat.add (Nat.add (Nat.add a (Nat.lor (Nat.land b c) (Nat.land (Nat.sub 4294967295 b) d))) 4254626195) 1886745209) 4294967296)
def mplP1T12 (oa ob oc od b c d t : Nat) : MD5State :=
  mplP1S13 oa ob oc od d (Nat.mod (Nat.add b (Nat.lor (Nat.mod (Nat.shiftLeft t 7) 4294967296) (Nat.shiftRight t 25))) 4294967296) b c
def mplP1S12 (oa ob oc od a b c d : Nat) : MD5State :=
  mplP1T12 oa ob oc od b c d (Nat.mod (Nat.add (Nat.add (Nat.add a (Nat.lor (Nat.land b c) (Nat.land (Nat.sub 4294967295 b) d))) 1804603682) 1936026736) 4294967296)
def mplP1T11 (oa ob oc od b c d t : Nat) : MD5State :=
  mplP1S12 oa ob oc od d (Nat.mod (Nat.add b (Nat.lor (Nat.mod (Nat.shiftLeft t 22) 4294967296) (Nat.shiftRight t 10))) 4294967296) b c
def mplP1S11 (oa ob oc od a b c d : Nat) : MD5State :=
  mplP1T11 oa ob oc od b c d (Nat.mod (Nat.add (Nat.add (Nat.add a (Nat.lor (Nat.land b c) (Nat.land (Nat.sub 4294967295 b) d))) 2304563134) 1634562165) 4294967296)
def mplP1T10 (oa ob oc od b c d t : Nat) : MD5State :=
  mplP1S11 oa ob oc od d (Nat.mod (Nat.add b (Nat.lor (Nat.mod (Nat.shiftLeft t 17) 4294967296) (Nat.shiftRight t 15))) 4294967296) b c
def mplP1S10 (oa ob oc od a b c d : Nat) : MD5State :=
  mplP1T10 oa ob oc od b c d (Nat.mod (Nat.add (Nat.add (Nat.add a (Nat.lor (Nat.land b c) (Nat.land (Nat.sub 4294967295 b) d))) 4294925233) 1920562021) 4294967296)
def mplP1T9 (oa ob oc od b c d t : Nat) : MD5State :=
  mplP1S10 oa ob oc od d (Nat.mod (Nat.add b (Nat.lor (Nat.mod (Nat.shiftLeft t 12) 4294967296) (Nat.shiftRight t 20))) 4294967296) b c
def mplP1S9 (oa ob oc od a b c d : Nat) : MD5State :=
  mplP1T9 oa ob oc od b c d (Nat.mod (Nat.add (Nat.add (Nat.add a (Nat.lor (Nat.land b c) (Nat.land (Nat.sub 4294967295 b) d))) 2336552879) 1819304301) 4294967296)
def mplP1T8 (oa ob oc od b c d t : Nat) : MD5State :=
  mplP1S9 oa ob oc od d (Nat.mod (Nat.add b (Nat.lor (Nat.mod (Nat.shiftLeft t 7) 4294967296) (Nat.shiftRight t 25))) 4294967296) b c
def mplP1S8 (oa ob oc od a b c d : Nat) : MD5State :=
  mplP1T8 oa ob oc od b c d (Nat.mod (Nat.add (Nat.add (Nat.add a (Nat.lor (Nat.land b c) (Nat.land (Nat.sub 4294967295 b) d))) 1770035416) 1886745209) 4294967296)
def mplP1T7 (oa ob oc od b c d t : Nat) : MD5State :=
  mplP1S8 oa ob oc od d (Nat.mod (Nat.add b (Nat.lor (Nat.mod (Nat.shiftLeft t 22) 4294967296) (Nat.shiftRight t 10))) 4294967296) b c
def mplP1S7 (oa ob oc od a b c d : Nat) : MD5State :=
  mplP1T7 oa ob oc od b c d (Nat.mod (Nat.add (Nat.add (Nat.add a (Nat.lor (Nat.land b c) (Nat.land (Nat.sub 4294967295 b) d))) 4249261313) 1936026736) 4294967296)
def mplP1T6 (oa ob oc od b c d t : Nat) : MD5State :=
  mplP1S7 oa ob oc od d (Nat.mod (Nat.add b (Nat.lor (Nat.mod (Nat.shiftLeft t 17) 4294967296) (Nat.shiftRight t 15))) 4294967296) b c
def mplP1S6 (oa ob oc od a b c d : Nat) : MD5State :=
  mplP1T6 oa ob oc od b c d (Nat.mod (Nat.add (Nat.add (Nat.add a (Nat.lor (Nat.land b c) (Nat.land (Nat.sub 4294967295 b) d))) 2821735955) 1634562165) 4294967296)
def mplP1T5 (oa ob oc od b c d t : Nat) : MD5State :=
  mplP1S6 oa ob oc od d (Nat.mod (Nat.add b (Nat.lor (Nat.mod (Nat.shiftLeft t 12) 4294967296) (Nat.shiftRight t 20))) 4294967296) b c
def mplP1S5 (oa ob oc od a b c d : Nat) : MD5State :=
  mplP1T5 oa ob oc od b c d (Nat.mod (Nat.add (Nat.add (Nat.add a (Nat.lor (Nat.land b c) (Nat.land (Nat.sub 4294967295 b) d))) 1200080426) 1920562021) 4294967296)
def mplP1T4 (oa ob oc od b c d t : Nat) : MD5State :=
  mplP1S5 oa ob oc od d (Nat.mod (Nat.add b (Nat.lor (Nat.mod (Nat.shiftLeft t 7) 4294967296) (Nat.shiftRight t 25))) 4294967296) b c
def mplP1S4 (oa ob oc od a b c d : Nat) : MD5State :=
  mplP1T4 oa ob oc od b c d (Nat.mod (Nat.add (Nat.add (Nat.add a (Nat.lor (Nat.land b c) (Nat.land (Nat.sub 4294967295 b) d))) 4118548399) 1819304301) 4294967296)
def mplP1T3 (oa ob oc od b c d t : Nat) : MD5State :=
  mplP1S4 oa ob oc od d (Nat.mod (Nat.add b (Nat.lor (Nat.mod (Nat.shiftLeft t 22) 4294967296) (Nat.shiftRight t 10))) 4294967296) b c
def mplP1S3 (oa ob oc od a b c d : Nat) : MD5State :=
  mplP1T3 oa ob oc od b c d (Nat.mod (Nat.add (Nat.add (Nat.add a (Nat.lor (Nat.land b c) (Nat.land (Nat.sub 4294967295 b) d))) 3250441966) 1886745209) 4294967296)
def mplP1T2 (oa ob oc od b c d t : Nat) : MD5State :=
  mplP1S3 oa ob oc od d (Nat.mod (Nat.add b (Nat.lor (Nat.mod (Nat.shiftLeft t 17) 4294967296) (Nat.shiftRight t 15))) 4294967296) b c
def mplP1S2 (oa ob oc od a b c d : Nat) : MD5State :=
  mplP1T2 oa ob oc od b c d (Nat.mod (Nat.add (Nat.add (Nat.add a (Nat.lor (Nat.land b c) (Nat.land (Nat.sub 4294967295 b) d))) 606105819) 1936026736) 4294967296)
def mplP1T1 (oa ob oc od b c d t : Nat) : MD5State :=
  mplP1S2 oa ob oc od d (Nat.mod (Nat.add b (Nat.lor (Nat.mod (Nat.shiftLeft t 12) 4294967296) (Nat.shiftRight t 20))) 4294967296) b c
def mplP1S1 (oa ob oc od a b c d : Nat) : MD5State :=
  mplP1T1 oa ob oc od b c d (Nat.mod (Nat.add (Nat.add (Nat.add a (Nat.lor (Nat.land b c) (Nat.land (Nat.sub 4294967295 b) d))) 3905402710) 1634562165) 4294967296)
def mplP1T0 (oa ob oc od b c d t : Nat) : MD5State :=
  mplP1S1 oa ob oc od d (Nat.mod (Nat.add b (Nat.lor (Nat.mod (Nat.shiftLeft t 7) 4294967296) (Nat.shiftRight t 25))) 4294967296) b c
def mplP1S0 (oa ob oc od a b c d : Nat) : MD5State :=
  mplP1T0 oa ob oc od b c d (Nat.mod (Nat.add (Nat.add (Nat.add a (Nat.lor (Nat.land b c) (Nat.land (Nat.sub 4294967295 b) d))) 3614090360) 1920562021) 4294967296)
def mplP1C (st : MD5State) : MD5State :=
  mplP1S0 st.a st.b st.c st.d st.a st.b st.c st.d

def mplP2S64 (oa ob oc od a b c d : Nat) : MD5State :=
  ⟨Nat.mod (Nat.add oa a) 4294967296, Nat.mod (Nat.add ob b) 4294967296, Nat.mod (Nat.add oc c) 4294967296, Nat.mod (Nat.add od d) 4294967296⟩
def mplP2T63 (oa ob oc od b c d t : Nat) : MD5State :=
  mplP2S64 oa ob oc od d (Nat.mod (Nat.add b (Nat.lor (Nat.mod (Nat.shiftLeft t 21) 4294967296) (Nat.shiftRight t 11))) 4294967296) b c
def mplP2S63 (oa ob oc od a b c d : Nat) : MD5State :=
  mplP2T63 oa ob oc od b c d (Nat.mod (Nat.add (Nat.add (Nat.add a (Nat.xor c (Nat.lor b (Nat.sub 4294967295 d)))) 3951481745) 1920562021) 4294967296)
def mplP2T62 (oa ob oc od b c d t : Nat) : MD5State :=
  mplP2S63 oa ob oc od d (Nat.mod (Nat.add b (Nat.lor (Nat.mod (Nat.shiftLeft t 15) 4294967296) (Nat.shiftRight t 17))) 4294967296) b c
def mplP2S62 (oa ob oc od a b c d : Nat) : MD5State :=
  mplP2T62 oa ob oc od b c d (Nat.mod (Nat.add (Nat.add (Nat.add a (Nat.xor c (Nat.lor b (Nat.sub 4294967295 d)))) 718787259) 1886745209) 4294967296)
def mplP2T61 (oa ob oc od b c d t : Nat) : MD5State :=
  mplP2S62 oa ob oc od d (Nat.mod (Nat.add b (Nat.lor (Nat.mod (Nat.shiftLeft t 10) 4294967296) (Nat.shiftRight t 22))) 4294967296) b c
def mplP2S61 (oa ob oc od a b c d : Nat) : MD5State :=
  mplP2T61 oa ob oc od b c d (Nat.mod (Nat.add (Nat.add (Nat.add a (Nat.xor c (Nat.lor b (Nat.sub 4294967295 d)))) 3174756917) 1936026736) 4294967296)
def mplP2T60 (oa ob oc od b c d t : Nat) : MD5State :=
  mplP2S61 oa ob oc od d (Nat.mod (Nat.add b (Nat.lor (Nat.mod (Nat.shiftLeft t 6) 4294967296) (Nat.shiftRight t 26))) 4294967296) b c
def mplP2S60 (oa ob oc od a b c d : Nat) : MD5State :=
  mplP2T60 oa ob oc od b c d (Nat.mod (Nat.add (Nat.add (Nat.add a (Nat.xor c (Nat.lor b (Nat.sub 4294967295 d)))) 4149444226) 1920562021) 4294967296)
def mplP2T59 (oa ob oc od b c d t : Nat) : MD5State :=
  mplP2S60 oa ob oc od d (Nat.mod (Nat.add b (Nat.lor (Nat.mod (Nat.shiftLeft t 21) 4294967296) (Nat.shiftRight t 11))) 4294967296) b c
def mplP2S59 (oa ob oc od a b c d : Nat) : MD5State :=
  mplP2T59 oa ob oc od b c d (Nat.mod (Nat.add (Nat.add (Nat.add a (Nat.xor c (Nat.lor b (Nat.sub 4294967295 d)))) 1309151649) 1819304301) 4294967296)
def mplP2T58 (oa ob oc od b c d t : Nat) : MD5State :=
  mplP2S59 oa ob oc od d (Nat.mod (Nat.add b (Nat.lor (Nat.mod (Nat.shiftLeft t 15) 4294967296) (Nat.shiftRight t 17))) 4294967296) b c
def mplP2S58 (oa ob oc od a b c d : Nat) : MD5State :=
  mplP2T58 oa ob oc od b c d (Nat.mod (Nat.add (Nat.add (Nat.add a (Nat.xor c (Nat.lor b (Nat.sub 4294967295 d)))) 2734768916) 1936026736) 4294967296)
def mplP2T57 (oa ob oc od b c d t : Nat) : MD5State :=
  mplP2S58 oa ob oc od d (Nat.mod (Nat.add b (Nat.lor (Nat.mod (Nat.shiftLeft t 10) 4294967296) (Nat.shiftRight t 22))) 4294967296) b c
def mplP2S57 (oa ob oc od a b c d : Nat) : MD5State :=
  mplP2T57 oa ob oc od b c d (Nat.mod (Nat.add (Nat.add (Nat.add a (Nat.xor c (Nat.lor b (Nat.sub 4294967295 d)))) 4264355552) 1634562165) 4294967296)
def mplP2T56 (oa ob oc od b c d t : Nat) : MD5State :=
  mplP2S57 oa ob oc od d (Nat.mod (Nat.add b (Nat.lor (Nat.mod (Nat.shiftLeft t 6) 4294967296) (Nat.shiftRight t 26))) 4294967296) b c
def mplP2S56 (oa ob oc od a b c d : Nat) : MD5State :=
  mplP2T56 oa ob oc od b c d (Nat.mod (Nat.add (Nat.add (Nat.add a (Nat.xor c (Nat.lor b (Nat.sub 4294967295 d)))) 1873313359) 1819304301) 4294967296)
def mplP2T55 (oa ob oc od b c d t : Nat) : MD5State :=
  mplP2S56 oa ob oc od d (Nat.mod (Nat.add b (Nat.lor (Nat.mod (Nat.shiftLeft t 21) 4294967296) (Nat.shiftRight t 11))) 4294967296) b c
def mplP2S55 (oa ob oc od a b c d : Nat) : MD5State :=
  mplP2T55 oa ob oc od b c d (Nat.mod (Nat.add (Nat.add (Nat.add a (Nat.xor c (Nat.lor b (Nat.sub 4294967295 d)))) 2240044497) 1936026736) 4294967296)
def mplP2T54 (oa ob oc od b c d t : Nat) : MD5State :=
  mplP2S55 oa ob oc od d (Nat.mod (Nat.add b (Nat.lor (Nat.mod (Nat.shiftLeft t 15) 4294967296) (Nat.shiftRight t 17))) 4294967296) b c
def mplP2S54 (oa ob oc od a b c d : Nat) : MD5State :=
  mplP2T54 oa ob oc od b c d (Nat.mod (Nat.add (Nat.add (Nat.add a (Nat.xor c (Nat.lor b (Nat.sub 4294967295 d)))) 4293915773) 1634562165) 4294967296)
def mplP2T53 (oa ob oc od b c d t : Nat) : MD5State :=
  mplP2S54 oa ob oc od d (Nat.mod (Nat.add b (Nat.lor (Nat.mod (Nat.shiftLeft t 10) 4294967296) (Nat.shiftRight t 22))) 4294967296) b c
def mplP2S53 (oa ob oc od a b c d : Nat) : MD5State :=
  mplP2T53 oa ob oc od b c d (Nat.mod (Nat.add (Nat.add (Nat.add a (Nat.xor c (Nat.lor b (Nat.sub 4294967295 d)))) 2399980690) 1819304301) 4294967296)
def mplP2T52 (oa ob oc od b c d t : Nat) : MD5State :=
  mplP2S53 oa ob oc od d (Nat.mod (Nat.add b (Nat.lor (Nat.mod (Nat.shiftLeft t 6) 4294967296) (Nat.shiftRight t 26))) 4294967296) b c
def mplP2S52 (oa ob oc od a b c d : Nat) : MD5State :=
  mplP2T52 oa ob oc od b c d (Nat.mod (Nat.add (Nat.add (Nat.add a (Nat.xor c (Nat.lor b (Nat.sub 4294967295 d)))) 1700485571) 1886745209) 4294967296)
def mplP2T51 (oa ob oc od b c d t : Nat) : MD5State :=
  mplP2S52 oa ob oc od d (Nat.mod (Nat.add b (Nat.lor (Nat.mod (Nat.shiftLeft t 21) 4294967296) (Nat.shiftRight t 11))) 4294967296) b c
def mplP2S51 (oa ob oc od a b c d : Nat) : MD5State :=
  mplP2T51 oa ob oc od b c d (Nat.mod (Nat.add (Nat.add (Nat.add a (Nat.xor c (Nat.lor b (Nat.sub 4294967295 d)))) 4237533241) 1634562165) 4294967296)
def mplP2T50 (oa ob oc od b c d t : Nat) : MD5State :=
  mplP2S51 oa ob oc od d (Nat.mod (Nat.add b (Nat.lor (Nat.mod (Nat.shiftLeft t 15) 4294967296) (Nat.shiftRight t 17))) 4294967296) b c
def mplP2S50 (oa ob oc od a b c d : Nat) : MD5State :=
  mplP2T50 oa ob oc od b c d (Nat.mod (Nat.add (Nat.add (Nat.add a (Nat.xor c (Nat.lor b (Nat.sub 4294967295 d)))) 2878612391) 1920562021) 4294967296)
def mplP2T49 (oa ob oc od b c d t : Nat) : MD5State :=
  mplP2S50 oa ob oc od d (Nat.mod (Nat.add b (Nat.lor (Nat.mod (Nat.shiftLeft t 10) 4294967296) (Nat.shiftRight t 22))) 4294967296) b c
def mplP2S49 (oa ob oc od a b c d : Nat) : MD5State :=
  mplP2T49 oa ob oc od b c d (Nat.mod (Nat.add (Nat.add (Nat.add a (Nat.xor c (Nat.lor b (Nat.sub 4294967295 d)))) 1126891415) 1886745209) 4294967296)
def mplP2T48 (oa ob oc od b c d t : Nat) : MD5State :=
  mplP2S49 oa ob oc od d (Nat.mod (Nat.add b (Nat.lor (Nat.mod (Nat.shiftLeft t 6) 4294967296) (Nat.shiftRight t 26))) 4294967296) b c
def mplP2S48 (oa ob oc od a b c d : Nat) : MD5State :=
  mplP2T48 oa ob oc od b c d (Nat.mod (Nat.add (Nat.add (Nat.add a (Nat.xor c (Nat.lor b (Nat.sub 4294967295 d)))) 4096336452) 1634562165) 4294967296)
def mplP2T47 (oa ob oc od b c d t : Nat) : MD5State :=
  mplP2S48 oa ob oc od d (Nat.mod (Nat.add b (Nat.lor (Nat.mod (Nat.shiftLeft t 23) 4294967296) (Nat.shiftRight t 9))) 4294967296) b c
def mplP2S47 (oa ob oc od a b c d : Nat) : MD5State :=
  mplP2T47 oa ob oc od b c d (Nat.mod (Nat.add (Nat.add (Nat.add a (Nat.xor (Nat.xor b c) d)) 3299628645) 1886745209) 4294967296)
def mplP2T46 (oa ob oc od b c d t : Nat) : MD5State :=
  mplP2S47 oa ob oc od d (Nat.mod (Nat.add b (Nat.lor (Nat.mod (Nat.shiftLeft t 16) 4294967296) (Nat.shiftRight t 16))) 4294967296) b c
def mplP2S46 (oa ob oc od a b c d : Nat) : MD5State :=
  mplP2T46 oa ob oc od b c d (Nat.mod (Nat.add (Nat.add (Nat.add a (Nat.xor (Nat.xor b c) d)) 530742520) 1634562165) 4294967296)
def mplP2T45 (oa ob oc od b c d t : Nat) : MD5State :=
  mplP2S46 oa ob oc od d (Nat.mod (Nat.add b (Nat.lor (Nat.mod (Nat.shiftLeft t 11) 4294967296) (Nat.shiftRight t 21))) 4294967296) b c
def mplP2S45 (oa ob oc od a b c d : Nat) : MD5State :=
  mplP2T45 oa ob oc od b c d (Nat.mod (Nat.add (Nat.add (Nat.add a (Nat.xor (Nat.xor b c) d)) 3873151461) 1886745209) 4294967296)
def mplP2T44 (oa ob oc od b c d t : Nat) : MD5State :=
  mplP2S45 oa ob oc od d (Nat.mod (Nat.add b (Nat.lor (Nat.mod (Nat.shiftLeft t 4) 4294967296) (Nat.shiftRight t 28))) 4294967296) b c
def mplP2S44 (oa ob oc od a b c d : Nat) : MD5State :=
  mplP2T44 oa ob oc od b c d (Nat.mod (Nat.add (Nat.add (Nat.add a (Nat.xor (Nat.xor b c) d)) 3654602809) 1920562021) 4294967296)
def mplP2T43 (oa ob oc od b c d t : Nat) : MD5State :=
  mplP2S44 oa ob oc od d (Nat.mod (Nat.add b (Nat.lor (Nat.mod (Nat.shiftLeft t 23) 4294967296) (Nat.shiftRight t 9))) 4294967296) b c
def mplP2S43 (oa ob oc od a b c d : Nat) : MD5State :=
  mplP2T43 oa ob oc od b c d (Nat.mod (Nat.add (Nat.add (Nat.add a (Nat.xor (Nat.xor b c) d)) 76029189) 1936026736) 4294967296)
def mplP2T42 (oa ob oc od b c d t : Nat) : MD5State :=
  mplP2S43 oa ob oc od d (Nat.mod (Nat.add b (Nat.lor (Nat.mod (Nat.shiftLeft t 16) 4294967296) (Nat.shiftRight t 16))) 4294967296) b c
def mplP2S42 (oa ob oc od a b c d : Nat) : MD5State :=
  mplP2T42 oa ob oc od b c d (Nat.mod (Nat.add (Nat.add (Nat.add a (Nat.xor (Nat.xor b c) d)) 3572445317) 1819304301) 4294967296)
def mplP2T41 (oa ob oc od b c d t : Nat) : MD5State :=
  mplP2S42 oa ob oc od d (Nat.mod (Nat.add b (Nat.lor (Nat.mod (Nat.shiftLeft t 11) 4294967296) (Nat.shiftRight t 21))) 4294967296) b c
def mplP2S41 (oa ob oc od a b c d : Nat) : MD5State :=
  mplP2T41 oa ob oc od b c d (Nat.mod (Nat.add (Nat.add (Nat.add a (Nat.xor (Nat.xor b c) d)) 3936430074) 1634562165) 4294967296)
def mplP2T40 (oa ob oc od b c d t : Nat) : MD5State :=
  mplP2S41 oa ob oc od d (Nat.mod (Nat.add b (Nat.lor (Nat.mod (Nat.shiftLeft t 4) 4294967296) (Nat.shiftRight t 28))) 4294967296) b c
def mplP2S40 (oa ob oc od a b c d : Nat) : MD5State :=
  mplP2T40 oa ob oc od b c d (Nat.mod (Nat.add (Nat.add (Nat.add a (Nat.xor (Nat.xor b c) d)) 681279174) 1819304301) 4294967296)
def mplP2T39 (oa ob oc od b c d t : Nat) : MD5State :=
  mplP2S40 oa ob oc od d (Nat.mod (Nat.add b (Nat.lor (Nat.mod (Nat.shiftLeft t 23) 4294967296) (Nat.shiftRight t 9))) 4294967296) b c
def mplP2S39 (oa ob oc od a b c d : Nat) : MD5State :=
  mplP2T39 oa ob oc od b c d (Nat.mod (Nat.add (Nat.add (Nat.add a (Nat.xor (Nat.xor b c) d)) 3200236656) 1634562165) 4294967296)
def mplP2T38 (oa ob oc od b c d t : Nat) : MD5State :=
  mplP2S39 oa ob oc od d (Nat.mod (Nat.add b (Nat.lor (Nat.mod (Nat.shiftLeft t 16) 4294967296) (Nat.shiftRight t 16))) 4294967296) b c
def mplP2S38 (oa ob oc od a b c d : Nat) : MD5State :=
  mplP2T38 oa ob oc od b c d (Nat.mod (Nat.add (Nat.add (Nat.add a (Nat.xor (Nat.xor b c) d)) 4139469664) 1886745209) 4294967296)
def mplP2T37 (oa ob oc od b c d t : Nat) : MD5State :=
  mplP2S38 oa ob oc od d (Nat.mod (Nat.add b (Nat.lor (Nat.mod (Nat.shiftLeft t 11) 4294967296) (Nat.shiftRight t 21))) 4294967296) b c
def mplP2S37 (oa ob oc od a b c d : Nat) : MD5State :=
  mplP2T37 oa ob oc od b c d (Nat.mod (Nat.add (Nat.add (Nat.add a (Nat.xor (Nat.xor b c) d)) 1272893353) 1920562021) 4294967296)
def mplP2T36 (oa ob oc od b c d t : Nat) : MD5State :=
  mplP2S37 oa ob oc od d (Nat.mod (Nat.add b (Nat.lor (Nat.mod (Nat.shiftLeft t 4) 4294967296) (Nat.shiftRight t 28))) 4294967296) b c
def mplP2S36 (oa ob oc od a b c d : Nat) : MD5State :=
  mplP2T36 oa ob oc od b c d (Nat.mod (Nat.add (Nat.add (Nat.add a (Nat.xor (Nat.xor b c) d)) 2763975236) 1936026736) 4294967296)
def mplP2T35 (oa ob oc od b c d t : Nat) : MD5State :=
  mplP2S36 oa ob oc od d (Nat.mod (Nat.add b (Nat.lor (Nat.mod (Nat.shiftLeft t 23) 4294967296) (Nat.shiftRight t 9))) 4294967296) b c
def mplP2S35 (oa ob oc od a b c d : Nat) : MD5State :=
  mplP2T35 oa ob oc od b c d (Nat.mod (Nat.add (Nat.add (Nat.add a (Nat.xor (Nat.xor b c) d)) 4259657740) 1920562021) 4294967296)
def mplP2T34 (oa ob oc od b c d t : Nat) : MD5State :=
  mplP2S35 oa ob oc od d (Nat.mod (Nat.add b (Nat.lor (Nat.mod (Nat.shiftLeft t 16) 4294967296) (Nat.shiftRight t 16))) 4294967296) b c
def mplP2S34 (oa ob oc od a b c d : Nat) : MD5State :=
  mplP2T34 oa ob oc od b c d (Nat.mod (Nat.add (Nat.add (Nat.add a (Nat.xor (Nat.xor b c) d)) 1839030562) 1936026736) 4294967296)
def mplP2T33 (oa ob oc od b c d t : Nat) : MD5State :=
  mplP2S34 oa ob oc od d (Nat.mod (Nat.add b (Nat.lor (Nat.mod (Nat.shiftLeft t 11) 4294967296) (Nat.shiftRight t 21))) 4294967296) b c
def mplP2S33 (oa ob oc od a b c d : Nat) : MD5State :=
  mplP2T33 oa ob oc od b c d (Nat.mod (Nat.add (Nat.add (Nat.add a (Nat.xor (Nat.xor b c) d)) 2272392833) 1819304301) 4294967296)
def mplP2T32 (oa ob oc od b c d t : Nat) : MD5State :=
  mplP2S33 oa ob oc od d (Nat.mod (Nat.add b (Nat.lor (Nat.mod (Nat.shiftLeft t 4) 4294967296) (Nat.shiftRight t 28))) 4294967296) b c
def mplP2S32 (oa ob oc od a b c d : Nat) : MD5State :=
  mplP2T32 oa ob oc od b c d (Nat.mod (Nat.add (Nat.add (Nat.add a (Nat.xor (Nat.xor b c) d)) 4294588738) 1634562165) 4294967296)
def mplP2T31 (oa ob oc od b c d t : Nat) : MD5State :=
  mplP2S32 oa ob oc od d (Nat.mod (Nat.add b (Nat.lor (Nat.mod (Nat.shiftLeft t 20) 4294967296) (Nat.shiftRight t 12))) 4294967296) b c
def mplP2S31 (oa ob oc od a b c d : Nat) : MD5State :=
  mplP2T31 oa ob oc od b c d (Nat.mod (Nat.add (Nat.add (Nat.add a (Nat.lor (Nat.land d b) (Nat.land (Nat.sub 4294967295 d) c))) 2368359562) 1886745209) 4294967296)
def mplP2T30 (oa ob oc od b c d t : Nat) : MD5State :=
  mplP2S31 oa ob oc od d (Nat.mod (Nat.add b (Nat.lor (Nat.mod (Nat.shiftLeft t 14) 4294967296) (Nat.shiftRight t 18))) 4294967296) b c
def mplP2S30 (oa ob oc od a b c d : Nat) : MD5State :=
  mplP2T30 oa ob oc od b c d (Nat.mod (Nat.add (Nat.add (Nat.add a (Nat.lor (Nat.land d b) (Nat.land (Nat.sub 4294967295 d) c))) 1735328473) 1886745209) 4294967296)
def mplP2T29 (oa ob oc od b c d t : Nat) : MD5State :=
  mplP2S30 oa ob oc od d (Nat.mod (Nat.add b (Nat.lor (Nat.mod (Nat.shiftLeft t 9) 4294967296) (Nat.shiftRight t 23))) 4294967296) b c
def mplP2S29 (oa ob oc od a b c d : Nat) : MD5State :=
  mplP2T29 oa ob oc od b c d (Nat.mod (Nat.add (Nat.add (Nat.add a (Nat.lor (Nat.land d b) (Nat.land (Nat.sub 4294967295 d) c))) 4243563512) 1886745209) 4294967296)
def mplP2T28 (oa ob oc od b c d t : Nat) : MD5State :=
  mplP2S29 oa ob oc od d (Nat.mod (Nat.add b (Nat.lor (Nat.mod (Nat.shiftLeft t 5) 4294967296) (Nat.shiftRight t 27))) 4294967296) b c
def mplP2S28 (oa ob oc od a b c d : Nat) : MD5State :=
  mplP2T28 oa ob oc od b c d (Nat.mod (Nat.add (Nat.add (Nat.add a (Nat.lor (Nat.land d b) (Nat.land (Nat.sub 4294967295 d) c))) 2850285829) 1819304301) 4294967296)
def mplP2T27 (oa ob oc od b c d t : Nat) : MD5State :=
  mplP2S28 oa ob oc od d (Nat.mod (Nat.add b (Nat.lor (Nat.mod (Nat.shiftLeft t 20) 4294967296) (Nat.shiftRight t 12))) 4294967296) b c
def mplP2S27 (oa ob oc od a b c d : Nat) : MD5State :=
  mplP2T27 oa ob oc od b c d (Nat.mod (Nat.add (Nat.add (Nat.add a (Nat.lor (Nat.land d b) (Nat.land (Nat.sub 4294967295 d) c))) 1163531501) 1819304301) 4294967296)
def mplP2T26 (oa ob oc od b c d t : Nat) : MD5State :=
  mplP2S27 oa ob oc od d (Nat.mod (Nat.add b (Nat.lor (Nat.mod (Nat.shiftLeft t 14) 4294967296) (Nat.shiftRight t 18))) 4294967296) b c
def mplP2S26 (oa ob oc od a b c d : Nat) : MD5State :=
  mplP2T26 oa ob oc od b c d (Nat.mod (Nat.add (Nat.add (Nat.add a (Nat.lor (Nat.land d b) (Nat.land (Nat.sub 4294967295 d) c))) 4107603335) 1819304301) 4294967296)
def mplP2T25 (oa ob oc od b c d t : Nat) : MD5State :=
  mplP2S26 oa ob oc od d (Nat.mod (Nat.add b (Nat.lor (Nat.mod (Nat.shiftLeft t 9) 4294967296) (Nat.shiftRight t 23))) 4294967296) b c
def mplP2S25 (oa ob oc od a b c d : Nat) : MD5State :=
  mplP2T25 oa ob oc od b c d (Nat.mod (Nat.add (Nat.add (Nat.add a (Nat.lor (Nat.land d b) (Nat.land (Nat.sub 4294967295 d) c))) 3275163606) 1920562021) 4294967296)
def mplP2T24 (oa ob oc od b c d t : Nat) : MD5State :=
  mplP2S25 oa ob oc od d (Nat.mod (Nat.add b (Nat.lor (Nat.mod (Nat.shiftLeft t 5) 4294967296) (Nat.shiftRight t 27))) 4294967296) b c
def mplP2S24 (oa ob oc od a b c d : Nat) : MD5State :=
  mplP2T24 oa ob oc od b c d (Nat.mod (Nat.add (Nat.add (Nat.add a (Nat.lor (Nat.land d b) (Nat.land (Nat.sub 4294967295 d) c))) 568446438) 1920562021) 4294967296)
def mplP2T23 (oa ob oc od b c d t : Nat) : MD5State :=
  mplP2S24 oa ob oc od d (Nat.mod (Nat.add b (Nat.lor (Nat.mod (Nat.shiftLeft t 20) 4294967296) (Nat.shiftRight t 12))) 4294967296) b c
def mplP2S23 (oa ob oc od a b c d : Nat) : MD5State :=
  mplP2T23 oa ob oc od b c d (Nat.mod (Nat.add (Nat.add (Nat.add a (Nat.lor (Nat.land d b) (Nat.land (Nat.sub 4294967295 d) c))) 3889429448) 1920562021) 4294967296)
def mplP2T22 (oa ob oc od b c d t : Nat) : MD5State :=
  mplP2S23 oa ob oc od d (Nat.mod (Nat.add b (Nat.lor (Nat.mod (Nat.shiftLeft t 14) 4294967296) (Nat.shiftRight t 18))) 4294967296) b c
def mplP2S22 (oa ob oc od a b c d : Nat) : MD5State :=
  mplP2T22 oa ob oc od b c d (Nat.mod (Nat.add (Nat.add (Nat.add a (Nat.lor (Nat.land d b) (Nat.land (Nat.sub 4294967295 d) c))) 3634488961) 1634562165) 4294967296)
def mplP2T21 (oa ob oc od b c d t : Nat) : MD5State :=
  mplP2S22 oa ob oc od d (Nat.mod (Nat.add b (Nat.lor (Nat.mod (Nat.shiftLeft t 9) 4294967296) (Nat.shiftRight t 23))) 4294967296) b c
def mplP2S21 (oa ob oc od a b c d : Nat) : MD5State :=
  mplP2T21 oa ob oc od b c d (Nat.mod (Nat.add (Nat.add (Nat.add a (Nat.lor (Nat.land d b) (Nat.land (Nat.sub 4294967295 d) c))) 38016083) 1634562165) 4294967296)
def mplP2T20 (oa ob oc od b c d t : Nat) : MD5State :=
  mplP2S21 oa ob oc od d (Nat.mod (Nat.add b (Nat.lor (Nat.mod (Nat.shiftLeft t 5) 4294967296) (Nat.shiftRight t 27))) 4294967296) b c
def mplP2S20 (oa ob oc od a b c d : Nat) : MD5State :=
  mplP2T20 oa ob oc od b c d (Nat.mod (Nat.add (Nat.add (Nat.add a (Nat.lor (Nat.land d b) (Nat.land (Nat.sub 4294967295 d) c))) 3593408605) 1634562165) 4294967296)
def mplP2T19 (oa ob oc od b c d t : Nat) : MD5State :=
  mplP2S20 oa ob oc od d (Nat.mod (Nat.add b (Nat.lor (Nat.mod (Nat.shiftLeft t 20) 4294967296) (Nat.shiftRight t 12))) 4294967296) b c
def mplP2S19 (oa ob oc od a b c d : Nat) : MD5State :=
  mplP2T19 oa ob oc od b c d (Nat.mod (Nat.add (Nat.add (Nat.add a (Nat.lor (Nat.land d b) (Nat.land (Nat.sub 4294967295 d) c))) 3921069994) 1634562165) 4294967296)
def mplP2T18 (oa ob oc od b c d t : Nat) : MD5State :=
  mplP2S19 oa ob oc od d (Nat.mod (Nat.add b (Nat.lor (Nat.mod (Nat.shiftLeft t 14) 4294967296) (Nat.shiftRight t 18))) 4294967296) b c
def mplP2S18 (oa ob oc od a b c d : Nat) : MD5State :=
  mplP2T18 oa ob oc od b c d (Nat.mod (Nat.add (Nat.add (Nat.add a (Nat.lor (Nat.land d b) (Nat.land (Nat.sub 4294967295 d) c))) 643717713) 1936026736) 4294967296)
def mplP2T17 (oa ob oc od b c d t : Nat) : MD5State :=
  mplP2S18 oa ob oc od d (Nat.mod (Nat.add b (Nat.lor (Nat.mod (Nat.shiftLeft t 9) 4294967296) (Nat.shiftRight t 23))) 4294967296) b c
def mplP2S17 (oa ob oc od a b c d : Nat) : MD5State :=
  mplP2T17 oa ob oc od b c d (Nat.mod (Nat.add (Nat.add (Nat.add a (Nat.lor (Nat.land d b) (Nat.land (Nat.sub 4294967295 d) c))) 3225465664) 1936026736) 4294967296)
def mplP2T16 (oa ob oc od b c d t : Nat) : MD5State :=
  mplP2S17 oa ob oc od d (Nat.mod (Nat.add b (Nat.lor (Nat.mod (Nat.shiftLeft t 5) 4294967296) (Nat.shiftRight t 27))) 4294967296) b c
def mplP2S16 (oa ob oc od a b c d : Nat) : MD5State :=
  mplP2T16 oa ob oc od b c d (Nat.mod (Nat.add (Nat.add (Nat.add a (Nat.lor (Nat.land d b) (Nat.land (Nat.sub 4294967295 d) c))) 4129170786) 1936026736) 4294967296)
def mplP2T15 (oa ob oc od b c d t : Nat) : MD5State :=
  mplP2S16 oa ob oc od d (Nat.mod (Nat.add b (Nat.lor (Nat.mod (Nat.shiftLeft t 22) 4294967296) (Nat.shiftRight t 10))) 4294967296) b c
def mplP2S15 (oa ob oc od a b c d : Nat) : MD5State :=
  mplP2T15 oa ob oc od b c d (Nat.mod (Nat.add (Nat.add (Nat.add a (Nat.lor (Nat.land b c) (Nat.land (Nat.sub 4294967295 b) d))) 1236535329) 1634562165) 4294967296)
def mplP2T14 (oa ob oc od b c d t : Nat) : MD5State :=
  mplP2S15 oa ob oc od d (Nat.mod (Nat.add b (Nat.lor (Nat.mod (Nat.shiftLeft t 17) 4294967296) (Nat.shiftRight t 15))) 4294967296) b c
def mplP2S14 (oa ob oc od a b c d : Nat) : MD5State :=
  mplP2T14 oa ob oc od b c d (Nat.mod (Nat.add (Nat.add (Nat.add a (Nat.lor (Nat.land b c) (Nat.land (Nat.sub 4294967295 b) d))) 2792965006) 1920562021) 4294967296)
def mplP2T13 (oa ob oc od b c d t : Nat) : MD5State :=
  mplP2S14 oa ob oc od d (Nat.mod (Nat.add b (Nat.lor (Nat.mod (Nat.shiftLeft t 12) 4294967296) (Nat.shiftRight t 20))) 4294967296) b c
def mplP2S13 (oa ob oc od a b c d : Nat) : MD5State :=
  mplP2T13 oa ob oc od b c d (Nat.mod (Nat.add (Nat.add (Nat.add a (Nat.lor (Nat.land b c) (Nat.land (Nat.sub 4294967295 b) d))) 4254626195) 1819304301) 4294967296)
def mplP2T12 (oa ob oc od b c d t : Nat) : MD5State :=
  mplP2S13 oa ob oc od d (Nat.mod (Nat.add b (Nat.lor (Nat.mod (Nat.shiftLeft t 7) 4294967296) (Nat.shiftRight t 25))) 4294967296) b c
def mplP2S12 (oa ob oc od a b c d : Nat) : MD5State :=
  mplP2T12 oa ob oc od b c d (Nat.mod (Nat.add (Nat.add (Nat.add a (Nat.lor (Nat.land b c) (Nat.land (Nat.sub 4294967295 b) d))) 1804603682) 1886745209) 4294967296)
def mplP2T11 (oa ob oc od b c d t : Nat) : MD5State :=
  mplP2S12 oa ob oc od d (Nat.mod (Nat.add b (Nat.lor (Nat.mod (Nat.shiftLeft t 22) 4294967296) (Nat.shiftRight t 10))) 4294967296) b c
def mplP2S11 (oa ob oc od a b c d : Nat) : MD5State :=
  mplP2T11 oa ob oc od b c d (Nat.mod (Nat.add (Nat.add (Nat.add a (Nat.lor (Nat.land b c) (Nat.land (Nat.sub 4294967295 b) d))) 2304563134) 1936026736) 4294967296)
def mplP2T10 (oa ob oc od b c d t : Nat) : MD5State :=
  mplP2S11 oa ob oc od d (Nat.mod (Nat.add b (Nat.lor (Nat.mod (Nat.shiftLeft t 17) 4294967296) (Nat.shiftRight t 15))) 4294967296) b c
def mplP2S10 (oa ob oc od a b c d : Nat) : MD5State :=
  mplP2T10 oa ob oc od b c d (Nat.mod (Nat.add (Nat.add (Nat.add a (Nat.lor (Nat.land b c) (Nat.land (Nat.sub 4294967295 b) d))) 4294925233) 1634562165) 4294967296)
def mplP2T9 (oa ob oc od b c d t : Nat) : MD5State :=
  mplP2S10 oa ob oc od d (Nat.mod (Nat.add b (Nat.lor (Nat.mod (Nat.shiftLeft t 12) 4294967296) (Nat.shiftRight t 20))) 4294967296) b c
def mplP2S9 (oa ob oc od a b c d : Nat) : MD5State :=
  mplP2T9 oa ob oc od b c d (Nat.mod (Nat.add (Nat.add (Nat.add a (Nat.lor (Nat.land b c) (Nat.land (Nat.sub 4294967295 b) d))) 2336552879) 1920562021) 4294967296)
def mplP2T8 (oa ob oc od b c d t : Nat) : MD5State :=
  mplP2S9 oa ob oc od d (Nat.mod (Nat.add b (Nat.lor (Nat.mod (Nat.shiftLeft t 7) 4294967296) (Nat.shiftRight t 25))) 4294967296) b c
def mplP2S8 (oa ob oc od a b c d : Nat) : MD5State :=
  mplP2T8 oa ob oc od b c d (Nat.mod (Nat.add (Nat.add (Nat.add a (Nat.lor (Nat.land b c) (Nat.land (Nat.sub 4294967295 b) d))) 1770035416) 1819304301) 4294967296)
def mplP2T7 (oa ob oc od b c d t : Nat) : MD5State :=
  mplP2S8 oa ob oc od d (Nat.mod (Nat.add b (Nat.lor (Nat.mod (Nat.shiftLeft t 22) 4294967296) (Nat.shiftRight t 10))) 4294967296) b c
def mplP2S7 (oa ob oc od a b c d : Nat) : MD5State :=
  mplP2T7 oa ob oc od b c d (Nat.mod (Nat.add (Nat.add (Nat.add a (Nat.lor (Nat.land b c) (Nat.land (Nat.sub 4294967295 b) d))) 4249261313) 1886745209) 4294967296)
def mplP2T6 (oa ob oc od b c d t : Nat) : MD5State :=
  mplP2S7 oa ob oc od d (Nat.mod (Nat.add b (Nat.lor (Nat.mod (Nat.shiftLeft t 17) 4294967296) (Nat.shiftRight t 15))) 4294967296) b c
def mplP2S6 (oa ob oc od a b c d : Nat) : MD5State :=
  mplP2T6 oa ob oc od b c d (Nat.mod (Nat.add (Nat.add (Nat.add a (Nat.lor (Nat.land b c) (Nat.land (Nat.sub 4294967295 b) d))) 2821735955) 1936026736) 4294967296)
def mplP2T5 (oa ob oc od b c d t : Nat) : MD5State :=
  mplP2S6 oa ob oc od d (Nat.mod (Nat.add b (Nat.lor (Nat.mod (Nat.shiftLeft t 12) 4294967296) (Nat.shiftRight t 20))) 4294967296) b c
def mplP2S5 (oa ob oc od a b c d : Nat) : MD5State :=
  mplP2T5 oa ob oc od b c d (Nat.mod (Nat.add (Nat.add (Nat.add a (Nat.lor (Nat.land b c) (Nat.land (Nat.sub 4294967295 b) d))) 1200080426) 1634562165) 4294967296)
def mplP2T4 (oa ob oc od b c d t : Nat) : MD5State :=
  mplP2S5 oa ob oc od d (Nat.mod (Nat.add b (Nat.lor (Nat.mod (Nat.shiftLeft t 7) 4294967296) (Nat.shiftRight t 25))) 4294967296) b c
def mplP2S4 (oa ob oc od a b c d : Nat) : MD5State :=
  mplP2T4 oa ob oc od b c d (Nat.mod (Nat.add (Nat.add (Nat.add a (Nat.lor (Nat.land b c) (Nat.land (Nat.sub 4294967295 b) d))) 4118548399) 1920562021) 4294967296)
def mplP2T3 (oa ob oc od b c d t : Nat) : MD5State :=
  mplP2S4 oa ob oc od d (Nat.mod (Nat.add b (Nat.lor (Nat.mod (Nat.shiftLeft t 22) 4294967296) (Nat.shiftRight t 10))) 4294967296) b c
def mplP2S3 (oa ob oc od a b c d : Nat) : MD5State :=
  mplP2T3 oa ob oc od b c d (Nat.mod (Nat.add (Nat.add (Nat.add a (Nat.lor (Nat.land b c) (Nat.land (Nat.sub 4294967295 b) d))) 3250441966) 1819304301) 4294967296)
def mplP2T2 (oa ob oc od b c d t : Nat) : MD5State :=
  mplP2S3 oa ob oc od d (Nat.mod (Nat.add b (Nat.lor (Nat.mod (Nat.shiftLeft t 17) 4294967296) (Nat.shiftRight t 15))) 4294967296) b c
def mplP2S2 (oa ob oc od a b c d : Nat) : MD5State :=
  mplP2T2 oa ob oc od b c d (Nat.mod (Nat.add (Nat.add (Nat.add a (Nat.lor (Nat.land b c) (Nat.land (Nat.sub 4294967295 b) d))) 606105819) 1886745209) 4294967296)
def mplP2T1 (oa ob oc od b c d t : Nat) : MD5State :=
  mplP2S2 oa ob oc od d (Nat.mod (Nat.add b (Nat.lor (Nat.mod (Nat.shiftLeft t 12) 4294967296) (Nat.shiftRight t 20))) 4294967296) b c
def mplP2S1 (oa ob oc od a b c d : Nat) : MD5State :=
  mplP2T1 oa ob oc od b c d (Nat.mod (Nat.add (Nat.add (Nat.add a (Nat.lor (Nat.land b c) (Nat.land (Nat.sub 4294967295 b) d))) 3905402710) 1936026736) 4294967296)
def mplP2T0 (oa ob oc od b c d t : Nat) : MD5State :=
  mplP2S1 oa ob oc od d (Nat.mod (Nat.add b (Nat.lor (Nat.mod (Nat.shiftLeft t 7) 4294967296) (Nat.shiftRight t 25))) 4294967296) b c
def mplP2S0 (oa ob oc od a b c d : Nat) : MD5State :=
  mplP2T0 oa ob oc od b c d (Nat.mod (Nat.add (Nat.add (Nat.add a (Nat.lor (Nat.land b c) (Nat.land (Nat.sub 4294967295 b) d))) 3614090360) 1634562165) 4294967296)
def mplP2C (st : MD5State) : MD5State :=
  mplP2S0 st.a st.b st.c st.d st.a st.b st.c st.d

def mplP3S64 (oa ob oc od a b c d : Nat) : MD5State :=
  ⟨Nat.mod (Nat.add oa a) 4294967296, Nat.mod (Nat.add ob b) 4294967296, Nat.mod (Nat.add oc c) 4294967296, Nat.mod (Nat.add od d) 4294967296⟩
def mplP3T63 (oa ob oc od b c d t : Nat) : MD5State :=
  mplP3S64 oa ob oc od d (Nat.mod (Nat.add b (Nat.lor (Nat.mod (Nat.shiftLeft t 21) 4294967296) (Nat.shiftRight t 11))) 4294967296) b c
def mplP3S63 (oa ob oc od a b c d : Nat) : MD5State :=
  mplP3T63 oa ob oc od b c d (Nat.mod (Nat.add (Nat.add (Nat.add a (Nat.xor c (Nat.lor b (Nat.sub 4294967295 d)))) 3951481745) 1634562165) 4294967296)
def mplP3T62 (oa ob oc od b c d t : Nat) : MD5State :=
  mplP3S63 oa ob oc od d (Nat.mod (Nat.add b (Nat.lor (Nat.mod (Nat.shiftLeft t 15) 4294967296) (Nat.shiftRight t 17))) 4294967296) b c
def mplP3S62 (oa ob oc od a b c d : Nat) : MD5State :=
  mplP3T62 oa ob oc od b c d (Nat.mod (Nat.add (Nat.add (Nat.add a (Nat.xor c (Nat.lor b (Nat.sub 4294967295 d)))) 718787259) 1819304301) 4294967296)
def mplP3T61 (oa ob oc od b c d t : Nat) : MD5State :=
  mplP3S62 oa ob oc od d (Nat.mod (Nat.add b (Nat.lor (Nat.mod (Nat.shiftLeft t 10) 4294967296) (Nat.shiftRight t 22))) 4294967296) b c
def mplP3S61 (oa ob oc od a b c d : Nat) : MD5State :=
  mplP3T61 oa ob oc od b c d (Nat.mod (Nat.add (Nat.add (Nat.add a (Nat.xor c (Nat.lor b (Nat.sub 4294967295 d)))) 3174756917) 1886745209) 4294967296)
def mplP3T60 (oa ob oc od b c d t : Nat) : MD5State :=
  mplP3S61 oa ob oc od d (Nat.mod (Nat.add b (Nat.lor (Nat.mod (Nat.shiftLeft t 6) 4294967296) (Nat.shiftRight t 26))) 4294967296) b c
def mplP3S60 (oa ob oc od a b c d : Nat) : MD5State :=
  mplP3T60 oa ob oc od b c d (Nat.mod (Nat.add (Nat.add (Nat.add a (Nat.xor c (Nat.lor b (Nat.sub 4294967295 d)))) 4149444226) 1634562165) 4294967296)
def mplP3T59 (oa ob oc od b c d t : Nat) : MD5State :=
  mplP3S60 oa ob oc od d (Nat.mod (Nat.add b (Nat.lor (Nat.mod (Nat.shiftLeft t 21) 4294967296) (Nat.shiftRight t 11))) 4294967296) b c
def mplP3S59 (oa ob oc od a b c d : Nat) : MD5State :=
  mplP3T59 oa ob oc od b c d (Nat.mod (Nat.add (Nat.add (Nat.add a (Nat.xor c (Nat.lor b (Nat.sub 4294967295 d)))) 1309151649) 1920562021) 4294967296)
def mplP3T58 (oa ob oc od b c d t : Nat) : MD5State :=
  mplP3S59 oa ob oc od d (Nat.mod (Nat.add b (Nat.lor (Nat.mod (Nat.shiftLeft t 15) 4294967296) (Nat.shiftRight t 17))) 4294967296) b c
def mplP3S58 (oa ob oc od a b c d : Nat) : MD5State :=
  mplP3T58 oa ob oc od b c d (Nat.mod (Nat.add (Nat.add (Nat.add a (Nat.xor c (Nat.lor b (Nat.sub 4294967295 d)))) 2734768916) 1886745209) 4294967296)
def mplP3T57 (oa ob oc od b c d t : Nat) : MD5State :=
  mplP3S58 oa ob oc od d (Nat.mod (Nat.add b (Nat.lor (Nat.mod (Nat.shiftLeft t 10) 4294967296) (Nat.shiftRight t 22))) 4294967296) b c
def mplP3S57 (oa ob oc od a b c d : Nat) : MD5State :=
  mplP3T57 oa ob oc od b c d (Nat.mod (Nat.add (Nat.add (Nat.add a (Nat.xor c (Nat.lor b (Nat.sub 4294967295 d)))) 4264355552) 1936026736) 4294967296)
def mplP3T56 (oa ob oc od b c d t : Nat) : MD5State :=
  mplP3S57 oa ob oc od d (Nat.mod (Nat.add b (Nat.lor (Nat.mod (Nat.shiftLeft t 6) 4294967296) (Nat.shiftRight t 26))) 4294967296) b c
def mplP3S56 (oa ob oc od a b c d : Nat) : MD5State :=
  mplP3T56 oa ob oc od b c d (Nat.mod (Nat.add (Nat.add (Nat.add a (Nat.xor c (Nat.lor b (Nat.sub 4294967295 d)))) 1873313359) 1920562021) 4294967296)
def mplP3T55 (oa ob oc od b c d t : Nat) : MD5State :=
  mplP3S56 oa ob oc od d (Nat.mod (Nat.add b (Nat.lor (Nat.mod (Nat.shiftLeft t 21) 4294967296) (Nat.shiftRight t 11))) 4294967296) b c
def mplP3S55 (oa ob oc od a b c d : Nat) : MD5State :=
  mplP3T55 oa ob oc od b c d (Nat.mod (Nat.add (Nat.add (Nat.add a (Nat.xor c (Nat.lor b (Nat.sub 4294967295 d)))) 2240044497) 1886745209) 4294967296)
def mplP3T54 (oa ob oc od b c d t : Nat) : MD5State :=
  mplP3S55 oa ob oc od d (Nat.mod (Nat.add b (Nat.lor (Nat.mod (Nat.shiftLeft t 15) 4294967296) (Nat.shiftRight t 17))) 4294967296) b c
def mplP3S54 (oa ob oc od a b c d : Nat) : MD5State :=
  mplP3T54 oa ob oc od b c d (Nat.mod (Nat.add (Nat.add (Nat.add a (Nat.xor c (Nat.lor b (Nat.sub 4294967295 d)))) 4293915773) 1936026736) 4294967296)
def mplP3T53 (oa ob oc od b c d t : Nat) : MD5State :=
  mplP3S54 oa ob oc od d (Nat.mod (Nat.add b (Nat.lor (Nat.mod (Nat.shiftLeft t 10) 4294967296) (Nat.shiftRight t 22))) 4294967296) b c
def mplP3S53 (oa ob oc od a b c d : Nat) : MD5State :=
  mplP3T53 oa ob oc od b c d (Nat.mod (Nat.add (Nat.add (Nat.add a (Nat.xor c (Nat.lor b (Nat.sub 4294967295 d)))) 2399980690) 1920562021) 4294967296)
def mplP3T52 (oa ob oc od b c d t : Nat) : MD5State :=
  mplP3S53 oa ob oc od d (Nat.mod (Nat.add b (Nat.lor (Nat.mod (Nat.shiftLeft t 6) 4294967296) (Nat.shiftRight t 26))) 4294967296) b c
def mplP3S52 (oa ob oc od a b c d : Nat) : MD5State :=
  mplP3T52 oa ob oc od b c d (Nat.mod (Nat.add (Nat.add (Nat.add a (Nat.xor c (Nat.lor b (Nat.sub 4294967295 d)))) 1700485571) 1819304301) 4294967296)
def mplP3T51 (oa ob oc od b c d t : Nat) : MD5State :=
  mplP3S52 oa ob oc od d (Nat.mod (Nat.add b (Nat.lor (Nat.mod (Nat.shiftLeft t 21) 4294967296) (Nat.shiftRight t 11))) 4294967296) b c
def mplP3S51 (oa ob oc od a b c d : Nat) : MD5State :=
  mplP3T51 oa ob oc od b c d (Nat.mod (Nat.add (Nat.add (Nat.add a (Nat.xor c (Nat.lor b (Nat.sub 4294967295 d)))) 4237533241) 1936026736) 4294967296)
def mplP3T50 (oa ob oc od b c d t : Nat) : MD5State :=
  mplP3S51 oa ob oc od d (Nat.mod (Nat.add b (Nat.lor (Nat.mod (Nat.shiftLeft t 15) 4294967296) (Nat.shiftRight t 17))) 4294967296) b c
def mplP3S50 (oa ob oc od a b c d : Nat) : MD5State :=
  mplP3T50 oa ob oc od b c d (Nat.mod (Nat.add (Nat.add (Nat.add a (Nat.xor c (Nat.lor b (Nat.sub 4294967295 d)))) 2878612391) 1634562165) 4294967296)
def mplP3T49 (oa ob oc od b c d t : Nat) : MD5State :=
  mplP3S50 oa ob oc od d (Nat.mod (Nat.add b (Nat.lor (Nat.mod (Nat.shiftLeft t 10) 4294967296) (Nat.shiftRight t 22))) 4294967296) b c
def mplP3S49 (oa ob oc od a b c d : Nat) : MD5State :=
  mplP3T49 oa ob oc od b c d (Nat.mod (Nat.add (Nat.add (Nat.add a (Nat.xor c (Nat.lor b (Nat.sub 4294967295 d)))) 1126891415) 1819304301) 4294967296)
def mplP3T48 (oa ob oc od b c d t : Nat) : MD5State :=
  mplP3S49 oa ob oc od d (Nat.mod (Nat.add b (Nat.lor (Nat.mod (Nat.shiftLeft t 6) 4294967296) (Nat.shiftRight t 26))) 4294967296) b c
def mplP3S48 (oa ob oc od a b c d : Nat) : MD5State :=
  mplP3T48 oa ob oc od b c d (Nat.mod (Nat.add (Nat.add (Nat.add a (Nat.xor c (Nat.lor b (Nat.sub 4294967295 d)))) 4096336452) 1936026736) 4294967296)
def mplP3T47 (oa ob oc od b c d t : Nat) : MD5State :=
  mplP3S48 oa ob oc od d (Nat.mod (Nat.add b (Nat.lor (Nat.mod (Nat.shiftLeft t 23) 4294967296) (Nat.shiftRight t 9))) 4294967296) b c
def mplP3S47 (oa ob oc od a b c d : Nat) : MD5State :=
  mplP3T47 oa ob oc od b c d (Nat.mod (Nat.add (Nat.add (Nat.add a (Nat.xor (Nat.xor b c) d)) 3299628645) 1819304301) 4294967296)
def mplP3T46 (oa ob oc od b c d t : Nat) : MD5State :=
  mplP3S47 oa ob oc od d (Nat.mod (Nat.add b (Nat.lor (Nat.mod (Nat.shiftLeft t 16) 4294967296) (Nat.shiftRight t 16))) 4294967296) b c
def mplP3S46 (oa ob oc od a b c d : Nat) : MD5State :=
  mplP3T46 oa ob oc od b c d (Nat.mod (Nat.add (Nat.add (Nat.add a (Nat.xor (Nat.xor b c) d)) 530742520) 1936026736) 4294967296)
def mplP3T45 (oa ob oc od b c d t : Nat) : MD5State :=
  mplP3S46 oa ob oc od d (Nat.mod (Nat.add b (Nat.lor (Nat.mod (Nat.shiftLeft t 11) 4294967296) (Nat.shiftRight t 21))) 4294967296) b c
def mplP3S45 (oa ob oc od a b c d : Nat) : MD5State :=
  mplP3T45 oa ob oc od b c d (Nat.mod (Nat.add (Nat.add (Nat.add a (Nat.xor (Nat.xor b c) d)) 3873151461) 1819304301) 4294967296)
def mplP3T44 (oa ob oc od b c d t : Nat) : MD5State :=
  mplP3S45 oa ob oc od d (Nat.mod (Nat.add b (Nat.lor (Nat.mod (Nat.shiftLeft t 4) 4294967296) (Nat.shiftRight t 28))) 4294967296) b c
def mplP3S44 (oa ob oc od a b c d : Nat) : MD5State :=
  mplP3T44 oa ob oc od b c d (Nat.mod (Nat.add (Nat.add (Nat.add a (Nat.xor (Nat.xor b c) d)) 3654602809) 1634562165) 4294967296)
def mplP3T43 (oa ob oc od b c d t : Nat) : MD5State :=
  mplP3S44 oa ob oc od d (Nat.mod (Nat.add b (Nat.lor (Nat.mod (Nat.shiftLeft t 23) 4294967296) (Nat.shiftRight t 9))) 4294967296) b c
def mplP3S43 (oa ob oc od a b c d : Nat) : MD5State :=
  mplP3T43 oa ob oc od b c d (Nat.mod (Nat.add (Nat.add (Nat.add a (Nat.xor (Nat.xor b c) d)) 76029189) 1886745209) 4294967296)
def mplP3T42 (oa ob oc od b c d t : Nat) : MD5State :=
  mplP3S43 oa ob oc od d (Nat.mod (Nat.add b (Nat.lor (Nat.mod (Nat.shiftLeft t 16) 4294967296) (Nat.shiftRight t 16))) 4294967296) b c
def mplP3S42 (oa ob oc od a b c d : Nat) : MD5State :=
  mplP3T42 oa ob oc od b c d (Nat.mod (Nat.add (Nat.add (Nat.add a (Nat.xor (Nat.xor b c) d)) 3572445317) 1920562021) 4294967296)
def mplP3T41 (oa ob oc od b c d t : Nat) : MD5State :=
  mplP3S42 oa ob oc od d (Nat.mod (Nat.add b (Nat.lor (Nat.mod (Nat.shiftLeft t 11) 4294967296) (Nat.shiftRight t 21))) 4294967296) b c
def mplP3S41 (oa ob oc od a b c d : Nat) : MD5State :=
  mplP3T41 oa ob oc od b c d (Nat.mod (Nat.add (Nat.add (Nat.add a (Nat.xor (Nat.xor b c) d)) 3936430074) 1936026736) 4294967296)
def mplP3T40 (oa ob oc od b c d t : Nat) : MD5State :=
  mplP3S41 oa ob oc od d (Nat.mod (Nat.add b (Nat.lor (Nat.mod (Nat.shiftLeft t 4) 4294967296) (Nat.shiftRight t 28))) 4294967296) b c
def mplP3S40 (oa ob oc od a b c d : Nat) : MD5State :=
  mplP3T40 oa ob oc od b c d (Nat.mod (Nat.add (Nat.add (Nat.add a (Nat.xor (Nat.xor b c) d)) 681279174) 1920562021) 4294967296)
def mplP3T39 (oa ob oc od b c d t : Nat) : MD5State :=
  mplP3S40 oa ob oc od d (Nat.mod (Nat.add b (Nat.lor (Nat.mod (Nat.shiftLeft t 23) 4294967296) (Nat.shiftRight t 9))) 4294967296) b c
def mplP3S39 (oa ob oc od a b c d : Nat) : MD5State :=
  mplP3T39 oa ob oc od b c d (Nat.mod (Nat.add (Nat.add (Nat.add a (Nat.xor (Nat.xor b c) d)) 3200236656) 1936026736) 4294967296)
def mplP3T38 (oa ob oc od b c d t : Nat) : MD5State :=
  mplP3S39 oa ob oc od d (Nat.mod (Nat.add b (Nat.lor (Nat.mod (Nat.shiftLeft t 16) 4294967296) (Nat.shiftRight t 16))) 4294967296) b c
def mplP3S38 (oa ob oc od a b c d : Nat) : MD5State :=
  mplP3T38 oa ob oc od b c d (Nat.mod (Nat.add (Nat.add (Nat.add a (Nat.xor (Nat.xor b c) d)) 4139469664) 1819304301) 4294967296)
def mplP3T37 (oa ob oc od b c d t : Nat) : MD5State :=
  mplP3S38 oa ob oc od d (Nat.mod (Nat.add b (Nat.lor (Nat.mod (Nat.shiftLeft t 11) 4294967296) (Nat.shiftRight t 21))) 4294967296) b c
def mplP3S37 (oa ob oc od a b c d : Nat) : MD5State :=
  mplP3T37 oa ob oc od b c d (Nat.mod (Nat.add (Nat.add (Nat.add a (Nat.xor (Nat.xor b c) d)) 1272893353) 1634562165) 4294967296)
def mplP3T36 (oa ob oc od b c d t : Nat) : MD5State :=
  mplP3S37 oa ob oc od d (Nat.mod (Nat.add b (Nat.lor (Nat.mod (Nat.shiftLeft t 4) 4294967296) (Nat.shiftRight t 28))) 4294967296) b c
def mplP3S36 (oa ob oc od a b c d : Nat) : MD5State :=
  mplP3T36 oa ob oc od b c d (Nat.mod (Nat.add (Nat.add (Nat.add a (Nat.xor (Nat.xor b c) d)) 2763975236) 1886745209) 4294967296)
def mplP3T35 (oa ob oc od b c d t : Nat) : MD5State :=
  mplP3S36 oa ob oc od d (Nat.mod (Nat.add b (Nat.lor (Nat.mod (Nat.shiftLeft t 23) 4294967296) (Nat.shiftRight t 9))) 4294967296) b c
def mplP3S35 (oa ob oc od a b c d : Nat) : MD5State :=
  mplP3T35 oa ob oc od b c d (Nat.mod (Nat.add (Nat.add (Nat.add a (Nat.xor (Nat.xor b c) d)) 4259657740) 1634562165) 4294967296)
def mplP3T34 (oa ob oc od b c d t : Nat) : MD5State :=
  mplP3S35 oa ob oc od d (Nat.mod (Nat.add b (Nat.lor (Nat.mod (Nat.shiftLeft t 16) 4294967296) (Nat.shiftRight t 16))) 4294967296) b c
def mplP3S34 (oa ob oc od a b c d : Nat) : MD5State :=
  mplP3T34 oa ob oc od b c d (Nat.mod (Nat.add (Nat.add (Nat.add a (Nat.xor (Nat.xor b c) d)) 1839030562) 1886745209) 4294967296)
def mplP3T33 (oa ob oc od b c d t : Nat) : MD5State :=
  mplP3S34 oa ob oc od d (Nat.mod (Nat.add b (Nat.lor (Nat.mod (Nat.shiftLeft t 11) 4294967296) (Nat.shiftRight t 21))) 4294967296) b c
def mplP3S33 (oa ob oc od a b c d : Nat) : MD5State :=
  mplP3T33 oa ob oc od b c d (Nat.mod (Nat.add (Nat.add (Nat.add a (Nat.xor (Nat.xor b c) d)) 2272392833) 1920562021) 4294967296)
def mplP3T32 (oa ob oc od b c d t : Nat) : MD5State :=
  mplP3S33 oa ob oc od d (Nat.mod (Nat.add b (Nat.lor (Nat.mod (Nat.shiftLeft t 4) 4294967296) (Nat.shiftRight t 28))) 4294967296) b c
def mplP3S32 (oa ob oc od a b c d : Nat) : MD5State :=
  mplP3T32 oa ob oc od b c d (Nat.mod (Nat.add (Nat.add (Nat.add a (Nat.xor (Nat.xor b c) d)) 4294588738) 1936026736) 4294967296)
def mplP3T31 (oa ob oc od b c d t : Nat) : MD5State :=
  mplP3S32 oa ob oc od d (Nat.mod (Nat.add b (Nat.lor (Nat.mod (Nat.shiftLeft t 20) 4294967296) (Nat.shiftRight t 12))) 4294967296) b c
def mplP3S31 (oa ob oc od a b c d : Nat) : MD5State :=
  mplP3T31 oa ob oc od b c d (Nat.mod (Nat.add (Nat.add (Nat.add a (Nat.lor (Nat.land d b) (Nat.land (Nat.sub 4294967295 d) c))) 2368359562) 1819304301) 4294967296)
def mplP3T30 (oa ob oc od b c d t : Nat) : MD5State :=
  mplP3S31 oa ob oc od d (Nat.mod (Nat.add b (Nat.lor (Nat.mod (Nat.shiftLeft t 14) 4294967296) (Nat.shiftRight t 18))) 4294967296) b c
def mplP3S30 (oa ob oc od a b c d : Nat) : MD5State :=
  mplP3T30 oa ob oc od b c d (Nat.mod (Nat.add (Nat.add (Nat.add a (Nat.lor (Nat.land d b) (Nat.land (Nat.sub 4294967295 d) c))) 1735328473) 1819304301) 4294967296)
def mplP3T29 (oa ob oc od b c d t : Nat) : MD5State :=
  mplP3S30 oa ob oc od d (Nat.mod (Nat.add b (Nat.lor (Nat.mod (Nat.shiftLeft t 9) 4294967296) (Nat.shiftRight t 23))) 4294967296) b c
def mplP3S29 (oa ob oc od a b c d : Nat) : MD5State :=
  mplP3T29 oa ob oc od b c d (Nat.mod (Nat.add (Nat.add (Nat.add a (Nat.lor (Nat.land d b) (Nat.land (Nat.sub 4294967295 d) c))) 4243563512) 1819304301) 4294967296)
def mplP3T28 (oa ob oc od b c d t : Nat) : MD5State :=
  mplP3S29 oa ob oc od d (Nat.mod (Nat.add b (Nat.lor (Nat.mod (Nat.shiftLeft t 5) 4294967296) (Nat.shiftRight t 27))) 4294967296) b c
def mplP3S28 (oa ob oc od a b c d : Nat) : MD5State :=
  mplP3T28 oa ob oc od b c d (Nat.mod (Nat.add (Nat.add (Nat.add a (Nat.lor (Nat.land d b) (Nat.land (Nat.sub 4294967295 d) c))) 2850285829) 1920562021) 4294967296)
def mplP3T27 (oa ob oc od b c d t : Nat) : MD5State :=
  mplP3S28 oa ob oc od d (Nat.mod (Nat.add b (Nat.lor (Nat.mod (Nat.shiftLeft t 20) 4294967296) (Nat.shiftRight t 12))) 4294967296) b c
def mplP3S27 (oa ob oc od a b c d : Nat) : MD5State :=
  mplP3T27 oa ob oc od b c d (Nat.mod (Nat.add (Nat.add (Nat.add a (Nat.lor (Nat.land d b) (Nat.land (Nat.sub 4294967295 d) c))) 1163531501) 1920562021) 4294967296)
def mplP3T26 (oa ob oc od b c d t : Nat) : MD5State :=
  mplP3S27 oa ob oc od d (Nat.mod (Nat.add b (Nat.lor (Nat.mod (Nat.shiftLeft t 14) 4294967296) (Nat.shiftRight t 18))) 4294967296) b c
def mplP3S26 (oa ob oc od a b c d : Nat) : MD5State :=
  mplP3T26 oa ob oc od b c d (Nat.mod (Nat.add (Nat.add (Nat.add a (Nat.lor (Nat.land d b) (Nat.land (Nat.sub 4294967295 d) c))) 4107603335) 1920562021) 4294967296)
def mplP3T25 (oa ob oc od b c d t : Nat) : MD5State :=
  mplP3S26 oa ob oc od d (Nat.mod (Nat.add b (Nat.lor (Nat.mod (Nat.shiftLeft t 9) 4294967296) (Nat.shiftRight t 23))) 4294967296) b c
def mplP3S25 (oa ob oc od a b c d : Nat) : MD5State :=
  mplP3T25 oa ob oc od b c d (Nat.mod (Nat.add (Nat.add (Nat.add a (Nat.lor (Nat.land d b) (Nat.land (Nat.sub 4294967295 d) c))) 3275163606) 1634562165) 4294967296)
def mplP3T24 (oa ob oc od b c d t : Nat) : MD5State :=
  mplP3S25 oa ob oc od d (Nat.mod (Nat.add b (Nat.lor (Nat.mod (Nat.shiftLeft t 5) 4294967296) (Nat.shiftRight t 27))) 4294967296) b c
def mplP3S24 (oa ob oc od a b c d : Nat) : MD5State :=
  mplP3T24 oa ob oc od b c d (Nat.mod (Nat.add (Nat.add (Nat.add a (Nat.lor (Nat.land d b) (Nat.land (Nat.sub 4294967295 d) c))) 568446438) 1634562165) 4294967296)
def mplP3T23 (oa ob oc od b c d t : Nat) : MD5State :=
  mplP3S24 oa ob oc od d (Nat.mod (Nat.add b (Nat.lor (Nat.mod (Nat.shiftLeft t 20) 4294967296) (Nat.shiftRight t 12))) 4294967296) b c
def mplP3S23 (oa ob oc od a b c d : Nat) : MD5State :=
  mplP3T23 oa ob oc od b c d (Nat.mod (Nat.add (Nat.add (Nat.add a (Nat.lor (Nat.land d b) (Nat.land (Nat.sub 4294967295 d) c))) 3889429448) 1634562165) 4294967296)
def mplP3T22 (oa ob oc od b c d t : Nat) : MD5State :=
  mplP3S23 oa ob oc od d (Nat.mod (Nat.add b (Nat.lor (Nat.mod (Nat.shiftLeft t 14) 4294967296) (Nat.shiftRight t 18))) 4294967296) b c
def mplP3S22 (oa ob oc od a b c d : Nat) : MD5State :=
  mplP3T22 oa ob oc od b c d (Nat.mod (Nat.add (Nat.add (Nat.add a (Nat.lor (Nat.land d b) (Nat.land (Nat.sub 4294967295 d) c))) 3634488961) 1936026736) 4294967296)
def mplP3T21 (oa ob oc od b c d t : Nat) : MD5State :=
  mplP3S22 oa ob oc od d (Nat.mod (Nat.add b (Nat.lor (Nat.mod (Nat.shiftLeft t 9) 4294967296) (Nat.shiftRight t 23))) 4294967296) b c
def mplP3S21 (oa ob oc od a b c d : Nat) : MD5State :=
  mplP3T21 oa ob oc od b c d (Nat.mod (Nat.add (Nat.add (Nat.add a (Nat.lor (Nat.land d b) (Nat.land (Nat.sub 4294967295 d) c))) 38016083) 1936026736) 4294967296)
def mplP3T20 (oa ob oc od b c d t : Nat) : MD5State :=
  mplP3S21 oa ob oc od d (Nat.mod (Nat.add b (Nat.lor (Nat.mod (Nat.shiftLeft t 5) 4294967296) (Nat.shiftRight t 27))) 4294967296) b c
def mplP3S20 (oa ob oc od a b c d : Nat) : MD5State :=
  mplP3T20 oa ob oc od b c d (Nat.mod (Nat.add (Nat.add (Nat.add a (Nat.lor (Nat.land d b) (Nat.land (Nat.sub 4294967295 d) c))) 3593408605) 1936026736) 4294967296)
def mplP3T19 (oa ob oc od b c d t : Nat) : MD5State :=
  mplP3S20 oa ob oc od d (Nat.mod (Nat.add b (Nat.lor (Nat.mod (Nat.shiftLeft t 20) 4294967296) (Nat.shiftRight t 12))) 4294967296) b c
def mplP3S19 (oa ob oc od a b c d : Nat) : MD5State :=
  mplP3T19 oa ob oc od b c d (Nat.mod (Nat.add (Nat.add (Nat.add a (Nat.lor (Nat.land d b) (Nat.land (Nat.sub 4294967295 d) c))) 3921069994) 1936026736) 4294967296)
def mplP3T18 (oa ob oc od b c d t : Nat) : MD5State :=
  mplP3S19 oa ob oc od d (Nat.mod (Nat.add b (Nat.lor (Nat.mod (Nat.shiftLeft t 14) 4294967296) (Nat.shiftRight t 18))) 4294967296) b c
def mplP3S18 (oa ob oc od a b c d : Nat) : MD5State :=
  mplP3T18 oa ob oc od b c d (Nat.mod (Nat.add (Nat.add (Nat.add a (Nat.lor (Nat.land d b) (Nat.land (Nat.sub 4294967295 d) c))) 643717713) 1886745209) 4294967296)
def mplP3T17 (oa ob oc od b c d t : Nat) : MD5State :=
  mplP3S18 oa ob oc od d (Nat.mod (Nat.add b (Nat.lor (Nat.mod (Nat.shiftLeft t 9) 4294967296) (Nat.shiftRight t 23))) 4294967296) b c
def mplP3S17 (oa ob oc od a b c d : Nat) : MD5State :=
  mplP3T17 oa ob oc od b c d (Nat.mod (Nat.add (Nat.add (Nat.add a (Nat.lor (Nat.land d b) (Nat.land (Nat.sub 4294967295 d) c))) 3225465664) 1886745209) 4294967296)
def mplP3T16 (oa ob oc od b c d t : Nat) : MD5State :=
  mplP3S17 oa ob oc od d (Nat.mod (Nat.add b (Nat.lor (Nat.mod (Nat.shiftLeft t 5) 4294967296) (Nat.shiftRight t 27))) 4294967296) b c
def mplP3S16 (oa ob oc od a b c d : Nat) : MD5State :=
  mplP3T16 oa ob oc od b c d (Nat.mod (Nat.add (Nat.add (Nat.add a (Nat.lor (Nat.land d b) (Nat.land (Nat.sub 4294967295 d) c))) 4129170786) 1886745209) 4294967296)
def mplP3T15 (oa ob oc od b c d t : Nat) : MD5State :=
  mplP3S16 oa ob oc od d (Nat.mod (Nat.add b (Nat.lor (Nat.mod (Nat.shiftLeft t 22) 4294967296) (Nat.shiftRight t 10))) 4294967296) b c
def mplP3S15 (oa ob oc od a b c d : Nat) : MD5State :=
  mplP3T15 oa ob oc od b c d (Nat.mod (Nat.add (Nat.add (Nat.add a (Nat.lor (Nat.land b c) (Nat.land (Nat.sub 4294967295 b) d))) 1236535329) 1936026736) 4294967296)
def mplP3T14 (oa ob oc od b c d t : Nat) : MD5State :=
  mplP3S15 oa ob oc od d (Nat.mod (Nat.add b (Nat.lor (Nat.mod (Nat.shiftLeft t 17) 4294967296) (Nat.shiftRight t 15))) 4294967296) b c
def mplP3S14 (oa ob oc od a b c d : Nat) : MD5State :=
  mplP3T14 oa ob oc od b c d (Nat.mod (Nat.add (Nat.add (Nat.add a (Nat.lor (Nat.land b c) (Nat.land (Nat.sub 4294967295 b) d))) 2792965006) 1634562165) 4294967296)
def mplP3T13 (oa ob oc od b c d t : Nat) : MD5State :=
  mplP3S14 oa ob oc od d (Nat.mod (Nat.add b (Nat.lor (Nat.mod (Nat.shiftLeft t 12) 4294967296) (Nat.shiftRight t 20))) 4294967296) b c
def mplP3S13 (oa ob oc od a b c d : Nat) : MD5State :=
  mplP3T13 oa ob oc od b c d (Nat.mod (Nat.add (Nat.add (Nat.add a (Nat.lor (Nat.land b c) (Nat.land (Nat.sub 4294967295 b) d))) 4254626195) 1920562021) 4294967296)
def mplP3T12 (oa ob oc od b c d t : Nat) : MD5State :=
  mplP3S13 oa ob oc od d (Nat.mod (Nat.add b (Nat.lor (Nat.mod (Nat.shiftLeft t 7) 4294967296) (Nat.shiftRight t 25))) 4294967296) b c
def mplP3S12 (oa ob oc od a b c d : Nat) : MD5State :=
  mplP3T12 oa ob oc od b c d (Nat.mod (Nat.add (Nat.add (Nat.add a (Nat.lor (Nat.land b c) (Nat.land (Nat.sub 4294967295 b) d))) 1804603682) 1819304301) 4294967296)
def mplP3T11 (oa ob oc od b c d t : Nat) : MD5State :=
  mplP3S12 oa ob oc od d (Nat.mod (Nat.add b (Nat.lor (Nat.mod (Nat.shiftLeft t 22) 4294967296) (Nat.shiftRight t 10))) 4294967296) b c
def mplP3S11 (oa ob oc od a b c d : Nat) : MD5State :=
  mplP3T11 oa ob oc od b c d (Nat.mod (Nat.add (Nat.add (Nat.add a (Nat.lor (Nat.land b c) (Nat.land (Nat.sub 4294967295 b) d))) 2304563134) 1886745209) 4294967296)
def mplP3T10 (oa ob oc od b c d t : Nat) : MD5State :=
  mplP3S11 oa ob oc od d (Nat.mod (Nat.add b (Nat.lor (Nat.mod (Nat.shiftLeft t 17) 4294967296) (Nat.shiftRight t 15))) 4294967296) b c
def mplP3S10 (oa ob oc od a b c d : Nat) : MD5State :=
  mplP3T10 oa ob oc od b c d (Nat.mod (Nat.add (Nat.add (Nat.add a (Nat.lor (Nat.land b c) (Nat.land (Nat.sub 4294967295 b) d))) 4294925233) 1936026736) 4294967296)
def mplP3T9 (oa ob oc od b c d t : Nat) : MD5State :=
  mplP3S10 oa ob oc od d (Nat.mod (Nat.add b (Nat.lor (Nat.mod (Nat.shiftLeft t 12) 4294967296) (Nat.shiftRight t 20))) 4294967296) b c
def mplP3S9 (oa ob oc od a b c d : Nat) : MD5State :=
  mplP3T9 oa ob oc od b c d (Nat.mod (Nat.add (Nat.add (Nat.add a (Nat.lor (Nat.land b c) (Nat.land (Nat.sub 4294967295 b) d))) 2336552879) 1634562165) 4294967296)
def mplP3T8 (oa ob oc od b c d t : Nat) : MD5State :=
  mplP3S9 oa ob oc od d (Nat.mod (Nat.add b (Nat.lor (Nat.mod (Nat.shiftLeft t 7) 4294967296) (Nat.shiftRight t 25))) 4294967296) b c
def mplP3S8 (oa ob oc od a b c d : Nat) : MD5State :=
  mplP3T8 oa ob oc od b c d (Nat.mod (Nat.add (Nat.add (Nat.add a (Nat.lor (Nat.land b c) (Nat.land (Nat.sub 4294967295 b) d))) 1770035416) 1920562021) 4294967296)
def mplP3T7 (oa ob oc od b c d t : Nat) : MD5State :=
  mplP3S8 oa ob oc od d (Nat.mod (Nat.add b (Nat.lor (Nat.mod (Nat.shiftLeft t 22) 4294967296) (Nat.shiftRight t 10))) 4294967296) b c
def mplP3S7 (oa ob oc od a b c d : Nat) : MD5State :=
  mplP3T7 oa ob oc od b c d (Nat.mod (Nat.add (Nat.add (Nat.add a (Nat.lor (Nat.land b c) (Nat.land (Nat.sub 4294967295 b) d))) 4249261313) 1819304301) 4294967296)
def mplP3T6 (oa ob oc od b c d t : Nat) : MD5State :=
  mplP3S7 oa ob oc od d (Nat.mod (Nat.add b (Nat.lor (Nat.mod (Nat.shiftLeft t 17) 4294967296) (Nat.shiftRight t 15))) 4294967296) b c
def mplP3S6 (oa ob oc od a b c d : Nat) : MD5State :=
  mplP3T6 oa ob oc od b c d (Nat.mod (Nat.add (Nat.add (Nat.add a (Nat.lor (Nat.land b c) (Nat.land (Nat.sub 4294967295 b) d))) 2821735955) 1886745209) 4294967296)
def mplP3T5 (oa ob oc od b c d t : Nat) : MD5State :=
  mplP3S6 oa ob oc od d (Nat.mod (Nat.add b (Nat.lor (Nat.mod (Nat.shiftLeft t 12) 4294967296) (Nat.shiftRight t 20))) 4294967296) b c
def mplP3S5 (oa ob oc od a b c d : Nat) : MD5State :=
  mplP3T5 oa ob oc od b c d (Nat.mod (Nat.add (Nat.add (Nat.add a (Nat.lor (Nat.land b c) (Nat.land (Nat.sub 4294967295 b) d))) 1200080426) 1936026736) 4294967296)
def mplP3T4 (oa ob oc od b c d t : Nat) : MD5State :=
  mplP3S5 oa ob oc od d (Nat.mod (Nat.add b (Nat.lor (Nat.mod (Nat.shiftLeft t 7) 4294967296) (Nat.shiftRight t 25))) 4294967296) b c
def mplP3S4 (oa ob oc od a b c d : Nat) : MD5State :=
  mplP3T4 oa ob oc od b c d (Nat.mod (Nat.add (Nat.add (Nat.add a (Nat.lor (Nat.land b c) (Nat.land (Nat.sub 4294967295 b) d))) 4118548399) 1634562165) 4294967296)
def mplP3T3 (oa ob oc od b c d t : Nat) : MD5State :=
  mplP3S4 oa ob oc od d (Nat.mod (Nat.add b (Nat.lor (Nat.mod (Nat.shiftLeft t 22) 4294967296) (Nat.shiftRight t 10))) 4294967296) b c
def mplP3S3 (oa ob oc od a b c d : Nat) : MD5State :=
  mplP3T3 oa ob oc od b c d (Nat.mod (Nat.add (Nat.add (Nat.add a (Nat.lor (Nat.land b c) (Nat.land (Nat.sub 4294967295 b) d))) 3250441966) 1920562021) 4294967296)
def mplP3T2 (oa ob oc od b c d t : Nat) : MD5State :=
  mplP3S3 oa ob oc od d (Nat.mod (Nat.add b (Nat.lor (Nat.mod (Nat.shiftLeft t 17) 4294967296) (Nat.shiftRight t 15))) 4294967296) b c
def mplP3S2 (oa ob oc od a b c d : Nat) : MD5State :=
  mplP3T2 oa ob oc od b c d (Nat.mod (Nat.add (Nat.add (Nat.add a (Nat.lor (Nat.land b c) (Nat.land (Nat.sub 4294967295 b) d))) 606105819) 1819304301) 4294967296)
def mplP3T1 (oa ob oc od b c d t : Nat) : MD5State :=
  mplP3S2 oa ob oc od d (Nat.mod (Nat.add b (Nat.lor (Nat.mod (Nat.shiftLeft t 12) 4294967296) (Nat.shiftRight t 20))) 4294967296) b c
def mplP3S1 (oa ob oc od a b c d : Nat) : MD5State :=
  mplP3T1 oa ob oc od b c d (Nat.mod (Nat.add (Nat.add (Nat.add a (Nat.lor (Nat.land b c) (Nat.land (Nat.sub 4294967295 b) d))) 3905402710) 1886745209) 4294967296)
def mplP3T0 (oa ob oc od b c d t : Nat) : MD5State :=
  mplP3S1 oa ob oc od d (Nat.mod (Nat.add b (Nat.lor (Nat.mod (Nat.shiftLeft t 7) 4294967296) (Nat.shiftRight t 25))) 4294967296) b c
def mplP3S0 (oa ob oc od a b c d : Nat) : MD5State :=
  mplP3T0 oa ob oc od b c d (Nat.mod (Nat.add (Nat.add (Nat.add a (Nat.lor (Nat.land b c) (Nat.land (Nat.sub 4294967295 b) d))) 3614090360) 1936026736) 4294967296)
def mplP3C (st : MD5State) : MD5State :=
  mplP3S0 st.a st.b st.c st.d st.a st.b st.c st.d

def mplP4S64 (oa ob oc od a b c d : Nat) : MD5State :=
  ⟨Nat.mod (Nat.add oa a) 4294967296, Nat.mod (Nat.add ob b) 4294967296, Nat.mod (Nat.add oc c) 4294967296, Nat.mod (Nat.add od d) 4294967296⟩
def mplP4T63 (oa ob oc od b c d t : Nat) : MD5State :=
  mplP4S64 oa ob oc od d (Nat.mod (Nat.add b (Nat.lor (Nat.mod (Nat.shiftLeft t 21) 4294967296) (Nat.shiftRight t 11))) 4294967296) b c
def mplP4S63 (oa ob oc od a b c d : Nat) : MD5State :=
  mplP4T63 oa ob oc od b c d (Nat.mod (Nat.add (Nat.add (Nat.add a (Nat.xor c (Nat.lor b (Nat.sub 4294967295 d)))) 3951481745) 1936026736) 4294967296)
def mplP4T62 (oa ob oc od b c d t : Nat) : MD5State :=
  mplP4S63 oa ob oc od d (Nat.mod (Nat.add b (Nat.lor (Nat.mod (Nat.shiftLeft t 15) 4294967296) (Nat.shiftRight t 17))) 4294967296) b c
def mplP4S62 (oa ob oc od a b c d : Nat) : MD5State :=
  mplP4T62 oa ob oc od b c d (Nat.mod (Nat.add (Nat.add (Nat.add a (Nat.xor c (Nat.lor b (Nat.sub 4294967295 d)))) 718787259) 1920562021) 4294967296)
def mplP4T61 (oa ob oc od b c d t : Nat) : MD5State :=
  mplP4S62 oa ob oc od d (Nat.mod (Nat.add b (Nat.lor (Nat.mod (Nat.shiftLeft t 10) 4294967296) (Nat.shiftRight t 22))) 4294967296) b c
def mplP4S61 (oa ob oc od a b c d : Nat) : MD5State :=
  mplP4T61 oa ob oc od b c d (Nat.mod (Nat.add (Nat.add (Nat.add a (Nat.xor c (Nat.lor b (Nat.sub 4294967295 d)))) 3174756917) 1819304301) 4294967296)
def mplP4T60 (oa ob oc od b c d t : Nat) : MD5State :=
  mplP4S61 oa ob oc od d (Nat.mod (Nat.add b (Nat.lor (Nat.mod (Nat.shiftLeft t 6) 4294967296) (Nat.shiftRight t 26))) 4294967296) b c
def mplP4S60 (oa ob oc od a b c d : Nat) : MD5State :=
  mplP4T60 oa ob oc od b c d (Nat.mod (Nat.add (Nat.add (Nat.add a (Nat.xor c (Nat.lor b (Nat.sub 4294967295 d)))) 4149444226) 1936026736) 4294967296)
def mplP4T59 (oa ob oc od b c d t : Nat) : MD5State :=
  mplP4S60 oa ob oc od d (Nat.mod (Nat.add b (Nat.lor (Nat.mod (Nat.shiftLeft t 21) 4294967296) (Nat.shiftRight t 11))) 4294967296) b c
def mplP4S59 (oa ob oc od a b c d : Nat) : MD5State :=
  mplP4T59 oa ob oc od b c d (Nat.mod (Nat.add (Nat.add (Nat.add a (Nat.xor c (Nat.lor b (Nat.sub 4294967295 d)))) 1309151649) 1634562165) 4294967296)
def mplP4T58 (oa ob oc od b c d t : Nat) : MD5State :=
  mplP4S59 oa ob oc od d (Nat.mod (Nat.add b (Nat.lor (Nat.mod (Nat.shiftLeft t 15) 4294967296) (Nat.shiftRight t 17))) 4294967296) b c
def mplP4S58 (oa ob oc od a b c d : Nat) : MD5State :=
  mplP4T58 oa ob oc od b c d (Nat.mod (Nat.add (Nat.add (Nat.add a (Nat.xor c (Nat.lor b (Nat.sub 4294967295 d)))) 2734768916) 1819304301) 4294967296)
def mplP4T57 (oa ob oc od b c d t : Nat) : MD5State :=
  mplP4S58 oa ob oc od d (Nat.mod (Nat.add b (Nat.lor (Nat.mod (Nat.shiftLeft t 10) 4294967296) (Nat.shiftRight t 22))) 4294967296) b c
def mplP4S57 (oa ob oc od a b c d : Nat) : MD5State :=
  mplP4T57 oa ob oc od b c d (Nat.mod (Nat.add (Nat.add (Nat.add a (Nat.xor c (Nat.lor b (Nat.sub 4294967295 d)))) 4264355552) 1886745209) 4294967296)
def mplP4T56 (oa ob oc od b c d t : Nat) : MD5State :=
  mplP4S57 oa ob oc od d (Nat.mod (Nat.add b (Nat.lor (Nat.mod (Nat.shiftLeft t 6) 4294967296) (Nat.shiftRight t 26))) 4294967296) b c
def mplP4S56 (oa ob oc od a b c d : Nat) : MD5State :=
  mplP4T56 oa ob oc od b c d (Nat.mod (Nat.add (Nat.add (Nat.add a (Nat.xor c (Nat.lor b (Nat.sub 4294967295 d)))) 1873313359) 1634562165) 4294967296)
def mplP4T55 (oa ob oc od b c d t : Nat) : MD5State :=
  mplP4S56 oa ob oc od d (Nat.mod (Nat.add b (Nat.lor (Nat.mod (Nat.shiftLeft t 21) 4294967296) (Nat.shiftRight t 11))) 4294967296) b c
def mplP4S55 (oa ob oc od a b c d : Nat) : MD5State :=
  mplP4T55 oa ob oc od b c d (Nat.mod (Nat.add (Nat.add (Nat.add a (Nat.xor c (Nat.lor b (Nat.sub 4294967295 d)))) 2240044497) 1819304301) 4294967296)
def mplP4T54 (oa ob oc od b c d t : Nat) : MD5State :=
  mplP4S55 oa ob oc od d (Nat.mod (Nat.add b (Nat.lor (Nat.mod (Nat.shiftLeft t 15) 4294967296) (Nat.shiftRight t 17))) 4294967296) b c
def mplP4S54 (oa ob oc od a b c d : Nat) : MD5State :=
  mplP4T54 oa ob oc od b c d (Nat.mod (Nat.add (Nat.add (Nat.add a (Nat.xor c (Nat.lor b (Nat.sub 4294967295 d)))) 4293915773) 1886745209) 4294967296)
def mplP4T53 (oa ob oc od b c d t : Nat) : MD5State :=
  mplP4S54 oa ob oc od d (Nat.mod (Nat.add b (Nat.lor (Nat.mod (Nat.shiftLeft t 10) 4294967296) (Nat.shiftRight t 22))) 4294967296) b c
def mplP4S53 (oa ob oc od a b c d : Nat) : MD5State :=
  mplP4T53 oa ob oc od b c d (Nat.mod (Nat.add (Nat.add (Nat.add a (Nat.xor c (Nat.lor b (Nat.sub 4294967295 d)))) 2399980690) 1634562165) 4294967296)
def mplP4T52 (oa ob oc od b c d t : Nat) : MD5State :=
  mplP4S53 oa ob oc od d (Nat.mod (Nat.add b (Nat.lor (Nat.mod (Nat.shiftLeft t 6) 4294967296) (Nat.shiftRight t 26))) 4294967296) b c
def mplP4S52 (oa ob oc od a b c d : Nat) : MD5State :=
  mplP4T52 oa ob oc od b c d (Nat.mod (Nat.add (Nat.add (Nat.add a (Nat.xor c (Nat.lor b (Nat.sub 4294967295 d)))) 1700485571) 1920562021) 4294967296)
def mplP4T51 (oa ob oc od b c d t : Nat) : MD5State :=
  mplP4S52 oa ob oc od d (Nat.mod (Nat.add b (Nat.lor (Nat.mod (Nat.shiftLeft t 21) 4294967296) (Nat.shiftRight t 11))) 4294967296) b c
def mplP4S51 (oa ob oc od a b c d : Nat) : MD5State :=
  mplP4T51 oa ob oc od b c d (Nat.mod (Nat.add (Nat.add (Nat.add a (Nat.xor c (Nat.lor b (Nat.sub 4294967295 d)))) 4237533241) 1886745209) 4294967296)
def mplP4T50 (oa ob oc od b c d t : Nat) : MD5State :=
  mplP4S51 oa ob oc od d (Nat.mod (Nat.add b (Nat.lor (Nat.mod (Nat.shiftLeft t 15) 4294967296) (Nat.shiftRight t 17))) 4294967296) b c
def mplP4S50 (oa ob oc od a b c d : Nat) : MD5State :=
  mplP4T50 oa ob oc od b c d (Nat.mod (Nat.add (Nat.add (Nat.add a (Nat.xor c (Nat.lor b (Nat.sub 4294967295 d)))) 2878612391) 1936026736) 4294967296)
def mplP4T49 (oa ob oc od b c d t : Nat) : MD5State :=
  mplP4S50 oa ob oc od d (Nat.mod (Nat.add b (Nat.lor (Nat.mod (Nat.shiftLeft t 10) 4294967296) (Nat.shiftRight t 22))) 4294967296) b c
def mplP4S49 (oa ob oc od a b c d : Nat) : MD5State :=
  mplP4T49 oa ob oc od b c d (Nat.mod (Nat.add (Nat.add (Nat.add a (Nat.xor c (Nat.lor b (Nat.sub 4294967295 d)))) 1126891415) 1920562021) 4294967296)
def mplP4T48 (oa ob oc od b c d t : Nat) : MD5State :=
  mplP4S49 oa ob oc od d (Nat.mod (Nat.add b (Nat.lor (Nat.mod (Nat.shiftLeft t 6) 4294967296) (Nat.shiftRight t 26))) 4294967296) b c
def mplP4S48 (oa ob oc od a b c d : Nat) : MD5State :=
  mplP4T48 oa ob oc od b c d (Nat.mod (Nat.add (Nat.add (Nat.add a (Nat.xor c (Nat.lor b (Nat.sub 4294967295 d)))) 4096336452) 1886745209) 4294967296)
def mplP4T47 (oa ob oc od b c d t : Nat) : MD5State :=
  mplP4S48 oa ob oc od d (Nat.mod (Nat.add b (Nat.lor (Nat.mod (Nat.shiftLeft t 23) 4294967296) (Nat.shiftRight t 9))) 4294967296) b c
def mplP4S47 (oa ob oc od a b c d : Nat) : MD5State :=
  mplP4T47 oa ob oc od b c d (Nat.mod (Nat.add (Nat.add (Nat.add a (Nat.xor (Nat.xor b c) d)) 3299628645) 1920562021) 4294967296)
def mplP4T46 (oa ob oc od b c d t : Nat) : MD5State :=
  mplP4S47 oa ob oc od d (Nat.mod (Nat.add b (Nat.lor (Nat.mod (Nat.shiftLeft t 16) 4294967296) (Nat.shiftRight t 16))) 4294967296) b c
def mplP4S46 (oa ob oc od a b c d : Nat) : MD5State :=
  mplP4T46 oa ob oc od b c d (Nat.mod (Nat.add (Nat.add (Nat.add a (Nat.xor (Nat.xor b c) d)) 530742520) 1886745209) 4294967296)
def mplP4T45 (oa ob oc od b c d t : Nat) : MD5State :=
  mplP4S46 oa ob oc od d (Nat.mod (Nat.add b (Nat.lor (Nat.mod (Nat.shiftLeft t 11) 4294967296) (Nat.shiftRight t 21))) 4294967296) b c
def mplP4S45 (oa ob oc od a b c d : Nat) : MD5State :=
  mplP4T45 oa ob oc od b c d (Nat.mod (Nat.add (Nat.add (Nat.add a (Nat.xor (Nat.xor b c) d)) 3873151461) 1920562021) 4294967296)
def mplP4T44 (oa ob oc od b c d t : Nat) : MD5State :=
  mplP4S45 oa ob oc od d (Nat.mod (Nat.add b (Nat.lor (Nat.mod (Nat.shiftLeft t 4) 4294967296) (Nat.shiftRight t 28))) 4294967296) b c
def mplP4S44 (oa ob oc od a b c d : Nat) : MD5State :=
  mplP4T44 oa ob oc od b c d (Nat.mod (Nat.add (Nat.add (Nat.add a (Nat.xor (Nat.xor b c) d)) 3654602809) 1936026736) 4294967296)
def mplP4T43 (oa ob oc od b c d t : Nat) : MD5State :=
  mplP4S44 oa ob oc od d (Nat.mod (Nat.add b (Nat.lor (Nat.mod (Nat.shiftLeft t 23) 4294967296) (Nat.shiftRight t 9))) 4294967296) b c
def mplP4S43 (oa ob oc od a b c d : Nat) : MD5State :=
  mplP4T43 oa ob oc od b c d (Nat.mod (Nat.add (Nat.add (Nat.add a (Nat.xor (Nat.xor b c) d)) 76029189) 1819304301) 4294967296)
def mplP4T42 (oa ob oc od b c d t : Nat) : MD5State :=
  mplP4S43 oa ob oc od d (Nat.mod (Nat.add b (Nat.lor (Nat.mod (Nat.shiftLeft t 16) 4294967296) (Nat.shiftRight t 16))) 4294967296) b c
def mplP4S42 (oa ob oc od a b c d : Nat) : MD5State :=
  mplP4T42 oa ob oc od b c d (Nat.mod (Nat.add (Nat.add (Nat.add a (Nat.xor (Nat.xor b c) d)) 3572445317) 1634562165) 4294967296)
def mplP4T41 (oa ob oc od b c d t : Nat) : MD5State :=
  mplP4S42 oa ob oc od d (Nat.mod (Nat.add b (Nat.lor (Nat.mod (Nat.shiftLeft t 11) 4294967296) (Nat.shiftRight t 21))) 4294967296) b c
def mplP4S41 (oa ob oc od a b c d : Nat) : MD5State :=
  mplP4T41 oa ob oc od b c d (Nat.mod (Nat.add (Nat.add (Nat.add a (Nat.xor (Nat.xor b c) d)) 3936430074) 1886745209) 4294967296)
def mplP4T40 (oa ob oc od b c d t : Nat) : MD5State :=
  mplP4S41 oa ob oc od d (Nat.mod (Nat.add b (Nat.lor (Nat.mod (Nat.shiftLeft t 4) 4294967296) (Nat.shiftRight t 28))) 4294967296) b c
def mplP4S40 (oa ob oc od a b c d : Nat) : MD5State :=
  mplP4T40 oa ob oc od b c d (Nat.mod (Nat.add (Nat.add (Nat.add a (Nat.xor (Nat.xor b c) d)) 681279174) 1634562165) 4294967296)
def mplP4T39 (oa ob oc od b c d t : Nat) : MD5State :=
  mplP4S40 oa ob oc od d (Nat.mod (Nat.add b (Nat.lor (Nat.mod (Nat.shiftLeft t 23) 4294967296) (Nat.shiftRight t 9))) 4294967296) b c
def mplP4S39 (oa ob oc od a b c d : Nat) : MD5State :=
  mplP4T39 oa ob oc od b c d (Nat.mod (Nat.add (Nat.add (Nat.add a (Nat.xor (Nat.xor b c) d)) 3200236656) 1886745209) 4294967296)
def mplP4T38 (oa ob oc od b c d t : Nat) : MD5State :=
  mplP4S39 oa ob oc od d (Nat.mod (Nat.add b (Nat.lor (Nat.mod (Nat.shiftLeft t 16) 4294967296) (Nat.shiftRight t 16))) 4294967296) b c
def mplP4S38 (oa ob oc od a b c d : Nat) : MD5State :=
  mplP4T38 oa ob oc od b c d (Nat.mod (Nat.add (Nat.add (Nat.add a (Nat.xor (Nat.xor b c) d)) 4139469664) 1920562021) 4294967296)
def mplP4T37 (oa ob oc od b c d t : Nat) : MD5State :=
  mplP4S38 oa ob oc od d (Nat.mod (Nat.add b (Nat.lor (Nat.mod (Nat.shiftLeft t 11) 4294967296) (Nat.shiftRight t 21))) 4294967296) b c
def mplP4S37 (oa ob oc od a b c d : Nat) : MD5State :=
  mplP4T37 oa ob oc od b c d (Nat.mod (Nat.add (Nat.add (Nat.add a (Nat.xor (Nat.xor b c) d)) 1272893353) 1936026736) 4294967296)
def mplP4T36 (oa ob oc od b c d t : Nat) : MD5State :=
  mplP4S37 oa ob oc od d (Nat.mod (Nat.add b (Nat.lor (Nat.mod (Nat.shiftLeft t 4) 4294967296) (Nat.shiftRight t 28))) 4294967296) b c
def mplP4S36 (oa ob oc od a b c d : Nat) : MD5State :=
  mplP4T36 oa ob oc od b c d (Nat.mod (Nat.add (Nat.add (Nat.add a (Nat.xor (Nat.xor b c) d)) 2763975236) 1819304301) 4294967296)
def mplP4T35 (oa ob oc od b c d t : Nat) : MD5State :=
  mplP4S36 oa ob oc od d (Nat.mod (Nat.add b (Nat.lor (Nat.mod (Nat.shiftLeft t 23) 4294967296) (Nat.shiftRight t 9))) 4294967296) b c
def mplP4S35 (oa ob oc od a b c d : Nat) : MD5State :=
  mplP4T35 oa ob oc od b c d (Nat.mod (Nat.add (Nat.add (Nat.add a (Nat.xor (Nat.xor b c) d)) 4259657740) 1936026736) 4294967296)
def mplP4T34 (oa ob oc od b c d t : Nat) : MD5State :=
  mplP4S35 oa ob oc od d (Nat.mod (Nat.add b (Nat.lor (Nat.mod (Nat.shiftLeft t 16) 4294967296) (Nat.shiftRight t 16))) 4294967296) b c
def mplP4S34 (oa ob oc od a b c d : Nat) : MD5State :=
  mplP4T34 oa ob oc od b c d (Nat.mod (Nat.add (Nat.add (Nat.add a (Nat.xor (Nat.xor b c) d)) 1839030562) 1819304301) 4294967296)
def mplP4T33 (oa ob oc od b c d t : Nat) : MD5State :=
  mplP4S34 oa ob oc od d (Nat.mod (Nat.add b (Nat.lor (Nat.mod (Nat.shiftLeft t 11) 4294967296) (Nat.shiftRight t 21))) 4294967296) b c
def mplP4S33 (oa ob oc od a b c d : Nat) : MD5State :=
  mplP4T33 oa ob oc od b c d (Nat.mod (Nat.add (Nat.add (Nat.add a (Nat.xor (Nat.xor b c) d)) 2272392833) 1634562165) 4294967296)
def mplP4T32 (oa ob oc od b c d t : Nat) : MD5State :=
  mplP4S33 oa ob oc od d (Nat.mod (Nat.add b (Nat.lor (Nat.mod (Nat.shiftLeft t 4) 4294967296) (Nat.shiftRight t 28))) 4294967296) b c
def mplP4S32 (oa ob oc od a b c d : Nat) : MD5State :=
  mplP4T32 oa ob oc od b c d (Nat.mod (Nat.add (Nat.add (Nat.add a (Nat.xor (Nat.xor b c) d)) 4294588738) 1886745209) 4294967296)
def mplP4T31 (oa ob oc od b c d t : Nat) : MD5State :=
  mplP4S32 oa ob oc od d (Nat.mod (Nat.add b (Nat.lor (Nat.mod (Nat.shiftLeft t 20) 4294967296) (Nat.shiftRight t 12))) 4294967296) b c
def mplP4S31 (oa ob oc od a b c d : Nat) : MD5State :=
  mplP4T31 oa ob oc od b c d (Nat.mod (Nat.add (Nat.add (Nat.add a (Nat.lor (Nat.land d b) (Nat.land (Nat.sub 4294967295 d) c))) 2368359562) 1920562021) 4294967296)
def mplP4T30 (oa ob oc od b c d t : Nat) : MD5State :=
  mplP4S31 oa ob oc od d (Nat.mod (Nat.add b (Nat.lor (Nat.mod (Nat.shiftLeft t 14) 4294967296) (Nat.shiftRight t 18))) 4294967296) b c
def mplP4S30 (oa ob oc od a b c d : Nat) : MD5State :=
  mplP4T30 oa ob oc od b c d (Nat.mod (Nat.add (Nat.add (Nat.add a (Nat.lor (Nat.land d b) (Nat.land (Nat.sub 4294967295 d) c))) 1735328473) 1920562021) 4294967296)
def mplP4T29 (oa ob oc od b c d t : Nat) : MD5State :=
  mplP4S30 oa ob oc od d (Nat.mod (Nat.add b (Nat.lor (Nat.mod (Nat.shiftLeft t 9) 4294967296) (Nat.shiftRight t 23))) 4294967296) b c
def mplP4S29 (oa ob oc od a b c d : Nat) : MD5State :=
  mplP4T29 oa ob oc od b c d (Nat.mod (Nat.add (Nat.add (Nat.add a (Nat.lor (Nat.land d b) (Nat.land (Nat.sub 4294967295 d) c))) 4243563512) 1920562021) 4294967296)
def mplP4T28 (oa ob oc od b c d t : Nat) : MD5State :=
  mplP4S29 oa ob oc od d (Nat.mod (Nat.add b (Nat.lor (Nat.mod (Nat.shiftLeft t 5) 4294967296) (Nat.shiftRight t 27))) 4294967296) b c
def mplP4S28 (oa ob oc od a b c d : Nat) : MD5State :=
  mplP4T28 oa ob oc od b c d (Nat.mod (Nat.add (Nat.add (Nat.add a (Nat.lor (Nat.land d b) (Nat.land (Nat.sub 4294967295 d) c))) 2850285829) 1634562165) 4294967296)
def mplP4T27 (oa ob oc od b c d t : Nat) : MD5State :=
  mplP4S28 oa ob oc od d (Nat.mod (Nat.add b (Nat.lor (Nat.mod (Nat.shiftLeft t 20) 4294967296) (Nat.shiftRight t 12))) 4294967296) b c
def mplP4S27 (oa ob oc od a b c d : Nat) : MD5State :=
  mplP4T27 oa ob oc od b c d (Nat.mod (Nat.add (Nat.add (Nat.add a (Nat.lor (Nat.land d b) (Nat.land (Nat.sub 4294967295 d) c))) 1163531501) 1634562165) 4294967296)
def mplP4T26 (oa ob oc od b c d t : Nat) : MD5State :=
  mplP4S27 oa ob oc od d (Nat.mod (Nat.add b (Nat.lor (Nat.mod (Nat.shiftLeft t 14) 4294967296) (Nat.shiftRight t 18))) 4294967296) b c
def mplP4S26 (oa ob oc od a b c d : Nat) : MD5State :=
  mplP4T26 oa ob oc od b c d (Nat.mod (Nat.add (Nat.add (Nat.add a (Nat.lor (Nat.land d b) (Nat.land (Nat.sub 4294967295 d) c))) 4107603335) 1634562165) 4294967296)
def mplP4T25 (oa ob oc od b c d t : Nat) : MD5State :=
  mplP4S26 oa ob oc od d (Nat.mod (Nat.add b (Nat.lor (Nat.mod (Nat.shiftLeft t 9) 4294967296) (Nat.shiftRight t 23))) 4294967296) b c
def mplP4S25 (oa ob oc od a b c d : Nat) : MD5State :=
  mplP4T25 oa ob oc od b c d (Nat.mod (Nat.add (Nat.add (Nat.add a (Nat.lor (Nat.land d b) (Nat.land (Nat.sub 4294967295 d) c))) 3275163606) 1936026736) 4294967296)
def mplP4T24 (oa ob oc od b c d t : Nat) : MD5State :=
  mplP4S25 oa ob oc od d (Nat.mod (Nat.add b (Nat.lor (Nat.mod (Nat.shiftLeft t 5) 4294967296) (Nat.shiftRight t 27))) 4294967296) b c
def mplP4S24 (oa ob oc od a b c d : Nat) : MD5State :=
  mplP4T24 oa ob oc od b c d (Nat.mod (Nat.add (Nat.add (Nat.add a (Nat.lor (Nat.land d b) (Nat.land (Nat.sub 4294967295 d) c))) 568446438) 1936026736) 4294967296)
def mplP4T23 (oa ob oc od b c d t : Nat) : MD5State :=
  mplP4S24 oa ob oc od d (Nat.mod (Nat.add b (Nat.lor (Nat.mod (Nat.shiftLeft t 20) 4294967296) (Nat.shiftRight t 12))) 4294967296) b c
def mplP4S23 (oa ob oc od a b c d : Nat) : MD5State :=
  mplP4T23 oa ob oc od b c d (Nat.mod (Nat.add (Nat.add (Nat.add a (Nat.lor (Nat.land d b) (Nat.land (Nat.sub 4294967295 d) c))) 3889429448) 1936026736) 4294967296)
def mplP4T22 (oa ob oc od b c d t : Nat) : MD5State :=
  mplP4S23 oa ob oc od d (Nat.mod (Nat.add b (Nat.lor (Nat.mod (Nat.shiftLeft t 14) 4294967296) (Nat.shiftRight t 18))) 4294967296) b c
def mplP4S22 (oa ob oc od a b c d : Nat) : MD5State :=
  mplP4T22 oa ob oc od b c d (Nat.mod (Nat.add (Nat.add (Nat.add a (Nat.lor (Nat.land d b) (Nat.land (Nat.sub 4294967295 d) c))) 3634488961) 1886745209) 4294967296)
def mplP4T21 (oa ob oc od b c d t : Nat) : MD5State :=
  mplP4S22 oa ob oc od d (Nat.mod (Nat.add b (Nat.lor (Nat.mod (Nat.shiftLeft t 9) 4294967296) (Nat.shiftRight t 23))) 4294967296) b c
def mplP4S21 (oa ob oc od a b c d : Nat) : MD5State :=
  mplP4T21 oa ob oc od b c d (Nat.mod (Nat.add (Nat.add (Nat.add a (Nat.lor (Nat.land d b) (Nat.land (Nat.sub 4294967295 d) c))) 38016083) 1886745209) 4294967296)
def mplP4T20 (oa ob oc od b c d t : Nat) : MD5State :=
  mplP4S21 oa ob oc od d (Nat.mod (Nat.add b (Nat.lor (Nat.mod (Nat.shiftLeft t 5) 4294967296) (Nat.shiftRight t 27))) 4294967296) b c
def mplP4S20 (oa ob oc od a b c d : Nat) : MD5State :=
  mplP4T20 oa ob oc od b c d (Nat.mod (Nat.add (Nat.add (Nat.add a (Nat.lor (Nat.land d b) (Nat.land (Nat.sub 4294967295 d) c))) 3593408605) 1886745209) 4294967296)
def mplP4T19 (oa ob oc od b c d t : Nat) : MD5State :=
  mplP4S20 oa ob oc od d (Nat.mod (Nat.add b (Nat.lor (Nat.mod (Nat.shiftLeft t 20) 4294967296) (Nat.shiftRight t 12))) 4294967296) b c
def mplP4S19 (oa ob oc od a b c d : Nat) : MD5State :=
  mplP4T19 oa ob oc od b c d (Nat.mod (Nat.add (Nat.add (Nat.add a (Nat.lor (Nat.land d b) (Nat.land (Nat.sub 4294967295 d) c))) 3921069994) 1886745209) 4294967296)
def mplP4T18 (oa ob oc od b c d t : Nat) : MD5State :=
  mplP4S19 oa ob oc od d (Nat.mod (Nat.add b (Nat.lor (Nat.mod (Nat.shiftLeft t 14) 4294967296) (Nat.shiftRight t 18))) 4294967296) b c
def mplP4S18 (oa ob oc od a b c d : Nat) : MD5State :=
  mplP4T18 oa ob oc od b c d (Nat.mod (Nat.add (Nat.add (Nat.add a (Nat.lor (Nat.land d b) (Nat.land (Nat.sub 4294967295 d) c))) 643717713) 1819304301) 4294967296)
def mplP4T17 (oa ob oc od b c d t : Nat) : MD5State :=
  mplP4S18 oa ob oc od d (Nat.mod (Nat.add b (Nat.lor (Nat.mod (Nat.shiftLeft t 9) 4294967296) (Nat.shiftRight t 23))) 4294967296) b c
def mplP4S17 (oa ob oc od a b c d : Nat) : MD5State :=
  mplP4T17 oa ob oc od b c d (Nat.mod (Nat.add (Nat.add (Nat.add a (Nat.lor (Nat.land d b) (Nat.land (Nat.sub 4294967295 d) c))) 3225465664) 1819304301) 4294967296)
def mplP4T16 (oa ob oc od b c d t : Nat) : MD5State :=
  mplP4S17 oa ob oc od d (Nat.mod (Nat.add b (Nat.lor (Nat.mod (Nat.shiftLeft t 5) 4294967296) (Nat.shiftRight t 27))) 4294967296) b c
def mplP4S16 (oa ob oc od a b c d : Nat) : MD5State :=
  mplP4T16 oa ob oc od b c d (Nat.mod (Nat.add (Nat.add (Nat.add a (Nat.lor (Nat.land d b) (Nat.land (Nat.sub 4294967295 d) c))) 4129170786) 1819304301) 4294967296)
def mplP4T15 (oa ob oc od b c d t : Nat) : MD5State :=
  mplP4S16 oa ob oc od d (Nat.mod (Nat.add b (Nat.lor (Nat.mod (Nat.shiftLeft t 22) 4294967296) (Nat.shiftRight t 10))) 4294967296) b c
def mplP4S15 (oa ob oc od a b c d : Nat) : MD5State :=
  mplP4T15 oa ob oc od b c d (Nat.mod (Nat.add (Nat.add (Nat.add a (Nat.lor (Nat.land b c) (Nat.land (Nat.sub 4294967295 b) d))) 1236535329) 1886745209) 4294967296)
def mplP4T14 (oa ob oc od b c d t : Nat) : MD5State :=
  mplP4S15 oa ob oc od d (Nat.mod (Nat.add b (Nat.lor (Nat.mod (Nat.shiftLeft t 17) 4294967296) (Nat.shiftRight t 15))) 4294967296) b c
def mplP4S14 (oa ob oc od a b c d : Nat) : MD5State :=
  mplP4T14 oa ob oc od b c d (Nat.mod (Nat.add (Nat.add (Nat.add a (Nat.lor (Nat.land b c) (Nat.land (Nat.sub 4294967295 b) d))) 2792965006) 1936026736) 4294967296)
def mplP4T13 (oa ob oc od b c d t : Nat) : MD5State :=
  mplP4S14 oa ob oc od d (Nat.mod (Nat.add b (Nat.lor (Nat.mod (Nat.shiftLeft t 12) 4294967296) (Nat.shiftRight t 20))) 4294967296) b c
def mplP4S13 (oa ob oc od a b c d : Nat) : MD5State :=
  mplP4T13 oa ob oc od b c d (Nat.mod (Nat.add (Nat.add (Nat.add a (Nat.lor (Nat.land b c) (Nat.land (Nat.sub 4294967295 b) d))) 4254626195) 1634562165) 4294967296)
def mplP4T12 (oa ob oc od b c d t : Nat) : MD5State :=
  mplP4S13 oa ob oc od d (Nat.mod (Nat.add b (Nat.lor (Nat.mod (Nat.shiftLeft t 7) 4294967296) (Nat.shiftRight t 25))) 4294967296) b c
def mplP4S12 (oa ob oc od a b c d : Nat) : MD5State :=
  mplP4T12 oa ob oc od b c d (Nat.mod (Nat.add (Nat.add (Nat.add a (Nat.lor (Nat.land b c) (Nat.land (Nat.sub 4294967295 b) d))) 1804603682) 1920562021) 4294967296)
def mplP4T11 (oa ob oc od b c d t : Nat) : MD5State :=
  mplP4S12 oa ob oc od d (Nat.mod (Nat.add b (Nat.lor (Nat.mod (Nat.shiftLeft t 22) 4294967296) (Nat.shiftRight t 10))) 4294967296) b c
def mplP4S11 (oa ob oc od a b c d : Nat) : MD5State :=
  mplP4T11 oa ob oc od b c d (Nat.mod (Nat.add (Nat.add (Nat.add a (Nat.lor (Nat.land b c) (Nat.land (Nat.sub 4294967295 b) d))) 2304563134) 1819304301) 4294967296)
def mplP4T10 (oa ob oc od b c d t : Nat) : MD5State :=
  mplP4S11 oa ob oc od d (Nat.mod (Nat.add b (Nat.lor (Nat.mod (Nat.shiftLeft t 17) 4294967296) (Nat.shiftRight t 15))) 4294967296) b c
def mplP4S10 (oa ob oc od a b c d : Nat) : MD5State :=
  mplP4T10 oa ob oc od b c d (Nat.mod (Nat.add (Nat.add (Nat.add a (Nat.lor (Nat.land b c) (Nat.land (Nat.sub 4294967295 b) d))) 4294925233) 1886745209) 4294967296)
def mplP4T9 (oa ob oc od b c d t : Nat) : MD5State :=
  mplP4S10 oa ob oc od d (Nat.mod (Nat.add b (Nat.lor (Nat.mod (Nat.shiftLeft t 12) 4294967296) (Nat.shiftRight t 20))) 4294967296) b c
def mplP4S9 (oa ob oc od a b c d : Nat) : MD5State :=
  mplP4T9 oa ob oc od b c d (Nat.mod (Nat.add (Nat.add (Nat.add a (Nat.lor (Nat.land b c) (Nat.land (Nat.sub 4294967295 b) d))) 2336552879) 1936026736) 4294967296)
def mplP4T8 (oa ob oc od b c d t : Nat) : MD5State :=
  mplP4S9 oa ob oc od d (Nat.mod (Nat.add b (Nat.lor (Nat.mod (Nat.shiftLeft t 7) 4294967296) (Nat.shiftRight t 25))) 4294967296) b c
def mplP4S8 (oa ob oc od a b c d : Nat) : MD5State :=
  mplP4T8 oa ob oc od b c d (Nat.mod (Nat.add (Nat.add (Nat.add a (Nat.lor (Nat.land b c) (Nat.land (Nat.sub 4294967295 b) d))) 1770035416) 1634562165) 4294967296)
def mplP4T7 (oa ob oc od b c d t : Nat) : MD5State :=
  mplP4S8 oa ob oc od d (Nat.mod (Nat.add b (Nat.lor (Nat.mod (Nat.shiftLeft t 22) 4294967296) (Nat.shiftRight t 10))) 4294967296) b c
def mplP4S7 (oa ob oc od a b c d : Nat) : MD5State :=
  mplP4T7 oa ob oc od b c d (Nat.mod (Nat.add (Nat.add (Nat.add a (Nat.lor (Nat.land b c) (Nat.land (Nat.sub 4294967295 b) d))) 4249261313) 1920562021) 4294967296)
def mplP4T6 (oa ob oc od b c d t : Nat) : MD5State :=
  mplP4S7 oa ob oc od d (Nat.mod (Nat.add b (Nat.lor (Nat.mod (Nat.shiftLeft t 17) 4294967296) (Nat.shiftRight t 15))) 4294967296) b c
def mplP4S6 (oa ob oc od a b c d : Nat) : MD5State :=
  mplP4T6 oa ob oc od b c d (Nat.mod (Nat.add (Nat.add (Nat.add a (Nat.lor (Nat.land b c) (Nat.land (Nat.sub 4294967295 b) d))) 2821735955) 1819304301) 4294967296)
def mplP4T5 (oa ob oc od b c d t : Nat) : MD5State :=
  mplP4S6 oa ob oc od d (Nat.mod (Nat.add b (Nat.lor (Nat.mod (Nat.shiftLeft t 12) 4294967296) (Nat.shiftRight t 20))) 4294967296) b c
def mplP4S5 (oa ob oc od a b c d : Nat) : MD5State :=
  mplP4T5 oa ob oc od b c d (Nat.mod (Nat.add (Nat.add (Nat.add a (Nat.lor (Nat.land b c) (Nat.land (Nat.sub 4294967295 b) d))) 1200080426) 1886745209) 4294967296)
def mplP4T4 (oa ob oc od b c d t : Nat) : MD5State :=
  mplP4S5 oa ob oc od d (Nat.mod (Nat.add b (Nat.lor (Nat.mod (Nat.shiftLeft t 7) 4294967296) (Nat.shiftRight t 25))) 4294967296) b c
def mplP4S4 (oa ob oc od a b c d : Nat) : MD5State :=
  mplP4T4 oa ob oc od b c d (Nat.mod (Nat.add (Nat.add (Nat.add a (Nat.lor (Nat.land b c) (Nat.land (Nat.sub 4294967295 b) d))) 4118548399) 1936026736) 4294967296)
def mplP4T3 (oa ob oc od b c d t : Nat) : MD5State :=
  mplP4S4 oa ob oc od d (Nat.mod (Nat.add b (Nat.lor (Nat.mod (Nat.shiftLeft t 22) 4294967296) (Nat.shiftRight t 10))) 4294967296) b c
def mplP4S3 (oa ob oc od a b c d : Nat) : MD5State :=
  mplP4T3 oa ob oc od b c d (Nat.mod (Nat.add (Nat.add (Nat.add a (Nat.lor (Nat.land b c) (Nat.land (Nat.sub 4294967295 b) d))) 3250441966) 1634562165) 4294967296)
def mplP4T2 (oa ob oc od b c d t : Nat) : MD5State :=
  mplP4S3 oa ob oc od d (Nat.mod (Nat.add b (Nat.lor (Nat.mod (Nat.shiftLeft t 17) 4294967296) (Nat.shiftRight t 15))) 4294967296) b c
def mplP4S2 (oa ob oc od a b c d : Nat) : MD5State :=
  mplP4T2 oa ob oc od b c d (Nat.mod (Nat.add (Nat.add (Nat.add a (Nat.lor (Nat.land b c) (Nat.land (Nat.sub 4294967295 b) d))) 606105819) 1920562021) 4294967296)
def mplP4T1 (oa ob oc od b c d t : Nat) : MD5State :=
  mplP4S2 oa ob oc od d (Nat.mod (Nat.add b (Nat.lor (Nat.mod (Nat.shiftLeft t 12) 4294967296) (Nat.shiftRight t 20))) 4294967296) b c
def mplP4S1 (oa ob oc od a b c d : Nat) : MD5State :=
  mplP4T1 oa ob oc od b c d (Nat.mod (Nat.add (Nat.add (Nat.add a (Nat.lor (Nat.land b c) (Nat.land (Nat.sub 4294967295 b) d))) 3905402710) 1819304301) 4294967296)
def mplP4T0 (oa ob oc od b c d t : Nat) : MD5State :=
  mplP4S1 oa ob oc od d (Nat.mod (Nat.add b (Nat.lor (Nat.mod (Nat.shiftLeft t 7) 4294967296) (Nat.shiftRight t 25))) 4294967296) b c
def mplP4S0 (oa ob oc od a b c d : Nat) : MD5State :=
  mplP4T0 oa ob oc od b c d (Nat.mod (Nat.add (Nat.add (Nat.add a (Nat.lor (Nat.land b c) (Nat.land (Nat.sub 4294967295 b) d))) 3614090360) 1886745209) 4294967296)
def mplP4C (st : MD5State) : MD5State :=
  mplP4S0 st.a st.b st.c st.d st.a st.b st.c st.d

/-- The little-endian 16-word message schedules of the five distinct blocks
of the repeated-password stream for `"maplesyrup"`. -/
def mplSched : Nat → List Nat
  | 0 => [1819304301, 1920562021, 1634562165, 1936026736, 1886745209, 1819304301, 1920562021, 1634562165, 1936026736, 1886745209, 1819304301, 1920562021, 1634562165, 1936026736, 1886745209, 1819304301]
  | 1 => [1920562021, 1634562165, 1936026736, 1886745209, 1819304301, 1920562021, 1634562165, 1936026736, 1886745209, 1819304301, 1920562021, 1634562165, 1936026736, 1886745209, 1819304301, 1920562021]
  | 2 => [1634562165, 1936026736, 1886745209, 1819304301, 1920562021, 1634562165, 1936026736, 1886745209, 1819304301, 1920562021, 1634562165, 1936026736, 1886745209, 1819304301, 1920562021, 1634562165]
  | 3 => [1936026736, 1886745209, 1819304301, 1920562021, 1634562165, 1936026736, 1886745209, 1819304301, 1920562021, 1634562165, 1936026736, 1886745209, 1819304301, 1920562021, 1634562165, 1936026736]
  | 4 => [1886745209, 1819304301, 1920562021, 1634562165, 1936026736, 1886745209, 1819304301, 1920562021, 1634562165, 1936026736, 1886745209, 1819304301, 1920562021, 1634562165, 1936026736, 1886745209]
  | _ => []

/-- Message-word function of a stream block with index `≡ 0 [MOD 5]`. -/
def mplWords0 : Nat → Nat := fun g => (mplSched 0).getD g 0

/-- Message-word function of a stream block with index `≡ 1 [MOD 5]`. -/
def mplWords1 : Nat → Nat := fun g => (mplSched 1).getD g 0

/-- Message-word function of a stream block with index `≡ 2 [MOD 5]`. -/
def mplWords2 : Nat → Nat := fun g => (mplSched 2).getD g 0

/-- Message-word function of a stream block with index `≡ 3 [MOD 5]`. -/
def mplWords3 : Nat → Nat := fun g => (mplSched 3).getD g 0

/-- Message-word function of a stream block with index `≡ 4 [MOD 5]`. -/
def mplWords4 : Nat → Nat := fun g => (mplSched 4).getD g 0

/-- Successor of a block-index residue: the residue cycle `0 1 2 3 4`. -/
def mplNext (r : Nat) : Nat := if r == 4 then 0 else r + 1

/-- Iterated residue successor. -/
def mplAdv : Nat → Nat → Nat
  | r, 0 => r
  | r, m + 1 => mplAdv (mplNext r) m

/-- Dispatch on the block-index residue `r = i % 5`. -/
def mplPipe (r : Nat) (st : MD5State) : MD5State :=
  match r with
  | 0 => mplP0C st
  | 1 => mplP1C st
  | 2 => mplP2C st
  | 3 => mplP3C st
  | _ => mplP4C st

/-- Force a `Nat` to a literal before continuing: `forceMD5 n k = k n`, but
stated by cases so that kernel reduction evaluates `n` eagerly.  This keeps
the pending-computation depth bounded while iterating thousands of
compressions. -/
def forceMD5 (n : Nat) (k : Nat → MD5State) : MD5State :=
  match n with
  | 0 => k 0
  | m + 1 => k (m + 1)

/-- Evaluation-oriented runner: starting at block-index residue `r`, apply
`n` specialised compressions, forcing every chaining word (and the next
residue) to a literal between blocks.  `mplRunSpec` below is the clean
recursion it equals. -/
def mplRun (r : Nat) : Nat → MD5State → MD5State
  | 0, st => st
  | n + 1, st =>
    let st2 := mplPipe r st
    forceMD5 st2.a fun a2 => forceMD5 st2.b fun b2 => forceMD5 st2.c fun c2 =>
      forceMD5 st2.d fun d2 => mplRun (mplNext r) n ⟨a2, b2, c2, d2⟩

/-- Clean form of `mplRun`, convenient for proofs. -/
def mplRunSpec (r : Nat) : Nat → MD5State → MD5State
  | 0, st => st
  | n + 1, st => mplRunSpec (mplNext r) n (mplPipe r st)

/-- Initial MD5 chaining state (RFC 1321, section 3.3). -/
def md5Init : MD5State := ⟨1732584193, 4023233417, 2562383102, 271733878⟩

/-- Little-endian 32-bit message word `g` (for `g < 16`) of the 64-byte
block `i` of the byte stream `f`; `0` outside `0..15` (the compression
function reads only words `0..15`). -/
def md5Block (f : Nat → Nat) (i : Nat) : Nat → Nat := fun g =>
  if g < 16 then
    f (64 * i + 4 * g) + 256 * f (64 * i + 4 * g + 1) +
      65536 * f (64 * i + 4 * g + 2) + 16777216 * f (64 * i + 4 * g + 3)
  else 0

/-- Apply `n` MD5 compressions to `st`, consuming blocks `i, i + 1, ...` of
the byte stream `f`. -/
def md5BlocksFrom (f : Nat → Nat) (i : Nat) : Nat → MD5State → MD5State
  | 0, st => st
  | n + 1, st => md5BlocksFrom f (i + 1) n (md5Compress (md5Block f i) st)

/-- Total length of an MD5/SHA-1 input of `len` bytes after padding: at
least one `0x80` byte and eight length bytes are appended, rounded up to a
multiple of 64. -/
def md5PaddedLen (len : Nat) : Nat := ((len + 8) / 64 + 1) * 64

/-- Byte `j` of the MD5-padded message: the message itself, then `0x80`,
then zeros, then the bit length as eight little-endian bytes. -/
def md5PadByte (f : Nat → Nat) (len j : Nat) : Nat :=
  if j < len then f j
  else if j = len then 128
  else if j < md5PaddedLen len - 8 then 0
  else ((8 * len) >>> (8 * (j - (md5PaddedLen len - 8)))) % 256

/-- Number of 64-byte blocks of the padded message. -/
def md5NumBlocks (len : Nat) : Nat := md5PaddedLen len / 64

/-- Little-endian bytes of a 32-bit word. -/
def word32ToBytesLE (x : Nat) : List Nat :=
  [x % 256, x / 256 % 256, x / 65536 % 256, x / 16777216 % 256]

/-- The 16 digest bytes of an MD5 state. -/
def md5StateBytes (st : MD5State) : List Nat :=
  word32ToBytesLE st.a ++ word32ToBytesLE st.b ++
    word32ToBytesLE st.c ++ word32ToBytesLE st.d

/-- MD5 digest of the byte stream `f 0, ..., f (len - 1)`. -/
def md5Stream (f : Nat → Nat) (len : Nat) : List Nat :=
  md5StateBytes (md5BlocksFrom (md5PadByte f len) 0 (md5NumBlocks len) md5Init)

/-- MD5 digest of a byte list. -/
def md5List (l : List Nat) : List Nat :=
  md5Stream (fun j => l.getD j 0) l.length
/-- Rotate a 32-bit word left by `s` (for `0 < s < 32`). -/
def rotl32 (x s : Nat) : Nat := ((x <<< s) % 4294967296) ||| (x >>> (32 - s))

/-- Running state of a SHA-1 computation: the five 32-bit chaining words of
RFC 3174, each kept reduced `% 2 ^ 32`. -/
structure SHA1State where
  a : Nat
  b : Nat
  c : Nat
  d : Nat
  e : Nat
deriving DecidableEq

/-- Big-endian 32-bit message word `g` (for `g < 16`) of the 64-byte block
`i` of the byte stream `f`. -/
def sha1Block (f : Nat → Nat) (i : Nat) : Nat → Nat := fun g =>
  if g < 16 then
    16777216 * f (64 * i + 4 * g) + 65536 * f (64 * i + 4 * g + 1) +
      256 * f (64 * i + 4 * g + 2) + f (64 * i + 4 * g + 3)
  else 0

/-- The first `n` words `W 0, ..., W (n - 1)` of the SHA-1 message schedule
of the block with word function `m` (RFC 3174, method 6.1). -/
def sha1W (m : Nat → Nat) : Nat → List Nat
  | 0 => []
  | j + 1 =>
    let prev := sha1W m j
    let w :=
      if j < 16 then m j
      else rotl32 ((prev.getD (j - 3) 0 ^^^ prev.getD (j - 8) 0) ^^^
        (prev.getD (j - 14) 0 ^^^ prev.getD (j - 16) 0)) 1
    prev ++ [w]

/-- The SHA-1 round function `f_i` (RFC 3174, section 5). -/
def sha1F (i b c d : Nat) : Nat :=
  if i < 20 then (b &&& c) ||| ((4294967295 - b) &&& d)
  else if i < 40 then (b ^^^ c) ^^^ d
  else if i < 60 then ((b &&& c) ||| (b &&& d)) ||| (c &&& d)
  else (b ^^^ c) ^^^ d

/-- The SHA-1 round constants `K_i` (RFC 3174, section 5). -/
def sha1K (i : Nat) : Nat :=
  if i < 20 then 1518500249
  else if i < 40 then 1859775393
  else if i < 60 then 2400959708
  else 3395469782

/-- One SHA-1 round `i` on the working registers. -/
def sha1Round (w : List Nat) (i : Nat) (st : SHA1State) : SHA1State :=
  ⟨(rotl32 st.a 5 + sha1F i st.b st.c st.d + st.e + sha1K i + w.getD i 0) % 4294967296,
    st.a, rotl32 st.b 30, st.c, st.d⟩

/-- Apply rounds `i, i + 1, ...` (`n` of them). -/
def sha1RoundsFrom (w : List Nat) (i : Nat) : Nat → SHA1State → SHA1State
  | 0, st => st
  | n + 1, st => sha1RoundsFrom w (i + 1) n (sha1Round w i st)

/-- One SHA-1 compression of the block with word function `m` into `st`. -/
def sha1Compress (m : Nat → Nat) (st : SHA1State) : SHA1State :=
  let f := sha1RoundsFrom (sha1W m 80) 0 80 st
  ⟨(st.a + f.a) % 4294967296, (st.b + f.b) % 4294967296, (st.c + f.c) % 4294967296,
    (st.d + f.d) % 4294967296, (st.e + f.e) % 4294967296⟩

/-- Apply `n` SHA-1 compressions to `st`, consuming blocks `i, i + 1, ...`
of the byte stream `f`. -/
def sha1BlocksFrom (f : Nat → Nat) (i : Nat) : Nat → SHA1State → SHA1State
  | 0, st => st
  | n + 1, st => sha1BlocksFrom f (i + 1) n (sha1Compress (sha1Block f i) st)

/-- Initial SHA-1 chaining state (RFC 3174, section 6.1). -/
def sha1Init : SHA1State := ⟨1732584193, 4023233417, 2562383102, 271733878, 3285377520⟩

/-- Byte `j` of the SHA-1-padded message: as for MD5 but with the bit length
appended as eight big-endian bytes. -/
def sha1PadByte (f : Nat → Nat) (len j : Nat) : Nat :=
  if j < len then f j
  else if j = len then 128
  else if j < md5PaddedLen len - 8 then 0
  else ((8 * len) >>> (8 * (md5PaddedLen len - 1 - j))) % 256

/-- The 20 digest bytes of a SHA-1 state. -/
def sha1StateBytes (st : SHA1State) : List Nat :=
  be32 st.a ++ be32 st.b ++ be32 st.c ++ be32 st.d ++ be32 st.e

/-- SHA-1 digest of the byte stream `f 0, ..., f (len - 1)`. -/
def sha1Stream (f : Nat → Nat) (len : Nat) : List Nat :=
  sha1StateBytes (sha1BlocksFrom (sha1PadByte f len) 0 (md5NumBlocks len) sha1Init)

/-- SHA-1 digest of a byte list. -/
def sha1List (l : List Nat) : List Nat :=
  sha1Stream (fun j => l.getD j 0) l.length
/-- Hash a length-`len` byte stream under the hash named `alg`: the source
(`passwordToKey`, lines 70-73, and `auth`, lines 373-376) creates a SHA-1
hash and switches to MD5 exactly when the algorithm string is `"MD5"`. -/
def hashStream (alg : String) (f : Nat → Nat) (len : Nat) : List Nat :=
  if alg = "MD5" then md5Stream f len else sha1Stream f len

/-- Hash a byte list under the hash named `alg`.  Feeding a Go hash several
`io.WriteString` calls hashes the concatenation, so the source's sequential
writes are modelled as hashing one concatenated list. -/
def hashList (alg : String) (l : List Nat) : List Nat :=
  hashStream alg (fun j => l.getD j 0) l.length

/-- Byte `j < 1048576` of the stream that `passwordToKey` (lines 75-85)
feeds to the hash: the password written `1048576 / plen` whole times,
followed by its first `1048576 % plen` bytes.  (For an empty password the Go
code divides by zero and panics; callers pass non-empty passwords.) -/
def pwStreamByte (p : List Nat) (j : Nat) : Nat :=
  let plen := p.length
  let rep := 1048576 / plen
  if j < rep * plen then p.getD (j % plen) 0 else p.getD (j - rep * plen) 0

/-- Embedding of `passwordToKey` (lines 69-97): `Ku` is the hash of the
1 048 576-byte repeated-password stream, and the localized key is the hash
of `Ku ‖ engineID ‖ Ku`. -/
def passwordToKey (password engineID : List Nat) (hashAlg : String) : List Nat :=
  let ku := hashStream hashAlg (pwStreamByte password) 1048576
  hashList hashAlg (ku ++ engineID ++ ku)

/-- Byte `j` of the spec's stream: "1 048 576 bytes of `p` repeated
cyclically (the final repetition truncated)". -/
def cycStreamByte (p : List Nat) (j : Nat) : Nat := p.getD (j % p.length) 0

/-- The key derivation exactly as the specification words it:
`Kul = H(Ku ‖ e ‖ Ku)` with `Ku = H(cyclic stream of p)`. -/
def specKul (p e : List Nat) (alg : String) : List Nat :=
  let ku := hashStream alg (cycStreamByte p) 1048576
  hashList alg (ku ++ e ++ ku)

/-- Bytes of the ASCII password `"maplesyrup"` of the RFC 3414 A.3 test
vectors. -/
def mapleBytes : List Nat := [109, 97, 112, 108, 101, 115, 121, 114, 117, 112]

/-- The padded byte stream hashed while deriving `Ku` for `"maplesyrup"`. -/
def mplStream : Nat → Nat := md5PadByte (pwStreamByte mapleBytes) 1048576

/-- The 12-byte engine id `00 00 00 00 00 00 00 00 00 00 00 02` of the
RFC 3414 A.3 test vectors. -/
def rfc3414EngineID : List Nat := [0, 0, 0, 0, 0, 0, 0, 0, 0, 0, 0, 2]

/-- The RFC 3414 A.3.1 reference key for `"maplesyrup"` under MD5:
`52 6f 5e ed 9f cc e2 6f 89 64 c2 93 07 87 d8 2b`. -/
def rfc3414KeyMD5 : List Nat :=
  [82, 111, 94, 237, 159, 204, 226, 111, 137, 100, 194, 147, 7, 135, 216, 43]
/-!
### DES (FIPS 46-3), as used through Go's `crypto/des`

`encryptDESCBC`/`decryptDESCBC` (snmp.go lines 313-331) call
`des.NewCipher` and CBC mode from `crypto/cipher`.  The cipher is embedded
bit-for-bit: a 64-bit block is a `List Bool` of length 64 in MSB-first
order, and the standard tables are transcribed from FIPS 46-3 (they were
checked against the `openssl` DES implementation on random inputs).
-/

def desIPTable : List Nat :=
  [58, 50, 42, 34, 26, 18, 10, 2, 60, 52, 44, 36, 28, 20, 12, 4,
   62, 54, 46, 38, 30, 22, 14, 6, 64, 56, 48, 40, 32, 24, 16, 8,
   57, 49, 41, 33, 25, 17, 9, 1, 59, 51, 43, 35, 27, 19, 11, 3,
   61, 53, 45, 37, 29, 21, 13, 5, 63, 55, 47, 39, 31, 23, 15, 7]

def desFPTable : List Nat :=
  [40, 8, 48, 16, 56, 24, 64, 32, 39, 7, 47, 15, 55, 23, 63, 31,
   38, 6, 46, 14, 54, 22, 62, 30, 37, 5, 45, 13, 53, 21, 61, 29,
   36, 4, 44, 12, 52, 20, 60, 28, 35, 3, 43, 11, 51, 19, 59, 27,
   34, 2, 42, 10, 50, 18, 58, 26, 33, 1, 41, 9, 49, 17, 57, 25]

def desETable : List Nat :=
  [32, 1, 2, 3, 4, 5, 4, 5, 6, 7, 8, 9, 8, 9, 10, 11, 12, 13,
   12, 13, 14, 15, 16, 17, 16, 17, 18, 19, 20, 21, 20, 21, 22, 23, 24, 25,
   24, 25, 26, 27, 28, 29, 28, 29, 30, 31, 32, 1]

def desPTable : List Nat :=
  [16, 7, 20, 21, 29, 12, 28, 17, 1, 15, 23, 26, 5, 18, 31, 10,
   2, 8, 24, 14, 32, 27, 3, 9, 19, 13, 30, 6, 22, 11, 4, 25]

def desPC1 : List Nat :=
  [57, 49, 41, 33, 25, 17, 9, 1, 58, 50, 42, 34, 26, 18,
   10, 2, 59, 51, 43, 35, 27, 19, 11, 3, 60, 52, 44, 36,
   63, 55, 47, 39, 31, 23, 15, 7, 62, 54, 46, 38, 30, 22,
   14, 6, 61, 53, 45, 37, 29, 21, 13, 5, 28, 20, 12, 4]

def desPC2 : List Nat :=
  [14, 17, 11, 24, 1, 5, 3, 28, 15, 6, 21, 10,
   23, 19, 12, 4, 26, 8, 16, 7, 27, 20, 13, 2,
   41, 52, 31, 37, 47, 55, 30, 40, 51, 45, 33, 48,
   44, 49, 39, 56, 34, 53, 46, 42, 50, 36, 29, 32]

def desShifts : List Nat := [1, 1, 2, 2, 2, 2, 2, 2, 1, 2, 2, 2, 2, 2, 2, 1]

def desSBox : Nat → List Nat
  | 0 =>
    [14, 4, 13, 1, 2, 15, 11, 8, 3, 10, 6, 12, 5, 9, 0, 7,
     0, 15, 7, 4, 14, 2, 13, 1, 10, 6, 12, 11, 9, 5, 3, 8,
     4, 1, 14, 8, 13, 6, 2, 11, 15, 12, 9, 7, 3, 10, 5, 0,
     15, 12, 8, 2, 4, 9, 1, 7, 5, 11, 3, 14, 10, 0, 6, 13]
  | 1 =>
    [15, 1, 8, 14, 6, 11, 3, 4, 9, 7, 2, 13, 12, 0, 5, 10,
     3, 13, 4, 7, 15, 2, 8, 14, 12, 0, 1, 10, 6, 9, 11, 5,
     0, 14, 7, 11, 10, 4, 13, 1, 5, 8, 12, 6, 9, 3, 2, 15,
     13, 8, 10, 1, 3, 15, 4, 2, 11, 6, 7, 12, 0, 5, 14, 9]
  | 2 =>
    [10, 0, 9, 14, 6, 3, 15, 5, 1, 13, 12, 7, 11, 4, 2, 8,
     13, 7, 0, 9, 3, 4, 6, 10, 2, 8, 5, 14, 12, 11, 15, 1,
     13, 6, 4, 9, 8, 15, 3, 0, 11, 1, 2, 12, 5, 10, 14, 7,
     1, 10, 13, 0, 6, 9, 8, 7, 4, 15, 14, 3, 11, 5, 2, 12]
  | 3 =>
    [7, 13, 14, 3, 0, 6, 9, 10, 1, 2, 8, 5, 11, 12, 4, 15,
     13, 8, 11, 5, 6, 15, 0, 3, 4, 7, 2, 12, 1, 10, 14, 9,
     10, 6, 9, 0, 12, 11, 7, 13, 15, 1, 3, 14, 5, 2, 8, 4,
     3, 15, 0, 6, 10, 1, 13, 8, 9, 4, 5, 11, 12, 7, 2, 14]
  | 4 =>
    [2, 12, 4, 1, 7, 10, 11, 6, 8, 5, 3, 15, 13, 0, 14, 9,
     14, 11, 2, 12, 4, 7, 13, 1, 5, 0, 15, 10, 3, 9, 8, 6,
     4, 2, 1, 11, 10, 13, 7, 8, 15, 9, 12, 5, 6, 3, 0, 14,
     11, 8, 12, 7, 1, 14, 2, 13, 6, 15, 0, 9, 10, 4, 5, 3]
  | 5 =>
    [12, 1, 10, 15, 9, 2, 6, 8, 0, 13, 3, 4, 14, 7, 5, 11,
     10, 15, 4, 2, 7, 12, 9, 5, 6, 1, 13, 14, 0, 11, 3, 8,
     9, 14, 15, 5, 2, 8, 12, 3, 7, 0, 4, 10, 1, 13, 11, 6,
     4, 3, 2, 12, 9, 5, 15, 10, 11, 14, 1, 7, 6, 0, 8, 13]
  | 6 =>
    [4, 11, 2, 14, 15, 0, 8, 13, 3, 12, 9, 7, 5, 10, 6, 1,
     13, 0, 11, 7, 4, 9, 1, 10, 14, 3, 5, 12, 2, 15, 8, 6,
     1, 4, 11, 13, 12, 3, 7, 14, 10, 15, 6, 8, 0, 5, 9, 2,
     6, 11, 13, 8, 1, 4, 10, 7, 9, 5, 0, 15, 14, 2, 3, 12]
  | _ =>
    [13, 2, 8, 4, 6, 15, 11, 1, 10, 9, 3, 14, 5, 0, 12, 7,
     1, 15, 13, 8, 10, 3, 7, 4, 12, 5, 6, 11, 0, 14, 9, 2,
     7, 11, 4, 1, 9, 12, 14, 2, 0, 6, 10, 13, 15, 3, 5, 8,
     2, 1, 14, 7, 4, 10, 8, 13, 15, 12, 9, 0, 3, 5, 6, 11]

/-- Select bits by a 1-based index table. -/
def bitsPerm (t : List Nat) (bits : List Bool) : List Bool :=
  t.map fun i => bits.getD (i - 1) false

/-- The eight bits of a byte, most significant first. -/
def byteToBits (b : Nat) : List Bool :=
  [b / 128 % 2 == 1, b / 64 % 2 == 1, b / 32 % 2 == 1, b / 16 % 2 == 1,
   b / 8 % 2 == 1, b / 4 % 2 == 1, b / 2 % 2 == 1, b % 2 == 1]

/-- MSB-first bit string of a byte string. -/
def bytesToBits (l : List Nat) : List Bool := (l.map byteToBits).flatten

/-- Byte value of eight bits, most significant first. -/
def bitsByte (b7 b6 b5 b4 b3 b2 b1 b0 : Bool) : Nat :=
  128 * (cond b7 1 0) + 64 * (cond b6 1 0) + 32 * (cond b5 1 0) + 16 * (cond b4 1 0) +
    8 * (cond b3 1 0) + 4 * (cond b2 1 0) + 2 * (cond b1 1 0) + cond b0 1 0

/-- Reassemble a bit string (length a multiple of 8) into bytes. -/
def bitsToBytes : List Bool → List Nat
  | b7 :: b6 :: b5 :: b4 :: b3 :: b2 :: b1 :: b0 :: rest =>
    bitsByte b7 b6 b5 b4 b3 b2 b1 b0 :: bitsToBytes rest
  | _ => []

/-- Pointwise XOR of two bit strings of the same length. -/
def xorBits (a b : List Bool) : List Bool := List.zipWith xor a b

/-- The DES cipher function `f`: expand the 32-bit half, XOR the subkey,
substitute through the eight S-boxes, permute with `P`. -/
def desF (r k : List Bool) : List Bool :=
  let x := xorBits (bitsPerm desETable r) k
  let sOut := (List.range 8).flatMap fun i =>
    let c := fun j => x.getD (6 * i + j) false
    let row := 2 * (cond (c 0) 1 0) + cond (c 5) 1 0
    let col := 8 * (cond (c 1) 1 0) + 4 * (cond (c 2) 1 0) +
      2 * (cond (c 3) 1 0) + cond (c 4) 1 0
    let v := (desSBox i).getD (16 * row + col) 0
    [v / 8 % 2 == 1, v / 4 % 2 == 1, v / 2 % 2 == 1, v % 2 == 1]
  bitsPerm desPTable sOut

/-- Build the 16 round subkeys from the (iterated-shift) `C`/`D` halves. -/
def desSubkeysFrom (c d : List Bool) : List Nat → List (List Bool)
  | [] => []
  | s :: rest =>
    let c2 := c.drop s ++ c.take s
    let d2 := d.drop s ++ d.take s
    bitsPerm desPC2 (c2 ++ d2) :: desSubkeysFrom c2 d2 rest

/-- The DES key schedule of an 8-byte key. -/
def desSubkeys (key : List Nat) : List (List Bool) :=
  let k := bitsPerm desPC1 (bytesToBits key)
  desSubkeysFrom (k.take 28) (k.drop 28) desShifts

/-- The Feistel rounds: each round maps `(l, r)` to `(r, l ⊕ f(r, k))`. -/
def desFeistel : List (List Bool) → List Bool × List Bool → List Bool × List Bool
  | [], p => p
  | k :: ks, (l, r) => desFeistel ks (r, xorBits l (desF r k))

/-- The two 32-bit halves after the initial permutation of a block. -/
def desHalves (block : List Nat) : List Bool × List Bool :=
  ((bitsPerm desIPTable (bytesToBits block)).take 32,
    (bitsPerm desIPTable (bytesToBits block)).drop 32)

/-- Swap the halves and apply the final permutation. -/
def desOutput (p : List Bool × List Bool) : List Nat :=
  bitsToBytes (bitsPerm desFPTable (p.2 ++ p.1))

/-- Run the DES network on one 8-byte block with the given subkeys:
initial permutation, 16 rounds, swap, final permutation. -/
def desRunBlock (ks : List (List Bool)) (block : List Nat) : List Nat :=
  desOutput (desFeistel ks (desHalves block))

/-- DES encryption of one block. -/
def desEncryptBlock (key block : List Nat) : List Nat :=
  desRunBlock (desSubkeys key) block

/-- DES decryption of one block: the same network with the subkeys
reversed. -/
def desDecryptBlock (key block : List Nat) : List Nat :=
  desRunBlock (desSubkeys key).reverse block

/-- Fuel-driven block splitter (the fuel keeps the recursion structural,
so that it evaluates inside the kernel; `chunks8` supplies enough fuel). -/
def chunks8N : Nat → List Nat → List (List Nat)
  | 0, _ => []
  | _, [] => []
  | n + 1, a :: t => ((a :: t).take 8) :: chunks8N n ((a :: t).drop 8)

/-- Split a byte string into 8-byte blocks (the last block possibly
shorter; callers pad to a multiple of 8 first). -/
def chunks8 (l : List Nat) : List (List Nat) := chunks8N l.length l

/-- CBC encryption over whole blocks: `c_i = E(p_i ⊕ c_(i-1))` with `c_0`
the IV (`crypto/cipher.NewCBCEncrypter`). -/
def desCbcEncBlocks (key iv : List Nat) : List (List Nat) → List (List Nat)
  | [] => []
  | b :: rest =>
    let c := desEncryptBlock key (xorBytes iv b)
    c :: desCbcEncBlocks key c rest

/-- CBC decryption over whole blocks: `p_i = D(c_i) ⊕ c_(i-1)`. -/
def desCbcDecBlocks (key iv : List Nat) : List (List Nat) → List (List Nat)
  | [] => []
  | c :: rest => xorBytes iv (desDecryptBlock key c) :: desCbcDecBlocks key c rest

/-- Embedding of `encryptDESCBC` (lines 313-321) on a source whose length
is a multiple of 8. -/
def encryptDESCBC (src key iv : List Nat) : List Nat :=
  (desCbcEncBlocks key iv (chunks8 src)).flatten

/-- Embedding of `decryptDESCBC` (lines 323-331). -/
def decryptDESCBC (src key iv : List Nat) : List Nat :=
  (desCbcDecBlocks key iv (chunks8 src)).flatten
/-!
### AES-128 (FIPS 197), as used through Go's `crypto/aes` with CFB mode

`encryptAESCFB`/`decryptAESCFB` (snmp.go lines 333-351) use AES-128 in
CFB-128 mode.  The cipher is embedded from the FIPS 197 definition; its
S-box is computed from the GF(2^8) inverse and affine map rather than
transcribed (and was checked against `openssl aes-128-cfb` on sample
inputs).
-/

/-- Multiplication by `x` in GF(2^8) modulo the AES polynomial `0x11B`. -/
def xtime (x : Nat) : Nat := if x < 128 then 2 * x else (2 * x) ^^^ 283

/-- GF(2^8) product, one bit of `b` per fuel step (8 suffice). -/
def gfMulN : Nat → Nat → Nat → Nat
  | 0, _, _ => 0
  | n + 1, a, b => (if b % 2 = 1 then a else 0) ^^^ gfMulN n (xtime a) (b / 2)

/-- GF(2^8) multiplication. -/
def gfMul (a b : Nat) : Nat := gfMulN 8 a b

/-- GF(2^8) power. -/
def gfPow (x : Nat) : Nat → Nat
  | 0 => 1
  | n + 1 => gfMul x (gfPow x n)

/-- GF(2^8) inverse (`x ^ 254`; maps 0 to 0 as AES requires). -/
def gfInv (x : Nat) : Nat := gfPow x 254

/-- Rotate a byte left by `s` (`0 < s < 8`). -/
def rotl8 (x s : Nat) : Nat := ((x <<< s) % 256) ||| (x >>> (8 - s))

/-- The AES S-box: affine transform of the field inverse. -/
def aesSbox (x : Nat) : Nat :=
  let s := gfInv x
  (((s ^^^ rotl8 s 1) ^^^ rotl8 s 2) ^^^ (rotl8 s 3 ^^^ rotl8 s 4)) ^^^ 99

/-- Apply the S-box to every byte. -/
def subBytes (s : List Nat) : List Nat := s.map aesSbox

/-- The AES ShiftRows step on a 16-byte block (bytes column-major as in
FIPS 197: position `4c + r` is row `r`, column `c`). -/
def shiftRows (s : List Nat) : List Nat :=
  (List.range 16).map fun i =>
    s.getD (4 * ((i / 4 + i % 4) % 4) + i % 4) 0

/-- MixColumns on one 4-byte column. -/
def mixColumn (a : List Nat) : List Nat :=
  [((gfMul 2 (a.getD 0 0) ^^^ gfMul 3 (a.getD 1 0)) ^^^ (a.getD 2 0 ^^^ a.getD 3 0)),
   ((a.getD 0 0 ^^^ gfMul 2 (a.getD 1 0)) ^^^ (gfMul 3 (a.getD 2 0) ^^^ a.getD 3 0)),
   ((a.getD 0 0 ^^^ a.getD 1 0) ^^^ (gfMul 2 (a.getD 2 0) ^^^ gfMul 3 (a.getD 3 0))),
   ((gfMul 3 (a.getD 0 0) ^^^ a.getD 1 0) ^^^ (a.getD 2 0 ^^^ gfMul 2 (a.getD 3 0)))]

/-- MixColumns on the whole block. -/
def mixColumns (s : List Nat) : List Nat :=
  mixColumn (s.take 4) ++ mixColumn ((s.drop 4).take 4) ++
    mixColumn ((s.drop 8).take 4) ++ mixColumn (s.drop 12)

/-- AddRoundKey. -/
def addRoundKey (s k : List Nat) : List Nat := xorBytes s k

/-- The AES round constant `Rcon i` (a power of `x` in the field). -/
def aesRcon (i : Nat) : Nat := gfPow 2 (i - 1)

/-- S-box over a 4-byte word. -/
def subWord (w : List Nat) : List Nat := w.map aesSbox

/-- Rotate a 4-byte word left by one byte. -/
def rotWord (w : List Nat) : List Nat := w.drop 1 ++ w.take 1

/-- Expand the key schedule by `n` further 4-byte words. -/
def aesExpandN : Nat → List (List Nat) → List (List Nat)
  | 0, acc => acc
  | n + 1, acc =>
    let i := acc.length
    let prev := acc.getD (i - 1) []
    let temp :=
      if i % 4 = 0 then xorBytes (subWord (rotWord prev)) [aesRcon (i / 4), 0, 0, 0]
      else prev
    aesExpandN n (acc ++ [xorBytes (acc.getD (i - 4) []) temp])

/-- The 44 words of the AES-128 key schedule. -/
def aesKeySchedule (key : List Nat) : List (List Nat) :=
  aesExpandN 40 [key.take 4, (key.drop 4).take 4, (key.drop 8).take 4, (key.drop 12).take 4]

/-- Round key `r` (16 bytes). -/
def aesRoundKey (ks : List (List Nat)) (r : Nat) : List Nat :=
  ((ks.drop (4 * r)).take 4).flatten

/-- The main AES rounds `i, i+1, ...` (`n` of them). -/
def aesMainRounds (ks : List (List Nat)) (i : Nat) : Nat → List Nat → List Nat
  | 0, s => s
  | n + 1, s =>
    aesMainRounds ks (i + 1) n
      (addRoundKey (mixColumns (shiftRows (subBytes s))) (aesRoundKey ks i))

/-- AES-128 encryption of one 16-byte block. -/
def aesEncryptBlock (key block : List Nat) : List Nat :=
  let ks := aesKeySchedule key
  let s := aesMainRounds ks 1 9 (addRoundKey block (aesRoundKey ks 0))
  addRoundKey (shiftRows (subBytes s)) (aesRoundKey ks 10)

/-- CFB-128 encryption: each (up to) 16-byte segment is XORed with the
encryption of the previous ciphertext segment (the IV first); the new
ciphertext segment becomes the next feedback register
(`cipher.NewCFBEncrypter` + `XORKeyStream`). -/
def aesCfbEncN : Nat → List Nat → List Nat → List Nat → List Nat
  | 0, _, _, _ => []
  | _, _, _, [] => []
  | n + 1, key, iv, a :: t =>
    let c := xorBytes ((a :: t).take 16) (aesEncryptBlock key iv)
    c ++ aesCfbEncN n key c ((a :: t).drop 16)

/-- Embedding of `encryptAESCFB` (lines 333-341). -/
def encryptAESCFB (src key iv : List Nat) : List Nat := aesCfbEncN src.length key iv src

/-- CFB-128 decryption: the feedback register is loaded with the incoming
ciphertext segment (`cipher.NewCFBDecrypter`). -/
def aesCfbDecN : Nat → List Nat → List Nat → List Nat → List Nat
  | 0, _, _, _ => []
  | _, _, _, [] => []
  | n + 1, key, iv, a :: t =>
    let p := xorBytes ((a :: t).take 16) (aesEncryptBlock key iv)
    p ++ aesCfbDecN n key ((a :: t).take 16) ((a :: t).drop 16)

/-- Embedding of `decryptAESCFB` (lines 343-351). -/
def decryptAESCFB (src key iv : List Nat) : List Nat := aesCfbDecN src.length key iv src
/-!
### The SNMP session object and its crypto operations (lines 32-57, 313-455)

Strings holding bytes (passwords, keys, engine ids, payloads) are
`List Nat`; the algorithm selectors stay `String` as in Go.  The fields not
touched by any claim (`Target`, `Community`, `conn`, `TrapUsers` beyond the
user lookup) are omitted or simplified; `timeout` is kept in milliseconds.
-/

/-- The session object (struct `SNMP`, lines 32-57); `timeout` is the field
documented `Timeout to use for all SNMP packets` (line 37), in
milliseconds.  A freshly constructed v3 session (`NewSNMPv3`, lines
116-142) has the Go zero values in `engineID`, `authKey`, `privKey`,
`engineBoots`, `engineTime`, `desIV` and `aesIV`: empty strings and `0`. -/
structure SNMP where
  version : Nat
  timeout : Nat
  retries : Nat
  user : List Nat
  authAlg : String
  authPwd : List Nat
  privAlg : String
  privPwd : List Nat
  engineID : List Nat
  authKey : List Nat
  privKey : List Nat
  engineBoots : Nat
  engineTime : Nat
  desIV : Nat
  aesIV : Nat
deriving DecidableEq

/-- Embedding of `strXor` (lines 353-363): bytewise XOR, panicking when the
lengths differ. -/
def strXor (s1 s2 : List Nat) : PanicOr (List Nat) :=
  if s1.length = s2.length then .ok (xorBytes s1 s2)
  else .panicked "strXor called with two strings of different length"

/-- Embedding of `auth` (lines 365-383): HMAC with block size 64 under the
session's auth hash (SHA-1 unless `authAlg = "MD5"`), digest truncated to
12 bytes.  `strings.Repeat("\x00", 64 - len(authKey))` panics on a
negative count, i.e. when the key is longer than 64 bytes. -/
def auth (w : SNMP) (wholeMsg : List Nat) : PanicOr (List Nat) :=
  if w.authKey.length ≤ 64 then
    let eAuthKey := w.authKey ++ List.replicate (64 - w.authKey.length) 0
    let k1 := xorBytes eAuthKey (List.replicate 64 54)
    let k2 := xorBytes eAuthKey (List.replicate 64 92)
    let tmp1 := hashList w.authAlg (k1 ++ wholeMsg)
    .ok ((hashList w.authAlg (k2 ++ tmp1)).take 12)
  else .panicked "strings: negative Repeat count"

/-- Embedding of `encryptAESCFB` (lines 333-341): `aes.NewCipher` fails
unless the key is 16, 24 or 32 bytes, and the error is returned. -/
def goEncryptAESCFB (src key iv : List Nat) : GoRes (List Nat) :=
  if key.length = 16 ∨ key.length = 24 ∨ key.length = 32 then
    .ok (encryptAESCFB src key iv)
  else .err "crypto/aes: invalid key size"

/-- Embedding of `decryptAESCFB` (lines 343-351): on a bad key size the
source returns `nil` (line 346), leaving `dst` as the zero bytes it was
allocated with, so the caller sees no error in any case. -/
def goDecryptAESCFB (src key iv : List Nat) : List Nat :=
  if key.length = 16 ∨ key.length = 24 ∨ key.length = 32 then
    decryptAESCFB src key iv
  else List.replicate src.length 0

/-- Embedding of `encrypt` (lines 385-423).  The receiver is a *value*
(`func (w SNMP) encrypt`), so the `w.aesIV++` / `w.desIV++` on lines 392
and 409 increment a local copy: the incremented salt feeds the priv
parameter and the IV of this call, and the caller's session keeps its old
counters.  The model returns `(ciphertext, privParam)` and no session.
AES (privAlg `"AES"`): salt = incremented 64-bit `aesIV`, priv param its 8
big-endian bytes, IV = boots ‖ time ‖ priv param, CFB-128 encryption, key
size errors returned.  Otherwise DES: key = `privKey[:8]`, pre-IV =
`privKey[8:16]` (Go slicing panics when `privKey` is shorter), salt =
boots ‖ incremented 32-bit `desIV`, IV = pre-IV XOR salt, plaintext
zero-padded to a multiple of 8, CBC encryption (its error ignored by the
source, line 421). -/
def encrypt (w : SNMP) (payload : List Nat) : PanicOr (GoRes (List Nat × List Nat)) :=
  if w.privAlg = "AES" then
    let privParam := be64 ((w.aesIV + 1) % 18446744073709551616)
    let iv := be32 w.engineBoots ++ be32 w.engineTime ++ privParam
    match goEncryptAESCFB payload w.privKey iv with
    | .ok encrypted => .ok (.ok (encrypted, privParam))
    | .err e => .ok (.err e)
  else
    match goSliceTo w.privKey 8 with
    | .panicked m => .panicked m
    | .ok desKey =>
      match goSliceRange w.privKey 8 16 with
      | .panicked m => .panicked m
      | .ok preIV =>
        let privParam := be32 w.engineBoots ++ be32 ((w.desIV + 1) % 4294967296)
        match strXor preIV privParam with
        | .panicked m => .panicked m
        | .ok iv =>
          let padded :=
            if payload.length % 8 = 0 then payload
            else payload ++ List.replicate (8 - payload.length % 8) 0
          .ok (.ok (encryptDESCBC padded desKey iv, privParam))

/-- Embedding of `decrypt` (lines 425-455).  AES: IV rebuilt from boots,
time and the received priv param; `decryptAESCFB` never reports its key
error (line 346), so this branch always succeeds.  DES: key and pre-IV
sliced from `privKey`, then `strXor(preIV, privParam)` — reached *before*
the length-of-payload check, with `privParam` of whatever length the
datagram supplied — then panic unless the payload length is a multiple
of 8, then CBC decryption. -/
def decrypt (w : SNMP) (payload privParam : List Nat) : PanicOr (GoRes (List Nat)) :=
  if w.privAlg = "AES" then
    let iv := be32 w.engineBoots ++ be32 w.engineTime ++ privParam
    .ok (.ok (goDecryptAESCFB payload w.privKey iv))
  else
    match goSliceTo w.privKey 8 with
    | .panicked m => .panicked m
    | .ok desKey =>
      match goSliceRange w.privKey 8 16 with
      | .panicked m => .panicked m
      | .ok preIV =>
        match strXor preIV privParam with
        | .panicked m => .panicked m
        | .ok iv =>
          if payload.length % 8 = 0 then .ok (.ok (decryptDESCBC payload desKey iv))
          else .panicked "DES encrypted payload is not multiple of 8 bytes"

/-- Embedding of the session updates of `Discover` (lines 301-309) once the
response fields are decoded: store the agent's engine id, boots and time,
draw fresh `aesIV`/`desIV` (passed in, as the model has no randomness),
derive `authKey = passwordToKey(authPwd, engineID, authAlg)`, and set
`privKey` to the first 16 bytes of `passwordToKey(privPwd, engineID,
authAlg)` — the *auth* algorithm on line 308 (the slice on line 309 panics
if the derived key is shorter than 16 bytes). -/
def discoverUpdate (w : SNMP) (engineID : List Nat) (boots time aesIV desIV : Nat) :
    PanicOr SNMP :=
  let authKey := passwordToKey w.authPwd engineID w.authAlg
  match goSliceRange (passwordToKey w.privPwd engineID w.authAlg) 0 16 with
  | .panicked m => .panicked m
  | .ok privKey =>
    .ok { w with engineID := engineID, engineBoots := boots, engineTime := time,
                 aesIV := aesIV, desIV := desIV, authKey := authKey, privKey := privKey }

/-- Embedding of the key block of `ParseTrap` (lines 695-698 and 724-729)
after the matching trap user has been found: the session copy takes the
header's engine id and the user's algorithms/passwords, then derives the
keys exactly as `Discover` does — lines 727-729 again use the *auth*
algorithm for the privacy password and keep the first 16 bytes. -/
def parseTrapKeys (w : SNMP) (engineID : List Nat) (boots time : Nat)
    (user : List Nat) (authAlg : String) (authPwd : List Nat)
    (privAlg : String) (privPwd : List Nat) : PanicOr SNMP :=
  let w1 := { w with engineID := engineID, engineBoots := boots, engineTime := time,
                     user := user, authAlg := authAlg, authPwd := authPwd,
                     privAlg := privAlg, privPwd := privPwd }
  let authKey := passwordToKey w1.authPwd engineID w1.authAlg
  match goSliceRange (passwordToKey w1.privPwd engineID w1.authAlg) 0 16 with
  | .panicked m => .panicked m
  | .ok privKey => .ok { w1 with authKey := authKey, privKey := privKey }
/-!
### The wire codec and the v3 request pipeline

`snmp.go` calls `EncodeSequence`/`DecodeSequence` and the `Oid` type from a
companion file of the same package that is not part of the sources under
verification, so the encoder is modelled from the specification's
description of the codec (its §4.A and wire appendix) rather than
translated from code.
-/

mutual
/-- Modelled from the spec: a value of the tag/length/value tree fed to
`EncodeSequence` (the codec file is not among the sources).  Leaves are
integers, octet strings, null and OIDs; an interior node carries the tag
byte that its first element supplies, then its children in order.  The
claims only build non-negative integers, so `int` carries a `Nat`. -/
inductive BERVal : Type where
  | int (n : Nat)
  | str (s : List Nat)
  | null
  | oid (o : List Nat)
  | seq (tag : Nat) (children : BERList)

/-- Modelled from the spec: the children of a constructed node (a separate
inductive so all recursion below is structural). -/
inductive BERList : Type where
  | nil
  | cons (v : BERVal) (vs : BERList)
end

/-- Children from an ordinary list. -/
def blist : List BERVal → BERList
  | [] => .nil
  | v :: vs => .cons v (blist vs)

/-- Minimal big-endian base-256 digits of `n` (empty for `0`); the first
argument is fuel, `n` itself is always enough. -/
def natBEAux : Nat → Nat → List Nat
  | 0, _ => []
  | f + 1, n => if n = 0 then [] else natBEAux f (n / 256) ++ [n % 256]

/-- Minimal big-endian base-256 digits of `n`. -/
def natBE (n : Nat) : List Nat := natBEAux n n

/-- Modelled from the spec: the definite-length header for a content of
`n` bytes — one byte for `0..127`, otherwise `0x80 | count` followed by
the minimal big-endian length bytes. -/
def berLenBytes (n : Nat) : List Nat :=
  if n ≤ 127 then [n] else (128 + (natBE n).length) :: natBE n

/-- Modelled from the spec: the content bytes of a non-negative INTEGER —
minimal two's complement, so a leading zero byte is inserted when the top
bit of the leading magnitude byte is set. -/
def berIntBytes (n : Nat) : List Nat :=
  let bs := if n = 0 then [0] else natBE n
  if 128 ≤ bs.headD 0 then 0 :: bs else bs

/-- Minimal big-endian base-128 digits of `n` (empty for `0`), fueled. -/
def natB128Aux : Nat → Nat → List Nat
  | 0, _ => []
  | f + 1, n => if n = 0 then [] else natB128Aux f (n / 128) ++ [n % 128]

/-- Modelled from the spec: one OID component after the first two — base
128, the continuation bit `0x80` on every byte but the last. -/
def oidSubidBytes (n : Nat) : List Nat :=
  match natB128Aux n n with
  | [] => [0]
  | ds => (ds.dropLast.map (128 + ·)) ++ [ds.getLastD 0]

/-- Modelled from the spec: OID content bytes — the first two components
collapse to `40·a + b`, the rest are base-128 encoded. -/
def berOidBytes (o : List Nat) : List Nat :=
  match o with
  | a :: b :: rest => (40 * a + b) :: (rest.map oidSubidBytes).flatten
  | _ => []

mutual
/-- Modelled from the spec: `EncodeSequence` — serialize one value as
tag, minimal definite length, content (INTEGER `0x02`, OCTET STRING
`0x04`, NULL `0x05`, OID `0x06`; a constructed node uses its own tag). -/
def encodeVal : BERVal → List Nat
  | .int n => 2 :: berLenBytes (berIntBytes n).length ++ berIntBytes n
  | .str s => 4 :: berLenBytes s.length ++ s
  | .null => [5, 0]
  | .oid o => 6 :: berLenBytes (berOidBytes o).length ++ berOidBytes o
  | .seq tag cs => tag :: berLenBytes (encodeList cs).length ++ encodeList cs

/-- Modelled from the spec: children serialized in order. -/
def encodeList : BERList → List Nat
  | .nil => []
  | .cons v vs => encodeVal v ++ encodeList vs
end

/-- The 12-zero placeholder `strings.Repeat("\x00", 12)` that `doGetV3`
puts in the auth-param field (line 484) and replaces after signing
(line 500). -/
def zeros12 : List Nat := List.replicate 12 0

/-- The scoped PDU that `doGetV3` encrypts (lines 472-476):
`(Sequence, engine-id, "", (request-tag, request-id, 0, 0,
(Sequence, (Sequence, oid, null))))`.  `Sequence` is tag `0x30 = 48`;
the request tag is `0xA0` for Get, `0xA1` for GetNext. -/
def v3ScopedPDU (w : SNMP) (requestID : Nat) (oid : List Nat) (reqTag : Nat) : List Nat :=
  encodeVal (.seq 48 (blist [.str w.engineID, .str [],
    .seq reqTag (blist [.int requestID, .int 0, .int 0,
      .seq 48 (blist [.seq 48 (blist [.oid oid, .null])])])]))

/-- The security-parameters header of `doGetV3` (lines 483-484):
`(Sequence, engine-id, boots, time, user, 12 zero bytes, priv-param)`. -/
def v3HeaderBytes (w : SNMP) (privParam : List Nat) : List Nat :=
  encodeVal (.seq 48 (blist [.str w.engineID, .int w.engineBoots, .int w.engineTime,
    .str w.user, .str zeros12, .str privParam]))

/-- The outer message of `doGetV3` (lines 489-495): `(Sequence, version,
(Sequence, msg-id, 65500, flags = 0x07, security-model = 3),
header-as-octet-string, encrypted-payload-as-octet-string)`. -/
def v3Packet (w : SNMP) (msgID : Nat) (v3Header encrypted : List Nat) : List Nat :=
  encodeVal (.seq 48 (blist [.int w.version,
    .seq 48 (blist [.int msgID, .int 65500, .str [7], .int 3]),
    .str v3Header, .str encrypted]))

/-- The signing step of `doGetV3` (lines 499-500): HMAC the serialized
packet, then `strings.Replace(packet, 12 zero bytes, digest, 1)` — Go's
`Replace` with count 1 rewrites the *first* occurrence of the pattern. -/
def signPacket (w : SNMP) (packet : List Nat) : PanicOr (List Nat) :=
  match auth w packet with
  | .panicked m => .panicked m
  | .ok authParam => .ok (replaceFirst packet zeros12 authParam)

/-- The request half of `doGetV3` (lines 469-503), up to the bytes handed
to `poll`: build the scoped PDU, encrypt it — the error result of
`encrypt` is discarded on line 481 (`encrypted, privParam, _ :=`), Go then
carrying empty strings onward — assemble header and outer message, sign. -/
def doGetV3Send (w : SNMP) (msgID requestID : Nat) (oid : List Nat) (reqTag : Nat) :
    PanicOr (List Nat) :=
  match encrypt w (v3ScopedPDU w requestID oid reqTag) with
  | .panicked m => .panicked m
  | .ok res =>
    let ep := match res with | .ok p => p | .err _ => ([], [])
    signPacket w (v3Packet w msgID (v3HeaderBytes w ep.2) ep.1)

/-- `true` exactly when `doGetV3` reaches `poll` with a final packet. -/
def sendsRequest : PanicOr (List Nat) → Bool
  | .ok _ => true
  | .panicked _ => false

/-- The session writes the response half of `doGetV3` performs (lines
526-528): it adopts the response's engine id, boots and time — and touches
no other field, in particular neither `desIV` nor `aesIV`. -/
def doGetV3Update (w : SNMP) (engineID : List Nat) (boots time : Nat) : SNMP :=
  { w with engineID := engineID, engineBoots := boots, engineTime := time }

/-- The decryption step of the response half of `doGetV3` (lines 530-538):
error when the response's auth or priv parameter is empty, otherwise
`decrypt` with the priv parameter exactly as received. -/
def doGetV3Response (w : SNMP) (respAuthParam respPrivParam encryptedResp : List Nat) :
    PanicOr (GoRes (List Nat)) :=
  if respAuthParam.length = 0 ∨ respPrivParam.length = 0 then
    .ok (.err "Error,response is not encrypted.")
  else decrypt w encryptedResp respPrivParam
/-!
### The retry loop `poll` (lines 161-191) and the v3 constructor

`poll(conn, toSend, respondBuffer, retries, timeout)` runs up to
`retries + 1` attempts; each attempt sets the connection's write deadline
to `now + timeout`, writes, sets the read deadline to `now + timeout`, and
reads one datagram, retrying on any step's failure.  The model abstracts
the connection as a list of at most `retries + 1` attempt outcomes and
records every deadline offset the loop sets, so that theorems can speak
about which timeout value governs each attempt.
-/

/-- Outcome of the four fallible steps of one `poll` attempt. -/
structure PollAttempt where
  setWriteOk : Bool
  writeOk : Bool
  setReadOk : Bool
  readOk : Bool
  numRead : Nat
deriving DecidableEq

/-- Embedding of `poll` (lines 162-191) over a list of attempt outcomes
(one entry per loop iteration, so a caller with `retries` passes a list of
length `retries + 1`).  Returns the Go result and the list of deadline
offsets set: the write deadline `now + timeout` is computed at the top of
every iteration (line 165), the read deadline (line 176) only when the
write went through; both use `poll`'s own `timeout` argument.  When every
attempt fails the source returns the last error (line 190). -/
def pollRun : List PollAttempt → Nat → GoRes Nat × List Nat
  | [], _ => (.err "poll: no attempts", [])
  | a :: rest, timeout =>
    if a.setWriteOk = false ∨ a.writeOk = false then
      let r := pollRun rest timeout
      ((if rest.isEmpty then .err "write failed" else r.1), timeout :: r.2)
    else if a.setReadOk = false ∨ a.readOk = false then
      let r := pollRun rest timeout
      ((if rest.isEmpty then .err "read failed" else r.1), timeout :: timeout :: r.2)
    else (.ok a.numRead, [timeout, timeout])

/-- The timeout every sending operation passes to `poll`: `Get` (line
205), `GetMultiple` (line 239), `Discover` (line 283), `doGetV3` — hence
`GetV3` and `GetNextV3` — (line 503), `GetNext` (line 569) and `GetBulk`
(line 604) all pass the constant `500 * time.Millisecond`, never the
session's `timeout` field; in milliseconds. -/
def pollCallTimeoutMs : Nat := 500

/-- Embedding of `NewSNMPv3` (lines 116-142): validate the algorithm
names, then build a session whose v3 temporary fields (`engineID`,
`authKey`, `privKey`, `engineBoots`, `engineTime`, `desIV`, `aesIV`) hold
Go's zero values until `Discover` fills them. -/
def newSNMPv3 (user : List Nat) (authAlg : String) (authPwd : List Nat)
    (privAlg : String) (privPwd : List Nat) (timeout retries : Nat) : GoRes SNMP :=
  if authAlg ≠ "MD5" ∧ authAlg ≠ "SHA1" then
    .err "Invalid auth algorithm, needs SHA1 or MD5"
  else if privAlg ≠ "AES" ∧ privAlg ≠ "DES" then
    .err "Invalid priv algorithm, needs AES or DES"
  else
    .ok { version := 3, timeout := timeout, retries := retries, user := user,
          authAlg := authAlg, authPwd := authPwd, privAlg := privAlg, privPwd := privPwd,
          engineID := [], authKey := [], privKey := [], engineBoots := 0, engineTime := 0,
          desIV := 0, aesIV := 0 }
/-!
### The `GetTable` walk (lines 629-654)

OIDs are `List Nat`.  `Oid.Within` and `MustParseOid` live in the codec
file outside the verified sources, so `oidWithin` is modelled from the
specification ("A is within B iff A's sequence has B as a prefix";
`MustParseOid(oid.String())` is the identity by the spec's round-trip
law, so batches carry OIDs directly).  A GETBULK response is a Go map
iterated with `for o, v := range results` (line 639), whose order Go
leaves unspecified: the model therefore takes each batch as an explicit
list in iteration order.  Values are opaque `Nat` handles. -/

/-- Modelled from the spec: `Oid.Within` — `a` is within `root` iff
`root` is an initial segment of `a`. -/
def oidWithin (a root : List Nat) : Bool := listStarts root a

/-- Lexicographic strict order on OIDs (the spec's total order over
unsigned components; a proper initial segment precedes its extensions). -/
def oidLt : List Nat → List Nat → Bool
  | [], [] => false
  | [], _ :: _ => true
  | _ :: _, [] => false
  | a :: as, b :: bs => if a < b then true else if b < a then false else oidLt as bs

/-- The largest OID of a batch (defaulting to `dflt` on an empty batch). -/
def batchMaxOid (batch : List (List Nat × Nat)) (dflt : List Nat) : List Nat :=
  batch.foldl (fun m p => if oidLt m p.1 then p.1 else m) dflt

/-- Go-map insertion into the accumulator (`result[o] = v`, line 642):
overwrite the entry when the key exists, append otherwise. -/
def mapInsert (m : List (List Nat × Nat)) (k : List Nat) (v : Nat) : List (List Nat × Nat) :=
  if m.any (fun p => p.1 == k) then m.map (fun p => if p.1 == k then (k, v) else p)
  else m ++ [(k, v)]

/-- Key membership in the accumulator. -/
def hasKey (m : List (List Nat × Nat)) (k : List Nat) : Bool := m.any (fun p => p.1 == k)

/-- One round's range loop (lines 638-645) over the batch in map-iteration
order: entries within the root are inserted, and `newLastOid` is
overwritten with the entry's OID on *every* iteration (line 644, outside
the `if`), so it ends as the batch's last-iterated OID — starting from
`lastOid.Copy()` for an empty batch.  Returns (accumulator, new cursor). -/
def getTableRound (root : List Nat) (acc : List (List Nat × Nat)) (cursor : List Nat) :
    List (List Nat × Nat) → List (List Nat × Nat) × List Nat
  | [] => (acc, cursor)
  | (o, v) :: rest =>
    getTableRound root (if oidWithin o root then mapInsert acc o v else acc) o rest

/-- The `GetTable` loop (lines 632-652) driven by the successive GETBULK
responses (each in its map-iteration order): while the cursor is within
the root, run a round, stop returning the accumulator when the round's
cursor equals the previous one (`reflect.DeepEqual`, line 647), else
continue from the new cursor.  The response stream is finite in the
model; an exhausted stream returns the accumulator so far. -/
def getTableLoop (root : List Nat) : List (List (List Nat × Nat)) →
    List (List Nat × Nat) → List Nat → List (List Nat × Nat)
  | [], acc, _ => acc
  | batch :: rest, acc, cursor =>
    if oidWithin cursor root then
      let r := getTableRound root acc cursor batch
      if r.2 == cursor then r.1
      else getTableLoop root rest r.1 r.2
    else acc

/-- Embedding of `GetTable` (lines 629-654): empty accumulator, cursor
starting at the root itself (`oid.Copy()`, line 631). -/
def getTable (root : List Nat) (batches : List (List (List Nat × Nat))) :
    List (List Nat × Nat) :=
  getTableLoop root batches [] root
/-- The priv parameter carried by a successful `encrypt` result (`none`
for an error or a panic): the salt-bearing field whose freshness the
specification's IV-reuse invariant is about. -/
def encPrivParam : PanicOr (GoRes (List Nat × List Nat)) → Option (List Nat)
  | .ok (.ok p) => some p.2
  | _ => none
/-!
### Concrete sessions and packets used by counterexamples and witnesses
-/

/-- A discovered DES session whose engine id is 12 zero bytes — a
perfectly legal engine id that collides with the auth-param
placeholder. -/
def c4w : SNMP :=
  { version := 3
    timeout := 1
    retries := 0
    user := [117, 115, 114]
    authAlg := "MD5"
    authPwd := []
    privAlg := "DES"
    privPwd := []
    engineID := List.replicate 12 0
    authKey := [1, 2, 3, 4, 5, 6, 7, 8, 9, 10, 11, 12, 13, 14, 15, 16]
    privKey := [11, 22, 33, 44, 55, 66, 77, 88, 99, 110, 121, 132, 143, 154, 165, 176]
    engineBoots := 1
    engineTime := 2
    desIV := 5
    aesIV := 9 }

/-- The ciphertext `encrypt c4w` produces for the scoped PDU of a Get on
OID 1.3.6.1.2.1 (request id 7). -/
def c4ct : List Nat :=
  [14, 177, 222, 79, 105, 109, 93, 224, 13, 36, 77, 129, 165, 85, 195, 170,
   49, 217, 147, 1, 96, 218, 98, 24, 26, 65, 180, 3, 135, 99, 174, 97,
   150, 117, 252, 206, 213, 64, 227, 237, 93, 145, 8, 153, 90, 126, 104, 206]

/-- The priv parameter of that `encrypt` call: boots 1, salt 6. -/
def c4pp : List Nat := [0, 0, 0, 1, 0, 0, 0, 6]

/-- The outer v3 message `doGetV3` assembles for that request (msg id 3)
before signing. -/
def c4packet : List Nat := v3Packet c4w 3 (v3HeaderBytes c4w c4pp) c4ct

/-- The 12-byte HMAC-MD5 digest of `c4packet` under `c4w`'s auth key. -/
def c4digest : List Nat := [57, 134, 172, 44, 223, 22, 228, 66, 94, 13, 129, 36]

/-- A discovered DES session with the RFC 3414 MD5 key as privacy key. -/
def w5 : SNMP :=
  { version := 3
    timeout := 1
    retries := 0
    user := []
    authAlg := "SHA1"
    authPwd := []
    privAlg := "DES"
    privPwd := []
    engineID := [128, 0, 31, 136, 4, 49]
    authKey := []
    privKey := [82, 111, 94, 237, 159, 204, 226, 111, 137, 100, 194, 147, 7, 135, 216, 43]
    engineBoots := 7
    engineTime := 1000
    desIV := 41
    aesIV := 0 }

/-- The 8 ciphertext bytes `encrypt w5` produces for the 5-byte plaintext
`[1, 2, 3, 4, 5]`. -/
def c5ct : List Nat := [232, 132, 167, 174, 109, 2, 218, 11]

/-- The priv parameter of that call: boots 7, salt 42. -/
def c5pp : List Nat := [0, 0, 0, 7, 0, 0, 0, 42]

/-- The undiscovered AES session `NewSNMPv3` returns before any
`Discover`: v3 temporaries all zero values. -/
def c8aes : SNMP :=
  { version := 3
    timeout := 1000
    retries := 2
    user := [117]
    authAlg := "MD5"
    authPwd := [112]
    privAlg := "AES"
    privPwd := [113]
    engineID := []
    authKey := []
    privKey := []
    engineBoots := 0
    engineTime := 0
    desIV := 0
    aesIV := 0 }

/-- The same undiscovered session in DES mode. -/
def c8des : SNMP :=
  { version := 3
    timeout := 1000
    retries := 2
    user := [117]
    authAlg := "MD5"
    authPwd := [112]
    privAlg := "DES"
    privPwd := [113]
    engineID := []
    authKey := []
    privKey := []
    engineBoots := 0
    engineTime := 0
    desIV := 0
    aesIV := 0 }
/-!
Bridge theorems: each specialised pipeline definition equals the generic
compression chain applied to the corresponding literal word function.
Each step's proof applies the next step's bridge, so every proof is a
small definitional check.
-/
theorem mplBr0S64 (oa ob oc od a b c d : Nat) :
    md5S64 mplWords0 oa ob oc od a b c d = mplP0S64 oa ob oc od a b c d := rfl
theorem mplBr0T63 (oa ob oc od b c d t : Nat) :
    md5T63 mplWords0 oa ob oc od b c d t = mplP0T63 oa ob oc od b c d t :=
  mplBr0S64 oa ob oc od d _ b c
theorem mplBr0S63 (oa ob oc od a b c d : Nat) :
    md5S63 mplWords0 oa ob oc od a b c d = mplP0S63 oa ob oc od a b c d :=
  mplBr0T63 oa ob oc od b c d _
theorem mplBr0T62 (oa ob oc od b c d t : Nat) :
    md5T62 mplWords0 oa ob oc od b c d t = mplP0T62 oa ob oc od b c d t :=
  mplBr0S63 oa ob oc od d _ b c
theorem mplBr0S62 (oa ob oc od a b c d : Nat) :
    md5S62 mplWords0 oa ob oc od a b c d = mplP0S62 oa ob oc od a b c d :=
  mplBr0T62 oa ob oc od b c d _
theorem mplBr0T61 (oa ob oc od b c d t : Nat) :
    md5T61 mplWords0 oa ob oc od b c d t = mplP0T61 oa ob oc od b c d t :=
  mplBr0S62 oa ob oc od d _ b c
theorem mplBr0S61 (oa ob oc od a b c d : Nat) :
    md5S61 mplWords0 oa ob oc od a b c d = mplP0S61 oa ob oc od a b c d :=
  mplBr0T61 oa ob oc od b c d _
theorem mplBr0T60 (oa ob oc od b c d t : Nat) :
    md5T60 mplWords0 oa ob oc od b c d t = mplP0T60 oa ob oc od b c d t :=
  mplBr0S61 oa ob oc od d _ b c
theorem mplBr0S60 (oa ob oc od a b c d : Nat) :
    md5S60 mplWords0 oa ob oc od a b c d = mplP0S60 oa ob oc od a b c d :=
  mplBr0T60 oa ob oc od b c d _
theorem mplBr0T59 (oa ob oc od b c d t : Nat) :
    md5T59 mplWords0 oa ob oc od b c d t = mplP0T59 oa ob oc od b c d t :=
  mplBr0S60 oa ob oc od d _ b c
theorem mplBr0S59 (oa ob oc od a b c d : Nat) :
    md5S59 mplWords0 oa ob oc od a b c d = mplP0S59 oa ob oc od a b c d :=
  mplBr0T59 oa ob oc od b c d _
theorem mplBr0T58 (oa ob oc od b c d t : Nat) :
    md5T58 mplWords0 oa ob oc od b c d t = mplP0T58 oa ob oc od b c d t :=
  mplBr0S59 oa ob oc od d _ b c
theorem mplBr0S58 (oa ob oc od a b c d : Nat) :
    md5S58 mplWords0 oa ob oc od a b c d = mplP0S58 oa ob oc od a b c d :=
  mplBr0T58 oa ob oc od b c d _
theorem mplBr0T57 (oa ob oc od b c d t : Nat) :
    md5T57 mplWords0 oa ob oc od b c d t = mplP0T57 oa ob oc od b c d t :=
  mplBr0S58 oa ob oc od d _ b c
theorem mplBr0S57 (oa ob oc od a b c d : Nat) :
    md5S57 mplWords0 oa ob oc od a b c d = mplP0S57 oa ob oc od a b c d :=
  mplBr0T57 oa ob oc od b c d _
theorem mplBr0T56 (oa ob oc od b c d t : Nat) :
    md5T56 mplWords0 oa ob oc od b c d t = mplP0T56 oa ob oc od b c d t :=
  mplBr0S57 oa ob oc od d _ b c
theorem mplBr0S56 (oa ob oc od a b c d : Nat) :
    md5S56 mplWords0 oa ob oc od a b c d = mplP0S56 oa ob oc od a b c d :=
  mplBr0T56 oa ob oc od b c d _
theorem mplBr0T55 (oa ob oc od b c d t : Nat) :
    md5T55 mplWords0 oa ob oc od b c d t = mplP0T55 oa ob oc od b c d t :=
  mplBr0S56 oa ob oc od d _ b c
theorem mplBr0S55 (oa ob oc od a b c d : Nat) :
    md5S55 mplWords0 oa ob oc od a b c d = mplP0S55 oa ob oc od a b c d :=
  mplBr0T55 oa ob oc od b c d _
theorem mplBr0T54 (oa ob oc od b c d t : Nat) :
    md5T54 mplWords0 oa ob oc od b c d t = mplP0T54 oa ob oc od b c d t :=
  mplBr0S55 oa ob oc od d _ b c
theorem mplBr0S54 (oa ob oc od a b c d : Nat) :
    md5S54 mplWords0 oa ob oc od a b c d = mplP0S54 oa ob oc od a b c d :=
  mplBr0T54 oa ob oc od b c d _
theorem mplBr0T53 (oa ob oc od b c d t : Nat) :
    md5T53 mplWords0 oa ob oc od b c d t = mplP0T53 oa ob oc od b c d t :=
  mplBr0S54 oa ob oc od d _ b c
theorem mplBr0S53 (oa ob oc od a b c d : Nat) :
    md5S53 mplWords0 oa ob oc od a b c d = mplP0S53 oa ob oc od a b c d :=
  mplBr0T53 oa ob oc od b c d _
theorem mplBr0T52 (oa ob oc od b c d t : Nat) :
    md5T52 mplWords0 oa ob oc od b c d t = mplP0T52 oa ob oc od b c d t :=
  mplBr0S53 oa ob oc od d _ b c
theorem mplBr0S52 (oa ob oc od a b c d : Nat) :
    md5S52 mplWords0 oa ob oc od a b c d = mplP0S52 oa ob oc od a b c d :=
  mplBr0T52 oa ob oc od b c d _
theorem mplBr0T51 (oa ob oc od b c d t : Nat) :
    md5T51 mplWords0 oa ob oc od b c d t = mplP0T51 oa ob oc od b c d t :=
  mplBr0S52 oa ob oc od d _ b c
theorem mplBr0S51 (oa ob oc od a b c d : Nat) :
    md5S51 mplWords0 oa ob oc od a b c d = mplP0S51 oa ob oc od a b c d :=
  mplBr0T51 oa ob oc od b c d _
theorem mplBr0T50 (oa ob oc od b c d t : Nat) :
    md5T50 mplWords0 oa ob oc od b c d t = mplP0T50 oa ob oc od b c d t :=
  mplBr0S51 oa ob oc od d _ b c
theorem mplBr0S50 (oa ob oc od a b c d : Nat) :
    md5S50 mplWords0 oa ob oc od a b c d = mplP0S50 oa ob oc od a b c d :=
  mplBr0T50 oa ob oc od b c d _
theorem mplBr0T49 (oa ob oc od b c d t : Nat) :
    md5T49 mplWords0 oa ob oc od b c d t = mplP0T49 oa ob oc od b c d t :=
  mplBr0S50 oa ob oc od d _ b c
theorem mplBr0S49 (oa ob oc od a b c d : Nat) :
    md5S49 mplWords0 oa ob oc od a b c d = mplP0S49 oa ob oc od a b c d :=
  mplBr0T49 oa ob oc od b c d _
theorem mplBr0T48 (oa ob oc od b c d t : Nat) :
    md5T48 mplWords0 oa ob oc od b c d t = mplP0T48 oa ob oc od b c d t :=
  mplBr0S49 oa ob oc od d _ b c
theorem mplBr0S48 (oa ob oc od a b c d : Nat) :
    md5S48 mplWords0 oa ob oc od a b c d = mplP0S48 oa ob oc od a b c d :=
  mplBr0T48 oa ob oc od b c d _
theorem mplBr0T47 (oa ob oc od b c d t : Nat) :
    md5T47 mplWords0 oa ob oc od b c d t = mplP0T47 oa ob oc od b c d t :=
  mplBr0S48 oa ob oc od d _ b c
theorem mplBr0S47 (oa ob oc od a b c d : Nat) :
    md5S47 mplWords0 oa ob oc od a b c d = mplP0S47 oa ob oc od a b c d :=
  mplBr0T47 oa ob oc od b c d _
theorem mplBr0T46 (oa ob oc od b c d t : Nat) :
    md5T46 mplWords0 oa ob oc od b c d t = mplP0T46 oa ob oc od b c d t :=
  mplBr0S47 oa ob oc od d _ b c
theorem mplBr0S46 (oa ob oc od a b c d : Nat) :
    md5S46 mplWords0 oa ob oc od a b c d = mplP0S46 oa ob oc od a b c d :=
  mplBr0T46 oa ob oc od b c d _
theorem mplBr0T45 (oa ob oc od b c d t : Nat) :
    md5T45 mplWords0 oa ob oc od b c d t = mplP0T45 oa ob oc od b c d t :=
  mplBr0S46 oa ob oc od d _ b c
theorem mplBr0S45 (oa ob oc od a b c d : Nat) :
    md5S45 mplWords0 oa ob oc od a b c d = mplP0S45 oa ob oc od a b c d :=
  mplBr0T45 oa ob oc od b c d _
theorem mplBr0T44 (oa ob oc od b c d t : Nat) :
    md5T44 mplWords0 oa ob oc od b c d t = mplP0T44 oa ob oc od b c d t :=
  mplBr0S45 oa ob oc od d _ b c
theorem mplBr0S44 (oa ob oc od a b c d : Nat) :
    md5S44 mplWords0 oa ob oc od a b c d = mplP0S44 oa ob oc od a b c d :=
  mplBr0T44 oa ob oc od b c d _
theorem mplBr0T43 (oa ob oc od b c d t : Nat) :
    md5T43 mplWords0 oa ob oc od b c d t = mplP0T43 oa ob oc od b c d t :=
  mplBr0S44 oa ob oc od d _ b c
theorem mplBr0S43 (oa ob oc od a b c d : Nat) :
    md5S43 mplWords0 oa ob oc od a b c d = mplP0S43 oa ob oc od a b c d :=
  mplBr0T43 oa ob oc od b c d _
theorem mplBr0T42 (oa ob oc od b c d t : Nat) :
    md5T42 mplWords0 oa ob oc od b c d t = mplP0T42 oa ob oc od b c d t :=
  mplBr0S43 oa ob oc od d _ b c
theorem mplBr0S42 (oa ob oc od a b c d : Nat) :
    md5S42 mplWords0 oa ob oc od a b c d = mplP0S42 oa ob oc od a b c d :=
  mplBr0T42 oa ob oc od b c d _
theorem mplBr0T41 (oa ob oc od b c d t : Nat) :
    md5T41 mplWords0 oa ob oc od b c d t = mplP0T41 oa ob oc od b c d t :=
  mplBr0S42 oa ob oc od d _ b c
theorem mplBr0S41 (oa ob oc od a b c d : Nat) :
    md5S41 mplWords0 oa ob oc od a b c d = mplP0S41 oa ob oc od a b c d :=
  mplBr0T41 oa ob oc od b c d _
theorem mplBr0T40 (oa ob oc od b c d t : Nat) :
    md5T40 mplWords0 oa ob oc od b c d t = mplP0T40 oa ob oc od b c d t :=
  mplBr0S41 oa ob oc od d _ b c
theorem mplBr0S40 (oa ob oc od a b c d : Nat) :
    md5S40 mplWords0 oa ob oc od a b c d = mplP0S40 oa ob oc od a b c d :=
  mplBr0T40 oa ob oc od b c d _
theorem mplBr0T39 (oa ob oc od b c d t : Nat) :
    md5T39 mplWords0 oa ob oc od b c d t = mplP0T39 oa ob oc od b c d t :=
  mplBr0S40 oa ob oc od d _ b c
theorem mplBr0S39 (oa ob oc od a b c d : Nat) :
    md5S39 mplWords0 oa ob oc od a b c d = mplP0S39 oa ob oc od a b c d :=
  mplBr0T39 oa ob oc od b c d _
theorem mplBr0T38 (oa ob oc od b c d t : Nat) :
    md5T38 mplWords0 oa ob oc od b c d t = mplP0T38 oa ob oc od b c d t :=
  mplBr0S39 oa ob oc od d _ b c
theorem mplBr0S38 (oa ob oc od a b c d : Nat) :
    md5S38 mplWords0 oa ob oc od a b c d = mplP0S38 oa ob oc od a b c d :=
  mplBr0T38 oa ob oc od b c d _
theorem mplBr0T37 (oa ob oc od b c d t : Nat) :
    md5T37 mplWords0 oa ob oc od b c d t = mplP0T37 oa ob oc od b c d t :=
  mplBr0S38 oa ob oc od d _ b c
theorem mplBr0S37 (oa ob oc od a b c d : Nat) :
    md5S37 mplWords0 oa ob oc od a b c d = mplP0S37 oa ob oc od a b c d :=
  mplBr0T37 oa ob oc od b c d _
theorem mplBr0T36 (oa ob oc od b c d t : Nat) :
    md5T36 mplWords0 oa ob oc od b c d t = mplP0T36 oa ob oc od b c d t :=
  mplBr0S37 oa ob oc od d _ b c
theorem mplBr0S36 (oa ob oc od a b c d : Nat) :
    md5S36 mplWords0 oa ob oc od a b c d = mplP0S36 oa ob oc od a b c d :=
  mplBr0T36 oa ob oc od b c d _
theorem mplBr0T35 (oa ob oc od b c d t : Nat) :
    md5T35 mplWords0 oa ob oc od b c d t = mplP0T35 oa ob oc od b c d t :=
  mplBr0S36 oa ob oc od d _ b c
theorem mplBr0S35 (oa ob oc od a b c d : Nat) :
    md5S35 mplWords0 oa ob oc od a b c d = mplP0S35 oa ob oc od a b c d :=
  mplBr0T35 oa ob oc od b c d _
theorem mplBr0T34 (oa ob oc od b c d t : Nat) :
    md5T34 mplWords0 oa ob oc od b c d t = mplP0T34 oa ob oc od b c d t :=
  mplBr0S35 oa ob oc od d _ b c
theorem mplBr0S34 (oa ob oc od a b c d : Nat) :
    md5S34 mplWords0 oa ob oc od a b c d = mplP0S34 oa ob oc od a b c d :=
  mplBr0T34 oa ob oc od b c d _
theorem mplBr0T33 (oa ob oc od b c d t : Nat) :
    md5T33 mplWords0 oa ob oc od b c d t = mplP0T33 oa ob oc od b c d t :=
  mplBr0S34 oa ob oc od d _ b c
theorem mplBr0S33 (oa ob oc od a b c d : Nat) :
    md5S33 mplWords0 oa ob oc od a b c d = mplP0S33 oa ob oc od a b c d :=
  mplBr0T33 oa ob oc od b c d _
theorem mplBr0T32 (oa ob oc od b c d t : Nat) :
    md5T32 mplWords0 oa ob oc od b c d t = mplP0T32 oa ob oc od b c d t :=
  mplBr0S33 oa ob oc od d _ b c
theorem mplBr0S32 (oa ob oc od a b c d : Nat) :
    md5S32 mplWords0 oa ob oc od a b c d = mplP0S32 oa ob oc od a b c d :=
  mplBr0T32 oa ob oc od b c d _
theorem mplBr0T31 (oa ob oc od b c d t : Nat) :
    md5T31 mplWords0 oa ob oc od b c d t = mplP0T31 oa ob oc od b c d t :=
  mplBr0S32 oa ob oc od d _ b c
theorem mplBr0S31 (oa ob oc od a b c d : Nat) :
    md5S31 mplWords0 oa ob oc od a b c d = mplP0S31 oa ob oc od a b c d :=
  mplBr0T31 oa ob oc od b c d _
theorem mplBr0T30 (oa ob oc od b c d t : Nat) :
    md5T30 mplWords0 oa ob oc od b c d t = mplP0T30 oa ob oc od b c d t :=
  mplBr0S31 oa ob oc od d _ b c
theorem mplBr0S30 (oa ob oc od a b c d : Nat) :
    md5S30 mplWords0 oa ob oc od a b c d = mplP0S30 oa ob oc od a b c d :=
  mplBr0T30 oa ob oc od b c d _
theorem mplBr0T29 (oa ob oc od b c d t : Nat) :
    md5T29 mplWords0 oa ob oc od b c d t = mplP0T29 oa ob oc od b c d t :=
  mplBr0S30 oa ob oc od d _ b c
theorem mplBr0S29 (oa ob oc od a b c d : Nat) :
    md5S29 mplWords0 oa ob oc od a b c d = mplP0S29 oa ob oc od a b c d :=
  mplBr0T29 oa ob oc od b c d _
theorem mplBr0T28 (oa ob oc od b c d t : Nat) :
    md5T28 mplWords0 oa ob oc od b c d t = mplP0T28 oa ob oc od b c d t :=
  mplBr0S29 oa ob oc od d _ b c
theorem mplBr0S28 (oa ob oc od a b c d : Nat) :
    md5S28 mplWords0 oa ob oc od a b c d = mplP0S28 oa ob oc od a b c d :=
  mplBr0T28 oa ob oc od b c d _
theorem mplBr0T27 (oa ob oc od b c d t : Nat) :
    md5T27 mplWords0 oa ob oc od b c d t = mplP0T27 oa ob oc od b c d t :=
  mplBr0S28 oa ob oc od d _ b c
theorem mplBr0S27 (oa ob oc od a b c d : Nat) :
    md5S27 mplWords0 oa ob oc od a b c d = mplP0S27 oa ob oc od a b c d :=
  mplBr0T27 oa ob oc od b c d _
theorem mplBr0T26 (oa ob oc od b c d t : Nat) :
    md5T26 mplWords0 oa ob oc od b c d t = mplP0T26 oa ob oc od b c d t :=
  mplBr0S27 oa ob oc od d _ b c
theorem mplBr0S26 (oa ob oc od a b c d : Nat) :
    md5S26 mplWords0 oa ob oc od a b c d = mplP0S26 oa ob oc od a b c d :=
  mplBr0T26 oa ob oc od b c d _
theorem mplBr0T25 (oa ob oc od b c d t : Nat) :
    md5T25 mplWords0 oa ob oc od b c d t = mplP0T25 oa ob oc od b c d t :=
  mplBr0S26 oa ob oc od d _ b c
theorem mplBr0S25 (oa ob oc od a b c d : Nat) :
    md5S25 mplWords0 oa ob oc od a b c d = mplP0S25 oa ob oc od a b c d :=
  mplBr0T25 oa ob oc od b c d _
theorem mplBr0T24 (oa ob oc od b c d t : Nat) :
    md5T24 mplWords0 oa ob oc od b c d t = mplP0T24 oa ob oc od b c d t :=
  mplBr0S25 oa ob oc od d _ b c
theorem mplBr0S24 (oa ob oc od a b c d : Nat) :
    md5S24 mplWords0 oa ob oc od a b c d = mplP0S24 oa ob oc od a b c d :=
  mplBr0T24 oa ob oc od b c d _
theorem mplBr0T23 (oa ob oc od b c d t : Nat) :
    md5T23 mplWords0 oa ob oc od b c d t = mplP0T23 oa ob oc od b c d t :=
  mplBr0S24 oa ob oc od d _ b c
theorem mplBr0S23 (oa ob oc od a b c d : Nat) :
    md5S23 mplWords0 oa ob oc od a b c d = mplP0S23 oa ob oc od a b c d :=
  mplBr0T23 oa ob oc od b c d _
theorem mplBr0T22 (oa ob oc od b c d t : Nat) :
    md5T22 mplWords0 oa ob oc od b c d t = mplP0T22 oa ob oc od b c d t :=
  mplBr0S23 oa ob oc od d _ b c
theorem mplBr0S22 (oa ob oc od a b c d : Nat) :
    md5S22 mplWords0 oa ob oc od a b c d = mplP0S22 oa ob oc od a b c d :=
  mplBr0T22 oa ob oc od b c d _
theorem mplBr0T21 (oa ob oc od b c d t : Nat) :
    md5T21 mplWords0 oa ob oc od b c d t = mplP0T21 oa ob oc od b c d t :=
  mplBr0S22 oa ob oc od d _ b c
theorem mplBr0S21 (oa ob oc od a b c d : Nat) :
    md5S21 mplWords0 oa ob oc od a b c d = mplP0S21 oa ob oc od a b c d :=
  mplBr0T21 oa ob oc od b c d _
theorem mplBr0T20 (oa ob oc od b c d t : Nat) :
    md5T20 mplWords0 oa ob oc od b c d t = mplP0T20 oa ob oc od b c d t :=
  mplBr0S21 oa ob oc od d _ b c
theorem mplBr0S20 (oa ob oc od a b c d : Nat) :
    md5S20 mplWords0 oa ob oc od a b c d = mplP0S20 oa ob oc od a b c d :=
  mplBr0T20 oa ob oc od b c d _
theorem mplBr0T19 (oa ob oc od b c d t : Nat) :
    md5T19 mplWords0 oa ob oc od b c d t = mplP0T19 oa ob oc od b c d t :=
  mplBr0S20 oa ob oc od d _ b c
theorem mplBr0S19 (oa ob oc od a b c d : Nat) :
    md5S19 mplWords0 oa ob oc od a b c d = mplP0S19 oa ob oc od a b c d :=
  mplBr0T19 oa ob oc od b c d _
theorem mplBr0T18 (oa ob oc od b c d t : Nat) :
    md5T18 mplWords0 oa ob oc od b c d t = mplP0T18 oa ob oc od b c d t :=
  mplBr0S19 oa ob oc od d _ b c
theorem mplBr0S18 (oa ob oc od a b c d : Nat) :
    md5S18 mplWords0 oa ob oc od a b c d = mplP0S18 oa ob oc od a b c d :=
  mplBr0T18 oa ob oc od b c d _
theorem mplBr0T17 (oa ob oc od b c d t : Nat) :
    md5T17 mplWords0 oa ob oc od b c d t = mplP0T17 oa ob oc od b c d t :=
  mplBr0S18 oa ob oc od d _ b c
theorem mplBr0S17 (oa ob oc od a b c d : Nat) :
    md5S17 mplWords0 oa ob oc od a b c d = mplP0S17 oa ob oc od a b c d :=
  mplBr0T17 oa ob oc od b c d _
theorem mplBr0T16 (oa ob oc od b c d t : Nat) :
    md5T16 mplWords0 oa ob oc od b c d t = mplP0T16 oa ob oc od b c d t :=
  mplBr0S17 oa ob oc od d _ b c
theorem mplBr0S16 (oa ob oc od a b c d : Nat) :
    md5S16 mplWords0 oa ob oc od a b c d = mplP0S16 oa ob oc od a b c d :=
  mplBr0T16 oa ob oc od b c d _
theorem mplBr0T15 (oa ob oc od b c d t : Nat) :
    md5T15 mplWords0 oa ob oc od b c d t = mplP0T15 oa ob oc od b c d t :=
  mplBr0S16 oa ob oc od d _ b c
theorem mplBr0S15 (oa ob oc od a b c d : Nat) :
    md5S15 mplWords0 oa ob oc od a b c d = mplP0S15 oa ob oc od a b c d :=
  mplBr0T15 oa ob oc od b c d _
theorem mplBr0T14 (oa ob oc od b c d t : Nat) :
    md5T14 mplWords0 oa ob oc od b c d t = mplP0T14 oa ob oc od b c d t :=
  mplBr0S15 oa ob oc od d _ b c
theorem mplBr0S14 (oa ob oc od a b c d : Nat) :
    md5S14 mplWords0 oa ob oc od a b c d = mplP0S14 oa ob oc od a b c d :=
  mplBr0T14 oa ob oc od b c d _
theorem mplBr0T13 (oa ob oc od b c d t : Nat) :
    md5T13 mplWords0 oa ob oc od b c d t = mplP0T13 oa ob oc od b c d t :=
  mplBr0S14 oa ob oc od d _ b c
theorem mplBr0S13 (oa ob oc od a b c d : Nat) :
    md5S13 mplWords0 oa ob oc od a b c d = mplP0S13 oa ob oc od a b c d :=
  mplBr0T13 oa ob oc od b c d _
theorem mplBr0T12 (oa ob oc od b c d t : Nat) :
    md5T12 mplWords0 oa ob oc od b c d t = mplP0T12 oa ob oc od b c d t :=
  mplBr0S13 oa ob oc od d _ b c
theorem mplBr0S12 (oa ob oc od a b c d : Nat) :
    md5S12 mplWords0 oa ob oc od a b c d = mplP0S12 oa ob oc od a b c d :=
  mplBr0T12 oa ob oc od b c d _
theorem mplBr0T11 (oa ob oc od b c d t : Nat) :
    md5T11 mplWords0 oa ob oc od b c d t = mplP0T11 oa ob oc od b c d t :=
  mplBr0S12 oa ob oc od d _ b c
theorem mplBr0S11 (oa ob oc od a b c d : Nat) :
    md5S11 mplWords0 oa ob oc od a b c d = mplP0S11 oa ob oc od a b c d :=
  mplBr0T11 oa ob oc od b c d _
theorem mplBr0T10 (oa ob oc od b c d t : Nat) :
    md5T10 mplWords0 oa ob oc od b c d t = mplP0T10 oa ob oc od b c d t :=
  mplBr0S11 oa ob oc od d _ b c
theorem mplBr0S10 (oa ob oc od a b c d : Nat) :
    md5S10 mplWords0 oa ob oc od a b c d = mplP0S10 oa ob oc od a b c d :=
  mplBr0T10 oa ob oc od b c d _
theorem mplBr0T9 (oa ob oc od b c d t : Nat) :
    md5T9 mplWords0 oa ob oc od b c d t = mplP0T9 oa ob oc od b c d t :=
  mplBr0S10 oa ob oc od d _ b c
theorem mplBr0S9 (oa ob oc od a b c d : Nat) :
    md5S9 mplWords0 oa ob oc od a b c d = mplP0S9 oa ob oc od a b c d :=
  mplBr0T9 oa ob oc od b c d _
theorem mplBr0T8 (oa ob oc od b c d t : Nat) :
    md5T8 mplWords0 oa ob oc od b c d t = mplP0T8 oa ob oc od b c d t :=
  mplBr0S9 oa ob oc od d _ b c
theorem mplBr0S8 (oa ob oc od a b c d : Nat) :
    md5S8 mplWords0 oa ob oc od a b c d = mplP0S8 oa ob oc od a b c d :=
  mplBr0T8 oa ob oc od b c d _
theorem mplBr0T7 (oa ob oc od b c d t : Nat) :
    md5T7 mplWords0 oa ob oc od b c d t = mplP0T7 oa ob oc od b c d t :=
  mplBr0S8 oa ob oc od d _ b c
theorem mplBr0S7 (oa ob oc od a b c d : Nat) :
    md5S7 mplWords0 oa ob oc od a b c d = mplP0S7 oa ob oc od a b c d :=
  mplBr0T7 oa ob oc od b c d _
theorem mplBr0T6 (oa ob oc od b c d t : Nat) :
    md5T6 mplWords0 oa ob oc od b c d t = mplP0T6 oa ob oc od b c d t :=
  mplBr0S7 oa ob oc od d _ b c
theorem mplBr0S6 (oa ob oc od a b c d : Nat) :
    md5S6 mplWords0 oa ob oc od a b c d = mplP0S6 oa ob oc od a b c d :=
  mplBr0T6 oa ob oc od b c d _
theorem mplBr0T5 (oa ob oc od b c d t : Nat) :
    md5T5 mplWords0 oa ob oc od b c d t = mplP0T5 oa ob oc od b c d t :=
  mplBr0S6 oa ob oc od d _ b c
theorem mplBr0S5 (oa ob oc od a b c d : Nat) :
    md5S5 mplWords0 oa ob oc od a b c d = mplP0S5 oa ob oc od a b c d :=
  mplBr0T5 oa ob oc od b c d _
theorem mplBr0T4 (oa ob oc od b c d t : Nat) :
    md5T4 mplWords0 oa ob oc od b c d t = mplP0T4 oa ob oc od b c d t :=
  mplBr0S5 oa ob oc od d _ b c
theorem mplBr0S4 (oa ob oc od a b c d : Nat) :
    md5S4 mplWords0 oa ob oc od a b c d = mplP0S4 oa ob oc od a b c d :=
  mplBr0T4 oa ob oc od b c d _
theorem mplBr0T3 (oa ob oc od b c d t : Nat) :
    md5T3 mplWords0 oa ob oc od b c d t = mplP0T3 oa ob oc od b c d t :=
  mplBr0S4 oa ob oc od d _ b c
theorem mplBr0S3 (oa ob oc od a b c d : Nat) :
    md5S3 mplWords0 oa ob oc od a b c d = mplP0S3 oa ob oc od a b c d :=
  mplBr0T3 oa ob oc od b c d _
theorem mplBr0T2 (oa ob oc od b c d t : Nat) :
    md5T2 mplWords0 oa ob oc od b c d t = mplP0T2 oa ob oc od b c d t :=
  mplBr0S3 oa ob oc od d _ b c
theorem mplBr0S2 (oa ob oc od a b c d : Nat) :
    md5S2 mplWords0 oa ob oc od a b c d = mplP0S2 oa ob oc od a b c d :=
  mplBr0T2 oa ob oc od b c d _
theorem mplBr0T1 (oa ob oc od b c d t : Nat) :
    md5T1 mplWords0 oa ob oc od b c d t = mplP0T1 oa ob oc od b c d t :=
  mplBr0S2 oa ob oc od d _ b c
theorem mplBr0S1 (oa ob oc od a b c d : Nat) :
    md5S1 mplWords0 oa ob oc od a b c d = mplP0S1 oa ob oc od a b c d :=
  mplBr0T1 oa ob oc od b c d _
theorem mplBr0T0 (oa ob oc od b c d t : Nat) :
    md5T0 mplWords0 oa ob oc od b c d t = mplP0T0 oa ob oc od b c d t :=
  mplBr0S1 oa ob oc od d _ b c
theorem mplBr0S0 (oa ob oc od a b c d : Nat) :
    md5S0 mplWords0 oa ob oc od a b c d = mplP0S0 oa ob oc od a b c d :=
  mplBr0T0 oa ob oc od b c d _
/-- The residue-`0` pipeline computes the generic compression of the
residue-`0` schedule. -/
theorem mplBridge0 (st : MD5State) : md5Compress mplWords0 st = mplP0C st :=
  mplBr0S0 st.a st.b st.c st.d st.a st.b st.c st.d
theorem mplBr1S64 (oa ob oc od a b c d : Nat) :
    md5S64 mplWords1 oa ob oc od a b c d = mplP1S64 oa ob oc od a b c d := rfl
theorem mplBr1T63 (oa ob oc od b c d t : Nat) :
    md5T63 mplWords1 oa ob oc od b c d t = mplP1T63 oa ob oc od b c d t :=
  mplBr1S64 oa ob oc od d _ b c
theorem mplBr1S63 (oa ob oc od a b c d : Nat) :
    md5S63 mplWords1 oa ob oc od a b c d = mplP1S63 oa ob oc od a b c d :=
  mplBr1T63 oa ob oc od b c d _
theorem mplBr1T62 (oa ob oc od b c d t : Nat) :
    md5T62 mplWords1 oa ob oc od b c d t = mplP1T62 oa ob oc od b c d t :=
  mplBr1S63 oa ob oc od d _ b c
theorem mplBr1S62 (oa ob oc od a b c d : Nat) :
    md5S62 mplWords1 oa ob oc od a b c d = mplP1S62 oa ob oc od a b c d :=
  mplBr1T62 oa ob oc od b c d _
theorem mplBr1T61 (oa ob oc od b c d t : Nat) :
    md5T61 mplWords1 oa ob oc od b c d t = mplP1T61 oa ob oc od b c d t :=
  mplBr1S62 oa ob oc od d _ b c
theorem mplBr1S61 (oa ob oc od a b c d : Nat) :
    md5S61 mplWords1 oa ob oc od a b c d = mplP1S61 oa ob oc od a b c d :=
  mplBr1T61 oa ob oc od b c d _
theorem mplBr1T60 (oa ob oc od b c d t : Nat) :
    md5T60 mplWords1 oa ob oc od b c d t = mplP1T60 oa ob oc od b c d t :=
  mplBr1S61 oa ob oc od d _ b c
theorem mplBr1S60 (oa ob oc od a b c d : Nat) :
    md5S60 mplWords1 oa ob oc od a b c d = mplP1S60 oa ob oc od a b c d :=
  mplBr1T60 oa ob oc od b c d _
theorem mplBr1T59 (oa ob oc od b c d t : Nat) :
    md5T59 mplWords1 oa ob oc od b c d t = mplP1T59 oa ob oc od b c d t :=
  mplBr1S60 oa ob oc od d _ b c
theorem mplBr1S59 (oa ob oc od a b c d : Nat) :
    md5S59 mplWords1 oa ob oc od a b c d = mplP1S59 oa ob oc od a b c d :=
  mplBr1T59 oa ob oc od b c d _
theorem mplBr1T58 (oa ob oc od b c d t : Nat) :
    md5T58 mplWords1 oa ob oc od b c d t = mplP1T58 oa ob oc od b c d t :=
  mplBr1S59 oa ob oc od d _ b c
theorem mplBr1S58 (oa ob oc od a b c d : Nat) :
    md5S58 mplWords1 oa ob oc od a b c d = mplP1S58 oa ob oc od a b c d :=
  mplBr1T58 oa ob oc od b c d _
theorem mplBr1T57 (oa ob oc od b c d t : Nat) :
    md5T57 mplWords1 oa ob oc od b c d t = mplP1T57 oa ob oc od b c d t :=
  mplBr1S58 oa ob oc od d _ b c
theorem mplBr1S57 (oa ob oc od a b c d : Nat) :
    md5S57 mplWords1 oa ob oc od a b c d = mplP1S57 oa ob oc od a b c d :=
  mplBr1T57 oa ob oc od b c d _
theorem mplBr1T56 (oa ob oc od b c d t : Nat) :
    md5T56 mplWords1 oa ob oc od b c d t = mplP1T56 oa ob oc od b c d t :=
  mplBr1S57 oa ob oc od d _ b c
theorem mplBr1S56 (oa ob oc od a b c d : Nat) :
    md5S56 mplWords1 oa ob oc od a b c d = mplP1S56 oa ob oc od a b c d :=
  mplBr1T56 oa ob oc od b c d _
theorem mplBr1T55 (oa ob oc od b c d t : Nat) :
    md5T55 mplWords1 oa ob oc od b c d t = mplP1T55 oa ob oc od b c d t :=
  mplBr1S56 oa ob oc od d _ b c
theorem mplBr1S55 (oa ob oc od a b c d : Nat) :
    md5S55 mplWords1 oa ob oc od a b c d = mplP1S55 oa ob oc od a b c d :=
  mplBr1T55 oa ob oc od b c d _
theorem mplBr1T54 (oa ob oc od b c d t : Nat) :
    md5T54 mplWords1 oa ob oc od b c d t = mplP1T54 oa ob oc od b c d t :=
  mplBr1S55 oa ob oc od d _ b c
theorem mplBr1S54 (oa ob oc od a b c d : Nat) :
    md5S54 mplWords1 oa ob oc od a b c d = mplP1S54 oa ob oc od a b c d :=
  mplBr1T54 oa ob oc od b c d _
theorem mplBr1T53 (oa ob oc od b c d t : Nat) :
    md5T53 mplWords1 oa ob oc od b c d t = mplP1T53 oa ob oc od b c d t :=
  mplBr1S54 oa ob oc od d _ b c
theorem mplBr1S53 (oa ob oc od a b c d : Nat) :
    md5S53 mplWords1 oa ob oc od a b c d = mplP1S53 oa ob oc od a b c d :=
  mplBr1T53 oa ob oc od b c d _
theorem mplBr1T52 (oa ob oc od b c d t : Nat) :
    md5T52 mplWords1 oa ob oc od b c d t = mplP1T52 oa ob oc od b c d t :=
  mplBr1S53 oa ob oc od d _ b c
theorem mplBr1S52 (oa ob oc od a b c d : Nat) :
    md5S52 mplWords1 oa ob oc od a b c d = mplP1S52 oa ob oc od a b c d :=
  mplBr1T52 oa ob oc od b c d _
theorem mplBr1T51 (oa ob oc od b c d t : Nat) :
    md5T51 mplWords1 oa ob oc od b c d t = mplP1T51 oa ob oc od b c d t :=
  mplBr1S52 oa ob oc od d _ b c
theorem mplBr1S51 (oa ob oc od a b c d : Nat) :
    md5S51 mplWords1 oa ob oc od a b c d = mplP1S51 oa ob oc od a b c d :=
  mplBr1T51 oa ob oc od b c d _
theorem mplBr1T50 (oa ob oc od b c d t : Nat) :
    md5T50 mplWords1 oa ob oc od b c d t = mplP1T50 oa ob oc od b c d t :=
  mplBr1S51 oa ob oc od d _ b c
theorem mplBr1S50 (oa ob oc od a b c d : Nat) :
    md5S50 mplWords1 oa ob oc od a b c d = mplP1S50 oa ob oc od a b c d :=
  mplBr1T50 oa ob oc od b c d _
theorem mplBr1T49 (oa ob oc od b c d t : Nat) :
    md5T49 mplWords1 oa ob oc od b c d t = mplP1T49 oa ob oc od b c d t :=
  mplBr1S50 oa ob oc od d _ b c
theorem mplBr1S49 (oa ob oc od a b c d : Nat) :
    md5S49 mplWords1 oa ob oc od a b c d = mplP1S49 oa ob oc od a b c d :=
  mplBr1T49 oa ob oc od b c d _
theorem mplBr1T48 (oa ob oc od b c d t : Nat) :
    md5T48 mplWords1 oa ob oc od b c d t = mplP1T48 oa ob oc od b c d t :=
  mplBr1S49 oa ob oc od d _ b c
theorem mplBr1S48 (oa ob oc od a b c d : Nat) :
    md5S48 mplWords1 oa ob oc od a b c d = mplP1S48 oa ob oc od a b c d :=
  mplBr1T48 oa ob oc od b c d _
theorem mplBr1T47 (oa ob oc od b c d t : Nat) :
    md5T47 mplWords1 oa ob oc od b c d t = mplP1T47 oa ob oc od b c d t :=
  mplBr1S48 oa ob oc od d _ b c
theorem mplBr1S47 (oa ob oc od a b c d : Nat) :
    md5S47 mplWords1 oa ob oc od a b c d = mplP1S47 oa ob oc od a b c d :=
  mplBr1T47 oa ob oc od b c d _
theorem mplBr1T46 (oa ob oc od b c d t : Nat) :
    md5T46 mplWords1 oa ob oc od b c d t = mplP1T46 oa ob oc od b c d t :=
  mplBr1S47 oa ob oc od d _ b c
theorem mplBr1S46 (oa ob oc od a b c d : Nat) :
    md5S46 mplWords1 oa ob oc od a b c d = mplP1S46 oa ob oc od a b c d :=
  mplBr1T46 oa ob oc od b c d _
theorem mplBr1T45 (oa ob oc od b c d t : Nat) :
    md5T45 mplWords1 oa ob oc od b c d t = mplP1T45 oa ob oc od b c d t :=
  mplBr1S46 oa ob oc od d _ b c
theorem mplBr1S45 (oa ob oc od a b c d : Nat) :
    md5S45 mplWords1 oa ob oc od a b c d = mplP1S45 oa ob oc od a b c d :=
  mplBr1T45 oa ob oc od b c d _
theorem mplBr1T44 (oa ob oc od b c d t : Nat) :
    md5T44 mplWords1 oa ob oc od b c d t = mplP1T44 oa ob oc od b c d t :=
  mplBr1S45 oa ob oc od d _ b c
theorem mplBr1S44 (oa ob oc od a b c d : Nat) :
    md5S44 mplWords1 oa ob oc od a b c d = mplP1S44 oa ob oc od a b c d :=
  mplBr1T44 oa ob oc od b c d _
theorem mplBr1T43 (oa ob oc od b c d t : Nat) :
    md5T43 mplWords1 oa ob oc od b c d t = mplP1T43 oa ob oc od b c d t :=
  mplBr1S44 oa ob oc od d _ b c
theorem mplBr1S43 (oa ob oc od a b c d : Nat) :
    md5S43 mplWords1 oa ob oc od a b c d = mplP1S43 oa ob oc od a b c d :=
  mplBr1T43 oa ob oc od b c d _
theorem mplBr1T42 (oa ob oc od b c d t : Nat) :
    md5T42 mplWords1 oa ob oc od b c d t = mplP1T42 oa ob oc od b c d t :=
  mplBr1S43 oa ob oc od d _ b c
theorem mplBr1S42 (oa ob oc od a b c d : Nat) :
    md5S42 mplWords1 oa ob oc od a b c d = mplP1S42 oa ob oc od a b c d :=
  mplBr1T42 oa ob oc od b c d _
theorem mplBr1T41 (oa ob oc od b c d t : Nat) :
    md5T41 mplWords1 oa ob oc od b c d t = mplP1T41 oa ob oc od b c d t :=
  mplBr1S42 oa ob oc od d _ b c
theorem mplBr1S41 (oa ob oc od a b c d : Nat) :
    md5S41 mplWords1 oa ob oc od a b c d = mplP1S41 oa ob oc od a b c d :=
  mplBr1T41 oa ob oc od b c d _
theorem mplBr1T40 (oa ob oc od b c d t : Nat) :
    md5T40 mplWords1 oa ob oc od b c d t = mplP1T40 oa ob oc od b c d t :=
  mplBr1S41 oa ob oc od d _ b c
theorem mplBr1S40 (oa ob oc od a b c d : Nat) :
    md5S40 mplWords1 oa ob oc od a b c d = mplP1S40 oa ob oc od a b c d :=
  mplBr1T40 oa ob oc od b c d _
theorem mplBr1T39 (oa ob oc od b c d t : Nat) :
    md5T39 mplWords1 oa ob oc od b c d t = mplP1T39 oa ob oc od b c d t :=
  mplBr1S40 oa ob oc od d _ b c
theorem mplBr1S39 (oa ob oc od a b c d : Nat) :
    md5S39 mplWords1 oa ob oc od a b c d = mplP1S39 oa ob oc od a b c d :=
  mplBr1T39 oa ob oc od b c d _
theorem mplBr1T38 (oa ob oc od b c d t : Nat) :
    md5T38 mplWords1 oa ob oc od b c d t = mplP1T38 oa ob oc od b c d t :=
  mplBr1S39 oa ob oc od d _ b c
theorem mplBr1S38 (oa ob oc od a b c d : Nat) :
    md5S38 mplWords1 oa ob oc od a b c d = mplP1S38 oa ob oc od a b c d :=
  mplBr1T38 oa ob oc od b c d _
theorem mplBr1T37 (oa ob oc od b c d t : Nat) :
    md5T37 mplWords1 oa ob oc od b c d t = mplP1T37 oa ob oc od b c d t :=
  mplBr1S38 oa ob oc od d _ b c
theorem mplBr1S37 (oa ob oc od a b c d : Nat) :
    md5S37 mplWords1 oa ob oc od a b c d = mplP1S37 oa ob oc od a b c d :=
  mplBr1T37 oa ob oc od b c d _
theorem mplBr1T36 (oa ob oc od b c d t : Nat) :
    md5T36 mplWords1 oa ob oc od b c d t = mplP1T36 oa ob oc od b c d t :=
  mplBr1S37 oa ob oc od d _ b c
theorem mplBr1S36 (oa ob oc od a b c d : Nat) :
    md5S36 mplWords1 oa ob oc od a b c d = mplP1S36 oa ob oc od a b c d :=
  mplBr1T36 oa ob oc od b c d _
theorem mplBr1T35 (oa ob oc od b c d t : Nat) :
    md5T35 mplWords1 oa ob oc od b c d t = mplP1T35 oa ob oc od b c d t :=
  mplBr1S36 oa ob oc od d _ b c
theorem mplBr1S35 (oa ob oc od a b c d : Nat) :
    md5S35 mplWords1 oa ob oc od a b c d = mplP1S35 oa ob oc od a b c d :=
  mplBr1T35 oa ob oc od b c d _
theorem mplBr1T34 (oa ob oc od b c d t : Nat) :
    md5T34 mplWords1 oa ob oc od b c d t = mplP1T34 oa ob oc od b c d t :=
  mplBr1S35 oa ob oc od d _ b c
theorem mplBr1S34 (oa ob oc od a b c d : Nat) :
    md5S34 mplWords1 oa ob oc od a b c d = mplP1S34 oa ob oc od a b c d :=
  mplBr1T34 oa ob oc od b c d _
theorem mplBr1T33 (oa ob oc od b c d t : Nat) :
    md5T33 mplWords1 oa ob oc od b c d t = mplP1T33 oa ob oc od b c d t :=
  mplBr1S34 oa ob oc od d _ b c
theorem mplBr1S33 (oa ob oc od a b c d : Nat) :
    md5S33 mplWords1 oa ob oc od a b c d = mplP1S33 oa ob oc od a b c d :=
  mplBr1T33 oa ob oc od b c d _
theorem mplBr1T32 (oa ob oc od b c d t : Nat) :
    md5T32 mplWords1 oa ob oc od b c d t = mplP1T32 oa ob oc od b c d t :=
  mplBr1S33 oa ob oc od d _ b c
theorem mplBr1S32 (oa ob oc od a b c d : Nat) :
    md5S32 mplWords1 oa ob oc od a b c d = mplP1S32 oa ob oc od a b c d :=
  mplBr1T32 oa ob oc od b c d _
theorem mplBr1T31 (oa ob oc od b c d t : Nat) :
    md5T31 mplWords1 oa ob oc od b c d t = mplP1T31 oa ob oc od b c d t :=
  mplBr1S32 oa ob oc od d _ b c
theorem mplBr1S31 (oa ob oc od a b c d : Nat) :
    md5S31 mplWords1 oa ob oc od a b c d = mplP1S31 oa ob oc od a b c d :=
  mplBr1T31 oa ob oc od b c d _
theorem mplBr1T30 (oa ob oc od b c d t : Nat) :
    md5T30 mplWords1 oa ob oc od b c d t = mplP1T30 oa ob oc od b c d t :=
  mplBr1S31 oa ob oc od d _ b c
theorem mplBr1S30 (oa ob oc od a b c d : Nat) :
    md5S30 mplWords1 oa ob oc od a b c d = mplP1S30 oa ob oc od a b c d :=
  mplBr1T30 oa ob oc od b c d _
theorem mplBr1T29 (oa ob oc od b c d t : Nat) :
    md5T29 mplWords1 oa ob oc od b c d t = mplP1T29 oa ob oc od b c d t :=
  mplBr1S30 oa ob oc od d _ b c
theorem mplBr1S29 (oa ob oc od a b c d : Nat) :
    md5S29 mplWords1 oa ob oc od a b c d = mplP1S29 oa ob oc od a b c d :=
  mplBr1T29 oa ob oc od b c d _
theorem mplBr1T28 (oa ob oc od b c d t : Nat) :
    md5T28 mplWords1 oa ob oc od b c d t = mplP1T28 oa ob oc od b c d t :=
  mplBr1S29 oa ob oc od d _ b c
theorem mplBr1S28 (oa ob oc od a b c d : Nat) :
    md5S28 mplWords1 oa ob oc od a b c d = mplP1S28 oa ob oc od a b c d :=
  mplBr1T28 oa ob oc od b c d _
theorem mplBr1T27 (oa ob oc od b c d t : Nat) :
    md5T27 mplWords1 oa ob oc od b c d t = mplP1T27 oa ob oc od b c d t :=
  mplBr1S28 oa ob oc od d _ b c
theorem mplBr1S27 (oa ob oc od a b c d : Nat) :
    md5S27 mplWords1 oa ob oc od a b c d = mplP1S27 oa ob oc od a b c d :=
  mplBr1T27 oa ob oc od b c d _
theorem mplBr1T26 (oa ob oc od b c d t : Nat) :
    md5T26 mplWords1 oa ob oc od b c d t = mplP1T26 oa ob oc od b c d t :=
  mplBr1S27 oa ob oc od d _ b c
theorem mplBr1S26 (oa ob oc od a b c d : Nat) :
    md5S26 mplWords1 oa ob oc od a b c d = mplP1S26 oa ob oc od a b c d :=
  mplBr1T26 oa ob oc od b c d _
theorem mplBr1T25 (oa ob oc od b c d t : Nat) :
    md5T25 mplWords1 oa ob oc od b c d t = mplP1T25 oa ob oc od b c d t :=
  mplBr1S26 oa ob oc od d _ b c
theorem mplBr1S25 (oa ob oc od a b c d : Nat) :
    md5S25 mplWords1 oa ob oc od a b c d = mplP1S25 oa ob oc od a b c d :=
  mplBr1T25 oa ob oc od b c d _
theorem mplBr1T24 (oa ob oc od b c d t : Nat) :
    md5T24 mplWords1 oa ob oc od b c d t = mplP1T24 oa ob oc od b c d t :=
  mplBr1S25 oa ob oc od d _ b c
theorem mplBr1S24 (oa ob oc od a b c d : Nat) :
    md5S24 mplWords1 oa ob oc od a b c d = mplP1S24 oa ob oc od a b c d :=
  mplBr1T24 oa ob oc od b c d _
theorem mplBr1T23 (oa ob oc od b c d t : Nat) :
    md5T23 mplWords1 oa ob oc od b c d t = mplP1T23 oa ob oc od b c d t :=
  mplBr1S24 oa ob oc od d _ b c
theorem mplBr1S23 (oa ob oc od a b c d : Nat) :
    md5S23 mplWords1 oa ob oc od a b c d = mplP1S23 oa ob oc od a b c d :=
  mplBr1T23 oa ob oc od b c d _
theorem mplBr1T22 (oa ob oc od b c d t : Nat) :
    md5T22 mplWords1 oa ob oc od b c d t = mplP1T22 oa ob oc od b c d t :=
  mplBr1S23 oa ob oc od d _ b c
theorem mplBr1S22 (oa ob oc od a b c d : Nat) :
    md5S22 mplWords1 oa ob oc od a b c d = mplP1S22 oa ob oc od a b c d :=
  mplBr1T22 oa ob oc od b c d _
theorem mplBr1T21 (oa ob oc od b c d t : Nat) :
    md5T21 mplWords1 oa ob oc od b c d t = mplP1T21 oa ob oc od b c d t :=
  mplBr1S22 oa ob oc od d _ b c
theorem mplBr1S21 (oa ob oc od a b c d : Nat) :
    md5S21 mplWords1 oa ob oc od a b c d = mplP1S21 oa ob oc od a b c d :=
  mplBr1T21 oa ob oc od b c d _
theorem mplBr1T20 (oa ob oc od b c d t : Nat) :
    md5T20 mplWords1 oa ob oc od b c d t = mplP1T20 oa ob oc od b c d t :=
  mplBr1S21 oa ob oc od d _ b c
theorem mplBr1S20 (oa ob oc od a b c d : Nat) :
    md5S20 mplWords1 oa ob oc od a b c d = mplP1S20 oa ob oc od a b c d :=
  mplBr1T20 oa ob oc od b c d _
theorem mplBr1T19 (oa ob oc od b c d t : Nat) :
    md5T19 mplWords1 oa ob oc od b c d t = mplP1T19 oa ob oc od b c d t :=
  mplBr1S20 oa ob oc od d _ b c
theorem mplBr1S19 (oa ob oc od a b c d : Nat) :
    md5S19 mplWords1 oa ob oc od a b c d = mplP1S19 oa ob oc od a b c d :=
  mplBr1T19 oa ob oc od b c d _
theorem mplBr1T18 (oa ob oc od b c d t : Nat) :
    md5T18 mplWords1 oa ob oc od b c d t = mplP1T18 oa ob oc od b c d t :=
  mplBr1S19 oa ob oc od d _ b c
theorem mplBr1S18 (oa ob oc od a b c d : Nat) :
    md5S18 mplWords1 oa ob oc od a b c d = mplP1S18 oa ob oc od a b c d :=
  mplBr1T18 oa ob oc od b c d _
theorem mplBr1T17 (oa ob oc od b c d t : Nat) :
    md5T17 mplWords1 oa ob oc od b c d t = mplP1T17 oa ob oc od b c d t :=
  mplBr1S18 oa ob oc od d _ b c
theorem mplBr1S17 (oa ob oc od a b c d : Nat) :
    md5S17 mplWords1 oa ob oc od a b c d = mplP1S17 oa ob oc od a b c d :=
  mplBr1T17 oa ob oc od b c d _
theorem mplBr1T16 (oa ob oc od b c d t : Nat) :
    md5T16 mplWords1 oa ob oc od b c d t = mplP1T16 oa ob oc od b c d t :=
  mplBr1S17 oa ob oc od d _ b c
theorem mplBr1S16 (oa ob oc od a b c d : Nat) :
    md5S16 mplWords1 oa ob oc od a b c d = mplP1S16 oa ob oc od a b c d :=
  mplBr1T16 oa ob oc od b c d _
theorem mplBr1T15 (oa ob oc od b c d t : Nat) :
    md5T15 mplWords1 oa ob oc od b c d t = mplP1T15 oa ob oc od b c d t :=
  mplBr1S16 oa ob oc od d _ b c
theorem mplBr1S15 (oa ob oc od a b c d : Nat) :
    md5S15 mplWords1 oa ob oc od a b c d = mplP1S15 oa ob oc od a b c d :=
  mplBr1T15 oa ob oc od b c d _
theorem mplBr1T14 (oa ob oc od b c d t : Nat) :
    md5T14 mplWords1 oa ob oc od b c d t = mplP1T14 oa ob oc od b c d t :=
  mplBr1S15 oa ob oc od d _ b c
theorem mplBr1S14 (oa ob oc od a b c d : Nat) :
    md5S14 mplWords1 oa ob oc od a b c d = mplP1S14 oa ob oc od a b c d :=
  mplBr1T14 oa ob oc od b c d _
theorem mplBr1T13 (oa ob oc od b c d t : Nat) :
    md5T13 mplWords1 oa ob oc od b c d t = mplP1T13 oa ob oc od b c d t :=
  mplBr1S14 oa ob oc od d _ b c
theorem mplBr1S13 (oa ob oc od a b c d : Nat) :
    md5S13 mplWords1 oa ob oc od a b c d = mplP1S13 oa ob oc od a b c d :=
  mplBr1T13 oa ob oc od b c d _
theorem mplBr1T12 (oa ob oc od b c d t : Nat) :
    md5T12 mplWords1 oa ob oc od b c d t = mplP1T12 oa ob oc od b c d t :=
  mplBr1S13 oa ob oc od d _ b c
theorem mplBr1S12 (oa ob oc od a b c d : Nat) :
    md5S12 mplWords1 oa ob oc od a b c d = mplP1S12 oa ob oc od a b c d :=
  mplBr1T12 oa ob oc od b c d _
theorem mplBr1T11 (oa ob oc od b c d t : Nat) :
    md5T11 mplWords1 oa ob oc od b c d t = mplP1T11 oa ob oc od b c d t :=
  mplBr1S12 oa ob oc od d _ b c
theorem mplBr1S11 (oa ob oc od a b c d : Nat) :
    md5S11 mplWords1 oa ob oc od a b c d = mplP1S11 oa ob oc od a b c d :=
  mplBr1T11 oa ob oc od b c d _
theorem mplBr1T10 (oa ob oc od b c d t : Nat) :
    md5T10 mplWords1 oa ob oc od b c d t = mplP1T10 oa ob oc od b c d t :=
  mplBr1S11 oa ob oc od d _ b c
theorem mplBr1S10 (oa ob oc od a b c d : Nat) :
    md5S10 mplWords1 oa ob oc od a b c d = mplP1S10 oa ob oc od a b c d :=
  mplBr1T10 oa ob oc od b c d _
theorem mplBr1T9 (oa ob oc od b c d t : Nat) :
    md5T9 mplWords1 oa ob oc od b c d t = mplP1T9 oa ob oc od b c d t :=
  mplBr1S10 oa ob oc od d _ b c
theorem mplBr1S9 (oa ob oc od a b c d : Nat) :
    md5S9 mplWords1 oa ob oc od a b c d = mplP1S9 oa ob oc od a b c d :=
  mplBr1T9 oa ob oc od b c d _
theorem mplBr1T8 (oa ob oc od b c d t : Nat) :
    md5T8 mplWords1 oa ob oc od b c d t = mplP1T8 oa ob oc od b c d t :=
  mplBr1S9 oa ob oc od d _ b c
theorem mplBr1S8 (oa ob oc od a b c d : Nat) :
    md5S8 mplWords1 oa ob oc od a b c d = mplP1S8 oa ob oc od a b c d :=
  mplBr1T8 oa ob oc od b c d _
theorem mplBr1T7 (oa ob oc od b c d t : Nat) :
    md5T7 mplWords1 oa ob oc od b c d t = mplP1T7 oa ob oc od b c d t :=
  mplBr1S8 oa ob oc od d _ b c
theorem mplBr1S7 (oa ob oc od a b c d : Nat) :
    md5S7 mplWords1 oa ob oc od a b c d = mplP1S7 oa ob oc od a b c d :=
  mplBr1T7 oa ob oc od b c d _
theorem mplBr1T6 (oa ob oc od b c d t : Nat) :
    md5T6 mplWords1 oa ob oc od b c d t = mplP1T6 oa ob oc od b c d t :=
  mplBr1S7 oa ob oc od d _ b c
theorem mplBr1S6 (oa ob oc od a b c d : Nat) :
    md5S6 mplWords1 oa ob oc od a b c d = mplP1S6 oa ob oc od a b c d :=
  mplBr1T6 oa ob oc od b c d _
theorem mplBr1T5 (oa ob oc od b c d t : Nat) :
    md5T5 mplWords1 oa ob oc od b c d t = mplP1T5 oa ob oc od b c d t :=
  mplBr1S6 oa ob oc od d _ b c
theorem mplBr1S5 (oa ob oc od a b c d : Nat) :
    md5S5 mplWords1 oa ob oc od a b c d = mplP1S5 oa ob oc od a b c d :=
  mplBr1T5 oa ob oc od b c d _
theorem mplBr1T4 (oa ob oc od b c d t : Nat) :
    md5T4 mplWords1 oa ob oc od b c d t = mplP1T4 oa ob oc od b c d t :=
  mplBr1S5 oa ob oc od d _ b c
theorem mplBr1S4 (oa ob oc od a b c d : Nat) :
    md5S4 mplWords1 oa ob oc od a b c d = mplP1S4 oa ob oc od a b c d :=
  mplBr1T4 oa ob oc od b c d _
theorem mplBr1T3 (oa ob oc od b c d t : Nat) :
    md5T3 mplWords1 oa ob oc od b c d t = mplP1T3 oa ob oc od b c d t :=
  mplBr1S4 oa ob oc od d _ b c
theorem mplBr1S3 (oa ob oc od a b c d : Nat) :
    md5S3 mplWords1 oa ob oc od a b c d = mplP1S3 oa ob oc od a b c d :=
  mplBr1T3 oa ob oc od b c d _
theorem mplBr1T2 (oa ob oc od b c d t : Nat) :
    md5T2 mplWords1 oa ob oc od b c d t = mplP1T2 oa ob oc od b c d t :=
  mplBr1S3 oa ob oc od d _ b c
theorem mplBr1S2 (oa ob oc od a b c d : Nat) :
    md5S2 mplWords1 oa ob oc od a b c d = mplP1S2 oa ob oc od a b c d :=
  mplBr1T2 oa ob oc od b c d _
theorem mplBr1T1 (oa ob oc od b c d t : Nat) :
    md5T1 mplWords1 oa ob oc od b c d t = mplP1T1 oa ob oc od b c d t :=
  mplBr1S2 oa ob oc od d _ b c
theorem mplBr1S1 (oa ob oc od a b c d : Nat) :
    md5S1 mplWords1 oa ob oc od a b c d = mplP1S1 oa ob oc od a b c d :=
  mplBr1T1 oa ob oc od b c d _
theorem mplBr1T0 (oa ob oc od b c d t : Nat) :
    md5T0 mplWords1 oa ob oc od b c d t = mplP1T0 oa ob oc od b c d t :=
  mplBr1S1 oa ob oc od d _ b c
theorem mplBr1S0 (oa ob oc od a b c d : Nat) :
    md5S0 mplWords1 oa ob oc od a b c d = mplP1S0 oa ob oc od a b c d :=
  mplBr1T0 oa ob oc od b c d _
/-- The residue-`1` pipeline computes the generic compression of the
residue-`1` schedule. -/
theorem mplBridge1 (st : MD5State) : md5Compress mplWords1 st = mplP1C st :=
  mplBr1S0 st.a st.b st.c st.d st.a st.b st.c st.d
theorem mplBr2S64 (oa ob oc od a b c d : Nat) :
    md5S64 mplWords2 oa ob oc od a b c d = mplP2S64 oa ob oc od a b c d := rfl
theorem mplBr2T63 (oa ob oc od b c d t : Nat) :
    md5T63 mplWords2 oa ob oc od b c d t = mplP2T63 oa ob oc od b c d t :=
  mplBr2S64 oa ob oc od d _ b c
theorem mplBr2S63 (oa ob oc od a b c d : Nat) :
    md5S63 mplWords2 oa ob oc od a b c d = mplP2S63 oa ob oc od a b c d :=
  mplBr2T63 oa ob oc od b c d _
theorem mplBr2T62 (oa ob oc od b c d t : Nat) :
    md5T62 mplWords2 oa ob oc od b c d t = mplP2T62 oa ob oc od b c d t :=
  mplBr2S63 oa ob oc od d _ b c
theorem mplBr2S62 (oa ob oc od a b c d : Nat) :
    md5S62 mplWords2 oa ob oc od a b c d = mplP2S62 oa ob oc od a b c d :=
  mplBr2T62 oa ob oc od b c d _
theorem mplBr2T61 (oa ob oc od b c d t : Nat) :
    md5T61 mplWords2 oa ob oc od b c d t = mplP2T61 oa ob oc od b c d t :=
  mplBr2S62 oa ob oc od d _ b c
theorem mplBr2S61 (oa ob oc od a b c d : Nat) :
    md5S61 mplWords2 oa ob oc od a b c d = mplP2S61 oa ob oc od a b c d :=
  mplBr2T61 oa ob oc od b c d _
theorem mplBr2T60 (oa ob oc od b c d t : Nat) :
    md5T60 mplWords2 oa ob oc od b c d t = mplP2T60 oa ob oc od b c d t :=
  mplBr2S61 oa ob oc od d _ b c
theorem mplBr2S60 (oa ob oc od a b c d : Nat) :
    md5S60 mplWords2 oa ob oc od a b c d = mplP2S60 oa ob oc od a b c d :=
  mplBr2T60 oa ob oc od b c d _
theorem mplBr2T59 (oa ob oc od b c d t : Nat) :
    md5T59 mplWords2 oa ob oc od b c d t = mplP2T59 oa ob oc od b c d t :=
  mplBr2S60 oa ob oc od d _ b c
theorem mplBr2S59 (oa ob oc od a b c d : Nat) :
    md5S59 mplWords2 oa ob oc od a b c d = mplP2S59 oa ob oc od a b c d :=
  mplBr2T59 oa ob oc od b c d _
theorem mplBr2T58 (oa ob oc od b c d t : Nat) :
    md5T58 mplWords2 oa ob oc od b c d t = mplP2T58 oa ob oc od b c d t :=
  mplBr2S59 oa ob oc od d _ b c
theorem mplBr2S58 (oa ob oc od a b c d : Nat) :
    md5S58 mplWords2 oa ob oc od a b c d = mplP2S58 oa ob oc od a b c d :=
  mplBr2T58 oa ob oc od b c d _
theorem mplBr2T57 (oa ob oc od b c d t : Nat) :
    md5T57 mplWords2 oa ob oc od b c d t = mplP2T57 oa ob oc od b c d t :=
  mplBr2S58 oa ob oc od d _ b c
theorem mplBr2S57 (oa ob oc od a b c d : Nat) :
    md5S57 mplWords2 oa ob oc od a b c d = mplP2S57 oa ob oc od a b c d :=
  mplBr2T57 oa ob oc od b c d _
theorem mplBr2T56 (oa ob oc od b c d t : Nat) :
    md5T56 mplWords2 oa ob oc od b c d t = mplP2T56 oa ob oc od b c d t :=
  mplBr2S57 oa ob oc od d _ b c
theorem mplBr2S56 (oa ob oc od a b c d : Nat) :
    md5S56 mplWords2 oa ob oc od a b c d = mplP2S56 oa ob oc od a b c d :=
  mplBr2T56 oa ob oc od b c d _
theorem mplBr2T55 (oa ob oc od b c d t : Nat) :
    md5T55 mplWords2 oa ob oc od b c d t = mplP2T55 oa ob oc od b c d t :=
  mplBr2S56 oa ob oc od d _ b c
theorem mplBr2S55 (oa ob oc od a b c d : Nat) :
    md5S55 mplWords2 oa ob oc od a b c d = mplP2S55 oa ob oc od a b c d :=
  mplBr2T55 oa ob oc od b c d _
theorem mplBr2T54 (oa ob oc od b c d t : Nat) :
    md5T54 mplWords2 oa ob oc od b c d t = mplP2T54 oa ob oc od b c d t :=
  mplBr2S55 oa ob oc od d _ b c
theorem mplBr2S54 (oa ob oc od a b c d : Nat) :
    md5S54 mplWords2 oa ob oc od a b c d = mplP2S54 oa ob oc od a b c d :=
  mplBr2T54 oa ob oc od b c d _
theorem mplBr2T53 (oa ob oc od b c d t : Nat) :
    md5T53 mplWords2 oa ob oc od b c d t = mplP2T53 oa ob oc od b c d t :=
  mplBr2S54 oa ob oc od d _ b c
theorem mplBr2S53 (oa ob oc od a b c d : Nat) :
    md5S53 mplWords2 oa ob oc od a b c d = mplP2S53 oa ob oc od a b c d :=
  mplBr2T53 oa ob oc od b c d _
theorem mplBr2T52 (oa ob oc od b c d t : Nat) :
    md5T52 mplWords2 oa ob oc od b c d t = mplP2T52 oa ob oc od b c d t :=
  mplBr2S53 oa ob oc od d _ b c
theorem mplBr2S52 (oa ob oc od a b c d : Nat) :
    md5S52 mplWords2 oa ob oc od a b c d = mplP2S52 oa ob oc od a b c d :=
  mplBr2T52 oa ob oc od b c d _
theorem mplBr2T51 (oa ob oc od b c d t : Nat) :
    md5T51 mplWords2 oa ob oc od b c d t = mplP2T51 oa ob oc od b c d t :=
  mplBr2S52 oa ob oc od d _ b c
theorem mplBr2S51 (oa ob oc od a b c d : Nat) :
    md5S51 mplWords2 oa ob oc od a b c d = mplP2S51 oa ob oc od a b c d :=
  mplBr2T51 oa ob oc od b c d _
theorem mplBr2T50 (oa ob oc od b c d t : Nat) :
    md5T50 mplWords2 oa ob oc od b c d t = mplP2T50 oa ob oc od b c d t :=
  mplBr2S51 oa ob oc od d _ b c
theorem mplBr2S50 (oa ob oc od a b c d : Nat) :
    md5S50 mplWords2 oa ob oc od a b c d = mplP2S50 oa ob oc od a b c d :=
  mplBr2T50 oa ob oc od b c d _
theorem mplBr2T49 (oa ob oc od b c d t : Nat) :
    md5T49 mplWords2 oa ob oc od b c d t = mplP2T49 oa ob oc od b c d t :=
  mplBr2S50 oa ob oc od d _ b c
theorem mplBr2S49 (oa ob oc od a b c d : Nat) :
    md5S49 mplWords2 oa ob oc od a b c d = mplP2S49 oa ob oc od a b c d :=
  mplBr2T49 oa ob oc od b c d _
theorem mplBr2T48 (oa ob oc od b c d t : Nat) :
    md5T48 mplWords2 oa ob oc od b c d t = mplP2T48 oa ob oc od b c d t :=
  mplBr2S49 oa ob oc od d _ b c
theorem mplBr2S48 (oa ob oc od a b c d : Nat) :
    md5S48 mplWords2 oa ob oc od a b c d = mplP2S48 oa ob oc od a b c d :=
  mplBr2T48 oa ob oc od b c d _
theorem mplBr2T47 (oa ob oc od b c d t : Nat) :
    md5T47 mplWords2 oa ob oc od b c d t = mplP2T47 oa ob oc od b c d t :=
  mplBr2S48 oa ob oc od d _ b c
theorem mplBr2S47 (oa ob oc od a b c d : Nat) :
    md5S47 mplWords2 oa ob oc od a b c d = mplP2S47 oa ob oc od a b c d :=
  mplBr2T47 oa ob oc od b c d _
theorem mplBr2T46 (oa ob oc od b c d t : Nat) :
    md5T46 mplWords2 oa ob oc od b c d t = mplP2T46 oa ob oc od b c d t :=
  mplBr2S47 oa ob oc od d _ b c
theorem mplBr2S46 (oa ob oc od a b c d : Nat) :
    md5S46 mplWords2 oa ob oc od a b c d = mplP2S46 oa ob oc od a b c d :=
  mplBr2T46 oa ob oc od b c d _
theorem mplBr2T45 (oa ob oc od b c d t : Nat) :
    md5T45 mplWords2 oa ob oc od b c d t = mplP2T45 oa ob oc od b c d t :=
  mplBr2S46 oa ob oc od d _ b c
theorem mplBr2S45 (oa ob oc od a b c d : Nat) :
    md5S45 mplWords2 oa ob oc od a b c d = mplP2S45 oa ob oc od a b c d :=
  mplBr2T45 oa ob oc od b c d _
theorem mplBr2T44 (oa ob oc od b c d t : Nat) :
    md5T44 mplWords2 oa ob oc od b c d t = mplP2T44 oa ob oc od b c d t :=
  mplBr2S45 oa ob oc od d _ b c
theorem mplBr2S44 (oa ob oc od a b c d : Nat) :
    md5S44 mplWords2 oa ob oc od a b c d = mplP2S44 oa ob oc od a b c d :=
  mplBr2T44 oa ob oc od b c d _
theorem mplBr2T43 (oa ob oc od b c d t : Nat) :
    md5T43 mplWords2 oa ob oc od b c d t = mplP2T43 oa ob oc od b c d t :=
  mplBr2S44 oa ob oc od d _ b c
theorem mplBr2S43 (oa ob oc od a b c d : Nat) :
    md5S43 mplWords2 oa ob oc od a b c d = mplP2S43 oa ob oc od a b c d :=
  mplBr2T43 oa ob oc od b c d _
theorem mplBr2T42 (oa ob oc od b c d t : Nat) :
    md5T42 mplWords2 oa ob oc od b c d t = mplP2T42 oa ob oc od b c d t :=
  mplBr2S43 oa ob oc od d _ b c
theorem mplBr2S42 (oa ob oc od a b c d : Nat) :
    md5S42 mplWords2 oa ob oc od a b c d = mplP2S42 oa ob oc od a b c d :=
  mplBr2T42 oa ob oc od b c d _
theorem mplBr2T41 (oa ob oc od b c d t : Nat) :
    md5T41 mplWords2 oa ob oc od b c d t = mplP2T41 oa ob oc od b c d t :=
  mplBr2S42 oa ob oc od d _ b c
theorem mplBr2S41 (oa ob oc od a b c d : Nat) :
    md5S41 mplWords2 oa ob oc od a b c d = mplP2S41 oa ob oc od a b c d :=
  mplBr2T41 oa ob oc od b c d _
theorem mplBr2T40 (oa ob oc od b c d t : Nat) :
    md5T40 mplWords2 oa ob oc od b c d t = mplP2T40 oa ob oc od b c d t :=
  mplBr2S41 oa ob oc od d _ b c
theorem mplBr2S40 (oa ob oc od a b c d : Nat) :
    md5S40 mplWords2 oa ob oc od a b c d = mplP2S40 oa ob oc od a b c d :=
  mplBr2T40 oa ob oc od b c d _
theorem mplBr2T39 (oa ob oc od b c d t : Nat) :
    md5T39 mplWords2 oa ob oc od b c d t = mplP2T39 oa ob oc od b c d t :=
  mplBr2S40 oa ob oc od d _ b c
theorem mplBr2S39 (oa ob oc od a b c d : Nat) :
    md5S39 mplWords2 oa ob oc od a b c d = mplP2S39 oa ob oc od a b c d :=
  mplBr2T39 oa ob oc od b c d _
theorem mplBr2T38 (oa ob oc od b c d t : Nat) :
    md5T38 mplWords2 oa ob oc od b c d t = mplP2T38 oa ob oc od b c d t :=
  mplBr2S39 oa ob oc od d _ b c
theorem mplBr2S38 (oa ob oc od a b c d : Nat) :
    md5S38 mplWords2 oa ob oc od a b c d = mplP2S38 oa ob oc od a b c d :=
  mplBr2T38 oa ob oc od b c d _
theorem mplBr2T37 (oa ob oc od b c d t : Nat) :
    md5T37 mplWords2 oa ob oc od b c d t = mplP2T37 oa ob oc od b c d t :=
  mplBr2S38 oa ob oc od d _ b c
theorem mplBr2S37 (oa ob oc od a b c d : Nat) :
    md5S37 mplWords2 oa ob oc od a b c d = mplP2S37 oa ob oc od a b c d :=
  mplBr2T37 oa ob oc od b c d _
theorem mplBr2T36 (oa ob oc od b c d t : Nat) :
    md5T36 mplWords2 oa ob oc od b c d t = mplP2T36 oa ob oc od b c d t :=
  mplBr2S37 oa ob oc od d _ b c
theorem mplBr2S36 (oa ob oc od a b c d : Nat) :
    md5S36 mplWords2 oa ob oc od a b c d = mplP2S36 oa ob oc od a b c d :=
  mplBr2T36 oa ob oc od b c d _
theorem mplBr2T35 (oa ob oc od b c d t : Nat) :
    md5T35 mplWords2 oa ob oc od b c d t = mplP2T35 oa ob oc od b c d t :=
  mplBr2S36 oa ob oc od d _ b c
theorem mplBr2S35 (oa ob oc od a b c d : Nat) :
    md5S35 mplWords2 oa ob oc od a b c d = mplP2S35 oa ob oc od a b c d :=
  mplBr2T35 oa ob oc od b c d _
theorem mplBr2T34 (oa ob oc od b c d t : Nat) :
    md5T34 mplWords2 oa ob oc od b c d t = mplP2T34 oa ob oc od b c d t :=
  mplBr2S35 oa ob oc od d _ b c
theorem mplBr2S34 (oa ob oc od a b c d : Nat) :
    md5S34 mplWords2 oa ob oc od a b c d = mplP2S34 oa ob oc od a b c d :=
  mplBr2T34 oa ob oc od b c d _
theorem mplBr2T33 (oa ob oc od b c d t : Nat) :
    md5T33 mplWords2 oa ob oc od b c d t = mplP2T33 oa ob oc od b c d t :=
  mplBr2S34 oa ob oc od d _ b c
theorem mplBr2S33 (oa ob oc od a b c d : Nat) :
    md5S33 mplWords2 oa ob oc od a b c d = mplP2S33 oa ob oc od a b c d :=
  mplBr2T33 oa ob oc od b c d _
theorem mplBr2T32 (oa ob oc od b c d t : Nat) :
    md5T32 mplWords2 oa ob oc od b c d t = mplP2T32 oa ob oc od b c d t :=
  mplBr2S33 oa ob oc od d _ b c
theorem mplBr2S32 (oa ob oc od a b c d : Nat) :
    md5S32 mplWords2 oa ob oc od a b c d = mplP2S32 oa ob oc od a b c d :=
  mplBr2T32 oa ob oc od b c d _
theorem mplBr2T31 (oa ob oc od b c d t : Nat) :
    md5T31 mplWords2 oa ob oc od b c d t = mplP2T31 oa ob oc od b c d t :=
  mplBr2S32 oa ob oc od d _ b c
theorem mplBr2S31 (oa ob oc od a b c d : Nat) :
    md5S31 mplWords2 oa ob oc od a b c d = mplP2S31 oa ob oc od a b c d :=
  mplBr2T31 oa ob oc od b c d _
theorem mplBr2T30 (oa ob oc od b c d t : Nat) :
    md5T30 mplWords2 oa ob oc od b c d t = mplP2T30 oa ob oc od b c d t :=
  mplBr2S31 oa ob oc od d _ b c
theorem mplBr2S30 (oa ob oc od a b c d : Nat) :
    md5S30 mplWords2 oa ob oc od a b c d = mplP2S30 oa ob oc od a b c d :=
  mplBr2T30 oa ob oc od b c d _
theorem mplBr2T29 (oa ob oc od b c d t : Nat) :
    md5T29 mplWords2 oa ob oc od b c d t = mplP2T29 oa ob oc od b c d t :=
  mplBr2S30 oa ob oc od d _ b c
theorem mplBr2S29 (oa ob oc od a b c d : Nat) :
    md5S29 mplWords2 oa ob oc od a b c d = mplP2S29 oa ob oc od a b c d :=
  mplBr2T29 oa ob oc od b c d _
theorem mplBr2T28 (oa ob oc od b c d t : Nat) :
    md5T28 mplWords2 oa ob oc od b c d t = mplP2T28 oa ob oc od b c d t :=
  mplBr2S29 oa ob oc od d _ b c
theorem mplBr2S28 (oa ob oc od a b c d : Nat) :
    md5S28 mplWords2 oa ob oc od a b c d = mplP2S28 oa ob oc od a b c d :=
  mplBr2T28 oa ob oc od b c d _
theorem mplBr2T27 (oa ob oc od b c d t : Nat) :
    md5T27 mplWords2 oa ob oc od b c d t = mplP2T27 oa ob oc od b c d t :=
  mplBr2S28 oa ob oc od d _ b c
theorem mplBr2S27 (oa ob oc od a b c d : Nat) :
    md5S27 mplWords2 oa ob oc od a b c d = mplP2S27 oa ob oc od a b c d :=
  mplBr2T27 oa ob oc od b c d _
theorem mplBr2T26 (oa ob oc od b c d t : Nat) :
    md5T26 mplWords2 oa ob oc od b c d t = mplP2T26 oa ob oc od b c d t :=
  mplBr2S27 oa ob oc od d _ b c
theorem mplBr2S26 (oa ob oc od a b c d : Nat) :
    md5S26 mplWords2 oa ob oc od a b c d = mplP2S26 oa ob oc od a b c d :=
  mplBr2T26 oa ob oc od b c d _
theorem mplBr2T25 (oa ob oc od b c d t : Nat) :
    md5T25 mplWords2 oa ob oc od b c d t = mplP2T25 oa ob oc od b c d t :=
  mplBr2S26 oa ob oc od d _ b c
theorem mplBr2S25 (oa ob oc od a b c d : Nat) :
    md5S25 mplWords2 oa ob oc od a b c d = mplP2S25 oa ob oc od a b c d :=
  mplBr2T25 oa ob oc od b c d _
theorem mplBr2T24 (oa ob oc od b c d t : Nat) :
    md5T24 mplWords2 oa ob oc od b c d t = mplP2T24 oa ob oc od b c d t :=
  mplBr2S25 oa ob oc od d _ b c
theorem mplBr2S24 (oa ob oc od a b c d : Nat) :
    md5S24 mplWords2 oa ob oc od a b c d = mplP2S24 oa ob oc od a b c d :=
  mplBr2T24 oa ob oc od b c d _
theorem mplBr2T23 (oa ob oc od b c d t : Nat) :
    md5T23 mplWords2 oa ob oc od b c d t = mplP2T23 oa ob oc od b c d t :=
  mplBr2S24 oa ob oc od d _ b c
theorem mplBr2S23 (oa ob oc od a b c d : Nat) :
    md5S23 mplWords2 oa ob oc od a b c d = mplP2S23 oa ob oc od a b c d :=
  mplBr2T23 oa ob oc od b c d _
theorem mplBr2T22 (oa ob oc od b c d t : Nat) :
    md5T22 mplWords2 oa ob oc od b c d t = mplP2T22 oa ob oc od b c d t :=
  mplBr2S23 oa ob oc od d _ b c
theorem mplBr2S22 (oa ob oc od a b c d : Nat) :
    md5S22 mplWords2 oa ob oc od a b c d = mplP2S22 oa ob oc od a b c d :=
  mplBr2T22 oa ob oc od b c d _
theorem mplBr2T21 (oa ob oc od b c d t : Nat) :
    md5T21 mplWords2 oa ob oc od b c d t = mplP2T21 oa ob oc od b c d t :=
  mplBr2S22 oa ob oc od d _ b c
theorem mplBr2S21 (oa ob oc od a b c d : Nat) :
    md5S21 mplWords2 oa ob oc od a b c d = mplP2S21 oa ob oc od a b c d :=
  mplBr2T21 oa ob oc od b c d _
theorem mplBr2T20 (oa ob oc od b c d t : Nat) :
    md5T20 mplWords2 oa ob oc od b c d t = mplP2T20 oa ob oc od b c d t :=
  mplBr2S21 oa ob oc od d _ b c
theorem mplBr2S20 (oa ob oc od a b c d : Nat) :
    md5S20 mplWords2 oa ob oc od a b c d = mplP2S20 oa ob oc od a b c d :=
  mplBr2T20 oa ob oc od b c d _
theorem mplBr2T19 (oa ob oc od b c d t : Nat) :
    md5T19 mplWords2 oa ob oc od b c d t = mplP2T19 oa ob oc od b c d t :=
  mplBr2S20 oa ob oc od d _ b c
theorem mplBr2S19 (oa ob oc od a b c d : Nat) :
    md5S19 mplWords2 oa ob oc od a b c d = mplP2S19 oa ob oc od a b c d :=
  mplBr2T19 oa ob oc od b c d _
theorem mplBr2T18 (oa ob oc od b c d t : Nat) :
    md5T18 mplWords2 oa ob oc od b c d t = mplP2T18 oa ob oc od b c d t :=
  mplBr2S19 oa ob oc od d _ b c
theorem mplBr2S18 (oa ob oc od a b c d : Nat) :
    md5S18 mplWords2 oa ob oc od a b c d = mplP2S18 oa ob oc od a b c d :=
  mplBr2T18 oa ob oc od b c d _
theorem mplBr2T17 (oa ob oc od b c d t : Nat) :
    md5T17 mplWords2 oa ob oc od b c d t = mplP2T17 oa ob oc od b c d t :=
  mplBr2S18 oa ob oc od d _ b c
theorem mplBr2S17 (oa ob oc od a b c d : Nat) :
    md5S17 mplWords2 oa ob oc od a b c d = mplP2S17 oa ob oc od a b c d :=
  mplBr2T17 oa ob oc od b c d _
theorem mplBr2T16 (oa ob oc od b c d t : Nat) :
    md5T16 mplWords2 oa ob oc od b c d t = mplP2T16 oa ob oc od b c d t :=
  mplBr2S17 oa ob oc od d _ b c
theorem mplBr2S16 (oa ob oc od a b c d : Nat) :
    md5S16 mplWords2 oa ob oc od a b c d = mplP2S16 oa ob oc od a b c d :=
  mplBr2T16 oa ob oc od b c d _
theorem mplBr2T15 (oa ob oc od b c d t : Nat) :
    md5T15 mplWords2 oa ob oc od b c d t = mplP2T15 oa ob oc od b c d t :=
  mplBr2S16 oa ob oc od d _ b c
theorem mplBr2S15 (oa ob oc od a b c d : Nat) :
    md5S15 mplWords2 oa ob oc od a b c d = mplP2S15 oa ob oc od a b c d :=
  mplBr2T15 oa ob oc od b c d _
theorem mplBr2T14 (oa ob oc od b c d t : Nat) :
    md5T14 mplWords2 oa ob oc od b c d t = mplP2T14 oa ob oc od b c d t :=
  mplBr2S15 oa ob oc od d _ b c
theorem mplBr2S14 (oa ob oc od a b c d : Nat) :
    md5S14 mplWords2 oa ob oc od a b c d = mplP2S14 oa ob oc od a b c d :=
  mplBr2T14 oa ob oc od b c d _
theorem mplBr2T13 (oa ob oc od b c d t : Nat) :
    md5T13 mplWords2 oa ob oc od b c d t = mplP2T13 oa ob oc od b c d t :=
  mplBr2S14 oa ob oc od d _ b c
theorem mplBr2S13 (oa ob oc od a b c d : Nat) :
    md5S13 mplWords2 oa ob oc od a b c d = mplP2S13 oa ob oc od a b c d :=
  mplBr2T13 oa ob oc od b c d _
theorem mplBr2T12 (oa ob oc od b c d t : Nat) :
    md5T12 mplWords2 oa ob oc od b c d t = mplP2T12 oa ob oc od b c d t :=
  mplBr2S13 oa ob oc od d _ b c
theorem mplBr2S12 (oa ob oc od a b c d : Nat) :
    md5S12 mplWords2 oa ob oc od a b c d = mplP2S12 oa ob oc od a b c d :=
  mplBr2T12 oa ob oc od b c d _
theorem mplBr2T11 (oa ob oc od b c d t : Nat) :
    md5T11 mplWords2 oa ob oc od b c d t = mplP2T11 oa ob oc od b c d t :=
  mplBr2S12 oa ob oc od d _ b c
theorem mplBr2S11 (oa ob oc od a b c d : Nat) :
    md5S11 mplWords2 oa ob oc od a b c d = mplP2S11 oa ob oc od a b c d :=
  mplBr2T11 oa ob oc od b c d _
theorem mplBr2T10 (oa ob oc od b c d t : Nat) :
    md5T10 mplWords2 oa ob oc od b c d t = mplP2T10 oa ob oc od b c d t :=
  mplBr2S11 oa ob oc od d _ b c
theorem mplBr2S10 (oa ob oc od a b c d : Nat) :
    md5S10 mplWords2 oa ob oc od a b c d = mplP2S10 oa ob oc od a b c d :=
  mplBr2T10 oa ob oc od b c d _
theorem mplBr2T9 (oa ob oc od b c d t : Nat) :
    md5T9 mplWords2 oa ob oc od b c d t = mplP2T9 oa ob oc od b c d t :=
  mplBr2S10 oa ob oc od d _ b c
theorem mplBr2S9 (oa ob oc od a b c d : Nat) :
    md5S9 mplWords2 oa ob oc od a b c d = mplP2S9 oa ob oc od a b c d :=
  mplBr2T9 oa ob oc od b c d _
theorem mplBr2T8 (oa ob oc od b c d t : Nat) :
    md5T8 mplWords2 oa ob oc od b c d t = mplP2T8 oa ob oc od b c d t :=
  mplBr2S9 oa ob oc od d _ b c
theorem mplBr2S8 (oa ob oc od a b c d : Nat) :
    md5S8 mplWords2 oa ob oc od a b c d = mplP2S8 oa ob oc od a b c d :=
  mplBr2T8 oa ob oc od b c d _
theorem mplBr2T7 (oa ob oc od b c d t : Nat) :
    md5T7 mplWords2 oa ob oc od b c d t = mplP2T7 oa ob oc od b c d t :=
  mplBr2S8 oa ob oc od d _ b c
theorem mplBr2S7 (oa ob oc od a b c d : Nat) :
    md5S7 mplWords2 oa ob oc od a b c d = mplP2S7 oa ob oc od a b c d :=
  mplBr2T7 oa ob oc od b c d _
theorem mplBr2T6 (oa ob oc od b c d t : Nat) :
    md5T6 mplWords2 oa ob oc od b c d t = mplP2T6 oa ob oc od b c d t :=
  mplBr2S7 oa ob oc od d _ b c
theorem mplBr2S6 (oa ob oc od a b c d : Nat) :
    md5S6 mplWords2 oa ob oc od a b c d = mplP2S6 oa ob oc od a b c d :=
  mplBr2T6 oa ob oc od b c d _
theorem mplBr2T5 (oa ob oc od b c d t : Nat) :
    md5T5 mplWords2 oa ob oc od b c d t = mplP2T5 oa ob oc od b c d t :=
  mplBr2S6 oa ob oc od d _ b c
theorem mplBr2S5 (oa ob oc od a b c d : Nat) :
    md5S5 mplWords2 oa ob oc od a b c d = mplP2S5 oa ob oc od a b c d :=
  mplBr2T5 oa ob oc od b c d _
theorem mplBr2T4 (oa ob oc od b c d t : Nat) :
    md5T4 mplWords2 oa ob oc od b c d t = mplP2T4 oa ob oc od b c d t :=
  mplBr2S5 oa ob oc od d _ b c
theorem mplBr2S4 (oa ob oc od a b c d : Nat) :
    md5S4 mplWords2 oa ob oc od a b c d = mplP2S4 oa ob oc od a b c d :=
  mplBr2T4 oa ob oc od b c d _
theorem mplBr2T3 (oa ob oc od b c d t : Nat) :
    md5T3 mplWords2 oa ob oc od b c d t = mplP2T3 oa ob oc od b c d t :=
  mplBr2S4 oa ob oc od d _ b c
theorem mplBr2S3 (oa ob oc od a b c d : Nat) :
    md5S3 mplWords2 oa ob oc od a b c d = mplP2S3 oa ob oc od a b c d :=
  mplBr2T3 oa ob oc od b c d _
theorem mplBr2T2 (oa ob oc od b c d t : Nat) :
    md5T2 mplWords2 oa ob oc od b c d t = mplP2T2 oa ob oc od b c d t :=
  mplBr2S3 oa ob oc od d _ b c
theorem mplBr2S2 (oa ob oc od a b c d : Nat) :
    md5S2 mplWords2 oa ob oc od a b c d = mplP2S2 oa ob oc od a b c d :=
  mplBr2T2 oa ob oc od b c d _
theorem mplBr2T1 (oa ob oc od b c d t : Nat) :
    md5T1 mplWords2 oa ob oc od b c d t = mplP2T1 oa ob oc od b c d t :=
  mplBr2S2 oa ob oc od d _ b c
theorem mplBr2S1 (oa ob oc od a b c d : Nat) :
    md5S1 mplWords2 oa ob oc od a b c d = mplP2S1 oa ob oc od a b c d :=
  mplBr2T1 oa ob oc od b c d _
theorem mplBr2T0 (oa ob oc od b c d t : Nat) :
    md5T0 mplWords2 oa ob oc od b c d t = mplP2T0 oa ob oc od b c d t :=
  mplBr2S1 oa ob oc od d _ b c
theorem mplBr2S0 (oa ob oc od a b c d : Nat) :
    md5S0 mplWords2 oa ob oc od a b c d = mplP2S0 oa ob oc od a b c d :=
  mplBr2T0 oa ob oc od b c d _
/-- The residue-`2` pipeline computes the generic compression of the
residue-`2` schedule. -/
theorem mplBridge2 (st : MD5State) : md5Compress mplWords2 st = mplP2C st :=
  mplBr2S0 st.a st.b st.c st.d st.a st.b st.c st.d
theorem mplBr3S64 (oa ob oc od a b c d : Nat) :
    md5S64 mplWords3 oa ob oc od a b c d = mplP3S64 oa ob oc od a b c d := rfl
theorem mplBr3T63 (oa ob oc od b c d t : Nat) :
    md5T63 mplWords3 oa ob oc od b c d t = mplP3T63 oa ob oc od b c d t :=
  mplBr3S64 oa ob oc od d _ b c
theorem mplBr3S63 (oa ob oc od a b c d : Nat) :
    md5S63 mplWords3 oa ob oc od a b c d = mplP3S63 oa ob oc od a b c d :=
  mplBr3T63 oa ob oc od b c d _
theorem mplBr3T62 (oa ob oc od b c d t : Nat) :
    md5T62 mplWords3 oa ob oc od b c d t = mplP3T62 oa ob oc od b c d t :=
  mplBr3S63 oa ob oc od d _ b c
theorem mplBr3S62 (oa ob oc od a b c d : Nat) :
    md5S62 mplWords3 oa ob oc od a b c d = mplP3S62 oa ob oc od a b c d :=
  mplBr3T62 oa ob oc od b c d _
theorem mplBr3T61 (oa ob oc od b c d t : Nat) :
    md5T61 mplWords3 oa ob oc od b c d t = mplP3T61 oa ob oc od b c d t :=
  mplBr3S62 oa ob oc od d _ b c
theorem mplBr3S61 (oa ob oc od a b c d : Nat) :
    md5S61 mplWords3 oa ob oc od a b c d = mplP3S61 oa ob oc od a b c d :=
  mplBr3T61 oa ob oc od b c d _
theorem mplBr3T60 (oa ob oc od b c d t : Nat) :
    md5T60 mplWords3 oa ob oc od b c d t = mplP3T60 oa ob oc od b c d t :=
  mplBr3S61 oa ob oc od d _ b c
theorem mplBr3S60 (oa ob oc od a b c d : Nat) :
    md5S60 mplWords3 oa ob oc od a b c d = mplP3S60 oa ob oc od a b c d :=
  mplBr3T60 oa ob oc od b c d _
theorem mplBr3T59 (oa ob oc od b c d t : Nat) :
    md5T59 mplWords3 oa ob oc od b c d t = mplP3T59 oa ob oc od b c d t :=
  mplBr3S60 oa ob oc od d _ b c
theorem mplBr3S59 (oa ob oc od a b c d : Nat) :
    md5S59 mplWords3 oa ob oc od a b c d = mplP3S59 oa ob oc od a b c d :=
  mplBr3T59 oa ob oc od b c d _
theorem mplBr3T58 (oa ob oc od b c d t : Nat) :
    md5T58 mplWords3 oa ob oc od b c d t = mplP3T58 oa ob oc od b c d t :=
  mplBr3S59 oa ob oc od d _ b c
theorem mplBr3S58 (oa ob oc od a b c d : Nat) :
    md5S58 mplWords3 oa ob oc od a b c d = mplP3S58 oa ob oc od a b c d :=
  mplBr3T58 oa ob oc od b c d _
theorem mplBr3T57 (oa ob oc od b c d t : Nat) :
    md5T57 mplWords3 oa ob oc od b c d t = mplP3T57 oa ob oc od b c d t :=
  mplBr3S58 oa ob oc od d _ b c
theorem mplBr3S57 (oa ob oc od a b c d : Nat) :
    md5S57 mplWords3 oa ob oc od a b c d = mplP3S57 oa ob oc od a b c d :=
  mplBr3T57 oa ob oc od b c d _
theorem mplBr3T56 (oa ob oc od b c d t : Nat) :
    md5T56 mplWords3 oa ob oc od b c d t = mplP3T56 oa ob oc od b c d t :=
  mplBr3S57 oa ob oc od d _ b c
theorem mplBr3S56 (oa ob oc od a b c d : Nat) :
    md5S56 mplWords3 oa ob oc od a b c d = mplP3S56 oa ob oc od a b c d :=
  mplBr3T56 oa ob oc od b c d _
theorem mplBr3T55 (oa ob oc od b c d t : Nat) :
    md5T55 mplWords3 oa ob oc od b c d t = mplP3T55 oa ob oc od b c d t :=
  mplBr3S56 oa ob oc od d _ b c
theorem mplBr3S55 (oa ob oc od a b c d : Nat) :
    md5S55 mplWords3 oa ob oc od a b c d = mplP3S55 oa ob oc od a b c d :=
  mplBr3T55 oa ob oc od b c d _
theorem mplBr3T54 (oa ob oc od b c d t : Nat) :
    md5T54 mplWords3 oa ob oc od b c d t = mplP3T54 oa ob oc od b c d t :=
  mplBr3S55 oa ob oc od d _ b c
theorem mplBr3S54 (oa ob oc od a b c d : Nat) :
    md5S54 mplWords3 oa ob oc od a b c d = mplP3S54 oa ob oc od a b c d :=
  mplBr3T54 oa ob oc od b c d _
theorem mplBr3T53 (oa ob oc od b c d t : Nat) :
    md5T53 mplWords3 oa ob oc od b c d t = mplP3T53 oa ob oc od b c d t :=
  mplBr3S54 oa ob oc od d _ b c
theorem mplBr3S53 (oa ob oc od a b c d : Nat) :
    md5S53 mplWords3 oa ob oc od a b c d = mplP3S53 oa ob oc od a b c d :=
  mplBr3T53 oa ob oc od b c d _
theorem mplBr3T52 (oa ob oc od b c d t : Nat) :
    md5T52 mplWords3 oa ob oc od b c d t = mplP3T52 oa ob oc od b c d t :=
  mplBr3S53 oa ob oc od d _ b c
theorem mplBr3S52 (oa ob oc od a b c d : Nat) :
    md5S52 mplWords3 oa ob oc od a b c d = mplP3S52 oa ob oc od a b c d :=
  mplBr3T52 oa ob oc od b c d _
theorem mplBr3T51 (oa ob oc od b c d t : Nat) :
    md5T51 mplWords3 oa ob oc od b c d t = mplP3T51 oa ob oc od b c d t :=
  mplBr3S52 oa ob oc od d _ b c
theorem mplBr3S51 (oa ob oc od a b c d : Nat) :
    md5S51 mplWords3 oa ob oc od a b c d = mplP3S51 oa ob oc od a b c d :=
  mplBr3T51 oa ob oc od b c d _
theorem mplBr3T50 (oa ob oc od b c d t : Nat) :
    md5T50 mplWords3 oa ob oc od b c d t = mplP3T50 oa ob oc od b c d t :=
  mplBr3S51 oa ob oc od d _ b c
theorem mplBr3S50 (oa ob oc od a b c d : Nat) :
    md5S50 mplWords3 oa ob oc od a b c d = mplP3S50 oa ob oc od a b c d :=
  mplBr3T50 oa ob oc od b c d _
theorem mplBr3T49 (oa ob oc od b c d t : Nat) :
    md5T49 mplWords3 oa ob oc od b c d t = mplP3T49 oa ob oc od b c d t :=
  mplBr3S50 oa ob oc od d _ b c
theorem mplBr3S49 (oa ob oc od a b c d : Nat) :
    md5S49 mplWords3 oa ob oc od a b c d = mplP3S49 oa ob oc od a b c d :=
  mplBr3T49 oa ob oc od b c d _
theorem mplBr3T48 (oa ob oc od b c d t : Nat) :
    md5T48 mplWords3 oa ob oc od b c d t = mplP3T48 oa ob oc od b c d t :=
  mplBr3S49 oa ob oc od d _ b c
theorem mplBr3S48 (oa ob oc od a b c d : Nat) :
    md5S48 mplWords3 oa ob oc od a b c d = mplP3S48 oa ob oc od a b c d :=
  mplBr3T48 oa ob oc od b c d _
theorem mplBr3T47 (oa ob oc od b c d t : Nat) :
    md5T47 mplWords3 oa ob oc od b c d t = mplP3T47 oa ob oc od b c d t :=
  mplBr3S48 oa ob oc od d _ b c
theorem mplBr3S47 (oa ob oc od a b c d : Nat) :
    md5S47 mplWords3 oa ob oc od a b c d = mplP3S47 oa ob oc od a b c d :=
  mplBr3T47 oa ob oc od b c d _
theorem mplBr3T46 (oa ob oc od b c d t : Nat) :
    md5T46 mplWords3 oa ob oc od b c d t = mplP3T46 oa ob oc od b c d t :=
  mplBr3S47 oa ob oc od d _ b c
theorem mplBr3S46 (oa ob oc od a b c d : Nat) :
    md5S46 mplWords3 oa ob oc od a b c d = mplP3S46 oa ob oc od a b c d :=
  mplBr3T46 oa ob oc od b c d _
theorem mplBr3T45 (oa ob oc od b c d t : Nat) :
    md5T45 mplWords3 oa ob oc od b c d t = mplP3T45 oa ob oc od b c d t :=
  mplBr3S46 oa ob oc od d _ b c
theorem mplBr3S45 (oa ob oc od a b c d : Nat) :
    md5S45 mplWords3 oa ob oc od a b c d = mplP3S45 oa ob oc od a b c d :=
  mplBr3T45 oa ob oc od b c d _
theorem mplBr3T44 (oa ob oc od b c d t : Nat) :
    md5T44 mplWords3 oa ob oc od b c d t = mplP3T44 oa ob oc od b c d t :=
  mplBr3S45 oa ob oc od d _ b c
theorem mplBr3S44 (oa ob oc od a b c d : Nat) :
    md5S44 mplWords3 oa ob oc od a b c d = mplP3S44 oa ob oc od a b c d :=
  mplBr3T44 oa ob oc od b c d _
theorem mplBr3T43 (oa ob oc od b c d t : Nat) :
    md5T43 mplWords3 oa ob oc od b c d t = mplP3T43 oa ob oc od b c d t :=
  mplBr3S44 oa ob oc od d _ b c
theorem mplBr3S43 (oa ob oc od a b c d : Nat) :
    md5S43 mplWords3 oa ob oc od a b c d = mplP3S43 oa ob oc od a b c d :=
  mplBr3T43 oa ob oc od b c d _
theorem mplBr3T42 (oa ob oc od b c d t : Nat) :
    md5T42 mplWords3 oa ob oc od b c d t = mplP3T42 oa ob oc od b c d t :=
  mplBr3S43 oa ob oc od d _ b c
theorem mplBr3S42 (oa ob oc od a b c d : Nat) :
    md5S42 mplWords3 oa ob oc od a b c d = mplP3S42 oa ob oc od a b c d :=
  mplBr3T42 oa ob oc od b c d _
theorem mplBr3T41 (oa ob oc od b c d t : Nat) :
    md5T41 mplWords3 oa ob oc od b c d t = mplP3T41 oa ob oc od b c d t :=
  mplBr3S42 oa ob oc od d _ b c
theorem mplBr3S41 (oa ob oc od a b c d : Nat) :
    md5S41 mplWords3 oa ob oc od a b c d = mplP3S41 oa ob oc od a b c d :=
  mplBr3T41 oa ob oc od b c d _
theorem mplBr3T40 (oa ob oc od b c d t : Nat) :
    md5T40 mplWords3 oa ob oc od b c d t = mplP3T40 oa ob oc od b c d t :=
  mplBr3S41 oa ob oc od d _ b c
theorem mplBr3S40 (oa ob oc od a b c d : Nat) :
    md5S40 mplWords3 oa ob oc od a b c d = mplP3S40 oa ob oc od a b c d :=
  mplBr3T40 oa ob oc od b c d _
theorem mplBr3T39 (oa ob oc od b c d t : Nat) :
    md5T39 mplWords3 oa ob oc od b c d t = mplP3T39 oa ob oc od b c d t :=
  mplBr3S40 oa ob oc od d _ b c
theorem mplBr3S39 (oa ob oc od a b c d : Nat) :
    md5S39 mplWords3 oa ob oc od a b c d = mplP3S39 oa ob oc od a b c d :=
  mplBr3T39 oa ob oc od b c d _
theorem mplBr3T38 (oa ob oc od b c d t : Nat) :
    md5T38 mplWords3 oa ob oc od b c d t = mplP3T38 oa ob oc od b c d t :=
  mplBr3S39 oa ob oc od d _ b c
theorem mplBr3S38 (oa ob oc od a b c d : Nat) :
    md5S38 mplWords3 oa ob oc od a b c d = mplP3S38 oa ob oc od a b c d :=
  mplBr3T38 oa ob oc od b c d _
theorem mplBr3T37 (oa ob oc od b c d t : Nat) :
    md5T37 mplWords3 oa ob oc od b c d t = mplP3T37 oa ob oc od b c d t :=
  mplBr3S38 oa ob oc od d _ b c
theorem mplBr3S37 (oa ob oc od a b c d : Nat) :
    md5S37 mplWords3 oa ob oc od a b c d = mplP3S37 oa ob oc od a b c d :=
  mplBr3T37 oa ob oc od b c d _
theorem mplBr3T36 (oa ob oc od b c d t : Nat) :
    md5T36 mplWords3 oa ob oc od b c d t = mplP3T36 oa ob oc od b c d t :=
  mplBr3S37 oa ob oc od d _ b c
theorem mplBr3S36 (oa ob oc od a b c d : Nat) :
    md5S36 mplWords3 oa ob oc od a b c d = mplP3S36 oa ob oc od a b c d :=
  mplBr3T36 oa ob oc od b c d _
theorem mplBr3T35 (oa ob oc od b c d t : Nat) :
    md5T35 mplWords3 oa ob oc od b c d t = mplP3T35 oa ob oc od b c d t :=
  mplBr3S36 oa ob oc od d _ b c
theorem mplBr3S35 (oa ob oc od a b c d : Nat) :
    md5S35 mplWords3 oa ob oc od a b c d = mplP3S35 oa ob oc od a b c d :=
  mplBr3T35 oa ob oc od b c d _
theorem mplBr3T34 (oa ob oc od b c d t : Nat) :
    md5T34 mplWords3 oa ob oc od b c d t = mplP3T34 oa ob oc od b c d t :=
  mplBr3S35 oa ob oc od d _ b c
theorem mplBr3S34 (oa ob oc od a b c d : Nat) :
    md5S34 mplWords3 oa ob oc od a b c d = mplP3S34 oa ob oc od a b c d :=
  mplBr3T34 oa ob oc od b c d _
theorem mplBr3T33 (oa ob oc od b c d t : Nat) :
    md5T33 mplWords3 oa ob oc od b c d t = mplP3T33 oa ob oc od b c d t :=
  mplBr3S34 oa ob oc od d _ b c
theorem mplBr3S33 (oa ob oc od a b c d : Nat) :
    md5S33 mplWords3 oa ob oc od a b c d = mplP3S33 oa ob oc od a b c d :=
  mplBr3T33 oa ob oc od b c d _
theorem mplBr3T32 (oa ob oc od b c d t : Nat) :
    md5T32 mplWords3 oa ob oc od b c d t = mplP3T32 oa ob oc od b c d t :=
  mplBr3S33 oa ob oc od d _ b c
theorem mplBr3S32 (oa ob oc od a b c d : Nat) :
    md5S32 mplWords3 oa ob oc od a b c d = mplP3S32 oa ob oc od a b c d :=
  mplBr3T32 oa ob oc od b c d _
theorem mplBr3T31 (oa ob oc od b c d t : Nat) :
    md5T31 mplWords3 oa ob oc od b c d t = mplP3T31 oa ob oc od b c d t :=
  mplBr3S32 oa ob oc od d _ b c
theorem mplBr3S31 (oa ob oc od a b c d : Nat) :
    md5S31 mplWords3 oa ob oc od a b c d = mplP3S31 oa ob oc od a b c d :=
  mplBr3T31 oa ob oc od b c d _
theorem mplBr3T30 (oa ob oc od b c d t : Nat) :
    md5T30 mplWords3 oa ob oc od b c d t = mplP3T30 oa ob oc od b c d t :=
  mplBr3S31 oa ob oc od d _ b c
theorem mplBr3S30 (oa ob oc od a b c d : Nat) :
    md5S30 mplWords3 oa ob oc od a b c d = mplP3S30 oa ob oc od a b c d :=
  mplBr3T30 oa ob oc od b c d _
theorem mplBr3T29 (oa ob oc od b c d t : Nat) :
    md5T29 mplWords3 oa ob oc od b c d t = mplP3T29 oa ob oc od b c d t :=
  mplBr3S30 oa ob oc od d _ b c
theorem mplBr3S29 (oa ob oc od a b c d : Nat) :
    md5S29 mplWords3 oa ob oc od a b c d = mplP3S29 oa ob oc od a b c d :=
  mplBr3T29 oa ob oc od b c d _
theorem mplBr3T28 (oa ob oc od b c d t : Nat) :
    md5T28 mplWords3 oa ob oc od b c d t = mplP3T28 oa ob oc od b c d t :=
  mplBr3S29 oa ob oc od d _ b c
theorem mplBr3S28 (oa ob oc od a b c d : Nat) :
    md5S28 mplWords3 oa ob oc od a b c d = mplP3S28 oa ob oc od a b c d :=
  mplBr3T28 oa ob oc od b c d _
theorem mplBr3T27 (oa ob oc od b c d t : Nat) :
    md5T27 mplWords3 oa ob oc od b c d t = mplP3T27 oa ob oc od b c d t :=
  mplBr3S28 oa ob oc od d _ b c
theorem mplBr3S27 (oa ob oc od a b c d : Nat) :
    md5S27 mplWords3 oa ob oc od a b c d = mplP3S27 oa ob oc od a b c d :=
  mplBr3T27 oa ob oc od b c d _
theorem mplBr3T26 (oa ob oc od b c d t : Nat) :
    md5T26 mplWords3 oa ob oc od b c d t = mplP3T26 oa ob oc od b c d t :=
  mplBr3S27 oa ob oc od d _ b c
theorem mplBr3S26 (oa ob oc od a b c d : Nat) :
    md5S26 mplWords3 oa ob oc od a b c d = mplP3S26 oa ob oc od a b c d :=
  mplBr3T26 oa ob oc od b c d _
theorem mplBr3T25 (oa ob oc od b c d t : Nat) :
    md5T25 mplWords3 oa ob oc od b c d t = mplP3T25 oa ob oc od b c d t :=
  mplBr3S26 oa ob oc od d _ b c
theorem mplBr3S25 (oa ob oc od a b c d : Nat) :
    md5S25 mplWords3 oa ob oc od a b c d = mplP3S25 oa ob oc od a b c d :=
  mplBr3T25 oa ob oc od b c d _
theorem mplBr3T24 (oa ob oc od b c d t : Nat) :
    md5T24 mplWords3 oa ob oc od b c d t = mplP3T24 oa ob oc od b c d t :=
  mplBr3S25 oa ob oc od d _ b c
theorem mplBr3S24 (oa ob oc od a b c d : Nat) :
    md5S24 mplWords3 oa ob oc od a b c d = mplP3S24 oa ob oc od a b c d :=
  mplBr3T24 oa ob oc od b c d _
theorem mplBr3T23 (oa ob oc od b c d t : Nat) :
    md5T23 mplWords3 oa ob oc od b c d t = mplP3T23 oa ob oc od b c d t :=
  mplBr3S24 oa ob oc od d _ b c
theorem mplBr3S23 (oa ob oc od a b c d : Nat) :
    md5S23 mplWords3 oa ob oc od a b c d = mplP3S23 oa ob oc od a b c d :=
  mplBr3T23 oa ob oc od b c d _
theorem mplBr3T22 (oa ob oc od b c d t : Nat) :
    md5T22 mplWords3 oa ob oc od b c d t = mplP3T22 oa ob oc od b c d t :=
  mplBr3S23 oa ob oc od d _ b c
theorem mplBr3S22 (oa ob oc od a b c d : Nat) :
    md5S22 mplWords3 oa ob oc od a b c d = mplP3S22 oa ob oc od a b c d :=
  mplBr3T22 oa ob oc od b c d _
theorem mplBr3T21 (oa ob oc od b c d t : Nat) :
    md5T21 mplWords3 oa ob oc od b c d t = mplP3T21 oa ob oc od b c d t :=
  mplBr3S22 oa ob oc od d _ b c
theorem mplBr3S21 (oa ob oc od a b c d : Nat) :
    md5S21 mplWords3 oa ob oc od a b c d = mplP3S21 oa ob oc od a b c d :=
  mplBr3T21 oa ob oc od b c d _
theorem mplBr3T20 (oa ob oc od b c d t : Nat) :
    md5T20 mplWords3 oa ob oc od b c d t = mplP3T20 oa ob oc od b c d t :=
  mplBr3S21 oa ob oc od d _ b c
theorem mplBr3S20 (oa ob oc od a b c d : Nat) :
    md5S20 mplWords3 oa ob oc od a b c d = mplP3S20 oa ob oc od a b c d :=
  mplBr3T20 oa ob oc od b c d _
theorem mplBr3T19 (oa ob oc od b c d t : Nat) :
    md5T19 mplWords3 oa ob oc od b c d t = mplP3T19 oa ob oc od b c d t :=
  mplBr3S20 oa ob oc od d _ b c
theorem mplBr3S19 (oa ob oc od a b c d : Nat) :
    md5S19 mplWords3 oa ob oc od a b c d = mplP3S19 oa ob oc od a b c d :=
  mplBr3T19 oa ob oc od b c d _
theorem mplBr3T18 (oa ob oc od b c d t : Nat) :
    md5T18 mplWords3 oa ob oc od b c d t = mplP3T18 oa ob oc od b c d t :=
  mplBr3S19 oa ob oc od d _ b c
theorem mplBr3S18 (oa ob oc od a b c d : Nat) :
    md5S18 mplWords3 oa ob oc od a b c d = mplP3S18 oa ob oc od a b c d :=
  mplBr3T18 oa ob oc od b c d _
theorem mplBr3T17 (oa ob oc od b c d t : Nat) :
    md5T17 mplWords3 oa ob oc od b c d t = mplP3T17 oa ob oc od b c d t :=
  mplBr3S18 oa ob oc od d _ b c
theorem mplBr3S17 (oa ob oc od a b c d : Nat) :
    md5S17 mplWords3 oa ob oc od a b c d = mplP3S17 oa ob oc od a b c d :=
  mplBr3T17 oa ob oc od b c d _
theorem mplBr3T16 (oa ob oc od b c d t : Nat) :
    md5T16 mplWords3 oa ob oc od b c d t = mplP3T16 oa ob oc od b c d t :=
  mplBr3S17 oa ob oc od d _ b c
theorem mplBr3S16 (oa ob oc od a b c d : Nat) :
    md5S16 mplWords3 oa ob oc od a b c d = mplP3S16 oa ob oc od a b c d :=
  mplBr3T16 oa ob oc od b c d _
theorem mplBr3T15 (oa ob oc od b c d t : Nat) :
    md5T15 mplWords3 oa ob oc od b c d t = mplP3T15 oa ob oc od b c d t :=
  mplBr3S16 oa ob oc od d _ b c
theorem mplBr3S15 (oa ob oc od a b c d : Nat) :
    md5S15 mplWords3 oa ob oc od a b c d = mplP3S15 oa ob oc od a b c d :=
  mplBr3T15 oa ob oc od b c d _
theorem mplBr3T14 (oa ob oc od b c d t : Nat) :
    md5T14 mplWords3 oa ob oc od b c d t = mplP3T14 oa ob oc od b c d t :=
  mplBr3S15 oa ob oc od d _ b c
theorem mplBr3S14 (oa ob oc od a b c d : Nat) :
    md5S14 mplWords3 oa ob oc od a b c d = mplP3S14 oa ob oc od a b c d :=
  mplBr3T14 oa ob oc od b c d _
theorem mplBr3T13 (oa ob oc od b c d t : Nat) :
    md5T13 mplWords3 oa ob oc od b c d t = mplP3T13 oa ob oc od b c d t :=
  mplBr3S14 oa ob oc od d _ b c
theorem mplBr3S13 (oa ob oc od a b c d : Nat) :
    md5S13 mplWords3 oa ob oc od a b c d = mplP3S13 oa ob oc od a b c d :=
  mplBr3T13 oa ob oc od b c d _
theorem mplBr3T12 (oa ob oc od b c d t : Nat) :
    md5T12 mplWords3 oa ob oc od b c d t = mplP3T12 oa ob oc od b c d t :=
  mplBr3S13 oa ob oc od d _ b c
theorem mplBr3S12 (oa ob oc od a b c d : Nat) :
    md5S12 mplWords3 oa ob oc od a b c d = mplP3S12 oa ob oc od a b c d :=
  mplBr3T12 oa ob oc od b c d _
theorem mplBr3T11 (oa ob oc od b c d t : Nat) :
    md5T11 mplWords3 oa ob oc od b c d t = mplP3T11 oa ob oc od b c d t :=
  mplBr3S12 oa ob oc od d _ b c
theorem mplBr3S11 (oa ob oc od a b c d : Nat) :
    md5S11 mplWords3 oa ob oc od a b c d = mplP3S11 oa ob oc od a b c d :=
  mplBr3T11 oa ob oc od b c d _
theorem mplBr3T10 (oa ob oc od b c d t : Nat) :
    md5T10 mplWords3 oa ob oc od b c d t = mplP3T10 oa ob oc od b c d t :=
  mplBr3S11 oa ob oc od d _ b c
theorem mplBr3S10 (oa ob oc od a b c d : Nat) :
    md5S10 mplWords3 oa ob oc od a b c d = mplP3S10 oa ob oc od a b c d :=
  mplBr3T10 oa ob oc od b c d _
theorem mplBr3T9 (oa ob oc od b c d t : Nat) :
    md5T9 mplWords3 oa ob oc od b c d t = mplP3T9 oa ob oc od b c d t :=
  mplBr3S10 oa ob oc od d _ b c
theorem mplBr3S9 (oa ob oc od a b c d : Nat) :
    md5S9 mplWords3 oa ob oc od a b c d = mplP3S9 oa ob oc od a b c d :=
  mplBr3T9 oa ob oc od b c d _
theorem mplBr3T8 (oa ob oc od b c d t : Nat) :
    md5T8 mplWords3 oa ob oc od b c d t = mplP3T8 oa ob oc od b c d t :=
  mplBr3S9 oa ob oc od d _ b c
theorem mplBr3S8 (oa ob oc od a b c d : Nat) :
    md5S8 mplWords3 oa ob oc od a b c d = mplP3S8 oa ob oc od a b c d :=
  mplBr3T8 oa ob oc od b c d _
theorem mplBr3T7 (oa ob oc od b c d t : Nat) :
    md5T7 mplWords3 oa ob oc od b c d t = mplP3T7 oa ob oc od b c d t :=
  mplBr3S8 oa ob oc od d _ b c
theorem mplBr3S7 (oa ob oc od a b c d : Nat) :
    md5S7 mplWords3 oa ob oc od a b c d = mplP3S7 oa ob oc od a b c d :=
  mplBr3T7 oa ob oc od b c d _
theorem mplBr3T6 (oa ob oc od b c d t : Nat) :
    md5T6 mplWords3 oa ob oc od b c d t = mplP3T6 oa ob oc od b c d t :=
  mplBr3S7 oa ob oc od d _ b c
theorem mplBr3S6 (oa ob oc od a b c d : Nat) :
    md5S6 mplWords3 oa ob oc od a b c d = mplP3S6 oa ob oc od a b c d :=
  mplBr3T6 oa ob oc od b c d _
theorem mplBr3T5 (oa ob oc od b c d t : Nat) :
    md5T5 mplWords3 oa ob oc od b c d t = mplP3T5 oa ob oc od b c d t :=
  mplBr3S6 oa ob oc od d _ b c
theorem mplBr3S5 (oa ob oc od a b c d : Nat) :
    md5S5 mplWords3 oa ob oc od a b c d = mplP3S5 oa ob oc od a b c d :=
  mplBr3T5 oa ob oc od b c d _
theorem mplBr3T4 (oa ob oc od b c d t : Nat) :
    md5T4 mplWords3 oa ob oc od b c d t = mplP3T4 oa ob oc od b c d t :=
  mplBr3S5 oa ob oc od d _ b c
theorem mplBr3S4 (oa ob oc od a b c d : Nat) :
    md5S4 mplWords3 oa ob oc od a b c d = mplP3S4 oa ob oc od a b c d :=
  mplBr3T4 oa ob oc od b c d _
theorem mplBr3T3 (oa ob oc od b c d t : Nat) :
    md5T3 mplWords3 oa ob oc od b c d t = mplP3T3 oa ob oc od b c d t :=
  mplBr3S4 oa ob oc od d _ b c
theorem mplBr3S3 (oa ob oc od a b c d : Nat) :
    md5S3 mplWords3 oa ob oc od a b c d = mplP3S3 oa ob oc od a b c d :=
  mplBr3T3 oa ob oc od b c d _
theorem mplBr3T2 (oa ob oc od b c d t : Nat) :
    md5T2 mplWords3 oa ob oc od b c d t = mplP3T2 oa ob oc od b c d t :=
  mplBr3S3 oa ob oc od d _ b c
theorem mplBr3S2 (oa ob oc od a b c d : Nat) :
    md5S2 mplWords3 oa ob oc od a b c d = mplP3S2 oa ob oc od a b c d :=
  mplBr3T2 oa ob oc od b c d _
theorem mplBr3T1 (oa ob oc od b c d t : Nat) :
    md5T1 mplWords3 oa ob oc od b c d t = mplP3T1 oa ob oc od b c d t :=
  mplBr3S2 oa ob oc od d _ b c
theorem mplBr3S1 (oa ob oc od a b c d : Nat) :
    md5S1 mplWords3 oa ob oc od a b c d = mplP3S1 oa ob oc od a b c d :=
  mplBr3T1 oa ob oc od b c d _
theorem mplBr3T0 (oa ob oc od b c d t : Nat) :
    md5T0 mplWords3 oa ob oc od b c d t = mplP3T0 oa ob oc od b c d t :=
  mplBr3S1 oa ob oc od d _ b c
theorem mplBr3S0 (oa ob oc od a b c d : Nat) :
    md5S0 mplWords3 oa ob oc od a b c d = mplP3S0 oa ob oc od a b c d :=
  mplBr3T0 oa ob oc od b c d _
/-- The residue-`3` pipeline computes the generic compression of the
residue-`3` schedule. -/
theorem mplBridge3 (st : MD5State) : md5Compress mplWords3 st = mplP3C st :=
  mplBr3S0 st.a st.b st.c st.d st.a st.b st.c st.d
theorem mplBr4S64 (oa ob oc od a b c d : Nat) :
    md5S64 mplWords4 oa ob oc od a b c d = mplP4S64 oa ob oc od a b c d := rfl
theorem mplBr4T63 (oa ob oc od b c d t : Nat) :
    md5T63 mplWords4 oa ob oc od b c d t = mplP4T63 oa ob oc od b c d t :=
  mplBr4S64 oa ob oc od d _ b c
theorem mplBr4S63 (oa ob oc od a b c d : Nat) :
    md5S63 mplWords4 oa ob oc od a b c d = mplP4S63 oa ob oc od a b c d :=
  mplBr4T63 oa ob oc od b c d _
theorem mplBr4T62 (oa ob oc od b c d t : Nat) :
    md5T62 mplWords4 oa ob oc od b c d t = mplP4T62 oa ob oc od b c d t :=
  mplBr4S63 oa ob oc od d _ b c
theorem mplBr4S62 (oa ob oc od a b c d : Nat) :
    md5S62 mplWords4 oa ob oc od a b c d = mplP4S62 oa ob oc od a b c d :=
  mplBr4T62 oa ob oc od b c d _
theorem mplBr4T61 (oa ob oc od b c d t : Nat) :
    md5T61 mplWords4 oa ob oc od b c d t = mplP4T61 oa ob oc od b c d t :=
  mplBr4S62 oa ob oc od d _ b c
theorem mplBr4S61 (oa ob oc od a b c d : Nat) :
    md5S61 mplWords4 oa ob oc od a b c d = mplP4S61 oa ob oc od a b c d :=
  mplBr4T61 oa ob oc od b c d _
theorem mplBr4T60 (oa ob oc od b c d t : Nat) :
    md5T60 mplWords4 oa ob oc od b c d t = mplP4T60 oa ob oc od b c d t :=
  mplBr4S61 oa ob oc od d _ b c
theorem mplBr4S60 (oa ob oc od a b c d : Nat) :
    md5S60 mplWords4 oa ob oc od a b c d = mplP4S60 oa ob oc od a b c d :=
  mplBr4T60 oa ob oc od b c d _
theorem mplBr4T59 (oa ob oc od b c d t : Nat) :
    md5T59 mplWords4 oa ob oc od b c d t = mplP4T59 oa ob oc od b c d t :=
  mplBr4S60 oa ob oc od d _ b c
theorem mplBr4S59 (oa ob oc od a b c d : Nat) :
    md5S59 mplWords4 oa ob oc od a b c d = mplP4S59 oa ob oc od a b c d :=
  mplBr4T59 oa ob oc od b c d _
theorem mplBr4T58 (oa ob oc od b c d t : Nat) :
    md5T58 mplWords4 oa ob oc od b c d t = mplP4T58 oa ob oc od b c d t :=
  mplBr4S59 oa ob oc od d _ b c
theorem mplBr4S58 (oa ob oc od a b c d : Nat) :
    md5S58 mplWords4 oa ob oc od a b c d = mplP4S58 oa ob oc od a b c d :=
  mplBr4T58 oa ob oc od b c d _
theorem mplBr4T57 (oa ob oc od b c d t : Nat) :
    md5T57 mplWords4 oa ob oc od b c d t = mplP4T57 oa ob oc od b c d t :=
  mplBr4S58 oa ob oc od d _ b c
theorem mplBr4S57 (oa ob oc od a b c d : Nat) :
    md5S57 mplWords4 oa ob oc od a b c d = mplP4S57 oa ob oc od a b c d :=
  mplBr4T57 oa ob oc od b c d _
theorem mplBr4T56 (oa ob oc od b c d t : Nat) :
    md5T56 mplWords4 oa ob oc od b c d t = mplP4T56 oa ob oc od b c d t :=
  mplBr4S57 oa ob oc od d _ b c
theorem mplBr4S56 (oa ob oc od a b c d : Nat) :
    md5S56 mplWords4 oa ob oc od a b c d = mplP4S56 oa ob oc od a b c d :=
  mplBr4T56 oa ob oc od b c d _
theorem mplBr4T55 (oa ob oc od b c d t : Nat) :
    md5T55 mplWords4 oa ob oc od b c d t = mplP4T55 oa ob oc od b c d t :=
  mplBr4S56 oa ob oc od d _ b c
theorem mplBr4S55 (oa ob oc od a b c d : Nat) :
    md5S55 mplWords4 oa ob oc od a b c d = mplP4S55 oa ob oc od a b c d :=
  mplBr4T55 oa ob oc od b c d _
theorem mplBr4T54 (oa ob oc od b c d t : Nat) :
    md5T54 mplWords4 oa ob oc od b c d t = mplP4T54 oa ob oc od b c d t :=
  mplBr4S55 oa ob oc od d _ b c
theorem mplBr4S54 (oa ob oc od a b c d : Nat) :
    md5S54 mplWords4 oa ob oc od a b c d = mplP4S54 oa ob oc od a b c d :=
  mplBr4T54 oa ob oc od b c d _
theorem mplBr4T53 (oa ob oc od b c d t : Nat) :
    md5T53 mplWords4 oa ob oc od b c d t = mplP4T53 oa ob oc od b c d t :=
  mplBr4S54 oa ob oc od d _ b c
theorem mplBr4S53 (oa ob oc od a b c d : Nat) :
    md5S53 mplWords4 oa ob oc od a b c d = mplP4S53 oa ob oc od a b c d :=
  mplBr4T53 oa ob oc od b c d _
theorem mplBr4T52 (oa ob oc od b c d t : Nat) :
    md5T52 mplWords4 oa ob oc od b c d t = mplP4T52 oa ob oc od b c d t :=
  mplBr4S53 oa ob oc od d _ b c
theorem mplBr4S52 (oa ob oc od a b c d : Nat) :
    md5S52 mplWords4 oa ob oc od a b c d = mplP4S52 oa ob oc od a b c d :=
  mplBr4T52 oa ob oc od b c d _
theorem mplBr4T51 (oa ob oc od b c d t : Nat) :
    md5T51 mplWords4 oa ob oc od b c d t = mplP4T51 oa ob oc od b c d t :=
  mplBr4S52 oa ob oc od d _ b c
theorem mplBr4S51 (oa ob oc od a b c d : Nat) :
    md5S51 mplWords4 oa ob oc od a b c d = mplP4S51 oa ob oc od a b c d :=
  mplBr4T51 oa ob oc od b c d _
theorem mplBr4T50 (oa ob oc od b c d t : Nat) :
    md5T50 mplWords4 oa ob oc od b c d t = mplP4T50 oa ob oc od b c d t :=
  mplBr4S51 oa ob oc od d _ b c
theorem mplBr4S50 (oa ob oc od a b c d : Nat) :
    md5S50 mplWords4 oa ob oc od a b c d = mplP4S50 oa ob oc od a b c d :=
  mplBr4T50 oa ob oc od b c d _
theorem mplBr4T49 (oa ob oc od b c d t : Nat) :
    md5T49 mplWords4 oa ob oc od b c d t = mplP4T49 oa ob oc od b c d t :=
  mplBr4S50 oa ob oc od d _ b c
theorem mplBr4S49 (oa ob oc od a b c d : Nat) :
    md5S49 mplWords4 oa ob oc od a b c d = mplP4S49 oa ob oc od a b c d :=
  mplBr4T49 oa ob oc od b c d _
theorem mplBr4T48 (oa ob oc od b c d t : Nat) :
    md5T48 mplWords4 oa ob oc od b c d t = mplP4T48 oa ob oc od b c d t :=
  mplBr4S49 oa ob oc od d _ b c
theorem mplBr4S48 (oa ob oc od a b c d : Nat) :
    md5S48 mplWords4 oa ob oc od a b c d = mplP4S48 oa ob oc od a b c d :=
  mplBr4T48 oa ob oc od b c d _
theorem mplBr4T47 (oa ob oc od b c d t : Nat) :
    md5T47 mplWords4 oa ob oc od b c d t = mplP4T47 oa ob oc od b c d t :=
  mplBr4S48 oa ob oc od d _ b c
theorem mplBr4S47 (oa ob oc od a b c d : Nat) :
    md5S47 mplWords4 oa ob oc od a b c d = mplP4S47 oa ob oc od a b c d :=
  mplBr4T47 oa ob oc od b c d _
theorem mplBr4T46 (oa ob oc od b c d t : Nat) :
    md5T46 mplWords4 oa ob oc od b c d t = mplP4T46 oa ob oc od b c d t :=
  mplBr4S47 oa ob oc od d _ b c
theorem mplBr4S46 (oa ob oc od a b c d : Nat) :
    md5S46 mplWords4 oa ob oc od a b c d = mplP4S46 oa ob oc od a b c d :=
  mplBr4T46 oa ob oc od b c d _
theorem mplBr4T45 (oa ob oc od b c d t : Nat) :
    md5T45 mplWords4 oa ob oc od b c d t = mplP4T45 oa ob oc od b c d t :=
  mplBr4S46 oa ob oc od d _ b c
theorem mplBr4S45 (oa ob oc od a b c d : Nat) :
    md5S45 mplWords4 oa ob oc od a b c d = mplP4S45 oa ob oc od a b c d :=
  mplBr4T45 oa ob oc od b c d _
theorem mplBr4T44 (oa ob oc od b c d t : Nat) :
    md5T44 mplWords4 oa ob oc od b c d t = mplP4T44 oa ob oc od b c d t :=
  mplBr4S45 oa ob oc od d _ b c
theorem mplBr4S44 (oa ob oc od a b c d : Nat) :
    md5S44 mplWords4 oa ob oc od a b c d = mplP4S44 oa ob oc od a b c d :=
  mplBr4T44 oa ob oc od b c d _
theorem mplBr4T43 (oa ob oc od b c d t : Nat) :
    md5T43 mplWords4 oa ob oc od b c d t = mplP4T43 oa ob oc od b c d t :=
  mplBr4S44 oa ob oc od d _ b c
theorem mplBr4S43 (oa ob oc od a b c d : Nat) :
    md5S43 mplWords4 oa ob oc od a b c d = mplP4S43 oa ob oc od a b c d :=
  mplBr4T43 oa ob oc od b c d _
theorem mplBr4T42 (oa ob oc od b c d t : Nat) :
    md5T42 mplWords4 oa ob oc od b c d t = mplP4T42 oa ob oc od b c d t :=
  mplBr4S43 oa ob oc od d _ b c
theorem mplBr4S42 (oa ob oc od a b c d : Nat) :
    md5S42 mplWords4 oa ob oc od a b c d = mplP4S42 oa ob oc od a b c d :=
  mplBr4T42 oa ob oc od b c d _
theorem mplBr4T41 (oa ob oc od b c d t : Nat) :
    md5T41 mplWords4 oa ob oc od b c d t = mplP4T41 oa ob oc od b c d t :=
  mplBr4S42 oa ob oc od d _ b c
theorem mplBr4S41 (oa ob oc od a b c d : Nat) :
    md5S41 mplWords4 oa ob oc od a b c d = mplP4S41 oa ob oc od a b c d :=
  mplBr4T41 oa ob oc od b c d _
theorem mplBr4T40 (oa ob oc od b c d t : Nat) :
    md5T40 mplWords4 oa ob oc od b c d t = mplP4T40 oa ob oc od b c d t :=
  mplBr4S41 oa ob oc od d _ b c
theorem mplBr4S40 (oa ob oc od a b c d : Nat) :
    md5S40 mplWords4 oa ob oc od a b c d = mplP4S40 oa ob oc od a b c d :=
  mplBr4T40 oa ob oc od b c d _
theorem mplBr4T39 (oa ob oc od b c d t : Nat) :
    md5T39 mplWords4 oa ob oc od b c d t = mplP4T39 oa ob oc od b c d t :=
  mplBr4S40 oa ob oc od d _ b c
theorem mplBr4S39 (oa ob oc od a b c d : Nat) :
    md5S39 mplWords4 oa ob oc od a b c d = mplP4S39 oa ob oc od a b c d :=
  mplBr4T39 oa ob oc od b c d _
theorem mplBr4T38 (oa ob oc od b c d t : Nat) :
    md5T38 mplWords4 oa ob oc od b c d t = mplP4T38 oa ob oc od b c d t :=
  mplBr4S39 oa ob oc od d _ b c
theorem mplBr4S38 (oa ob oc od a b c d : Nat) :
    md5S38 mplWords4 oa ob oc od a b c d = mplP4S38 oa ob oc od a b c d :=
  mplBr4T38 oa ob oc od b c d _
theorem mplBr4T37 (oa ob oc od b c d t : Nat) :
    md5T37 mplWords4 oa ob oc od b c d t = mplP4T37 oa ob oc od b c d t :=
  mplBr4S38 oa ob oc od d _ b c
theorem mplBr4S37 (oa ob oc od a b c d : Nat) :
    md5S37 mplWords4 oa ob oc od a b c d = mplP4S37 oa ob oc od a b c d :=
  mplBr4T37 oa ob oc od b c d _
theorem mplBr4T36 (oa ob oc od b c d t : Nat) :
    md5T36 mplWords4 oa ob oc od b c d t = mplP4T36 oa ob oc od b c d t :=
  mplBr4S37 oa ob oc od d _ b c
theorem mplBr4S36 (oa ob oc od a b c d : Nat) :
    md5S36 mplWords4 oa ob oc od a b c d = mplP4S36 oa ob oc od a b c d :=
  mplBr4T36 oa ob oc od b c d _
theorem mplBr4T35 (oa ob oc od b c d t : Nat) :
    md5T35 mplWords4 oa ob oc od b c d t = mplP4T35 oa ob oc od b c d t :=
  mplBr4S36 oa ob oc od d _ b c
theorem mplBr4S35 (oa ob oc od a b c d : Nat) :
    md5S35 mplWords4 oa ob oc od a b c d = mplP4S35 oa ob oc od a b c d :=
  mplBr4T35 oa ob oc od b c d _
theorem mplBr4T34 (oa ob oc od b c d t : Nat) :
    md5T34 mplWords4 oa ob oc od b c d t = mplP4T34 oa ob oc od b c d t :=
  mplBr4S35 oa ob oc od d _ b c
theorem mplBr4S34 (oa ob oc od a b c d : Nat) :
    md5S34 mplWords4 oa ob oc od a b c d = mplP4S34 oa ob oc od a b c d :=
  mplBr4T34 oa ob oc od b c d _
theorem mplBr4T33 (oa ob oc od b c d t : Nat) :
    md5T33 mplWords4 oa ob oc od b c d t = mplP4T33 oa ob oc od b c d t :=
  mplBr4S34 oa ob oc od d _ b c
theorem mplBr4S33 (oa ob oc od a b c d : Nat) :
    md5S33 mplWords4 oa ob oc od a b c d = mplP4S33 oa ob oc od a b c d :=
  mplBr4T33 oa ob oc od b c d _
theorem mplBr4T32 (oa ob oc od b c d t : Nat) :
    md5T32 mplWords4 oa ob oc od b c d t = mplP4T32 oa ob oc od b c d t :=
  mplBr4S33 oa ob oc od d _ b c
theorem mplBr4S32 (oa ob oc od a b c d : Nat) :
    md5S32 mplWords4 oa ob oc od a b c d = mplP4S32 oa ob oc od a b c d :=
  mplBr4T32 oa ob oc od b c d _
theorem mplBr4T31 (oa ob oc od b c d t : Nat) :
    md5T31 mplWords4 oa ob oc od b c d t = mplP4T31 oa ob oc od b c d t :=
  mplBr4S32 oa ob oc od d _ b c
theorem mplBr4S31 (oa ob oc od a b c d : Nat) :
    md5S31 mplWords4 oa ob oc od a b c d = mplP4S31 oa ob oc od a b c d :=
  mplBr4T31 oa ob oc od b c d _
theorem mplBr4T30 (oa ob oc od b c d t : Nat) :
    md5T30 mplWords4 oa ob oc od b c d t = mplP4T30 oa ob oc od b c d t :=
  mplBr4S31 oa ob oc od d _ b c
theorem mplBr4S30 (oa ob oc od a b c d : Nat) :
    md5S30 mplWords4 oa ob oc od a b c d = mplP4S30 oa ob oc od a b c d :=
  mplBr4T30 oa ob oc od b c d _
theorem mplBr4T29 (oa ob oc od b c d t : Nat) :
    md5T29 mplWords4 oa ob oc od b c d t = mplP4T29 oa ob oc od b c d t :=
  mplBr4S30 oa ob oc od d _ b c
theorem mplBr4S29 (oa ob oc od a b c d : Nat) :
    md5S29 mplWords4 oa ob oc od a b c d = mplP4S29 oa ob oc od a b c d :=
  mplBr4T29 oa ob oc od b c d _
theorem mplBr4T28 (oa ob oc od b c d t : Nat) :
    md5T28 mplWords4 oa ob oc od b c d t = mplP4T28 oa ob oc od b c d t :=
  mplBr4S29 oa ob oc od d _ b c
theorem mplBr4S28 (oa ob oc od a b c d : Nat) :
    md5S28 mplWords4 oa ob oc od a b c d = mplP4S28 oa ob oc od a b c d :=
  mplBr4T28 oa ob oc od b c d _
theorem mplBr4T27 (oa ob oc od b c d t : Nat) :
    md5T27 mplWords4 oa ob oc od b c d t = mplP4T27 oa ob oc od b c d t :=
  mplBr4S28 oa ob oc od d _ b c
theorem mplBr4S27 (oa ob oc od a b c d : Nat) :
    md5S27 mplWords4 oa ob oc od a b c d = mplP4S27 oa ob oc od a b c d :=
  mplBr4T27 oa ob oc od b c d _
theorem mplBr4T26 (oa ob oc od b c d t : Nat) :
    md5T26 mplWords4 oa ob oc od b c d t = mplP4T26 oa ob oc od b c d t :=
  mplBr4S27 oa ob oc od d _ b c
theorem mplBr4S26 (oa ob oc od a b c d : Nat) :
    md5S26 mplWords4 oa ob oc od a b c d = mplP4S26 oa ob oc od a b c d :=
  mplBr4T26 oa ob oc od b c d _
theorem mplBr4T25 (oa ob oc od b c d t : Nat) :
    md5T25 mplWords4 oa ob oc od b c d t = mplP4T25 oa ob oc od b c d t :=
  mplBr4S26 oa ob oc od d _ b c
theorem mplBr4S25 (oa ob oc od a b c d : Nat) :
    md5S25 mplWords4 oa ob oc od a b c d = mplP4S25 oa ob oc od a b c d :=
  mplBr4T25 oa ob oc od b c d _
theorem mplBr4T24 (oa ob oc od b c d t : Nat) :
    md5T24 mplWords4 oa ob oc od b c d t = mplP4T24 oa ob oc od b c d t :=
  mplBr4S25 oa ob oc od d _ b c
theorem mplBr4S24 (oa ob oc od a b c d : Nat) :
    md5S24 mplWords4 oa ob oc od a b c d = mplP4S24 oa ob oc od a b c d :=
  mplBr4T24 oa ob oc od b c d _
theorem mplBr4T23 (oa ob oc od b c d t : Nat) :
    md5T23 mplWords4 oa ob oc od b c d t = mplP4T23 oa ob oc od b c d t :=
  mplBr4S24 oa ob oc od d _ b c
theorem mplBr4S23 (oa ob oc od a b c d : Nat) :
    md5S23 mplWords4 oa ob oc od a b c d = mplP4S23 oa ob oc od a b c d :=
  mplBr4T23 oa ob oc od b c d _
theorem mplBr4T22 (oa ob oc od b c d t : Nat) :
    md5T22 mplWords4 oa ob oc od b c d t = mplP4T22 oa ob oc od b c d t :=
  mplBr4S23 oa ob oc od d _ b c
theorem mplBr4S22 (oa ob oc od a b c d : Nat) :
    md5S22 mplWords4 oa ob oc od a b c d = mplP4S22 oa ob oc od a b c d :=
  mplBr4T22 oa ob oc od b c d _
theorem mplBr4T21 (oa ob oc od b c d t : Nat) :
    md5T21 mplWords4 oa ob oc od b c d t = mplP4T21 oa ob oc od b c d t :=
  mplBr4S22 oa ob oc od d _ b c
theorem mplBr4S21 (oa ob oc od a b c d : Nat) :
    md5S21 mplWords4 oa ob oc od a b c d = mplP4S21 oa ob oc od a b c d :=
  mplBr4T21 oa ob oc od b c d _
theorem mplBr4T20 (oa ob oc od b c d t : Nat) :
    md5T20 mplWords4 oa ob oc od b c d t = mplP4T20 oa ob oc od b c d t :=
  mplBr4S21 oa ob oc od d _ b c
theorem mplBr4S20 (oa ob oc od a b c d : Nat) :
    md5S20 mplWords4 oa ob oc od a b c d = mplP4S20 oa ob oc od a b c d :=
  mplBr4T20 oa ob oc od b c d _
theorem mplBr4T19 (oa ob oc od b c d t : Nat) :
    md5T19 mplWords4 oa ob oc od b c d t = mplP4T19 oa ob oc od b c d t :=
  mplBr4S20 oa ob oc od d _ b c
theorem mplBr4S19 (oa ob oc od a b c d : Nat) :
    md5S19 mplWords4 oa ob oc od a b c d = mplP4S19 oa ob oc od a b c d :=
  mplBr4T19 oa ob oc od b c d _
theorem mplBr4T18 (oa ob oc od b c d t : Nat) :
    md5T18 mplWords4 oa ob oc od b c d t = mplP4T18 oa ob oc od b c d t :=
  mplBr4S19 oa ob oc od d _ b c
theorem mplBr4S18 (oa ob oc od a b c d : Nat) :
    md5S18 mplWords4 oa ob oc od a b c d = mplP4S18 oa ob oc od a b c d :=
  mplBr4T18 oa ob oc od b c d _
theorem mplBr4T17 (oa ob oc od b c d t : Nat) :
    md5T17 mplWords4 oa ob oc od b c d t = mplP4T17 oa ob oc od b c d t :=
  mplBr4S18 oa ob oc od d _ b c
theorem mplBr4S17 (oa ob oc od a b c d : Nat) :
    md5S17 mplWords4 oa ob oc od a b c d = mplP4S17 oa ob oc od a b c d :=
  mplBr4T17 oa ob oc od b c d _
theorem mplBr4T16 (oa ob oc od b c d t : Nat) :
    md5T16 mplWords4 oa ob oc od b c d t = mplP4T16 oa ob oc od b c d t :=
  mplBr4S17 oa ob oc od d _ b c
theorem mplBr4S16 (oa ob oc od a b c d : Nat) :
    md5S16 mplWords4 oa ob oc od a b c d = mplP4S16 oa ob oc od a b c d :=
  mplBr4T16 oa ob oc od b c d _
theorem mplBr4T15 (oa ob oc od b c d t : Nat) :
    md5T15 mplWords4 oa ob oc od b c d t = mplP4T15 oa ob oc od b c d t :=
  mplBr4S16 oa ob oc od d _ b c
theorem mplBr4S15 (oa ob oc od a b c d : Nat) :
    md5S15 mplWords4 oa ob oc od a b c d = mplP4S15 oa ob oc od a b c d :=
  mplBr4T15 oa ob oc od b c d _
theorem mplBr4T14 (oa ob oc od b c d t : Nat) :
    md5T14 mplWords4 oa ob oc od b c d t = mplP4T14 oa ob oc od b c d t :=
  mplBr4S15 oa ob oc od d _ b c
theorem mplBr4S14 (oa ob oc od a b c d : Nat) :
    md5S14 mplWords4 oa ob oc od a b c d = mplP4S14 oa ob oc od a b c d :=
  mplBr4T14 oa ob oc od b c d _
theorem mplBr4T13 (oa ob oc od b c d t : Nat) :
    md5T13 mplWords4 oa ob oc od b c d t = mplP4T13 oa ob oc od b c d t :=
  mplBr4S14 oa ob oc od d _ b c
theorem mplBr4S13 (oa ob oc od a b c d : Nat) :
    md5S13 mplWords4 oa ob oc od a b c d = mplP4S13 oa ob oc od a b c d :=
  mplBr4T13 oa ob oc od b c d _
theorem mplBr4T12 (oa ob oc od b c d t : Nat) :
    md5T12 mplWords4 oa ob oc od b c d t = mplP4T12 oa ob oc od b c d t :=
  mplBr4S13 oa ob oc od d _ b c
theorem mplBr4S12 (oa ob oc od a b c d : Nat) :
    md5S12 mplWords4 oa ob oc od a b c d = mplP4S12 oa ob oc od a b c d :=
  mplBr4T12 oa ob oc od b c d _
theorem mplBr4T11 (oa ob oc od b c d t : Nat) :
    md5T11 mplWords4 oa ob oc od b c d t = mplP4T11 oa ob oc od b c d t :=
  mplBr4S12 oa ob oc od d _ b c
theorem mplBr4S11 (oa ob oc od a b c d : Nat) :
    md5S11 mplWords4 oa ob oc od a b c d = mplP4S11 oa ob oc od a b c d :=
  mplBr4T11 oa ob oc od b c d _
theorem mplBr4T10 (oa ob oc od b c d t : Nat) :
    md5T10 mplWords4 oa ob oc od b c d t = mplP4T10 oa ob oc od b c d t :=
  mplBr4S11 oa ob oc od d _ b c
theorem mplBr4S10 (oa ob oc od a b c d : Nat) :
    md5S10 mplWords4 oa ob oc od a b c d = mplP4S10 oa ob oc od a b c d :=
  mplBr4T10 oa ob oc od b c d _
theorem mplBr4T9 (oa ob oc od b c d t : Nat) :
    md5T9 mplWords4 oa ob oc od b c d t = mplP4T9 oa ob oc od b c d t :=
  mplBr4S10 oa ob oc od d _ b c
theorem mplBr4S9 (oa ob oc od a b c d : Nat) :
    md5S9 mplWords4 oa ob oc od a b c d = mplP4S9 oa ob oc od a b c d :=
  mplBr4T9 oa ob oc od b c d _
theorem mplBr4T8 (oa ob oc od b c d t : Nat) :
    md5T8 mplWords4 oa ob oc od b c d t = mplP4T8 oa ob oc od b c d t :=
  mplBr4S9 oa ob oc od d _ b c
theorem mplBr4S8 (oa ob oc od a b c d : Nat) :
    md5S8 mplWords4 oa ob oc od a b c d = mplP4S8 oa ob oc od a b c d :=
  mplBr4T8 oa ob oc od b c d _
theorem mplBr4T7 (oa ob oc od b c d t : Nat) :
    md5T7 mplWords4 oa ob oc od b c d t = mplP4T7 oa ob oc od b c d t :=
  mplBr4S8 oa ob oc od d _ b c
theorem mplBr4S7 (oa ob oc od a b c d : Nat) :
    md5S7 mplWords4 oa ob oc od a b c d = mplP4S7 oa ob oc od a b c d :=
  mplBr4T7 oa ob oc od b c d _
theorem mplBr4T6 (oa ob oc od b c d t : Nat) :
    md5T6 mplWords4 oa ob oc od b c d t = mplP4T6 oa ob oc od b c d t :=
  mplBr4S7 oa ob oc od d _ b c
theorem mplBr4S6 (oa ob oc od a b c d : Nat) :
    md5S6 mplWords4 oa ob oc od a b c d = mplP4S6 oa ob oc od a b c d :=
  mplBr4T6 oa ob oc od b c d _
theorem mplBr4T5 (oa ob oc od b c d t : Nat) :
    md5T5 mplWords4 oa ob oc od b c d t = mplP4T5 oa ob oc od b c d t :=
  mplBr4S6 oa ob oc od d _ b c
theorem mplBr4S5 (oa ob oc od a b c d : Nat) :
    md5S5 mplWords4 oa ob oc od a b c d = mplP4S5 oa ob oc od a b c d :=
  mplBr4T5 oa ob oc od b c d _
theorem mplBr4T4 (oa ob oc od b c d t : Nat) :
    md5T4 mplWords4 oa ob oc od b c d t = mplP4T4 oa ob oc od b c d t :=
  mplBr4S5 oa ob oc od d _ b c
theorem mplBr4S4 (oa ob oc od a b c d : Nat) :
    md5S4 mplWords4 oa ob oc od a b c d = mplP4S4 oa ob oc od a b c d :=
  mplBr4T4 oa ob oc od b c d _
theorem mplBr4T3 (oa ob oc od b c d t : Nat) :
    md5T3 mplWords4 oa ob oc od b c d t = mplP4T3 oa ob oc od b c d t :=
  mplBr4S4 oa ob oc od d _ b c
theorem mplBr4S3 (oa ob oc od a b c d : Nat) :
    md5S3 mplWords4 oa ob oc od a b c d = mplP4S3 oa ob oc od a b c d :=
  mplBr4T3 oa ob oc od b c d _
theorem mplBr4T2 (oa ob oc od b c d t : Nat) :
    md5T2 mplWords4 oa ob oc od b c d t = mplP4T2 oa ob oc od b c d t :=
  mplBr4S3 oa ob oc od d _ b c
theorem mplBr4S2 (oa ob oc od a b c d : Nat) :
    md5S2 mplWords4 oa ob oc od a b c d = mplP4S2 oa ob oc od a b c d :=
  mplBr4T2 oa ob oc od b c d _
theorem mplBr4T1 (oa ob oc od b c d t : Nat) :
    md5T1 mplWords4 oa ob oc od b c d t = mplP4T1 oa ob oc od b c d t :=
  mplBr4S2 oa ob oc od d _ b c
theorem mplBr4S1 (oa ob oc od a b c d : Nat) :
    md5S1 mplWords4 oa ob oc od a b c d = mplP4S1 oa ob oc od a b c d :=
  mplBr4T1 oa ob oc od b c d _
theorem mplBr4T0 (oa ob oc od b c d t : Nat) :
    md5T0 mplWords4 oa ob oc od b c d t = mplP4T0 oa ob oc od b c d t :=
  mplBr4S1 oa ob oc od d _ b c
theorem mplBr4S0 (oa ob oc od a b c d : Nat) :
    md5S0 mplWords4 oa ob oc od a b c d = mplP4S0 oa ob oc od a b c d :=
  mplBr4T0 oa ob oc od b c d _
/-- The residue-`4` pipeline computes the generic compression of the
residue-`4` schedule. -/
theorem mplBridge4 (st : MD5State) : md5Compress mplWords4 st = mplP4C st :=
  mplBr4S0 st.a st.b st.c st.d st.a st.b st.c st.d
/-! ### From the generic MD5 driver to the specialised runner

These lemmas justify evaluating the 16 385-block hash of the repeated
`"maplesyrup"` stream through the specialised pipelines. -/

theorem forceMD5_eq (n : Nat) (k : Nat → MD5State) : forceMD5 n k = k n := by
  cases n <;> rfl

theorem mplRun_eq_spec (n : Nat) : ∀ r st, mplRun r n st = mplRunSpec r n st := by
  induction n with
  | zero => intro r st; rfl
  | succ n ih =>
    intro r st
    simp only [mplRun, forceMD5_eq]
    rw [show (⟨(mplPipe r st).a, (mplPipe r st).b, (mplPipe r st).c, (mplPipe r st).d⟩ :
        MD5State) = mplPipe r st from rfl]
    rw [ih]
    rfl

theorem mplNext_eq (r : Nat) (h : r < 5) : mplNext r = (r + 1) % 5 := by
  unfold mplNext
  by_cases h4 : r = 4
  · rw [if_pos (by simp [h4])]
    omega
  · rw [if_neg (by simp [h4])]
    omega

theorem mplNext_lt (r : Nat) (h : r < 5) : mplNext r < 5 := by
  rw [mplNext_eq r h]
  omega

theorem mplAdv_eq (m : Nat) : ∀ r, r < 5 → mplAdv r m = (r + m) % 5 := by
  induction m with
  | zero =>
    intro r h
    show r = (r + 0) % 5
    omega
  | succ m ih =>
    intro r h
    show mplAdv (mplNext r) m = (r + (m + 1)) % 5
    rw [ih (mplNext r) (mplNext_lt r h), mplNext_eq r h]
    omega

theorem mplRunSpec_add (m : Nat) : ∀ n r st,
    mplRunSpec r (m + n) st = mplRunSpec (mplAdv r m) n (mplRunSpec r m st) := by
  induction m with
  | zero =>
    intro n r st
    rw [Nat.zero_add]
    rfl
  | succ m ih =>
    intro n r st
    have h : m + 1 + n = (m + n) + 1 := by omega
    rw [h]
    show mplRunSpec (mplNext r) (m + n) (mplPipe r st) =
      mplRunSpec (mplAdv r (m + 1)) n (mplRunSpec r (m + 1) st)
    rw [ih n (mplNext r) (mplPipe r st)]
    rfl

theorem md5BlocksFrom_add (m : Nat) : ∀ n f i st,
    md5BlocksFrom f i (m + n) st = md5BlocksFrom f (i + m) n (md5BlocksFrom f i m st) := by
  induction m with
  | zero =>
    intro n f i st
    rw [Nat.zero_add, Nat.add_zero]
    rfl
  | succ m ih =>
    intro n f i st
    have h : m + 1 + n = (m + n) + 1 := by omega
    rw [h]
    show md5BlocksFrom f (i + 1) (m + n) (md5Compress (md5Block f i) st) =
      md5BlocksFrom f (i + (m + 1)) n (md5BlocksFrom f i (m + 1) st)
    rw [ih n f (i + 1) (md5Compress (md5Block f i) st)]
    have h2 : i + 1 + m = i + (m + 1) := by omega
    rw [h2]
    rfl

/-- Below the password length boundary both branches of `pwStreamByte` give
the cyclically repeated password byte. -/
theorem pwStreamByte_lt (p : List Nat) (hp : p ≠ []) (j : Nat) (hj : j < 1048576) :
    pwStreamByte p j = cycStreamByte p j := by
  have hlen : 0 < p.length := List.length_pos.mpr hp
  unfold pwStreamByte cycStreamByte
  by_cases h : j < 1048576 / p.length * p.length
  · simp [h]
  · simp only [h, if_false]
    have h1 : 1048576 / p.length * p.length ≤ j := Nat.le_of_not_lt h
    have h2 : 1048576 % p.length < p.length := Nat.mod_lt _ hlen
    have h3 : 1048576 / p.length * p.length + 1048576 % p.length = 1048576 :=
      Nat.div_add_mod' 1048576 p.length
    have h4 : j - 1048576 / p.length * p.length < p.length := by omega
    have h5 : j % p.length = (j - 1048576 / p.length * p.length) % p.length := by
      conv_lhs => rw [show j = (j - 1048576 / p.length * p.length) +
        (1048576 / p.length) * p.length by omega]
      rw [Nat.add_mul_mod_self_right]
    rw [h5, Nat.mod_eq_of_lt h4]

/-- The stream byte of `"maplesyrup"` at any in-range position, in closed
cyclic form. -/
theorem mplStream_lt (j : Nat) (hj : j < 1048576) :
    mplStream j = mapleBytes.getD (j % 10) 0 := by
  show md5PadByte (pwStreamByte mapleBytes) 1048576 j = _
  unfold md5PadByte
  rw [if_pos hj, pwStreamByte_lt mapleBytes (by decide) j hj]
  rfl

/-- Two in-range stream positions that agree modulo 10 hold the same byte. -/
theorem mplStream_cong (a b : Nat) (ha : a < 1048576) (hb : b < 1048576)
    (h : a % 10 = b % 10) : mplStream a = mplStream b := by
  rw [mplStream_lt a ha, mplStream_lt b hb, h]

/-- Every full block of the `"maplesyrup"` stream has the message schedule
of its index residue modulo 5 (the stream has period 320 bytes = 5 blocks). -/
theorem md5Block_mplStream_shift (i : Nat) (hi : i < 16384) (g : Nat) :
    md5Block mplStream i g = md5Block mplStream (i % 5) g := by
  have h5 : i % 5 < 5 := Nat.mod_lt _ (by omega)
  unfold md5Block
  by_cases hg : g < 16
  · simp only [hg, if_true]
    rw [mplStream_cong (64 * i + 4 * g) (64 * (i % 5) + 4 * g)
        (by omega) (by omega) (by omega),
      mplStream_cong (64 * i + 4 * g + 1) (64 * (i % 5) + 4 * g + 1)
        (by omega) (by omega) (by omega),
      mplStream_cong (64 * i + 4 * g + 2) (64 * (i % 5) + 4 * g + 2)
        (by omega) (by omega) (by omega),
      mplStream_cong (64 * i + 4 * g + 3) (64 * (i % 5) + 4 * g + 3)
        (by omega) (by omega) (by omega)]
  · simp [hg]

theorem md5Block_mpl_res0 : md5Block mplStream 0 = mplWords0 := by
  funext g
  by_cases hg : g < 16
  · interval_cases g <;> rfl
  · show md5Block mplStream 0 g = (mplSched 0).getD g 0
    rw [List.getD_eq_default _ _ (by simp [mplSched]; omega)]
    simp [md5Block, hg]

theorem md5Block_mpl_res1 : md5Block mplStream 1 = mplWords1 := by
  funext g
  by_cases hg : g < 16
  · interval_cases g <;> rfl
  · show md5Block mplStream 1 g = (mplSched 1).getD g 0
    rw [List.getD_eq_default _ _ (by simp [mplSched]; omega)]
    simp [md5Block, hg]

theorem md5Block_mpl_res2 : md5Block mplStream 2 = mplWords2 := by
  funext g
  by_cases hg : g < 16
  · interval_cases g <;> rfl
  · show md5Block mplStream 2 g = (mplSched 2).getD g 0
    rw [List.getD_eq_default _ _ (by simp [mplSched]; omega)]
    simp [md5Block, hg]

theorem md5Block_mpl_res3 : md5Block mplStream 3 = mplWords3 := by
  funext g
  by_cases hg : g < 16
  · interval_cases g <;> rfl
  · show md5Block mplStream 3 g = (mplSched 3).getD g 0
    rw [List.getD_eq_default _ _ (by simp [mplSched]; omega)]
    simp [md5Block, hg]

theorem md5Block_mpl_res4 : md5Block mplStream 4 = mplWords4 := by
  funext g
  by_cases hg : g < 16
  · interval_cases g <;> rfl
  · show md5Block mplStream 4 g = (mplSched 4).getD g 0
    rw [List.getD_eq_default _ _ (by simp [mplSched]; omega)]
    simp [md5Block, hg]

/-- Any full stream block compresses through the specialised pipeline of its
residue. -/
theorem md5Compress_mpl (i : Nat) (hi : i < 16384) (st : MD5State) :
    md5Compress (md5Block mplStream i) st = mplPipe (i % 5) st := by
  have hfun : md5Block mplStream i = md5Block mplStream (i % 5) :=
    funext fun g => md5Block_mplStream_shift i hi g
  have h5 : i % 5 < 5 := Nat.mod_lt _ (by omega)
  rw [hfun]
  set r := i % 5 with hr
  interval_cases r
  · rw [md5Block_mpl_res0]; exact mplBridge0 st
  · rw [md5Block_mpl_res1]; exact mplBridge1 st
  · rw [md5Block_mpl_res2]; exact mplBridge2 st
  · rw [md5Block_mpl_res3]; exact mplBridge3 st
  · rw [md5Block_mpl_res4]; exact mplBridge4 st

/-- The generic MD5 driver on the `"maplesyrup"` stream agrees with the
specialised runner over the 16 384 full blocks. -/
theorem md5BlocksFrom_eq_runSpec (n : Nat) : ∀ i st, i + n ≤ 16384 →
    md5BlocksFrom mplStream i n st = mplRunSpec (i % 5) n st := by
  induction n with
  | zero => intro i st _; rfl
  | succ n ih =>
    intro i st h
    show md5BlocksFrom mplStream (i + 1) n (md5Compress (md5Block mplStream i) st) =
      mplRunSpec (mplNext (i % 5)) n (mplPipe (i % 5) st)
    rw [md5Compress_mpl i (by omega) st, ih (i + 1) _ (by omega)]
    have h5 : i % 5 < 5 := Nat.mod_lt _ (by omega)
    have hnext : (i + 1) % 5 = mplNext (i % 5) := by
      unfold mplNext
      by_cases h4 : i % 5 = 4
      · rw [if_pos (by simp [h4])]
        omega
      · rw [if_neg (by simp [h4])]
        omega
    rw [hnext]

/-- State after 512 of the 16 384 full blocks of the `"maplesyrup"` stream. -/
theorem mplStage1 : mplRun 0 512 md5Init =
    ⟨280000320, 1867023748, 177912374, 994803122⟩ := by decide!

/-- State after 1024 of the 16 384 full blocks of the `"maplesyrup"` stream. -/
theorem mplStage2 : mplRun 2 512 ⟨280000320, 1867023748, 177912374, 994803122⟩ =
    ⟨3932136037, 3782190196, 1357064276, 981507288⟩ := by decide!

/-- State after 1536 of the 16 384 full blocks of the `"maplesyrup"` stream. -/
theorem mplStage3 : mplRun 4 512 ⟨3932136037, 3782190196, 1357064276, 981507288⟩ =
    ⟨1727059671, 3473824918, 205113197, 4253425606⟩ := by decide!

/-- State after 2048 of the 16 384 full blocks of the `"maplesyrup"` stream. -/
theorem mplStage4 : mplRun 1 512 ⟨1727059671, 3473824918, 205113197, 4253425606⟩ =
    ⟨1836635787, 1493529427, 2525247907, 2287619238⟩ := by decide!

/-- State after 2560 of the 16 384 full blocks of the `"maplesyrup"` stream. -/
theorem mplStage5 : mplRun 3 512 ⟨1836635787, 1493529427, 2525247907, 2287619238⟩ =
    ⟨1516987967, 2287523822, 3072835709, 3689136172⟩ := by decide!

/-- State after 3072 of the 16 384 full blocks of the `"maplesyrup"` stream. -/
theorem mplStage6 : mplRun 0 512 ⟨1516987967, 2287523822, 3072835709, 3689136172⟩ =
    ⟨1492858542, 3483119556, 3389963839, 4117895280⟩ := by decide!

/-- State after 3584 of the 16 384 full blocks of the `"maplesyrup"` stream. -/
theorem mplStage7 : mplRun 2 512 ⟨1492858542, 3483119556, 3389963839, 4117895280⟩ =
    ⟨110446438, 3373699831, 1664523543, 2100242728⟩ := by decide!

/-- State after 4096 of the 16 384 full blocks of the `"maplesyrup"` stream. -/
theorem mplStage8 : mplRun 4 512 ⟨110446438, 3373699831, 1664523543, 2100242728⟩ =
    ⟨4108440517, 3223634854, 1018197754, 3061321069⟩ := by decide!

/-- State after 4608 of the 16 384 full blocks of the `"maplesyrup"` stream. -/
theorem mplStage9 : mplRun 1 512 ⟨4108440517, 3223634854, 1018197754, 3061321069⟩ =
    ⟨2102332894, 3582758711, 2543600550, 1852119582⟩ := by decide!

/-- State after 5120 of the 16 384 full blocks of the `"maplesyrup"` stream. -/
theorem mplStage10 : mplRun 3 512 ⟨2102332894, 3582758711, 2543600550, 1852119582⟩ =
    ⟨3399678257, 1158378369, 2344903018, 260868401⟩ := by decide!

/-- State after 5632 of the 16 384 full blocks of the `"maplesyrup"` stream. -/
theorem mplStage11 : mplRun 0 512 ⟨3399678257, 1158378369, 2344903018, 260868401⟩ =
    ⟨1301330632, 827287914, 1213835537, 369938001⟩ := by decide!

/-- State after 6144 of the 16 384 full blocks of the `"maplesyrup"` stream. -/
theorem mplStage12 : mplRun 2 512 ⟨1301330632, 827287914, 1213835537, 369938001⟩ =
    ⟨4059822310, 2524180806, 1778506883, 2832327824⟩ := by decide!

/-- State after 6656 of the 16 384 full blocks of the `"maplesyrup"` stream. -/
theorem mplStage13 : mplRun 4 512 ⟨4059822310, 2524180806, 1778506883, 2832327824⟩ =
    ⟨2951925860, 3024616086, 1049820401, 3431659021⟩ := by decide!

/-- State after 7168 of the 16 384 full blocks of the `"maplesyrup"` stream. -/
theorem mplStage14 : mplRun 1 512 ⟨2951925860, 3024616086, 1049820401, 3431659021⟩ =
    ⟨2198615496, 3535613896, 186063096, 3776951251⟩ := by decide!

/-- State after 7680 of the 16 384 full blocks of the `"maplesyrup"` stream. -/
theorem mplStage15 : mplRun 3 512 ⟨2198615496, 3535613896, 186063096, 3776951251⟩ =
    ⟨140912214, 711820083, 2652502816, 2168013011⟩ := by decide!

/-- State after 8192 of the 16 384 full blocks of the `"maplesyrup"` stream. -/
theorem mplStage16 : mplRun 0 512 ⟨140912214, 711820083, 2652502816, 2168013011⟩ =
    ⟨4018715693, 912975652, 2348917184, 709152530⟩ := by decide!

/-- State after 8704 of the 16 384 full blocks of the `"maplesyrup"` stream. -/
theorem mplStage17 : mplRun 2 512 ⟨4018715693, 912975652, 2348917184, 709152530⟩ =
    ⟨592758318, 4117514009, 925652250, 2523098092⟩ := by decide!

/-- State after 9216 of the 16 384 full blocks of the `"maplesyrup"` stream. -/
theorem mplStage18 : mplRun 4 512 ⟨592758318, 4117514009, 925652250, 2523098092⟩ =
    ⟨3766082117, 491345819, 953842847, 2701637473⟩ := by decide!

/-- State after 9728 of the 16 384 full blocks of the `"maplesyrup"` stream. -/
theorem mplStage19 : mplRun 1 512 ⟨3766082117, 491345819, 953842847, 2701637473⟩ =
    ⟨1772506085, 1729187039, 2093760117, 3749046850⟩ := by decide!

/-- State after 10240 of the 16 384 full blocks of the `"maplesyrup"` stream. -/
theorem mplStage20 : mplRun 3 512 ⟨1772506085, 1729187039, 2093760117, 3749046850⟩ =
    ⟨778235355, 3173757036, 320344743, 1996953793⟩ := by decide!

/-- State after 10752 of the 16 384 full blocks of the `"maplesyrup"` stream. -/
theorem mplStage21 : mplRun 0 512 ⟨778235355, 3173757036, 320344743, 1996953793⟩ =
    ⟨2549995761, 976326451, 2930539189, 4023779549⟩ := by decide!

/-- State after 11264 of the 16 384 full blocks of the `"maplesyrup"` stream. -/
theorem mplStage22 : mplRun 2 512 ⟨2549995761, 976326451, 2930539189, 4023779549⟩ =
    ⟨3321521105, 1565068921, 800943382, 828328182⟩ := by decide!

/-- State after 11776 of the 16 384 full blocks of the `"maplesyrup"` stream. -/
theorem mplStage23 : mplRun 4 512 ⟨3321521105, 1565068921, 800943382, 828328182⟩ =
    ⟨1729544331, 891312078, 2335574094, 981139954⟩ := by decide!

/-- State after 12288 of the 16 384 full blocks of the `"maplesyrup"` stream. -/
theorem mplStage24 : mplRun 1 512 ⟨1729544331, 891312078, 2335574094, 981139954⟩ =
    ⟨81823423, 920174591, 2996312287, 1590416623⟩ := by decide!

/-- State after 12800 of the 16 384 full blocks of the `"maplesyrup"` stream. -/
theorem mplStage25 : mplRun 3 512 ⟨81823423, 920174591, 2996312287, 1590416623⟩ =
    ⟨292216651, 1406969733, 2936949931, 2207516019⟩ := by decide!

/-- State after 13312 of the 16 384 full blocks of the `"maplesyrup"` stream. -/
theorem mplStage26 : mplRun 0 512 ⟨292216651, 1406969733, 2936949931, 2207516019⟩ =
    ⟨3710181148, 2449753017, 1512764606, 1238261999⟩ := by decide!

/-- State after 13824 of the 16 384 full blocks of the `"maplesyrup"` stream. -/
theorem mplStage27 : mplRun 2 512 ⟨3710181148, 2449753017, 1512764606, 1238261999⟩ =
    ⟨1729228921, 1550341740, 952576847, 3682691209⟩ := by decide!

/-- State after 14336 of the 16 384 full blocks of the `"maplesyrup"` stream. -/
theorem mplStage28 : mplRun 4 512 ⟨1729228921, 1550341740, 952576847, 3682691209⟩ =
    ⟨1979529370, 297555745, 2799483555, 2458671081⟩ := by decide!

/-- State after 14848 of the 16 384 full blocks of the `"maplesyrup"` stream. -/
theorem mplStage29 : mplRun 1 512 ⟨1979529370, 297555745, 2799483555, 2458671081⟩ =
    ⟨193396773, 259825766, 2248665903, 4017104582⟩ := by decide!

/-- State after 15360 of the 16 384 full blocks of the `"maplesyrup"` stream. -/
theorem mplStage30 : mplRun 3 512 ⟨193396773, 259825766, 2248665903, 4017104582⟩ =
    ⟨1463510120, 528097956, 661988520, 1874680131⟩ := by decide!

/-- State after 15872 of the 16 384 full blocks of the `"maplesyrup"` stream. -/
theorem mplStage31 : mplRun 0 512 ⟨1463510120, 528097956, 661988520, 1874680131⟩ =
    ⟨207226461, 2722476448, 2591661012, 2427885554⟩ := by decide!

/-- State after 16384 of the 16 384 full blocks of the `"maplesyrup"` stream. -/
theorem mplStage32 : mplRun 2 512 ⟨207226461, 2722476448, 2591661012, 2427885554⟩ =
    ⟨701739526, 4080112579, 2564902298, 2984652665⟩ := by decide!

theorem mplRunSpec_16384 : mplRunSpec 0 16384 md5Init =
    ⟨701739526, 4080112579, 2564902298, 2984652665⟩ := by
  have s1 : mplRunSpec 0 512 md5Init =
      ⟨280000320, 1867023748, 177912374, 994803122⟩ := by
    rw [← mplRun_eq_spec]; exact mplStage1
  have s2 : mplRunSpec 2 512 ⟨280000320, 1867023748, 177912374, 994803122⟩ =
      ⟨3932136037, 3782190196, 1357064276, 981507288⟩ := by
    rw [← mplRun_eq_spec]; exact mplStage2
  have s3 : mplRunSpec 4 512 ⟨3932136037, 3782190196, 1357064276, 981507288⟩ =
      ⟨1727059671, 3473824918, 205113197, 4253425606⟩ := by
    rw [← mplRun_eq_spec]; exact mplStage3
  have s4 : mplRunSpec 1 512 ⟨1727059671, 3473824918, 205113197, 4253425606⟩ =
      ⟨1836635787, 1493529427, 2525247907, 2287619238⟩ := by
    rw [← mplRun_eq_spec]; exact mplStage4
  have s5 : mplRunSpec 3 512 ⟨1836635787, 1493529427, 2525247907, 2287619238⟩ =
      ⟨1516987967, 2287523822, 3072835709, 3689136172⟩ := by
    rw [← mplRun_eq_spec]; exact mplStage5
  have s6 : mplRunSpec 0 512 ⟨1516987967, 2287523822, 3072835709, 3689136172⟩ =
      ⟨1492858542, 3483119556, 3389963839, 4117895280⟩ := by
    rw [← mplRun_eq_spec]; exact mplStage6
  have s7 : mplRunSpec 2 512 ⟨1492858542, 3483119556, 3389963839, 4117895280⟩ =
      ⟨110446438, 3373699831, 1664523543, 2100242728⟩ := by
    rw [← mplRun_eq_spec]; exact mplStage7
  have s8 : mplRunSpec 4 512 ⟨110446438, 3373699831, 1664523543, 2100242728⟩ =
      ⟨4108440517, 3223634854, 1018197754, 3061321069⟩ := by
    rw [← mplRun_eq_spec]; exact mplStage8
  have s9 : mplRunSpec 1 512 ⟨4108440517, 3223634854, 1018197754, 3061321069⟩ =
      ⟨2102332894, 3582758711, 2543600550, 1852119582⟩ := by
    rw [← mplRun_eq_spec]; exact mplStage9
  have s10 : mplRunSpec 3 512 ⟨2102332894, 3582758711, 2543600550, 1852119582⟩ =
      ⟨3399678257, 1158378369, 2344903018, 260868401⟩ := by
    rw [← mplRun_eq_spec]; exact mplStage10
  have s11 : mplRunSpec 0 512 ⟨3399678257, 1158378369, 2344903018, 260868401⟩ =
      ⟨1301330632, 827287914, 1213835537, 369938001⟩ := by
    rw [← mplRun_eq_spec]; exact mplStage11
  have s12 : mplRunSpec 2 512 ⟨1301330632, 827287914, 1213835537, 369938001⟩ =
      ⟨4059822310, 2524180806, 1778506883, 2832327824⟩ := by
    rw [← mplRun_eq_spec]; exact mplStage12
  have s13 : mplRunSpec 4 512 ⟨4059822310, 2524180806, 1778506883, 2832327824⟩ =
      ⟨2951925860, 3024616086, 1049820401, 3431659021⟩ := by
    rw [← mplRun_eq_spec]; exact mplStage13
  have s14 : mplRunSpec 1 512 ⟨2951925860, 3024616086, 1049820401, 3431659021⟩ =
      ⟨2198615496, 3535613896, 186063096, 3776951251⟩ := by
    rw [← mplRun_eq_spec]; exact mplStage14
  have s15 : mplRunSpec 3 512 ⟨2198615496, 3535613896, 186063096, 3776951251⟩ =
      ⟨140912214, 711820083, 2652502816, 2168013011⟩ := by
    rw [← mplRun_eq_spec]; exact mplStage15
  have s16 : mplRunSpec 0 512 ⟨140912214, 711820083, 2652502816, 2168013011⟩ =
      ⟨4018715693, 912975652, 2348917184, 709152530⟩ := by
    rw [← mplRun_eq_spec]; exact mplStage16
  have s17 : mplRunSpec 2 512 ⟨4018715693, 912975652, 2348917184, 709152530⟩ =
      ⟨592758318, 4117514009, 925652250, 2523098092⟩ := by
    rw [← mplRun_eq_spec]; exact mplStage17
  have s18 : mplRunSpec 4 512 ⟨592758318, 4117514009, 925652250, 2523098092⟩ =
      ⟨3766082117, 491345819, 953842847, 2701637473⟩ := by
    rw [← mplRun_eq_spec]; exact mplStage18
  have s19 : mplRunSpec 1 512 ⟨3766082117, 491345819, 953842847, 2701637473⟩ =
      ⟨1772506085, 1729187039, 2093760117, 3749046850⟩ := by
    rw [← mplRun_eq_spec]; exact mplStage19
  have s20 : mplRunSpec 3 512 ⟨1772506085, 1729187039, 2093760117, 3749046850⟩ =
      ⟨778235355, 3173757036, 320344743, 1996953793⟩ := by
    rw [← mplRun_eq_spec]; exact mplStage20
  have s21 : mplRunSpec 0 512 ⟨778235355, 3173757036, 320344743, 1996953793⟩ =
      ⟨2549995761, 976326451, 2930539189, 4023779549⟩ := by
    rw [← mplRun_eq_spec]; exact mplStage21
  have s22 : mplRunSpec 2 512 ⟨2549995761, 976326451, 2930539189, 4023779549⟩ =
      ⟨3321521105, 1565068921, 800943382, 828328182⟩ := by
    rw [← mplRun_eq_spec]; exact mplStage22
  have s23 : mplRunSpec 4 512 ⟨3321521105, 1565068921, 800943382, 828328182⟩ =
      ⟨1729544331, 891312078, 2335574094, 981139954⟩ := by
    rw [← mplRun_eq_spec]; exact mplStage23
  have s24 : mplRunSpec 1 512 ⟨1729544331, 891312078, 2335574094, 981139954⟩ =
      ⟨81823423, 920174591, 2996312287, 1590416623⟩ := by
    rw [← mplRun_eq_spec]; exact mplStage24
  have s25 : mplRunSpec 3 512 ⟨81823423, 920174591, 2996312287, 1590416623⟩ =
      ⟨292216651, 1406969733, 2936949931, 2207516019⟩ := by
    rw [← mplRun_eq_spec]; exact mplStage25
  have s26 : mplRunSpec 0 512 ⟨292216651, 1406969733, 2936949931, 2207516019⟩ =
      ⟨3710181148, 2449753017, 1512764606, 1238261999⟩ := by
    rw [← mplRun_eq_spec]; exact mplStage26
  have s27 : mplRunSpec 2 512 ⟨3710181148, 2449753017, 1512764606, 1238261999⟩ =
      ⟨1729228921, 1550341740, 952576847, 3682691209⟩ := by
    rw [← mplRun_eq_spec]; exact mplStage27
  have s28 : mplRunSpec 4 512 ⟨1729228921, 1550341740, 952576847, 3682691209⟩ =
      ⟨1979529370, 297555745, 2799483555, 2458671081⟩ := by
    rw [← mplRun_eq_spec]; exact mplStage28
  have s29 : mplRunSpec 1 512 ⟨1979529370, 297555745, 2799483555, 2458671081⟩ =
      ⟨193396773, 259825766, 2248665903, 4017104582⟩ := by
    rw [← mplRun_eq_spec]; exact mplStage29
  have s30 : mplRunSpec 3 512 ⟨193396773, 259825766, 2248665903, 4017104582⟩ =
      ⟨1463510120, 528097956, 661988520, 1874680131⟩ := by
    rw [← mplRun_eq_spec]; exact mplStage30
  have s31 : mplRunSpec 0 512 ⟨1463510120, 528097956, 661988520, 1874680131⟩ =
      ⟨207226461, 2722476448, 2591661012, 2427885554⟩ := by
    rw [← mplRun_eq_spec]; exact mplStage31
  have s32 : mplRunSpec 2 512 ⟨207226461, 2722476448, 2591661012, 2427885554⟩ =
      ⟨701739526, 4080112579, 2564902298, 2984652665⟩ := by
    rw [← mplRun_eq_spec]; exact mplStage32
  have h1 : (16384 : Nat) = 512 + (512 + (512 + (512 + (512 + (512 + (512 + (512 + (512 + (512 + (512 + (512 + (512 + (512 + (512 + (512 + (512 + (512 + (512 + (512 + (512 + (512 + (512 + (512 + (512 + (512 + (512 + (512 + (512 + (512 + (512 + (512))))))))))))))))))))))))))))))) := by norm_num
  rw [h1, mplRunSpec_add, s1, show mplAdv 0 512 = 2 by rw [mplAdv_eq 512 0 (by omega)]]
  rw [mplRunSpec_add, s2, show mplAdv 2 512 = 4 by rw [mplAdv_eq 512 2 (by omega)]]
  rw [mplRunSpec_add, s3, show mplAdv 4 512 = 1 by rw [mplAdv_eq 512 4 (by omega)]]
  rw [mplRunSpec_add, s4, show mplAdv 1 512 = 3 by rw [mplAdv_eq 512 1 (by omega)]]
  rw [mplRunSpec_add, s5, show mplAdv 3 512 = 0 by rw [mplAdv_eq 512 3 (by omega)]]
  rw [mplRunSpec_add, s6, show mplAdv 0 512 = 2 by rw [mplAdv_eq 512 0 (by omega)]]
  rw [mplRunSpec_add, s7, show mplAdv 2 512 = 4 by rw [mplAdv_eq 512 2 (by omega)]]
  rw [mplRunSpec_add, s8, show mplAdv 4 512 = 1 by rw [mplAdv_eq 512 4 (by omega)]]
  rw [mplRunSpec_add, s9, show mplAdv 1 512 = 3 by rw [mplAdv_eq 512 1 (by omega)]]
  rw [mplRunSpec_add, s10, show mplAdv 3 512 = 0 by rw [mplAdv_eq 512 3 (by omega)]]
  rw [mplRunSpec_add, s11, show mplAdv 0 512 = 2 by rw [mplAdv_eq 512 0 (by omega)]]
  rw [mplRunSpec_add, s12, show mplAdv 2 512 = 4 by rw [mplAdv_eq 512 2 (by omega)]]
  rw [mplRunSpec_add, s13, show mplAdv 4 512 = 1 by rw [mplAdv_eq 512 4 (by omega)]]
  rw [mplRunSpec_add, s14, show mplAdv 1 512 = 3 by rw [mplAdv_eq 512 1 (by omega)]]
  rw [mplRunSpec_add, s15, show mplAdv 3 512 = 0 by rw [mplAdv_eq 512 3 (by omega)]]
  rw [mplRunSpec_add, s16, show mplAdv 0 512 = 2 by rw [mplAdv_eq 512 0 (by omega)]]
  rw [mplRunSpec_add, s17, show mplAdv 2 512 = 4 by rw [mplAdv_eq 512 2 (by omega)]]
  rw [mplRunSpec_add, s18, show mplAdv 4 512 = 1 by rw [mplAdv_eq 512 4 (by omega)]]
  rw [mplRunSpec_add, s19, show mplAdv 1 512 = 3 by rw [mplAdv_eq 512 1 (by omega)]]
  rw [mplRunSpec_add, s20, show mplAdv 3 512 = 0 by rw [mplAdv_eq 512 3 (by omega)]]
  rw [mplRunSpec_add, s21, show mplAdv 0 512 = 2 by rw [mplAdv_eq 512 0 (by omega)]]
  rw [mplRunSpec_add, s22, show mplAdv 2 512 = 4 by rw [mplAdv_eq 512 2 (by omega)]]
  rw [mplRunSpec_add, s23, show mplAdv 4 512 = 1 by rw [mplAdv_eq 512 4 (by omega)]]
  rw [mplRunSpec_add, s24, show mplAdv 1 512 = 3 by rw [mplAdv_eq 512 1 (by omega)]]
  rw [mplRunSpec_add, s25, show mplAdv 3 512 = 0 by rw [mplAdv_eq 512 3 (by omega)]]
  rw [mplRunSpec_add, s26, show mplAdv 0 512 = 2 by rw [mplAdv_eq 512 0 (by omega)]]
  rw [mplRunSpec_add, s27, show mplAdv 2 512 = 4 by rw [mplAdv_eq 512 2 (by omega)]]
  rw [mplRunSpec_add, s28, show mplAdv 4 512 = 1 by rw [mplAdv_eq 512 4 (by omega)]]
  rw [mplRunSpec_add, s29, show mplAdv 1 512 = 3 by rw [mplAdv_eq 512 1 (by omega)]]
  rw [mplRunSpec_add, s30, show mplAdv 3 512 = 0 by rw [mplAdv_eq 512 3 (by omega)]]
  rw [mplRunSpec_add, s31, show mplAdv 0 512 = 2 by rw [mplAdv_eq 512 0 (by omega)]]
  exact s32

/-- The chaining state after hashing all 16 385 padded blocks of the
`"maplesyrup"` key-derivation stream. -/
theorem mplFinalState : md5BlocksFrom mplStream 0 16385 md5Init =
    ⟨2201137055, 2207403656, 1201192014, 1675226584⟩ := by
  have h1 : (16385 : Nat) = 16384 + 1 := by norm_num
  rw [h1, md5BlocksFrom_add]
  rw [md5BlocksFrom_eq_runSpec 16384 0 md5Init (by omega)]
  rw [show (0 : Nat) % 5 = 0 from rfl, mplRunSpec_16384]
  show md5BlocksFrom mplStream 16384 1 _ = _
  decide!

/-- `Ku` of RFC 3414 A.3.1: the MD5 digest of the megabyte stream. -/
theorem mplKu : md5Stream (pwStreamByte mapleBytes) 1048576 =
    [159, 175, 50, 131, 136, 78, 146, 131, 78, 188, 152, 71, 216, 237, 217, 99] := by
  show md5StateBytes (md5BlocksFrom mplStream 0 (md5NumBlocks 1048576) md5Init) = _
  rw [show md5NumBlocks 1048576 = 16385 from rfl, mplFinalState]
  rfl
/-!
### C2: the password-to-key derivation matches its specification
-/

theorem md5PadByte_congr (f g : Nat → Nat) (len : Nat) (h : ∀ j < len, f j = g j) :
    md5PadByte f len = md5PadByte g len := by
  funext j
  unfold md5PadByte
  by_cases hj : j < len
  · rw [if_pos hj, if_pos hj, h j hj]
  · rw [if_neg hj, if_neg hj]

theorem sha1PadByte_congr (f g : Nat → Nat) (len : Nat) (h : ∀ j < len, f j = g j) :
    sha1PadByte f len = sha1PadByte g len := by
  funext j
  unfold sha1PadByte
  by_cases hj : j < len
  · rw [if_pos hj, if_pos hj, h j hj]
  · rw [if_neg hj, if_neg hj]

theorem md5Stream_congr (f g : Nat → Nat) (len : Nat) (h : ∀ j < len, f j = g j) :
    md5Stream f len = md5Stream g len := by
  unfold md5Stream
  rw [md5PadByte_congr f g len h]

theorem sha1Stream_congr (f g : Nat → Nat) (len : Nat) (h : ∀ j < len, f j = g j) :
    sha1Stream f len = sha1Stream g len := by
  unfold sha1Stream
  rw [sha1PadByte_congr f g len h]

theorem hashStream_congr (alg : String) (f g : Nat → Nat) (len : Nat)
    (h : ∀ j < len, f j = g j) : hashStream alg f len = hashStream alg g len := by
  unfold hashStream
  split
  · exact md5Stream_congr f g len h
  · exact sha1Stream_congr f g len h

/-- `passwordToKey` computes exactly the derivation the specification
words: hash the cyclically repeated password stream of 1 048 576 bytes to
`Ku`, return `H(Ku ‖ engineID ‖ Ku)`. -/
theorem passwordToKey_spec (p e : List Nat) (alg : String) (hp : p ≠ []) :
    passwordToKey p e alg = specKul p e alg := by
  unfold passwordToKey specKul
  rw [hashStream_congr alg _ _ 1048576 (fun j hj => pwStreamByte_lt p hp j hj)]

/-- The RFC 3414 A.3.1 test vector, fully computed in the kernel. -/
theorem mplKul : passwordToKey mapleBytes rfc3414EngineID "MD5" = rfc3414KeyMD5 := by
  unfold passwordToKey
  have h1 : hashStream "MD5" (pwStreamByte mapleBytes) 1048576 =
      [159, 175, 50, 131, 136, 78, 146, 131, 78, 188, 152, 71, 216, 237, 217, 99] := by
    rw [show hashStream "MD5" (pwStreamByte mapleBytes) 1048576 =
      md5Stream (pwStreamByte mapleBytes) 1048576 from by simp [hashStream]]
    exact mplKu
  rw [h1]
  decide!

/-- C2: for every non-empty password, engine id and hash name,
`passwordToKey` equals the specification's `Kul = H(Ku ‖ e ‖ Ku)` over the
cyclic megabyte stream, and on the RFC 3414 A.3.1 inputs
(`"maplesyrup"`, engine id `..00 02`, MD5) it yields the reference
vector. -/
theorem C2_password_to_key (p e : List Nat) (alg : String) (hp : p ≠ [])
    (halg : alg = "MD5" ∨ alg = "SHA1") :
    passwordToKey p e alg = specKul p e alg ∧
    passwordToKey mapleBytes rfc3414EngineID "MD5" = rfc3414KeyMD5 :=
  ⟨passwordToKey_spec p e alg hp, mplKul⟩

/-- Witness for `C2_password_to_key` at the RFC 3414 inputs. -/
theorem C2_password_to_key_witness :
    (mapleBytes ≠ [] ∧ ("MD5" = "MD5" ∨ "MD5" = "SHA1")) ∧
    (passwordToKey mapleBytes rfc3414EngineID "MD5" =
        specKul mapleBytes rfc3414EngineID "MD5" ∧
      passwordToKey mapleBytes rfc3414EngineID "MD5" = rfc3414KeyMD5) :=
  ⟨⟨by decide, Or.inl rfl⟩,
    C2_password_to_key mapleBytes rfc3414EngineID "MD5" (by decide) (Or.inl rfl)⟩
/-! ### DES round-trip: decryption inverts encryption -/

theorem bitsPerm_length (t : List Nat) (bits : List Bool) :
    (bitsPerm t bits).length = t.length := List.length_map t _

theorem xorBits_length (a b : List Bool) :
    (xorBits a b).length = min a.length b.length := List.length_zipWith _ a b

theorem desF_length (r k : List Bool) : (desF r k).length = 32 := by
  unfold desF
  rw [bitsPerm_length]
  rfl

theorem xorBits_cancel (x : List Bool) : ∀ l : List Bool, l.length = x.length →
    xorBits (xorBits l x) x = l := by
  induction x with
  | nil =>
    intro l h
    rw [List.length_nil, List.length_eq_zero] at h
    subst h
    rfl
  | cons b x ih =>
    intro l h
    match l, h with
    | a :: l, h =>
      show xor (xor a b) b :: xorBits (xorBits l x) x = a :: l
      rw [ih l (by simpa using h)]
      cases a <;> cases b <;> rfl

theorem getD_range_map (l : List Bool) :
    (List.range l.length).map (fun i => l.getD i false) = l := by
  induction l with
  | nil => rfl
  | cons a l ih =>
    show (List.range (l.length + 1)).map (fun i => (a :: l).getD i false) = a :: l
    rw [List.range_succ_eq_map]
    simp only [List.map_cons, List.map_map]
    refine congrArg (a :: ·) ?_
    rw [show ((fun i => (a :: l).getD i false) ∘ Nat.succ) = fun i => l.getD i false from rfl]
    exact ih

theorem fp_ip (bits : List Bool) :
    bitsPerm desFPTable (bitsPerm desIPTable bits) =
      (List.range 64).map (fun i => bits.getD i false) := rfl

theorem ip_fp (bits : List Bool) :
    bitsPerm desIPTable (bitsPerm desFPTable bits) =
      (List.range 64).map (fun i => bits.getD i false) := rfl

theorem fp_ip_id (bits : List Bool) (h : bits.length = 64) :
    bitsPerm desFPTable (bitsPerm desIPTable bits) = bits := by
  rw [fp_ip, ← h, getD_range_map]

theorem ip_fp_id (bits : List Bool) (h : bits.length = 64) :
    bitsPerm desIPTable (bitsPerm desFPTable bits) = bits := by
  rw [ip_fp, ← h, getD_range_map]

theorem desFeistel_cons (k : List Bool) (ks : List (List Bool)) (l r : List Bool) :
    desFeistel (k :: ks) (l, r) = desFeistel ks (r, xorBits l (desF r k)) := rfl

theorem desFeistel_snoc (k : List Bool) (xs : List (List Bool)) : ∀ l r : List Bool,
    desFeistel (xs ++ [k]) (l, r) =
      ((desFeistel xs (l, r)).2,
        xorBits (desFeistel xs (l, r)).1 (desF (desFeistel xs (l, r)).2 k)) := by
  induction xs with
  | nil => intro l r; rfl
  | cons x xs ih =>
    intro l r
    show desFeistel (xs ++ [k]) (r, xorBits l (desF r x)) = _
    rw [ih r (xorBits l (desF r x))]
    rfl

theorem desFeistel_lengths (ks : List (List Bool)) : ∀ l r : List Bool,
    l.length = 32 → r.length = 32 →
      (desFeistel ks (l, r)).1.length = 32 ∧ (desFeistel ks (l, r)).2.length = 32 := by
  induction ks with
  | nil => intro l r hl hr; exact ⟨hl, hr⟩
  | cons k ks ih =>
    intro l r hl hr
    rw [desFeistel_cons]
    exact ih r (xorBits l (desF r k)) hr (by rw [xorBits_length, desF_length, hl]; omega)

theorem desFeistel_inv (ks : List (List Bool)) : ∀ l r : List Bool,
    l.length = 32 → r.length = 32 →
      desFeistel ks.reverse ((desFeistel ks (l, r)).2, (desFeistel ks (l, r)).1) = (r, l) := by
  induction ks with
  | nil => intro l r _ _; rfl
  | cons k ks ih =>
    intro l r hl hr
    have hx : (xorBits l (desF r k)).length = 32 := by
      rw [xorBits_length, desF_length, hl]
      omega
    rw [List.reverse_cons, desFeistel_cons, desFeistel_snoc,
      ih r (xorBits l (desF r k)) hr hx]
    show (r, xorBits (xorBits l (desF r k)) (desF r k)) = (r, l)
    rw [xorBits_cancel (desF r k) l (by rw [desF_length]; exact hl)]

theorem byteToBits_bitsByte : ∀ b7 b6 b5 b4 b3 b2 b1 b0 : Bool,
    byteToBits (bitsByte b7 b6 b5 b4 b3 b2 b1 b0) = [b7, b6, b5, b4, b3, b2, b1, b0] := by
  decide

theorem bytesToBits_cons (b : Nat) (l : List Nat) :
    bytesToBits (b :: l) = byteToBits b ++ bytesToBits l := rfl

theorem bytesToBits_bitsToBytes : ∀ bits : List Bool, bits.length % 8 = 0 →
    bytesToBits (bitsToBytes bits) = bits := by
  intro bits
  induction bits using bitsToBytes.induct with
  | case1 b7 b6 b5 b4 b3 b2 b1 b0 rest ih =>
    intro h
    show bytesToBits (bitsByte b7 b6 b5 b4 b3 b2 b1 b0 :: bitsToBytes rest) = _
    rw [bytesToBits_cons, byteToBits_bitsByte, ih (by simp at h ⊢; omega)]
    rfl
  | case2 bits hshape =>
    intro h
    rcases bits with _ | ⟨a, _ | ⟨b, _ | ⟨c, _ | ⟨d, _ | ⟨e, _ | ⟨f, _ | ⟨g, _ | ⟨x, rest⟩⟩⟩⟩⟩⟩⟩⟩
    · rfl
    · simp at h
    · simp at h
    · simp at h
    · simp at h
    · simp at h
    · simp at h
    · simp at h
    · exact ((hshape a b c d e f g x rest) rfl).elim

theorem bitsByte_byteToBits (b : Nat) (h : b < 256) :
    bitsByte (b / 128 % 2 == 1) (b / 64 % 2 == 1) (b / 32 % 2 == 1) (b / 16 % 2 == 1)
      (b / 8 % 2 == 1) (b / 4 % 2 == 1) (b / 2 % 2 == 1) (b % 2 == 1) = b := by
  revert h
  revert b
  decide

theorem bitsToBytes_bytesToBits : ∀ l : List Nat, (∀ b ∈ l, b < 256) →
    bitsToBytes (bytesToBits l) = l := by
  intro l
  induction l with
  | nil => intro _; rfl
  | cons b l ih =>
    intro h
    rw [bytesToBits_cons]
    show bitsToBytes (byteToBits b ++ bytesToBits l) = b :: l
    have hb : b < 256 := h b (List.mem_cons_self b l)
    show bitsByte (b / 128 % 2 == 1) (b / 64 % 2 == 1) (b / 32 % 2 == 1) (b / 16 % 2 == 1)
        (b / 8 % 2 == 1) (b / 4 % 2 == 1) (b / 2 % 2 == 1) (b % 2 == 1) ::
      bitsToBytes (bytesToBits l) = b :: l
    rw [bitsByte_byteToBits b hb, ih (fun x hx => h x (List.mem_cons_of_mem b hx))]

theorem bytesToBits_length (l : List Nat) : (bytesToBits l).length = 8 * l.length := by
  induction l with
  | nil => rfl
  | cons b l ih =>
    rw [bytesToBits_cons, List.length_append, ih]
    show 8 + 8 * l.length = 8 * (l.length + 1)
    omega

theorem bitsByte_lt (b7 b6 b5 b4 b3 b2 b1 b0 : Bool) :
    bitsByte b7 b6 b5 b4 b3 b2 b1 b0 < 256 := by
  have hc : ∀ b : Bool, (cond b 1 0 : Nat) ≤ 1 := by decide
  have h7 := hc b7
  have h6 := hc b6
  have h5 := hc b5
  have h4 := hc b4
  have h3 := hc b3
  have h2 := hc b2
  have h1 := hc b1
  have h0 := hc b0
  unfold bitsByte
  omega

theorem bitsToBytes_lt : ∀ bits : List Bool, ∀ x ∈ bitsToBytes bits, x < 256 := by
  intro bits
  induction bits using bitsToBytes.induct with
  | case1 b7 b6 b5 b4 b3 b2 b1 b0 rest ih =>
    intro x hx
    rcases List.mem_cons.mp hx with hx | hx
    · rw [hx]
      exact bitsByte_lt b7 b6 b5 b4 b3 b2 b1 b0
    · exact ih x hx
  | case2 bits hshape =>
    intro x hx
    rcases bits with _ | ⟨a, _ | ⟨b, _ | ⟨c, _ | ⟨d, _ | ⟨e, _ | ⟨f, _ | ⟨g, _ | ⟨y, rest⟩⟩⟩⟩⟩⟩⟩⟩
    · simp [bitsToBytes] at hx
    · simp [bitsToBytes] at hx
    · simp [bitsToBytes] at hx
    · simp [bitsToBytes] at hx
    · simp [bitsToBytes] at hx
    · simp [bitsToBytes] at hx
    · simp [bitsToBytes] at hx
    · simp [bitsToBytes] at hx
    · exact ((hshape a b c d e f g y rest) rfl).elim

/-- One-block DES inversion: running the network with reversed subkeys
undoes it. -/
theorem desRunBlock_inv (ks : List (List Bool)) (block : List Nat)
    (hlen : block.length = 8) (hbytes : ∀ b ∈ block, b < 256) :
    desRunBlock ks.reverse (desRunBlock ks block) = block := by
  have hu : (bitsPerm desIPTable (bytesToBits block)).length = 64 := by
    rw [bitsPerm_length]; rfl
  have hu1 : (desHalves block).1.length = 32 := by
    show (List.take 32 _).length = 32
    rw [List.length_take, hu]
    omega
  have hu2 : (desHalves block).2.length = 32 := by
    show (List.drop 32 _).length = 32
    rw [List.length_drop, hu]
  show desOutput (desFeistel ks.reverse (desHalves (desOutput (desFeistel ks (desHalves block))))) = block
  set p := desFeistel ks (desHalves block) with hpdef
  have hp : p.1.length = 32 ∧ p.2.length = 32 := by
    rw [hpdef]
    exact desFeistel_lengths ks (desHalves block).1 (desHalves block).2 hu1 hu2
  have happlen : (p.2 ++ p.1).length = 64 := by
    rw [List.length_append, hp.1, hp.2]
  have hinbits : bytesToBits (desOutput p) = bitsPerm desFPTable (p.2 ++ p.1) := by
    show bytesToBits (bitsToBytes _) = _
    exact bytesToBits_bitsToBytes _ (by rw [bitsPerm_length]; rfl)
  have hhalves : desHalves (desOutput p) = (p.2, p.1) := by
    show ((bitsPerm desIPTable (bytesToBits (desOutput p))).take 32,
      (bitsPerm desIPTable (bytesToBits (desOutput p))).drop 32) = (p.2, p.1)
    rw [hinbits, ip_fp_id _ happlen]
    rw [show List.take 32 (p.2 ++ p.1) = p.2 from by
        rw [← hp.2]; exact List.take_left p.2 p.1,
      List.drop_left' hp.2]
  rw [hhalves]
  have hfinv : desFeistel ks.reverse (p.2, p.1) = ((desHalves block).2, (desHalves block).1) := by
    rw [hpdef]
    exact desFeistel_inv ks (desHalves block).1 (desHalves block).2 hu1 hu2
  rw [hfinv]
  show bitsToBytes (bitsPerm desFPTable ((desHalves block).1 ++ (desHalves block).2)) = block
  show bitsToBytes (bitsPerm desFPTable
    ((bitsPerm desIPTable (bytesToBits block)).take 32 ++
      (bitsPerm desIPTable (bytesToBits block)).drop 32)) = block
  rw [List.take_append_drop]
  rw [fp_ip_id _ (by rw [bytesToBits_length, hlen])]
  exact bitsToBytes_bytesToBits block hbytes

/-- One-block DES decrypt-of-encrypt. -/
theorem desBlock_roundtrip (key block : List Nat)
    (hlen : block.length = 8) (hbytes : ∀ b ∈ block, b < 256) :
    desDecryptBlock key (desEncryptBlock key block) = block :=
  desRunBlock_inv (desSubkeys key) block hlen hbytes

theorem xorBytes_length (a b : List Nat) :
    (xorBytes a b).length = min a.length b.length := List.length_zipWith _ a b

theorem xorBytes_cancel_left (iv : List Nat) : ∀ b : List Nat, b.length = iv.length →
    xorBytes iv (xorBytes iv b) = b := by
  induction iv with
  | nil =>
    intro b h
    rw [List.length_nil, List.length_eq_zero] at h
    subst h
    rfl
  | cons x iv ih =>
    intro b h
    match b, h with
    | a :: b, h =>
      show (x ^^^ (x ^^^ a)) :: xorBytes iv (xorBytes iv b) = a :: b
      rw [Nat.xor_cancel_left, ih b (by simpa using h)]

theorem xorBytes_lt : ∀ a b : List Nat, (∀ x ∈ a, x < 256) → (∀ x ∈ b, x < 256) →
    ∀ x ∈ xorBytes a b, x < 256 := by
  intro a
  induction a with
  | nil =>
    intro b _ _ x hx
    simp [xorBytes] at hx
  | cons av a ih =>
    intro b ha hb x hx
    cases b with
    | nil => simp [xorBytes] at hx
    | cons bv b =>
      rcases List.mem_cons.mp hx with hx | hx
      · rw [hx]
        exact Nat.xor_lt_two_pow (n := 8) (ha av (List.mem_cons_self av a))
          (hb bv (List.mem_cons_self bv b))
      · exact ih b (fun y hy => ha y (List.mem_cons_of_mem av hy))
          (fun y hy => hb y (List.mem_cons_of_mem bv hy)) x hx

theorem desEncryptBlock_lt (key block : List Nat) :
    ∀ x ∈ desEncryptBlock key block, x < 256 := fun x hx => bitsToBytes_lt _ x hx

theorem bitsToBytes_length : ∀ bits : List Bool,
    (bitsToBytes bits).length = bits.length / 8 := by
  intro bits
  induction bits using bitsToBytes.induct with
  | case1 b7 b6 b5 b4 b3 b2 b1 b0 rest ih =>
    show (bitsToBytes rest).length + 1 = _
    rw [ih]
    show rest.length / 8 + 1 = (rest.length + 8) / 8
    omega
  | case2 bits hshape =>
    rcases bits with _ | ⟨a, _ | ⟨b, _ | ⟨c, _ | ⟨d, _ | ⟨e, _ | ⟨f, _ | ⟨g, _ | ⟨y, rest⟩⟩⟩⟩⟩⟩⟩⟩
    · rfl
    · show (0 : Nat) = 1 / 8; rfl
    · show (0 : Nat) = 2 / 8; rfl
    · show (0 : Nat) = 3 / 8; rfl
    · show (0 : Nat) = 4 / 8; rfl
    · show (0 : Nat) = 5 / 8; rfl
    · show (0 : Nat) = 6 / 8; rfl
    · show (0 : Nat) = 7 / 8; rfl
    · exact ((hshape a b c d e f g y rest) rfl).elim

theorem desEncryptBlock_length (key block : List Nat) :
    (desEncryptBlock key block).length = 8 := by
  show (bitsToBytes (bitsPerm desFPTable _)).length = 8
  rw [bitsToBytes_length, bitsPerm_length]
  rfl

/-- CBC decryption inverts CBC encryption blockwise. -/
theorem desCbc_roundtrip (key : List Nat) : ∀ (bs : List (List Nat)) (iv : List Nat),
    iv.length = 8 → (∀ x ∈ iv, x < 256) →
    (∀ b ∈ bs, b.length = 8 ∧ ∀ x ∈ b, x < 256) →
    desCbcDecBlocks key iv (desCbcEncBlocks key iv bs) = bs := by
  intro bs
  induction bs with
  | nil => intro iv _ _ _; rfl
  | cons b bs ih =>
    intro iv hivlen hivlt hbs
    obtain ⟨hblen, hblt⟩ := hbs b (List.mem_cons_self b bs)
    show xorBytes iv (desDecryptBlock key (desEncryptBlock key (xorBytes iv b))) ::
      desCbcDecBlocks key (desEncryptBlock key (xorBytes iv b))
        (desCbcEncBlocks key (desEncryptBlock key (xorBytes iv b)) bs) = b :: bs
    have hxlen : (xorBytes iv b).length = 8 := by
      rw [xorBytes_length, hivlen, hblen]
      omega
    have hxlt := xorBytes_lt iv b hivlt hblt
    rw [desBlock_roundtrip key (xorBytes iv b) hxlen hxlt,
      xorBytes_cancel_left iv b (by rw [hblen, hivlen]),
      ih (desEncryptBlock key (xorBytes iv b)) (desEncryptBlock_length key _)
        (desEncryptBlock_lt key _) (fun q hq => hbs q (List.mem_cons_of_mem b hq))]

theorem chunks8N_fuel : ∀ n m : Nat, ∀ l : List Nat, l.length ≤ n → l.length ≤ m →
    chunks8N n l = chunks8N m l := by
  intro n
  induction n with
  | zero =>
    intro m l hn _
    rw [Nat.le_zero, List.length_eq_zero] at hn
    subst hn
    cases m <;> rfl
  | succ n ih =>
    intro m l hn hm
    cases l with
    | nil => cases m <;> rfl
    | cons a t =>
      cases m with
      | zero => simp at hm
      | succ m =>
        show ((a :: t).take 8) :: chunks8N n ((a :: t).drop 8) =
          ((a :: t).take 8) :: chunks8N m ((a :: t).drop 8)
        rw [ih m ((a :: t).drop 8) (by simp at hn ⊢; omega) (by simp at hm ⊢; omega)]

theorem chunks8_eq_cons (l : List Nat) (h : l ≠ []) :
    chunks8 l = l.take 8 :: chunks8 (l.drop 8) := by
  cases l with
  | nil => exact absurd rfl h
  | cons a t =>
    show ((a :: t).take 8) :: chunks8N t.length ((a :: t).drop 8) =
      (a :: t).take 8 :: chunks8N ((a :: t).drop 8).length ((a :: t).drop 8)
    rw [chunks8N_fuel t.length ((a :: t).drop 8).length ((a :: t).drop 8)
      (by simp only [List.length_drop, List.length_cons]; omega) (le_refl _)]

theorem chunks8_flatten_fuel : ∀ n : Nat, ∀ l : List Nat, l.length ≤ n →
    (chunks8N n l).flatten = l := by
  intro n
  induction n with
  | zero =>
    intro l h
    rw [Nat.le_zero, List.length_eq_zero] at h
    subst h
    rfl
  | succ n ih =>
    intro l h
    cases l with
    | nil => rfl
    | cons a t =>
      show ((a :: t).take 8) ++ (chunks8N n ((a :: t).drop 8)).flatten = a :: t
      rw [ih _ (by simp at h ⊢; omega)]
      exact List.take_append_drop 8 (a :: t)

theorem chunks8_flatten (l : List Nat) : (chunks8 l).flatten = l :=
  chunks8_flatten_fuel l.length l (le_refl _)

theorem chunks8_props_fuel : ∀ n : Nat, ∀ l : List Nat, l.length ≤ n → l.length % 8 = 0 →
    (∀ x ∈ l, x < 256) → ∀ c ∈ chunks8N n l, c.length = 8 ∧ ∀ x ∈ c, x < 256 := by
  intro n
  induction n with
  | zero =>
    intro l h _ _ c hc
    rw [Nat.le_zero, List.length_eq_zero] at h
    subst h
    simp [chunks8N] at hc
  | succ n ih =>
    intro l hn h8 hlt c hc
    cases l with
    | nil => simp [chunks8N] at hc
    | cons a t =>
      rcases List.mem_cons.mp hc with hc | hc
      · subst hc
        refine ⟨?_, fun x hx => hlt x (List.mem_of_mem_take hx)⟩
        rw [List.length_take]
        simp at h8 ⊢
        omega
      · exact ih ((a :: t).drop 8) (by simp at hn ⊢; omega) (by simp at h8 ⊢; omega)
          (fun x hx => hlt x (List.mem_of_mem_drop hx)) c hc

theorem chunks8_props (l : List Nat) (h8 : l.length % 8 = 0) (hlt : ∀ x ∈ l, x < 256) :
    ∀ c ∈ chunks8 l, c.length = 8 ∧ ∀ x ∈ c, x < 256 :=
  chunks8_props_fuel l.length l (le_refl _) h8 hlt

theorem chunks8_count_fuel : ∀ n : Nat, ∀ l : List Nat, l.length ≤ n →
    (chunks8N n l).length = (l.length + 7) / 8 := by
  intro n
  induction n with
  | zero =>
    intro l h
    rw [Nat.le_zero, List.length_eq_zero] at h
    subst h
    rfl
  | succ n ih =>
    intro l h
    cases l with
    | nil => rfl
    | cons a t =>
      show (chunks8N n ((a :: t).drop 8)).length + 1 = _
      rw [ih _ (by simp at h ⊢; omega)]
      simp
      omega

theorem chunks8_count (l : List Nat) : (chunks8 l).length = (l.length + 7) / 8 :=
  chunks8_count_fuel l.length l (le_refl _)

theorem desCbcEncBlocks_blocks (key : List Nat) : ∀ (bs : List (List Nat)) (iv : List Nat),
    ∀ c ∈ desCbcEncBlocks key iv bs, c.length = 8 ∧ ∀ x ∈ c, x < 256 := by
  intro bs
  induction bs with
  | nil =>
    intro iv c hc
    simp [desCbcEncBlocks] at hc
  | cons b bs ih =>
    intro iv c hc
    rcases List.mem_cons.mp hc with hc | hc
    · subst hc
      exact ⟨desEncryptBlock_length key _, desEncryptBlock_lt key _⟩
    · exact ih (desEncryptBlock key (xorBytes iv b)) c hc

theorem desCbcEncBlocks_count (key : List Nat) : ∀ (bs : List (List Nat)) (iv : List Nat),
    (desCbcEncBlocks key iv bs).length = bs.length := by
  intro bs
  induction bs with
  | nil => intro iv; rfl
  | cons b bs ih =>
    intro iv
    show (desCbcEncBlocks key (desEncryptBlock key (xorBytes iv b)) bs).length + 1 = bs.length + 1
    rw [ih]

theorem chunks8_of_blocks : ∀ bs : List (List Nat), (∀ b ∈ bs, b.length = 8) →
    chunks8 bs.flatten = bs := by
  intro bs
  induction bs with
  | nil => intro _; rfl
  | cons b bs ih =>
    intro h
    have hb : b.length = 8 := h b (List.mem_cons_self b bs)
    have hne : (b :: bs).flatten ≠ [] := by
      show b ++ bs.flatten ≠ []
      intro hcon
      rw [List.append_eq_nil] at hcon
      rw [hcon.1] at hb
      simp at hb
    rw [show (b :: bs).flatten = b ++ bs.flatten from rfl] at hne ⊢
    rw [chunks8_eq_cons _ hne]
    rw [show (b ++ bs.flatten).take 8 = b from by rw [← hb]; exact List.take_left b bs.flatten,
      List.drop_left' hb, ih (fun q hq => h q (List.mem_cons_of_mem b hq))]

/-- Flattened lengths of CBC output. -/
theorem desCbcEncBlocks_flatten_length (key : List Nat) :
    ∀ (bs : List (List Nat)) (iv : List Nat),
    ((desCbcEncBlocks key iv bs).flatten).length = 8 * bs.length := by
  intro bs
  induction bs with
  | nil => intro iv; rfl
  | cons b bs ih =>
    intro iv
    show (desEncryptBlock key (xorBytes iv b) ++
      (desCbcEncBlocks key (desEncryptBlock key (xorBytes iv b)) bs).flatten).length = _
    rw [List.length_append, ih, desEncryptBlock_length, List.length_cons]
    omega

/-- Ciphertext length of the byte-level CBC encryption equals the (padded)
plaintext length. -/
theorem encryptDESCBC_length (src key iv : List Nat) (h8 : src.length % 8 = 0) :
    (encryptDESCBC src key iv).length = src.length := by
  unfold encryptDESCBC
  rw [desCbcEncBlocks_flatten_length, chunks8_count]
  omega

/-- Byte-level CBC round trip. -/
theorem descbc_bytes_roundtrip (key iv src : List Nat) (h8 : src.length % 8 = 0)
    (hsb : ∀ x ∈ src, x < 256) (hivl : iv.length = 8) (hivb : ∀ x ∈ iv, x < 256) :
    decryptDESCBC (encryptDESCBC src key iv) key iv = src := by
  unfold encryptDESCBC decryptDESCBC
  rw [chunks8_of_blocks (desCbcEncBlocks key iv (chunks8 src))
    (fun b hb => (desCbcEncBlocks_blocks key (chunks8 src) iv b hb).1)]
  rw [desCbc_roundtrip key (chunks8 src) iv hivl hivb (chunks8_props src h8 hsb)]
  exact chunks8_flatten src
/-!
## Theorems

### Digest lengths and key-derivation bookkeeping
-/

theorem be32_length (x : Nat) : (be32 x).length = 4 := rfl

theorem be32_lt (x : Nat) : ∀ b ∈ be32 x, b < 256 := by
  intro b hb
  simp only [be32, List.mem_cons, List.not_mem_nil, or_false] at hb
  rcases hb with h | h | h | h <;> subst h <;> omega

theorem md5Stream_length (f : Nat → Nat) (len : Nat) : (md5Stream f len).length = 16 := by
  simp [md5Stream, md5StateBytes, word32ToBytesLE]

theorem sha1Stream_length (f : Nat → Nat) (len : Nat) : (sha1Stream f len).length = 20 := by
  simp [sha1Stream, sha1StateBytes, be32]

theorem hashStream_length (alg : String) (f : Nat → Nat) (len : Nat) :
    (hashStream alg f len).length = if alg = "MD5" then 16 else 20 := by
  unfold hashStream
  split <;> simp [md5Stream_length, sha1Stream_length]

theorem hashList_length (alg : String) (l : List Nat) :
    (hashList alg l).length = if alg = "MD5" then 16 else 20 :=
  hashStream_length alg _ l.length

theorem passwordToKey_length (p e : List Nat) (alg : String) :
    16 ≤ (passwordToKey p e alg).length := by
  unfold passwordToKey
  rw [hashList_length]
  split <;> omega

theorem goSliceRange_zero_16 (k : List Nat) (h : 16 ≤ k.length) :
    goSliceRange k 0 16 = .ok (k.take 16) := by
  simp [goSliceRange, h]

theorem goSliceTo_ok (s : List Nat) (n : Nat) (h : n ≤ s.length) :
    goSliceTo s n = .ok (s.take n) := by
  simp [goSliceTo, h]

theorem goSliceRange_ok (s : List Nat) (a b : Nat) (h1 : a ≤ b) (h2 : b ≤ s.length) :
    goSliceRange s a b = .ok ((s.take b).drop a) := by
  simp [goSliceRange, h1, h2]

/-- The DES branch of `encrypt` on a session whose privacy key has at
least the 16 bytes `Discover` stores: slices succeed, the pre-IV is
8 bytes, and the result carries the padded-and-encrypted payload together
with the salt `boots ‖ (desIV + 1)`. -/
theorem encrypt_des (w : SNMP) (p : List Nat)
    (hdes : w.privAlg ≠ "AES") (hk : 16 ≤ w.privKey.length) :
    encrypt w p = .ok (.ok
      (encryptDESCBC (if p.length % 8 = 0 then p else p ++ List.replicate (8 - p.length % 8) 0)
        (w.privKey.take 8)
        (xorBytes ((w.privKey.take 16).drop 8)
          (be32 w.engineBoots ++ be32 ((w.desIV + 1) % 4294967296))),
      be32 w.engineBoots ++ be32 ((w.desIV + 1) % 4294967296))) := by
  unfold encrypt
  rw [if_neg hdes, goSliceTo_ok _ _ (by omega), goSliceRange_ok _ _ _ (by omega) (by omega)]
  dsimp only
  rw [strXor, if_pos (by simp [List.length_drop, List.length_take, be32]; omega)]

/-- The DES branch of `encrypt` panics when the privacy key is shorter
than 16 bytes (Go slice bounds). -/
theorem encrypt_des_panic (w : SNMP) (p : List Nat)
    (hdes : w.privAlg ≠ "AES") (hk : w.privKey.length < 16) :
    encrypt w p = .panicked "slice bounds out of range" := by
  unfold encrypt
  rw [if_neg hdes]
  by_cases h8 : 8 ≤ w.privKey.length
  · rw [goSliceTo_ok _ _ h8]
    dsimp only
    rw [show goSliceRange w.privKey 8 16 = .panicked "slice bounds out of range" from by
      simp [goSliceRange]; omega]
  · rw [show goSliceTo w.privKey 8 = .panicked "slice bounds out of range" from by
      simp [goSliceTo]; omega]

/-- The DES branch of `decrypt` with an 8-byte priv parameter and a
payload of a multiple of 8 bytes. -/
theorem decrypt_des (w : SNMP) (c pp : List Nat)
    (hdes : w.privAlg ≠ "AES") (hk : 16 ≤ w.privKey.length)
    (hpp : pp.length = 8) (h8 : c.length % 8 = 0) :
    decrypt w c pp = .ok (.ok
      (decryptDESCBC c (w.privKey.take 8)
        (xorBytes ((w.privKey.take 16).drop 8) pp))) := by
  unfold decrypt
  rw [if_neg hdes, goSliceTo_ok _ _ (by omega), goSliceRange_ok _ _ _ (by omega) (by omega)]
  dsimp only
  rw [strXor, if_pos (by simp [List.length_drop, List.length_take, hpp]; omega)]
  dsimp only
  rw [if_pos h8]

/-- C3: in both `Discover` (lines 301-309) and the v3 branch of
`ParseTrap` (lines 695-729), the privacy key is the first 16 bytes of the
password-to-key derivation applied to the privacy password under the
session's **auth** hash algorithm, and the auth key is the full derivation
of the auth password under the same algorithm. -/
theorem C3_priv_key_uses_auth_alg (w : SNMP) (e : List Nat) (b t a d : Nat)
    (u : List Nat) (aa : String) (apw : List Nat) (pa : String) (ppw : List Nat) :
    discoverUpdate w e b t a d =
      .ok { w with
            engineID := e
            engineBoots := b
            engineTime := t
            aesIV := a
            desIV := d
            authKey := passwordToKey w.authPwd e w.authAlg
            privKey := (passwordToKey w.privPwd e w.authAlg).take 16 } ∧
    parseTrapKeys w e b t u aa apw pa ppw =
      .ok { w with
            engineID := e
            engineBoots := b
            engineTime := t
            user := u
            authAlg := aa
            authPwd := apw
            privAlg := pa
            privPwd := ppw
            authKey := passwordToKey apw e aa
            privKey := (passwordToKey ppw e aa).take 16 } := by
  constructor
  · unfold discoverUpdate
    rw [goSliceRange_zero_16 _ (passwordToKey_length _ _ _)]
  · unfold parseTrapKeys
    dsimp only
    rw [goSliceRange_zero_16 _ (passwordToKey_length _ _ _)]

/-!
### C10: the DES decrypt path panics on a priv parameter that is not 8 bytes
-/

/-- C10: when a GetV3/GetNextV3 response (or equally a v3 trap) carries
non-empty auth and priv parameters, a DES-privacy session with the usual
16-byte privacy key reaches `decrypt`, whose `strXor(preIV, privParam)`
(line 445) runs before any length validation of the received priv
parameter and panics — terminating the process — whenever that parameter
is not exactly 8 bytes. -/
theorem C10_bad_priv_param_panics (w : SNMP) (pay ap pp : List Nat)
    (hdes : w.privAlg ≠ "AES") (hk : 16 ≤ w.privKey.length)
    (hap : ap.length ≠ 0) (hpp0 : pp.length ≠ 0) (hpp : pp.length ≠ 8) :
    doGetV3Response w ap pp pay =
      .panicked "strXor called with two strings of different length" := by
  unfold doGetV3Response decrypt
  rw [if_neg (by simp [hap, hpp0]), if_neg hdes]
  have h8 : goSliceTo w.privKey 8 = .ok (w.privKey.take 8) := by
    simp [goSliceTo]; omega
  have h816 : goSliceRange w.privKey 8 16 = .ok ((w.privKey.take 16).drop 8) := by
    simp [goSliceRange]; omega
  rw [h8, h816]
  have hlen : ((w.privKey.take 16).drop 8).length = 8 := by
    simp [List.length_drop, List.length_take]; omega
  simp only [strXor, hlen]
  rw [if_neg (by omega)]

/-!
### C1: the encryption salts never change on the session
-/

/-- C1 (the code's actual behaviour): `encrypt` has a value receiver, so
the `desIV++`/`aesIV++` of lines 392 and 409 mutate a local copy; the
session the caller keeps is untouched, and the response handling of
`doGetV3` (lines 526-528) rewrites only engine id, boots and time.  Hence
the counters never advance: the session after a full request/response
cycle carries the same `desIV` and `aesIV`, and two `encrypt` calls on the
same session derive the *same* priv parameter (hence the same IV) instead
of strictly increasing salts. -/
theorem C1_salts_never_advance (w : SNMP) (e : List Nat) (b t : Nat) (p1 p2 : List Nat) :
    (doGetV3Update w e b t).desIV = w.desIV ∧
    (doGetV3Update w e b t).aesIV = w.aesIV ∧
    encPrivParam (encrypt w p1) = encPrivParam (encrypt w p2) := by
  refine ⟨rfl, rfl, ?_⟩
  by_cases h : w.privAlg = "AES"
  · unfold encrypt
    rw [if_pos h, if_pos h]
    unfold goEncryptAESCFB
    split <;> rfl
  · by_cases hk : 16 ≤ w.privKey.length
    · rw [encrypt_des w p1 h hk, encrypt_des w p2 h hk]
      rfl
    · rw [encrypt_des_panic w p1 h (by omega), encrypt_des_panic w p2 h (by omega)]

/-!
### C9: the retry loop's deadlines come from a hardcoded constant
-/

theorem pollRun_deadlines (attempts : List PollAttempt) (t : Nat) :
    ((pollRun attempts t).2).all (fun d => d == t) = true := by
  induction attempts with
  | nil => rfl
  | cons a rest ih =>
    unfold pollRun
    split
    · simpa using ih
    · split
      · simpa using ih
      · simp

/-- C9 (the code's actual behaviour): `poll` does set both per-attempt
deadlines from its `timeout` argument, but every caller — `Get`,
`GetMultiple`, `Discover`, `doGetV3`, `GetNext`, `GetBulk` — passes the
constant `500 * time.Millisecond` rather than the session's configured
`timeout` field, so for a session configured with a 2000 ms timeout every
deadline of every attempt is still 500 ms. -/
theorem C9_deadline_is_hardcoded_500 (w : SNMP) (attempts : List PollAttempt)
    (h : w.timeout = 2000) :
    ((pollRun attempts pollCallTimeoutMs).2).all (fun d => d == 500) = true ∧
    (pollCallTimeoutMs != w.timeout) = true := by
  refine ⟨pollRun_deadlines attempts pollCallTimeoutMs, ?_⟩
  rw [h]
  rfl

/-- Witness for `C9_deadline_is_hardcoded_500` at a concrete session and a
concrete two-attempt trace. -/
theorem C9_deadline_is_hardcoded_500_witness :
    (({ version := 3
        timeout := 2000
        retries := 1
        user := []
        authAlg := "MD5"
        authPwd := []
        privAlg := "DES"
        privPwd := []
        engineID := []
        authKey := []
        privKey := []
        engineBoots := 0
        engineTime := 0
        desIV := 0
        aesIV := 0 } : SNMP).timeout = 2000) ∧
    (((pollRun [⟨true, false, true, true, 0⟩, ⟨true, true, true, true, 11⟩]
        pollCallTimeoutMs).2).all (fun d => d == 500) = true ∧
      (pollCallTimeoutMs !=
        ({ version := 3
           timeout := 2000
           retries := 1
           user := []
           authAlg := "MD5"
           authPwd := []
           privAlg := "DES"
           privPwd := []
           engineID := []
           authKey := []
           privKey := []
           engineBoots := 0
           engineTime := 0
           desIV := 0
           aesIV := 0 } : SNMP).timeout) = true) :=
  ⟨rfl, C9_deadline_is_hardcoded_500 _ [⟨true, false, true, true, 0⟩, ⟨true, true, true, true, 11⟩] rfl⟩
/-!
### C4: where the signing step splices the digest
-/

theorem findSub_nil (pat : List Nat) :
    findSub [] pat = if pat.isEmpty then some 0 else none := rfl

theorem findSub_cons (a : Nat) (rest pat : List Nat) :
    findSub (a :: rest) pat =
      if listStarts pat (a :: rest) then some 0 else (findSub rest pat).map (· + 1) := rfl

theorem listStarts_append_self (pat x : List Nat) : listStarts pat (pat ++ x) = true := by
  induction pat with
  | nil => rfl
  | cons p ps ih => simp [listStarts, ih]

/-- `findSub` returns the least index at which the pattern occurs. -/
theorem findSub_eq_some (s pat : List Nat) (i : Nat)
    (hi : listStarts pat (s.drop i) = true)
    (hmin : ∀ j < i, listStarts pat (s.drop j) = false) :
    findSub s pat = some i := by
  induction s generalizing i with
  | nil =>
    cases pat with
    | nil =>
      cases i with
      | zero => rfl
      | succ n => exact absurd (hmin 0 (Nat.succ_pos n)) (by simp [listStarts])
    | cons p ps => simp [List.drop_nil, listStarts] at hi
  | cons a rest ih =>
    cases i with
    | zero => rw [findSub_cons, if_pos (by simpa using hi)]
    | succ n =>
      have h0 : listStarts pat (a :: rest) = false := by simpa using hmin 0 (Nat.succ_pos n)
      rw [findSub_cons, if_neg (by simp [h0])]
      rw [ih n (by simpa using hi) (fun j hj => by simpa using hmin (j + 1) (by omega))]
      rfl

theorem replaceFirst_of_findSub (s pat rep : List Nat) (i : Nat)
    (h : findSub s pat = some i) :
    replaceFirst s pat rep = s.take i ++ rep ++ s.drop (i + pat.length) := by
  unfold replaceFirst
  rw [h]

/-- C4 amended: signing hashes the serialized message that carries 12 zero
bytes in the auth-param field and replaces the *first* occurrence of 12
consecutive zero bytes with the 12-byte digest; that occurrence is the
reserved auth-param slot — and then no other byte changes — exactly when
no 12-zero run starts before the slot (in particular when the engine id
field contains no 12 consecutive zero bytes). -/
theorem C4_sign_splices_first_zero_run (w : SNMP) (pre suf : List Nat)
    (hk : w.authKey.length ≤ 64)
    (hno : ∀ j < pre.length, listStarts zeros12 ((pre ++ zeros12 ++ suf).drop j) = false) :
    ∃ d, auth w (pre ++ zeros12 ++ suf) = .ok d ∧ d.length = 12 ∧
      signPacket w (pre ++ zeros12 ++ suf) = .ok (pre ++ d ++ suf) := by
  have hauth : auth w (pre ++ zeros12 ++ suf) = .ok
      ((hashList w.authAlg
        ((xorBytes (w.authKey ++ List.replicate (64 - w.authKey.length) 0)
            (List.replicate 64 92)) ++
          hashList w.authAlg
            ((xorBytes (w.authKey ++ List.replicate (64 - w.authKey.length) 0)
                (List.replicate 64 54)) ++ (pre ++ zeros12 ++ suf)))).take 12) := by
    unfold auth
    rw [if_pos hk]
  refine ⟨_, hauth, ?_, ?_⟩
  · rw [List.length_take, hashList_length]
    split <;> decide
  · unfold signPacket
    rw [hauth]
    dsimp only
    have hfind : findSub (pre ++ zeros12 ++ suf) zeros12 = some pre.length := by
      apply findSub_eq_some
      · rw [List.append_assoc, List.drop_left]
        exact listStarts_append_self _ _
      · exact hno
    rw [replaceFirst_of_findSub _ _ _ _ hfind]
    have h1 : List.take pre.length (pre ++ zeros12 ++ suf) = pre := by
      rw [List.append_assoc]
      exact List.take_left pre _
    have h2 : List.drop (pre.length + zeros12.length) (pre ++ zeros12 ++ suf) = suf := by
      rw [List.append_assoc, show zeros12.length = (12 : Nat) from rfl, List.drop_append 12]
      exact List.drop_left zeros12 suf
    rw [h1, h2, List.append_assoc]

/-- Witness for `C4_sign_splices_first_zero_run`: a two-byte message
around the reserved slot, no earlier zero run. -/
theorem C4_sign_splices_first_zero_run_witness :
    (({ version := 3
        timeout := 1
        retries := 0
        user := []
        authAlg := "MD5"
        authPwd := []
        privAlg := "DES"
        privPwd := []
        engineID := []
        authKey := []
        privKey := []
        engineBoots := 0
        engineTime := 0
        desIV := 0
        aesIV := 0 } : SNMP).authKey.length ≤ 64) ∧
    (∃ d, auth
        { version := 3
          timeout := 1
          retries := 0
          user := []
          authAlg := "MD5"
          authPwd := []
          privAlg := "DES"
          privPwd := []
          engineID := []
          authKey := []
          privKey := []
          engineBoots := 0
          engineTime := 0
          desIV := 0
          aesIV := 0 } ([9] ++ zeros12 ++ [7]) = .ok d ∧ d.length = 12 ∧
      signPacket
        { version := 3
          timeout := 1
          retries := 0
          user := []
          authAlg := "MD5"
          authPwd := []
          privAlg := "DES"
          privPwd := []
          engineID := []
          authKey := []
          privKey := []
          engineBoots := 0
          engineTime := 0
          desIV := 0
          aesIV := 0 } ([9] ++ zeros12 ++ [7]) = .ok ([9] ++ d ++ [7])) :=
  ⟨by decide, C4_sign_splices_first_zero_run _ [9] [7] (by decide) (by decide)⟩
/-!
### C8: what actually happens on an undiscovered session
-/

/-- C8 amended: `doGetV3` performs no discovery check.  On a fresh
`NewSNMPv3` session (all v3 temporaries still Go zero values) in AES mode,
`encrypt`'s key-size error is discarded (line 481) and a request *is*
assembled, signed and handed to `poll` — with empty ciphertext and priv
parameter; in DES mode the slice `privKey[:8]` of the empty privacy key
panics instead.  No `NotDiscovered` error exists anywhere on the path. -/
theorem C8_no_discovery_check (user apw ppw : List Nat) (aa : String)
    (tmo rt msgID reqID reqTag : Nat) (oid : List Nat) (w wd : SNMP)
    (ha : newSNMPv3 user aa apw "AES" ppw tmo rt = .ok w)
    (hd : newSNMPv3 user aa apw "DES" ppw tmo rt = .ok wd) :
    sendsRequest (doGetV3Send w msgID reqID oid reqTag) = true ∧
    doGetV3Send wd msgID reqID oid reqTag = .panicked "slice bounds out of range" := by
  unfold newSNMPv3 at ha hd
  by_cases hcond : aa ≠ "MD5" ∧ aa ≠ "SHA1"
  · rw [if_pos hcond] at ha
    exact absurd ha (by simp)
  · rw [if_neg hcond, if_neg (by simp)] at ha
    rw [if_neg hcond, if_neg (by simp)] at hd
    rw [GoRes.ok.injEq] at ha hd
    subst ha
    subst hd
    constructor
    · unfold doGetV3Send encrypt goEncryptAESCFB signPacket auth sendsRequest
      simp
    · unfold doGetV3Send
      rw [encrypt_des_panic _ _ (by simp) (by simp)]

/-- Witness for `C8_no_discovery_check` at concrete constructor
arguments. -/
theorem C8_no_discovery_check_witness :
    (newSNMPv3 [117] "MD5" [112] "AES" [113] 1000 2 = .ok c8aes ∧
      newSNMPv3 [117] "MD5" [112] "DES" [113] 1000 2 = .ok c8des) ∧
    (sendsRequest (doGetV3Send c8aes 1 2 [1, 3, 6, 1] 160) = true ∧
      doGetV3Send c8des 1 2 [1, 3, 6, 1] 160 = .panicked "slice bounds out of range") :=
  ⟨⟨by decide, by decide⟩,
    C8_no_discovery_check [117] [112] [113] "MD5" 1000 2 1 2 160 [1, 3, 6, 1] c8aes c8des
      (by decide) (by decide)⟩
/-!
### C5: DES encrypt/decrypt round trip with zero padding
-/

/-- C5: on a discovered DES session (16-byte `privKey`, key = first 8
bytes, pre-IV = bytes 8..16, IV = pre-IV XOR priv-param), `encrypt`
zero-pads the plaintext to a multiple of 8, the ciphertext length equals
the padded length, and `decrypt` of that ciphertext under the same session
with the priv parameter `encrypt` produced returns the plaintext followed
by its zero padding. -/
theorem C5_des_roundtrip (w : SNMP) (m ct pp : List Nat)
    (hdes : w.privAlg ≠ "AES") (hk : w.privKey.length = 16)
    (hkb : ∀ b ∈ w.privKey, b < 256) (hmb : ∀ b ∈ m, b < 256)
    (henc : encrypt w m = .ok (.ok (ct, pp))) :
    ct.length = m.length + (8 - m.length % 8) % 8 ∧
    decrypt w ct pp = .ok (.ok (m ++ List.replicate ((8 - m.length % 8) % 8) 0)) := by
  have h16 : 16 ≤ w.privKey.length := by omega
  rw [encrypt_des w m hdes h16] at henc
  simp only [PanicOr.ok.injEq, GoRes.ok.injEq, Prod.mk.injEq] at henc
  obtain ⟨hct, hpp⟩ := henc
  subst hpp
  have hpadeq :
      (if m.length % 8 = 0 then m else m ++ List.replicate (8 - m.length % 8) 0) =
        m ++ List.replicate ((8 - m.length % 8) % 8) 0 := by
    by_cases h0 : m.length % 8 = 0
    · rw [if_pos h0, h0]
      simp
    · rw [if_neg h0]
      have hsmall : (8 - m.length % 8) % 8 = 8 - m.length % 8 :=
        Nat.mod_eq_of_lt (by omega)
      rw [hsmall]
  have hpadlen :
      (m ++ List.replicate ((8 - m.length % 8) % 8) 0).length =
        m.length + (8 - m.length % 8) % 8 := by
    simp
  have hpad8 : (m ++ List.replicate ((8 - m.length % 8) % 8) 0).length % 8 = 0 := by
    rw [hpadlen]
    omega
  have hpadb : ∀ b ∈ m ++ List.replicate ((8 - m.length % 8) % 8) 0, b < 256 := by
    intro b hb
    rcases List.mem_append.mp hb with h | h
    · exact hmb b h
    · rw [List.eq_of_mem_replicate h]
      omega
  rw [hpadeq] at hct
  have hppl : (be32 w.engineBoots ++ be32 ((w.desIV + 1) % 4294967296)).length = 8 := by
    simp [be32]
  have hctlen : ct.length = m.length + (8 - m.length % 8) % 8 := by
    rw [← hct, encryptDESCBC_length _ _ _ hpad8, hpadlen]
  refine ⟨hctlen, ?_⟩
  have hct8 : ct.length % 8 = 0 := by
    rw [hctlen]
    omega
  rw [decrypt_des w ct _ hdes h16 hppl hct8, ← hct]
  rw [descbc_bytes_roundtrip _ _ _ hpad8 hpadb
    (by rw [xorBytes_length, List.length_drop, List.length_take, hppl]; omega)
    (xorBytes_lt _ _
      (fun x hx => hkb x (List.mem_of_mem_take (List.mem_of_mem_drop hx)))
      (fun x hx => by
        rcases List.mem_append.mp hx with h | h
        · exact be32_lt _ x h
        · exact be32_lt _ x h))]

/-- Witness for `C5_des_roundtrip`: the spec's 5-byte example on a
concrete discovered session — 8 ciphertext bytes that decrypt to the
5 plaintext bytes plus 3 zero bytes. -/
theorem C5_des_roundtrip_witness :
    (encrypt w5 [1, 2, 3, 4, 5] = .ok (.ok (c5ct, c5pp))) ∧
    (c5ct.length = [1, 2, 3, 4, 5].length + (8 - [1, 2, 3, 4, 5].length % 8) % 8 ∧
      decrypt w5 c5ct c5pp =
        .ok (.ok ([1, 2, 3, 4, 5] ++
          List.replicate ((8 - [1, 2, 3, 4, 5].length % 8) % 8) 0))) :=
  ⟨by decide,
    C5_des_roundtrip w5 [1, 2, 3, 4, 5] c5ct c5pp (by decide) (by decide) (by decide)
      (by decide) (by decide)⟩
/-!
### C6 and C7: the GetTable round and its termination
-/

theorem getTableRound_cons (root : List Nat) (acc : List (List Nat × Nat))
    (cursor : List Nat) (o : List Nat) (v : Nat) (rest : List (List Nat × Nat)) :
    getTableRound root acc cursor ((o, v) :: rest) =
      getTableRound root (if oidWithin o root then mapInsert acc o v else acc) o rest := rfl

theorem hasKey_map_overwrite (m : List (List Nat × Nat)) (k : List Nat) (v : Nat)
    (x : List Nat) :
    hasKey (m.map fun p => if p.1 == k then (k, v) else p) x = hasKey m x := by
  induction m with
  | nil => rfl
  | cons p rest ih =>
    have hfst : ((if p.1 == k then (k, v) else p).1 == x) = (p.1 == x) := by
      by_cases hp : p.1 == k
      · rw [if_pos hp, beq_iff_eq.mp hp]
      · rw [if_neg hp]
    simp only [List.map_cons, hasKey, List.any_cons] at *
    rw [hfst, ih]

theorem hasKey_mapInsert (m : List (List Nat × Nat)) (k : List Nat) (v : Nat)
    (x : List Nat) :
    hasKey (mapInsert m k v) x = (hasKey m x || k == x) := by
  unfold mapInsert
  split
  case isTrue h =>
    rw [show hasKey (List.map (fun p => if p.1 == k then (k, v) else p) m) x =
      hasKey m x from hasKey_map_overwrite m k v x]
    by_cases hkx : k == x
    · have : hasKey m x = true := by
        rw [← beq_iff_eq.mp hkx]
        exact h
      simp [this]
    · simp [hkx]
  case isFalse h =>
    simp [hasKey, List.any_append]

theorem getTableRound_spec (root : List Nat) (batch : List (List Nat × Nat)) :
    ∀ (acc : List (List Nat × Nat)) (cursor : List Nat),
    (getTableRound root acc cursor batch).2 = (batch.map Prod.fst).getLastD cursor ∧
    ∀ k, hasKey (getTableRound root acc cursor batch).1 k =
      (hasKey acc k || batch.any fun p => p.1 == k && oidWithin p.1 root) := by
  induction batch with
  | nil =>
    exact fun acc cursor =>
      ⟨rfl, fun k => by
        rw [show getTableRound root acc cursor [] = (acc, cursor) from rfl]
        simp⟩
  | cons p rest ih =>
    intro acc cursor
    obtain ⟨o, v⟩ := p
    rw [getTableRound_cons]
    constructor
    · rw [(ih _ o).1]
      simp only [List.map_cons]
      rw [List.getLastD_cons]
    · intro k
      rw [(ih _ o).2 k]
      by_cases hw : oidWithin o root
      · rw [if_pos hw, hasKey_mapInsert]
        simp [List.any_cons, hw, Bool.or_assoc]
      · rw [if_neg hw]
        simp [List.any_cons, hw]

/-- C6 amended: in every round, exactly the returned OIDs within the root
join the accumulator, and the cursor advances to the OID of the *last
entry in the batch's map-iteration order* (an order Go does not specify) —
not necessarily the largest OID of the batch; an empty batch leaves the
cursor unchanged. -/
theorem C6_round_filters_within_cursor_is_last (root : List Nat)
    (acc : List (List Nat × Nat)) (cursor : List Nat) (batch : List (List Nat × Nat)) :
    (getTableRound root acc cursor batch).2 = (batch.map Prod.fst).getLastD cursor ∧
    ∀ k, hasKey (getTableRound root acc cursor batch).1 k =
      (hasKey acc k || batch.any fun p => p.1 == k && oidWithin p.1 root) :=
  getTableRound_spec root batch acc cursor

/-- C6 counterexample: a two-element batch iterated with the larger OID
first — both are within the root and are retained, but the cursor ends at
`1.1`, the last-iterated OID, while the largest OID of the batch is
`1.2`. -/
theorem C6_counterexample :
    oidWithin [1, 2] [1] = true ∧ oidWithin [1, 1] [1] = true ∧
    batchMaxOid [([1, 2], 0), ([1, 1], 0)] [1] = [1, 2] ∧
    (getTableRound [1] [] [1] [([1, 2], 0), ([1, 1], 0)]).2 = [1, 1] ∧
    ([1, 1] : List Nat) ≠ [1, 2] := by decide

/-- C7: the `GetTable` loop stops, returning the accumulator built so
far, (a) after a round whose batch is empty (the cursor then equals the
previous cursor), (b) after any round whose new cursor equals the previous
cursor, and (c) as soon as the cursor is no longer within the root. -/
theorem C7_gettable_termination (root cursor : List Nat)
    (acc : List (List Nat × Nat)) (batch : List (List Nat × Nat))
    (rest : List (List (List Nat × Nat))) :
    (getTableLoop root ([] :: rest) acc cursor = acc) ∧
    (oidWithin cursor root = true → (getTableRound root acc cursor batch).2 = cursor →
      getTableLoop root (batch :: rest) acc cursor = (getTableRound root acc cursor batch).1) ∧
    (oidWithin cursor root = false → getTableLoop root (batch :: rest) acc cursor = acc) := by
  refine ⟨?_, ?_, ?_⟩
  · unfold getTableLoop
    by_cases h : oidWithin cursor root
    · rw [if_pos h]
      dsimp only
      rw [show getTableRound root acc cursor [] = (acc, cursor) from rfl]
      simp
    · rw [if_neg h]
  · intro h1 h2
    unfold getTableLoop
    rw [if_pos h1]
    dsimp only
    rw [if_pos (by rw [h2]; exact beq_self_eq_true cursor)]
  · intro h
    unfold getTableLoop
    rw [if_neg (by simp [h])]

/-- Witness for `C7_gettable_termination`: all three stopping conditions
at concrete inputs. -/
theorem C7_gettable_termination_witness :
    (getTableLoop [1] [[]] [] [1] = [] ∧
      getTableLoop [1] [[([1], 7)]] [] [1] = [([1], 7)] ∧
      getTableLoop [2] [[([3], 0)]] [] [3] = []) :=
  ⟨(C7_gettable_termination [1] [1] [] [([1], 7)] []).1,
    ((C7_gettable_termination [1] [1] [] [([1], 7)] []).2.1 (by decide) (by decide)).trans
      (by decide),
    (C7_gettable_termination [2] [3] [] [([3], 0)] []).2.2 (by decide)⟩
/-!
### The C4 and C8 counterexamples and the C10 witness
-/

/-- C4 counterexample: for the session `c4w`, whose (legal) engine id is
12 zero bytes, the outer message `c4packet` that `doGetV3` assembles
carries the engine id field at bytes 27..38 and the reserved auth-param
slot at bytes 52..63 (the fifth field of the security-parameters
sequence).  The signing step replaces the *first* 12-zero run — the
engine id — so the result is not the spec's splice into the reserved
slot: the digest lands at offset 27 and the auth-param slot keeps its
zeros.  (`c4ct`/`c4pp` are the ciphertext and priv parameter that
`encrypt c4w` produces for the scoped PDU of this request, precomputed so
that the splice facts below do not re-run the cipher.) -/
theorem C4_counterexample :
    c4packet = c4packet.take 52 ++ zeros12 ++ c4packet.drop 64 ∧
    auth c4w c4packet = .ok c4digest ∧
    c4digest ≠ zeros12 ∧
    signPacket c4w c4packet ≠ .ok (c4packet.take 52 ++ c4digest ++ c4packet.drop 64) ∧
    signPacket c4w c4packet = .ok (c4packet.take 27 ++ c4digest ++ c4packet.drop 39) := by
  decide!

/-- C8 counterexample: on the undiscovered AES session `c8aes` (fresh from
`NewSNMPv3`, no `Discover`), `GetV3` does *not* fail with a
`NotDiscovered` error — it assembles and sends a request, the encryption
error having been discarded. -/
theorem C8_counterexample :
    newSNMPv3 [117] "MD5" [112] "AES" [113] 1000 2 = .ok c8aes ∧
    sendsRequest (doGetV3Send c8aes 1 2 [1, 3, 6, 1] 160) = true := by
  decide!

/-- Witness for `C10_bad_priv_param_panics`: a 3-byte priv parameter from
the wire panics the DES decrypt path of a discovered session. -/
theorem C10_bad_priv_param_panics_witness :
    (w5.privAlg ≠ "AES" ∧ 16 ≤ w5.privKey.length ∧ ([1] : List Nat).length ≠ 0 ∧
      ([1, 2, 3] : List Nat).length ≠ 0 ∧ ([1, 2, 3] : List Nat).length ≠ 8) ∧
    doGetV3Response w5 [1] [1, 2, 3] [10, 20, 30, 40, 50, 60, 70, 80] =
      .panicked "strXor called with two strings of different length" :=
  ⟨⟨by decide, by decide, by decide, by decide, by decide⟩,
    C10_bad_priv_param_panics w5 [10, 20, 30, 40, 50, 60, 70, 80] [1] [1, 2, 3]
      (by decide) (by decide) (by decide) (by decide) (by decide)⟩
